import Mathlib

/-!
# Routing index over the subnet database

A shallow embedding of `access/src/ssa_path_record_data.c`: the five lookup
structures built from a subnet database (SMDB) and the queries answered from
them.

Modelling conventions.

* A table of the database is the list of its records, in table order; the
  dataset count of a table (`get_dataset_count`) is the length of that list.
* A 16-bit field in network byte order is a `be16_t`; `ntohs` is the byte swap
  of a little-endian host.  The lookups are keyed by the host-order value.
* The lookup arrays of the index, `x_lookup[MAX_LOOKUP_LID + 1]`, are maps from
  the array position to the stored value, and a `uint64_t *` entry is an
  optional map (`none` is the NULL pointer).  Clearing a whole array is the
  constant map.  The array bounds are declared in a header that is not part of
  the sources; every access is taken to be inside its array.
* A returned record pointer `p_tbl + i` is the position `i`; `none` is NULL.
* Record counts and lookup entries are 64-bit in the source.  They are natural
  numbers here and `count + 1` is not reduced modulo `2 ^ 64`: a table of
  `2 ^ 64 - 1` records does not fit into memory.
* The `SSA_ASSERT` lines of the source are not modelled: the functions are
  defined on all arguments, the ones the assertions exclude included.
* Constants whose declaration is not part of the sources are collected in
  `ssa_pr_consts` and every statement holds for all their values.
-/

namespace SSA

/-- An unsigned byte. -/
abbrev uint8_t := Fin 256

/-- A 16-bit value in network byte order. -/
abbrev be16_t := Fin 65536

/-- Network to host byte order for 16-bit values on a little-endian host. -/
def ntohs (x : be16_t) : Nat := (x.val % 256) * 256 + x.val / 256

/-- Host to network byte order for 16-bit values on a little-endian host. -/
def htons (x : Nat) : be16_t :=
  ⟨(x % 256) * 256 + (x / 256) % 256, by omega⟩

/-- Modelled from the spec: `UMAD_LEN_SMP_DATA` is declared by libibumad, not by
the sources; the spec gives the SMP data payload 64 entries, which is the
power of two that the `>> 6` of the routing code relies on. -/
abbrev UMAD_LEN_SMP_DATA : Nat := 64

/-- The value of `(size_t) -1`, for a 64-bit `size_t`. -/
def SIZE_MAX : Nat := 2 ^ 64 - 1

/-- Constants used by the index code whose declarations live in headers that
are not part of the sources. -/
structure ssa_pr_consts where
  /-- largest port number of a per-switch lookup array -/
  MAX_LOOKUP_PORT : Nat
  /-- bit of the `rate` byte of a port record that marks a switch port -/
  SSA_DB_PORT_IS_SWITCH_MASK : Nat
  /-- epoch value of an index that holds no database -/
  DB_EPOCH_INVALID : Nat

/-- Record of the GUID to LID table. -/
structure smdb_guid2lid where
  guid : Nat
  lid : be16_t
  lmc : uint8_t
  is_switch : uint8_t

/-- Record of the link table. -/
structure smdb_link where
  from_lid : be16_t
  to_lid : be16_t
  from_port_num : uint8_t
  to_port_num : uint8_t

/-- Record of the port table. -/
structure smdb_port where
  pkey_tbl_offset : Nat
  pkey_tbl_size : be16_t
  port_lid : be16_t
  port_num : uint8_t
  mtu_cap : uint8_t
  rate : uint8_t
  vl_enforce : uint8_t

/-- Record of the LFT top table. -/
structure smdb_lft_top where
  lid : be16_t
  lft_top : be16_t

/-- Record of the LFT block table: 64 forwarding entries of one switch. -/
structure smdb_lft_block where
  lid : be16_t
  block_num : be16_t
  block : Fin 64 → uint8_t

/-- The tables of a subnet database that the index reads, and its epoch
(`ssa_db_get_epoch (p_smdb, DB_DEF_TBL_ID)`). -/
structure ssa_db where
  epoch : Nat
  guid2lid : List smdb_guid2lid
  link : List smdb_link
  port : List smdb_port
  lft_top : List smdb_lft_top
  lft_block : List smdb_lft_block

/-- Modelled from the spec: `ssa_db_get_epoch` is defined outside the sources;
the spec identifies a database by its epoch, which this function reads. -/
def ssa_db_get_epoch (p_smdb : ssa_db) : Nat := p_smdb.epoch

/-- The lookup structures of `struct ssa_pr_smdb_index`. -/
structure ssa_pr_smdb_index where
  is_switch_lookup : Nat → Nat
  lft_top_lookup : Nat → Nat
  ca_port_lookup : Nat → Nat
  switch_port_lookup : Nat → Option (Nat → Nat)
  ca_link_lookup : Nat → Nat
  switch_link_lookup : Nat → Option (Nat → Nat)
  lft_block_lookup : Nat → Option (Nat → Nat)
  epoch : Nat

/-- Loop of `build_is_switch_lookup` over the records of the table. -/
def is_switch_loop : List smdb_guid2lid → (Nat → Nat) → (Nat → Nat)
  | [], lk => lk
  | r :: rs, lk => is_switch_loop rs (Function.update lk (ntohs r.lid) r.is_switch.val)

/-- Source: `build_is_switch_lookup`; the result pairs the return value with
the index as it is left. -/
def build_is_switch_lookup (p_index : ssa_pr_smdb_index) (p_smdb : ssa_db) :
    Int × ssa_pr_smdb_index :=
  let I0 := { p_index with is_switch_lookup := fun _ => 0 }
  if p_smdb.guid2lid.length = 0 then (1, I0)
  else (0, { I0 with is_switch_lookup := is_switch_loop p_smdb.guid2lid I0.is_switch_lookup })

/-- Loop of `build_lft_top_lookup` over the records of the table. -/
def lft_top_loop : List smdb_lft_top → (Nat → Nat) → (Nat → Nat)
  | [], lk => lk
  | r :: rs, lk => lft_top_loop rs (Function.update lk (ntohs r.lid) (ntohs r.lft_top))

/-- Source: `build_lft_top_lookup`. -/
def build_lft_top_lookup (p_index : ssa_pr_smdb_index) (p_smdb : ssa_db) :
    Int × ssa_pr_smdb_index :=
  let I0 := { p_index with lft_top_lookup := fun _ => 0 }
  if p_smdb.lft_top.length = 0 then (1, I0)
  else (0, { I0 with lft_top_lookup := lft_top_loop p_smdb.lft_top I0.lft_top_lookup })

/-- Loop of `build_port_index`: record `i` of the table is the head of the list. -/
def port_loop (C : ssa_pr_consts) (default_val : Nat) :
    List smdb_port → Nat → ssa_pr_smdb_index → ssa_pr_smdb_index
  | [], _, I => I
  | r :: rs, i, I =>
    if r.rate.val &&& C.SSA_DB_PORT_IS_SWITCH_MASK ≠ 0 then
      let port_lookup : Nat → Nat :=
        match I.switch_port_lookup (ntohs r.port_lid) with
        | some pl => pl
        | none => fun _ => default_val
      port_loop C default_val rs (i + 1)
        { I with
          switch_port_lookup :=
            Function.update I.switch_port_lookup (ntohs r.port_lid)
              (some (Function.update port_lookup r.port_num.val i)) }
    else
      port_loop C default_val rs (i + 1)
        { I with ca_port_lookup := Function.update I.ca_port_lookup (ntohs r.port_lid) i }

/-- Source: `build_port_index`. -/
def build_port_index (C : ssa_pr_consts) (p_index : ssa_pr_smdb_index) (p_smdb : ssa_db) :
    Int × ssa_pr_smdb_index :=
  let I0 := { p_index with ca_port_lookup := fun _ => 0, switch_port_lookup := fun _ => none }
  let count := p_smdb.port.length
  if count = 0 then (1, I0)
  else (0, port_loop C (count + 1) p_smdb.port 0 I0)

/-- Loop of `build_lft_block_lookup`: record `i` of the table is the head of the list. -/
def lft_block_loop (default_val : Nat) :
    List smdb_lft_block → Nat → (Nat → Option (Nat → Nat)) → (Nat → Option (Nat → Nat))
  | [], _, lk => lk
  | r :: rs, i, lk =>
    let block_lookup : Nat → Nat :=
      match lk (ntohs r.lid) with
      | some bl => bl
      | none => fun _ => default_val
    lft_block_loop default_val rs (i + 1)
      (Function.update lk (ntohs r.lid)
        (some (Function.update block_lookup (ntohs r.block_num) i)))

/-- Source: `build_lft_block_lookup`. -/
def build_lft_block_lookup (p_index : ssa_pr_smdb_index) (p_smdb : ssa_db) :
    Int × ssa_pr_smdb_index :=
  let I0 := { p_index with lft_block_lookup := fun _ => none }
  let count := p_smdb.lft_block.length
  if count = 0 then (1, I0)
  else (0, { I0 with
    lft_block_lookup := lft_block_loop (count + 1) p_smdb.lft_block 0 I0.lft_block_lookup })

/-- Source: `find_port_index`. -/
def find_port_index (p_index : ssa_pr_smdb_index) (lid : be16_t) (port_num : Nat) : Nat :=
  if p_index.is_switch_lookup (ntohs lid) ≠ 0 then
    match p_index.switch_port_lookup (ntohs lid) with
    | none => SIZE_MAX
    | some switch_port_lookup => switch_port_lookup port_num
  else
    p_index.ca_port_lookup (ntohs lid)

/-- Loop of `build_link_index`; it stops with -1 at the first link whose
far end is not found in the port index. -/
def link_loop (port_count default_val : Nat) :
    List smdb_link → ssa_pr_smdb_index → Int × ssa_pr_smdb_index
  | [], I => (0, I)
  | r :: rs, I =>
    let to_port_index := find_port_index I r.to_lid r.to_port_num.val
    if to_port_index ≥ port_count then (-1, I)
    else if I.is_switch_lookup (ntohs r.from_lid) ≠ 0 then
      let port_lookup : Nat → Nat :=
        match I.switch_link_lookup (ntohs r.from_lid) with
        | some pl => pl
        | none => fun _ => default_val
      link_loop port_count default_val rs
        { I with
          switch_link_lookup :=
            Function.update I.switch_link_lookup (ntohs r.from_lid)
              (some (Function.update port_lookup r.from_port_num.val to_port_index)) }
    else
      link_loop port_count default_val rs
        { I with
          ca_link_lookup := Function.update I.ca_link_lookup (ntohs r.from_lid) to_port_index }

/-- Source: `build_link_index`.  The second `memset` clears
`MAX_LOOKUP_PORT + 1` entries of `switch_link_lookup`, an array that is
indexed by LID. -/
def build_link_index (C : ssa_pr_consts) (p_index : ssa_pr_smdb_index) (p_smdb : ssa_db) :
    Int × ssa_pr_smdb_index :=
  let I0 := { p_index with
    ca_link_lookup := fun _ => 0,
    switch_link_lookup := fun l =>
      if l < C.MAX_LOOKUP_PORT + 1 then none else p_index.switch_link_lookup l }
  let link_count := p_smdb.link.length
  if link_count = 0 then (1, I0)
  else
    let port_count := p_smdb.port.length
    if port_count = 0 then (1, I0)
    else link_loop port_count (port_count + 1) p_smdb.link I0

/-- Source: `ssa_pr_build_indexes`. -/
def ssa_pr_build_indexes (C : ssa_pr_consts) (p_index : ssa_pr_smdb_index) (p_smdb : ssa_db) :
    Int × ssa_pr_smdb_index :=
  let r1 := build_is_switch_lookup p_index p_smdb
  if r1.1 ≠ 0 then r1 else
  let r2 := build_port_index C r1.2 p_smdb
  if r2.1 ≠ 0 then r2 else
  let r3 := build_lft_top_lookup r2.2 p_smdb
  if r3.1 ≠ 0 then r3 else
  let r4 := build_lft_block_lookup r3.2 p_smdb
  if r4.1 ≠ 0 then r4 else
  let r5 := build_link_index C r4.2 p_smdb
  if r5.1 ≠ 0 then r5 else
  (0, { r5.2 with epoch := ssa_db_get_epoch p_smdb })

/-- Source: `ssa_pr_destroy_indexes`. -/
def ssa_pr_destroy_indexes (C : ssa_pr_consts) (_p_index : ssa_pr_smdb_index) :
    ssa_pr_smdb_index :=
  { is_switch_lookup := fun _ => 0
    lft_top_lookup := fun _ => 0
    ca_port_lookup := fun _ => 0
    switch_port_lookup := fun _ => none
    ca_link_lookup := fun _ => 0
    switch_link_lookup := fun _ => none
    lft_block_lookup := fun _ => none
    epoch := C.DB_EPOCH_INVALID }

/-- Source: `ssa_pr_rebuild_indexes`. -/
def ssa_pr_rebuild_indexes (C : ssa_pr_consts) (p_index : ssa_pr_smdb_index) (p_smdb : ssa_db) :
    Int × ssa_pr_smdb_index :=
  let smdb_epoch := ssa_db_get_epoch p_smdb
  if p_index.epoch ≠ smdb_epoch then
    let res := ssa_pr_build_indexes C (ssa_pr_destroy_indexes C p_index) p_smdb
    if res.1 ≠ 0 then res
    else (0, { res.2 with epoch := smdb_epoch })
  else (0, p_index)

/-- Loop of `find_guid_to_lid_rec_by_guid`: record `i` is the head of the list. -/
def find_guid_loop (port_guid : Nat) : List smdb_guid2lid → Nat → Option Nat
  | [], _ => none
  | r :: rs, i => if port_guid = r.guid then some i else find_guid_loop port_guid rs (i + 1)

/-- Source: `find_guid_to_lid_rec_by_guid`; the result is the position of the
record found. -/
def find_guid_to_lid_rec_by_guid (p_smdb : ssa_db) (port_guid : Nat) : Option Nat :=
  find_guid_loop port_guid p_smdb.guid2lid 0

/-- Source: `find_destination_port`.  The result is `some (-1)` for a routing
failure and `some p` for a port; `none` stands for a read outside the LFT block
table, for which the source defines no result. -/
def find_destination_port (p_smdb : ssa_db) (p_index : ssa_pr_smdb_index)
    (source_lid dest_lid : be16_t) : Option Int :=
  let lft_block_count := p_smdb.lft_block.length
  let lft_block_num := ntohs dest_lid >>> 6
  let lft_port_shift : Fin 64 := ⟨ntohs dest_lid % UMAD_LEN_SMP_DATA, Nat.mod_lt _ (by decide)⟩
  let lft_top := p_index.lft_top_lookup (ntohs source_lid) % 65536
  if ntohs dest_lid > lft_top then some (-1)
  else
    match p_index.lft_block_lookup (ntohs source_lid) with
    | none => some (-1)
    | some block_lookup =>
      if block_lookup lft_block_num > lft_block_count then some (-1)
      else
        let lft_block_index := block_lookup lft_block_num
        (p_smdb.lft_block[lft_block_index]?).map
          (fun rec => (((rec.block lft_port_shift).val : Nat) : Int))

/-- Source: `find_port`; the result is the position of the port record. -/
def find_port (p_smdb : ssa_db) (p_index : ssa_pr_smdb_index) (lid : be16_t)
    (port_num : Nat) : Option Nat :=
  let count := p_smdb.port.length
  let port_index := find_port_index p_index lid port_num
  if port_index ≥ count then none else some port_index

/-- Source: `find_linked_port`; the result is the position of the port record
at the far end of the link. -/
def find_linked_port (p_smdb : ssa_db) (p_index : ssa_pr_smdb_index) (lid : be16_t)
    (port_num : Nat) : Option Nat :=
  if p_index.is_switch_lookup (ntohs lid) ≠ 0 then
    match p_index.switch_link_lookup (ntohs lid) with
    | none => none
    | some port_lookup =>
      let record_index := port_lookup port_num
      if record_index ≥ p_smdb.port.length then none else some record_index
  else
    let record_index := p_index.ca_link_lookup (ntohs lid)
    if record_index ≥ p_smdb.port.length then none else some record_index

/-! ## Auxiliary definitions for the statements -/

/-- Every entry of every allocated per-LID array of `lk` is a record position
below `bound` or the default value `d`. -/
def block_entries_ok (bound d : Nat) (lk : Nat → Option (Nat → Nat)) : Prop :=
  ∀ l bl, lk l = some bl → ∀ b, bl b < bound ∨ bl b = d

/-- The index state in which `ssa_pr_build_indexes` calls `build_link_index`. -/
def before_link (C : ssa_pr_consts) (I : ssa_pr_smdb_index) (D : ssa_db) : ssa_pr_smdb_index :=
  (build_lft_block_lookup (build_lft_top_lookup
    (build_port_index C (build_is_switch_lookup I D).2 D).2 D).2 D).2

/-- An index whose arrays are all zero, as after `calloc`. -/
def zero_index : ssa_pr_smdb_index :=
  { is_switch_lookup := fun _ => 0
    lft_top_lookup := fun _ => 0
    ca_port_lookup := fun _ => 0
    switch_port_lookup := fun _ => none
    ca_link_lookup := fun _ => 0
    switch_link_lookup := fun _ => none
    lft_block_lookup := fun _ => none
    epoch := 0 }

/-- The two LFT lookups, in an otherwise zero index. -/
def lft_part (top : Nat → Nat) (blk : Nat → Option (Nat → Nat)) : ssa_pr_smdb_index :=
  { zero_index with lft_top_lookup := top, lft_block_lookup := blk }

/-- A choice of the constants for the concrete scenarios. -/
def example_consts : ssa_pr_consts :=
  { MAX_LOOKUP_PORT := 254, SSA_DB_PORT_IS_SWITCH_MASK := 64, DB_EPOCH_INVALID := 0 }

/-- The `rate` byte that `smdb_port_init` writes for a switch port whose
computed rate is zero: `0xff & SSA_DB_PORT_IS_SWITCH_MASK`. -/
def switch_rate (C : ssa_pr_consts) : uint8_t :=
  ⟨(255 &&& C.SSA_DB_PORT_IS_SWITCH_MASK) % 256, Nat.mod_lt _ (by decide)⟩

/-- The minimal database of scenario S1, over a given port table: a switch at
LID 1, a host at LID 2, the link 1:3 -> 2:0, LFT top 2 for LID 1 and the LFT
block 0 of LID 1 with entry 2 equal to 3. -/
def S1_smdb (ports : List smdb_port) : ssa_db :=
  { epoch := 1
    guid2lid := [{ guid := 1, lid := htons 1, lmc := 0, is_switch := 1 },
                 { guid := 2, lid := htons 2, lmc := 0, is_switch := 0 }]
    link := [{ from_lid := htons 1, to_lid := htons 2, from_port_num := 3, to_port_num := 0 }]
    port := ports
    lft_top := [{ lid := htons 1, lft_top := htons 2 }]
    lft_block := [{ lid := htons 1, block_num := htons 0,
                    block := fun j => if j = 2 then 3 else 0 }] }

/-- Port records of the two ends of the link of scenario S1: port 3 of the
switch at LID 1 and port 0 of the host at LID 2. -/
def S1_ports (C : ssa_pr_consts) : List smdb_port :=
  [{ pkey_tbl_offset := 0, pkey_tbl_size := 0, port_lid := htons 1, port_num := 3,
     mtu_cap := 0, rate := switch_rate C, vl_enforce := 0 },
   { pkey_tbl_offset := 0, pkey_tbl_size := 0, port_lid := htons 2, port_num := 0,
     mtu_cap := 0, rate := 0, vl_enforce := 0 }]

/-- The database of scenario S1 with the port records of its link. -/
def S1_full : ssa_db := S1_smdb (S1_ports example_consts)

/-- The database `S1_full` at another epoch. -/
def S1_at_epoch (e : Nat) : ssa_db :=
  { S1_full with epoch := e }

/-- The database `S1_full` with its link replaced by one that ends at port 9
of the switch at LID 1, a port without a port record. -/
def dangling_link_smdb : ssa_db :=
  { S1_full with
    link := [{ from_lid := htons 2, to_lid := htons 1, from_port_num := 0, to_port_num := 9 }] }

/-- The database `S1_full` without its GUID to LID records. -/
def no_guid_smdb : ssa_db :=
  { S1_full with guid2lid := [] }

/-- A database with a switch at LID 300 that is linked to the host at LID 2
through its port `p`. -/
def switch300_smdb (p : uint8_t) : ssa_db :=
  { epoch := 1
    guid2lid := [{ guid := 1, lid := htons 300, lmc := 0, is_switch := 1 },
                 { guid := 2, lid := htons 2, lmc := 0, is_switch := 0 }]
    link := [{ from_lid := htons 300, to_lid := htons 2, from_port_num := p, to_port_num := 0 }]
    port := [{ pkey_tbl_offset := 0, pkey_tbl_size := 0, port_lid := htons 300, port_num := p,
               mtu_cap := 0, rate := switch_rate example_consts, vl_enforce := 0 },
             { pkey_tbl_offset := 0, pkey_tbl_size := 0, port_lid := htons 2, port_num := 0,
               mtu_cap := 0, rate := 0, vl_enforce := 0 }]
    lft_top := [{ lid := htons 300, lft_top := htons 2 }]
    lft_block := [{ lid := htons 300, block_num := htons 0,
                    block := fun j => if j = 2 then p else 0 }] }

/-- The index left by a first successful build, from a database in which the
switch at LID 300 has a link at its port 5. -/
def index_after_first_build : ssa_pr_smdb_index :=
  (ssa_pr_build_indexes example_consts zero_index (switch300_smdb 5)).2

/-- The index as `build_link_index` leaves it after its two `memset` calls. -/
def link_cleared (C : ssa_pr_consts) (I : ssa_pr_smdb_index) : ssa_pr_smdb_index :=
  { I with
    ca_link_lookup := fun _ => 0,
    switch_link_lookup := fun l =>
      if l < C.MAX_LOOKUP_PORT + 1 then none else I.switch_link_lookup l }

/-- Two index states agree on what `build_link_index` reads and writes, the
per-switch link arrays being compared on the LIDs in `S` only. -/
def link_agree (S : Nat → Prop) (J1 J2 : ssa_pr_smdb_index) : Prop :=
  J1.is_switch_lookup = J2.is_switch_lookup ∧
  J1.ca_port_lookup = J2.ca_port_lookup ∧
  J1.switch_port_lookup = J2.switch_port_lookup ∧
  J1.ca_link_lookup = J2.ca_link_lookup ∧
  ∀ l, S l → J1.switch_link_lookup l = J2.switch_link_lookup l

/-!
# Streaming protocol of `shared/ssa.c`

The second part embeds the message header, the send and receive steps of a
connection and the client and server sides of the database transfer.

* The header of a message is the record of its fields; a field that travels in
  network byte order has the type of the big-endian value and is read with
  `ntohs` or `ntohl`.
* Constants, sizes and structure reads that are declared in headers outside
  the sources are the fields of `ssa_msg_consts`; the statements hold for all
  their values.  The values of one C enumeration differ from one another and
  `sizeof` is positive, which the structure records.
* `POLLIN` and `POLLOUT` are the values of the Linux `poll.h`.
-/

/-- An unsigned 16-bit value in host byte order. -/
abbrev uint16_t := Fin 65536

/-- An unsigned 32-bit value in host byte order. -/
abbrev uint32_t := Fin 4294967296

/-- A 32-bit value in network byte order. -/
abbrev be32_t := Fin 4294967296

/-- An unsigned 64-bit value. -/
abbrev uint64_t := Fin 18446744073709551616

/-- Network to host byte order for 32-bit values on a little-endian host. -/
def ntohl (x : be32_t) : Nat :=
  (x.val % 256) * 16777216 + (x.val / 256 % 256) * 65536 +
    (x.val / 65536 % 256) * 256 + x.val / 16777216

/-- Host to network byte order for 32-bit values on a little-endian host; the
argument is narrowed to 32 bits as the conversion to `uint32_t` does. -/
def htonl (x : Nat) : be32_t :=
  ⟨(x % 256) * 16777216 + (x / 256 % 256) * 65536 +
    (x / 65536 % 256) * 256 + x / 16777216 % 256, by omega⟩

/-- The event bit `POLLIN` of `poll.h`. -/
def POLLIN : Nat := 1

/-- The event bit `POLLOUT` of `poll.h`. -/
def POLLOUT : Nat := 4

/-- A block of bytes at the address `addr`. -/
structure buf_ptr where
  /-- address of the first byte -/
  addr : Nat
  /-- the bytes of the block -/
  data : List uint8_t
deriving DecidableEq

/-- A pointer value of the connection code: NULL, a block obtained from
`malloc(sizeof(struct ssa_msg_hdr))`, the address of one of the two descriptors
embedded in the database of the connection, or a block of bytes. -/
inductive void_ptr
  | null
  | hdr
  | db_def
  | db_table_def
  | blk (p : buf_ptr)
deriving DecidableEq

/-- The part of `struct ssa_db` that the transfer reads and writes: the two
embedded descriptors as blocks of bytes, the dataset pointers, the two pointer
arrays (`none` is NULL) and the number of data tables. -/
structure ssa_db_raw where
  /-- the embedded `struct db_def` -/
  db_def : buf_ptr
  /-- the embedded `struct db_dataset` that describes the table definitions -/
  db_table_def : buf_ptr
  /-- the table-definition dataset -/
  p_def_tbl : void_ptr
  /-- the array of field dataset descriptors -/
  p_db_field_tables : void_ptr
  /-- the field datasets, one pointer per data table -/
  pp_field_tables : Option (Nat → void_ptr)
  /-- the array of data dataset descriptors -/
  p_db_tables : void_ptr
  /-- the data datasets, one pointer per data table -/
  pp_tables : Option (Nat → void_ptr)
  /-- number of data tables -/
  data_tbl_cnt : Nat

/-- Constants of the message layer whose declarations live in headers that are
not part of the sources, with the sizes of the structures sent on the wire and
the two reads of the database that are defined outside the sources. -/
structure ssa_msg_consts where
  /-- protocol version carried by every header -/
  SSA_MSG_VERSION : uint8_t
  /-- message class of the database protocol -/
  SSA_MSG_CLASS_DB : uint8_t
  /-- operation: query the top-level descriptor -/
  SSA_MSG_DB_QUERY_DEF : Nat
  /-- operation: query the table descriptor -/
  SSA_MSG_DB_QUERY_TBL_DEF : Nat
  /-- operation: query the table-descriptor dataset -/
  SSA_MSG_DB_QUERY_TBL_DEF_DATASET : Nat
  /-- operation: query the field-descriptor datasets -/
  SSA_MSG_DB_QUERY_FIELD_DEF_DATASET : Nat
  /-- operation: query the data datasets -/
  SSA_MSG_DB_QUERY_DATA_DATASET : Nat
  /-- operation: publish an epoch buffer -/
  SSA_MSG_DB_PUBLISH_EPOCH_BUF : Nat
  /-- flag: no payload follows for this phase -/
  SSA_MSG_FLAG_END : Nat
  /-- flag: the message is a response -/
  SSA_MSG_FLAG_RESP : Nat
  /-- the value of `sizeof(struct ssa_msg_hdr)` -/
  hdr_size : Nat
  /-- the value of `sizeof(struct db_def)` -/
  db_def_size : Nat
  /-- the value of `sizeof(struct db_dataset)` -/
  db_dataset_size : Nat
  /-- the value `ntohll(d.set_size)` of the `struct db_dataset` held in the
  given bytes -/
  db_dataset_set_size : List uint8_t → Nat
  /-- the function `ssa_db_calculate_data_tbl_num` of `shared/ssa_db.c` -/
  ssa_db_calculate_data_tbl_num : ssa_db_raw → Nat
  /-- number of values of the counter `svc->tid` -/
  tid_mod : Nat
  /-- the operations are values of one enumeration that fit the 16-bit field -/
  ops_lt : ∀ o ∈ [SSA_MSG_DB_QUERY_DEF, SSA_MSG_DB_QUERY_TBL_DEF,
    SSA_MSG_DB_QUERY_TBL_DEF_DATASET, SSA_MSG_DB_QUERY_FIELD_DEF_DATASET,
    SSA_MSG_DB_QUERY_DATA_DATASET, SSA_MSG_DB_PUBLISH_EPOCH_BUF], o < 65536
  /-- the operations are the case labels of one `switch`: no two are equal -/
  ops_nodup : [SSA_MSG_DB_QUERY_DEF, SSA_MSG_DB_QUERY_TBL_DEF,
    SSA_MSG_DB_QUERY_TBL_DEF_DATASET, SSA_MSG_DB_QUERY_FIELD_DEF_DATASET,
    SSA_MSG_DB_QUERY_DATA_DATASET, SSA_MSG_DB_PUBLISH_EPOCH_BUF].Nodup
  /-- the flags fit the 16-bit field -/
  flags_lt : SSA_MSG_FLAG_END < 65536 ∧ SSA_MSG_FLAG_RESP < 65536
  /-- a structure has a positive size -/
  sizes_pos : 0 < hdr_size ∧ 0 < db_def_size ∧ 0 < db_dataset_size
  /-- the counter `svc->tid` has at most 32 bits -/
  tid_mod_le : 0 < tid_mod ∧ tid_mod ≤ 4294967296

/-- The header of a message, `struct ssa_msg_hdr`. -/
structure ssa_msg_hdr where
  /-- protocol version -/
  version : uint8_t
  /-- message class (`class` in the source) -/
  class_ : uint8_t
  /-- operation, network byte order -/
  op : be16_t
  /-- length of the message with its header, network byte order -/
  len : be32_t
  /-- flags, network byte order -/
  flags : be16_t
  /-- status -/
  status : uint16_t
  /-- request correlator, network byte order -/
  id : be32_t
  /-- reserved -/
  reserved : uint32_t
  /-- length of the RDMA region -/
  rdma_len : uint32_t
  /-- address of the RDMA region -/
  rdma_addr : uint64_t
deriving DecidableEq

/-- The header that `ssa_init_ssa_msg_hdr` writes. -/
def ssa_init_ssa_msg_hdr (C : ssa_msg_consts) (op len flags id : Nat) : ssa_msg_hdr :=
  { version := C.SSA_MSG_VERSION
    class_ := C.SSA_MSG_CLASS_DB
    op := htons op
    len := htonl len
    flags := htons flags
    status := 0
    id := htonl id
    reserved := 0
    rdma_len := 0
    rdma_addr := 0 }

/-- The `switch` of `validate_ssa_msg_hdr` on the host-order operation. -/
def valid_op (C : ssa_msg_consts) (op : Nat) : Bool :=
  op == C.SSA_MSG_DB_QUERY_DEF || op == C.SSA_MSG_DB_QUERY_TBL_DEF ||
  op == C.SSA_MSG_DB_QUERY_TBL_DEF_DATASET ||
  op == C.SSA_MSG_DB_QUERY_FIELD_DEF_DATASET ||
  op == C.SSA_MSG_DB_QUERY_DATA_DATASET || op == C.SSA_MSG_DB_PUBLISH_EPOCH_BUF

/-- The result of `validate_ssa_msg_hdr`: 1 for an accepted header, else 0. -/
def validate_ssa_msg_hdr (C : ssa_msg_consts) (hdr : ssa_msg_hdr) : Int :=
  if hdr.version ≠ C.SSA_MSG_VERSION then 0
  else if hdr.class_ ≠ C.SSA_MSG_CLASS_DB then 0
  else if valid_op C (ntohs hdr.op) then 1
  else 0

/-- Values for the constants of the message layer, used where a statement is
checked on concrete input. -/
def example_msg_consts : ssa_msg_consts :=
  { SSA_MSG_VERSION := 1
    SSA_MSG_CLASS_DB := 1
    SSA_MSG_DB_QUERY_DEF := 1
    SSA_MSG_DB_QUERY_TBL_DEF := 2
    SSA_MSG_DB_QUERY_TBL_DEF_DATASET := 3
    SSA_MSG_DB_QUERY_FIELD_DEF_DATASET := 4
    SSA_MSG_DB_QUERY_DATA_DATASET := 5
    SSA_MSG_DB_PUBLISH_EPOCH_BUF := 6
    SSA_MSG_FLAG_END := 1
    SSA_MSG_FLAG_RESP := 2
    hdr_size := 32
    db_def_size := 8
    db_dataset_size := 4
    db_dataset_set_size := fun d => (d.headD 0).val
    ssa_db_calculate_data_tbl_num := fun db =>
      match db.p_def_tbl with
      | .blk b => (b.data.take (db.db_table_def.data.headD 0).val).length
      | _ => 0
    tid_mod := 65536
    ops_lt := by decide
    ops_nodup := by decide
    flags_lt := by decide
    sizes_pos := by decide
    tid_mod_le := by decide }

/-!
## Connections

* A pointer is a `void_ptr`: NULL, a block obtained from
  `malloc(sizeof(struct ssa_msg_hdr))`, the address of one of the two
  descriptors embedded in the connection's database, or a block of bytes at an
  address.  Two pointers are equal when they are the same case, blocks being
  compared by address.
* The send pointer of a connection is a `sbuf_t`: the header block that a send
  function obtained from `malloc` together with the header written into it,
  that block after `free`, or the value of another pointer.  A block just
  obtained from `malloc` differs from every pointer held elsewhere.
* `rsend`, `rrecv` and `malloc` are calls into the environment.  Their results
  are arguments of the function that makes the call; the functions above the
  send and receive steps take them from one record `env`, in which the result
  of a send or receive is a function of the number of bytes of the call.
  Every call of `rsend` is appended to the field `sent` of the connection,
  which is not a field of the C structure.  Logging and `usleep` are left out.
* A complete header block is read as the header `rrecv_hdr` that the
  environment names together with the result of the receive; the layout of the
  header in memory is not modelled.
* Sizes, offsets and counters are natural numbers; `size - offset` is formed
  where `offset ≤ size`.
* Where the source reads or writes through a NULL pointer the result is
  `none`.  The elements of a pointer array are a map from the position to the
  pointer; every access is taken to be inside its array, and the elements of a
  fresh array and the bytes of a fresh block, indeterminate in C, are NULL and
  zero.
-/

/-- Pointer equality `p == q`. -/
def void_ptr.same : void_ptr → void_ptr → Bool
  | .null, .null => true
  | .hdr, .hdr => true
  | .db_def, .db_def => true
  | .db_table_def, .db_table_def => true
  | .blk p, .blk q => p.addr == q.addr
  | _, _ => false

/-- The send pointer `conn->sbuf`. -/
inductive sbuf_t
  | own (h : ssa_msg_hdr)
  | freed
  | ptr (p : void_ptr)
deriving DecidableEq

/-- Pointer inequality `conn->sbuf != conn->sbuf2`. -/
def sbuf_t.differs : sbuf_t → void_ptr → Bool
  | .ptr p, q => !(p.same q)
  | _, _ => true

/-- One call `rsend(rsock, buf + off, len, MSG_DONTWAIT)` with its result. -/
structure rsend_call where
  /-- the block handed over -/
  buf : sbuf_t
  /-- offset of the first byte offered -/
  off : Nat
  /-- number of bytes offered -/
  len : Nat
  /-- the value returned, as the `int ret` of the caller holds it -/
  ret : Int
deriving DecidableEq

/-- The connection states `SSA_CONN_*`. -/
inductive ssa_conn_state
  | SSA_CONN_IDLE
  | SSA_CONN_LISTENING
  | SSA_CONN_CONNECTING
  | SSA_CONN_CONNECTED
deriving DecidableEq

/-- The connection kinds `SSA_CONN_TYPE_*`. -/
inductive ssa_conn_type
  | SSA_CONN_TYPE_UPSTREAM
  | SSA_CONN_TYPE_DOWNSTREAM
deriving DecidableEq

/-- The database kinds `SSA_CONN_*_TYPE` of a connection. -/
inductive ssa_conn_dbtype
  | SSA_CONN_NODB_TYPE
  | SSA_CONN_SMDB_TYPE
  | SSA_CONN_PRDB_TYPE
deriving DecidableEq

/-- The transfer phases `SSA_DB_*` of a connection. -/
inductive ssa_db_phase
  | SSA_DB_IDLE
  | SSA_DB_DEFS
  | SSA_DB_TBL_DEFS
  | SSA_DB_FIELD_DEFS
  | SSA_DB_DATA
deriving DecidableEq

open ssa_conn_state ssa_conn_type ssa_conn_dbtype ssa_db_phase

/-- The connection, `struct ssa_conn`, with the log `sent` of its `rsend`
calls. -/
structure ssa_conn where
  /-- socket of the connection, -1 when closed -/
  rsock : Int
  /-- kind of the connection -/
  type : ssa_conn_type
  /-- kind of database carried -/
  dbtype : ssa_conn_dbtype
  /-- connection state -/
  state : ssa_conn_state
  /-- transfer phase -/
  phase : ssa_db_phase
  /-- receive block -/
  rbuf : void_ptr
  /-- size of the receive block -/
  rsize : Nat
  /-- number of bytes received into the block -/
  roffset : Nat
  /-- the header of the message being received, once complete -/
  rhdr : Option ssa_msg_hdr
  /-- correlator of the request being answered -/
  rid : Nat
  /-- receive index -/
  rindex : Nat
  /-- send block -/
  sbuf : sbuf_t
  /-- size of the send block -/
  ssize : Nat
  /-- number of bytes of the send block accepted by the transport -/
  soffset : Nat
  /-- second send block, the payload -/
  sbuf2 : void_ptr
  /-- size of the payload -/
  ssize2 : Nat
  /-- correlator of the query in flight -/
  sid : Nat
  /-- send index -/
  sindex : Nat
  /-- database of the connection -/
  ssa_db : Option ssa_db_raw
  /-- the calls of `rsend` on `rsock`, oldest first -/
  sent : List rsend_call

/-- The state written by `ssa_init_ssa_conn`; the fields it leaves alone keep
the values of `conn`. -/
def ssa_init_ssa_conn (conn : ssa_conn) (conn_type : ssa_conn_type)
    (conn_dbtype : ssa_conn_dbtype) : ssa_conn :=
  { conn with
    rsock := -1
    type := conn_type
    dbtype := conn_dbtype
    state := SSA_CONN_IDLE
    phase := SSA_DB_IDLE
    rbuf := .null
    rid := 0
    rindex := 0
    rhdr := none
    sbuf := .ptr .null
    sid := 0
    sindex := 0
    sbuf2 := .null
    ssa_db := none }

/-- The state after `ssa_close_ssa_conn` on a connection that is not NULL. -/
def ssa_close_ssa_conn (conn : ssa_conn) : ssa_conn :=
  { conn with
    rsock := -1
    dbtype := SSA_CONN_NODB_TYPE
    state := SSA_CONN_IDLE }
/-- The step `ssa_downstream_send_resp`: a header-only response with the END
and RESP flags.  `ok` tells whether `malloc` returned a block and `ret` is the
value that `int ret` holds after the `rsend`. -/
def ssa_downstream_send_resp (C : ssa_msg_consts) (conn : ssa_conn) (op : Nat)
    (events : Nat) (ok : Bool) (ret : Int) : Nat × ssa_conn :=
  if ok then
    let h := ssa_init_ssa_msg_hdr C op C.hdr_size
      (C.SSA_MSG_FLAG_END ||| C.SSA_MSG_FLAG_RESP) conn.rid
    let c1 : ssa_conn :=
      { conn with
        sbuf := .own h
        ssize := C.hdr_size
        soffset := 0
        sent := conn.sent ++ [⟨.own h, 0, C.hdr_size, ret⟩] }
    if 0 < ret then
      let c2 : ssa_conn := { c1 with soffset := c1.soffset + ret.toNat }
      if c2.soffset = c2.ssize then (POLLIN, { c2 with sbuf := .ptr .null })
      else (POLLOUT ||| POLLIN, c2)
    else (events, c1)
  else (events, { conn with sbuf := .ptr .null })

/-- The step `ssa_downstream_send`: a response header followed by the `len`
bytes at `buf`.  `ok` tells whether `malloc` returned a block, `ret` is the
value that `int ret` holds after the `rsend` of the header and `ret2` its
value after the `rsend` of the payload. -/
def ssa_downstream_send (C : ssa_msg_consts) (conn : ssa_conn) (op : Nat)
    (buf : void_ptr) (len : Nat) (events : Nat) (ok : Bool) (ret ret2 : Int) :
    Nat × ssa_conn :=
  if ok then
    let h := ssa_init_ssa_msg_hdr C op (C.hdr_size + len) C.SSA_MSG_FLAG_RESP conn.rid
    let c1 : ssa_conn :=
      { conn with
        sbuf := .own h
        sbuf2 := buf
        ssize := C.hdr_size
        ssize2 := len
        soffset := 0
        sent := conn.sent ++ [⟨.own h, 0, C.hdr_size, ret⟩] }
    if 0 < ret then
      let c2 : ssa_conn := { c1 with soffset := c1.soffset + ret.toNat }
      if c2.soffset = c2.ssize then
        let c3 : ssa_conn := { c2 with sbuf := .freed }
        if c3.sbuf2 = .null ∨ c3.ssize2 = 0 then (POLLIN, c3)
        else
          let c4 : ssa_conn :=
            { c3 with
              sbuf := .ptr c3.sbuf2
              ssize := c3.ssize2
              soffset := 0
              sent := c3.sent ++ [⟨.ptr c3.sbuf2, 0, c3.ssize2, ret2⟩] }
          if 0 < ret2 then
            let c5 : ssa_conn := { c4 with soffset := c4.soffset + ret2.toNat }
            if c5.soffset = c5.ssize then (POLLIN, c5)
            else (POLLOUT ||| POLLIN, c5)
          else (events, c4)
      else (POLLOUT ||| POLLIN, c2)
    else (events, c1)
  else (events, { conn with sbuf := .ptr .null, sbuf2 := buf })

/-- The step `ssa_rsend_continue`: the rest of the send block and, when the
header is complete, the payload.  `ret` is the value that `int ret` holds
after the first `rsend` and `ret2` its value after the `rsend` of the
payload. -/
def ssa_rsend_continue (conn : ssa_conn) (events : Nat) (ret ret2 : Int) :
    Nat × ssa_conn :=
  let c1 : ssa_conn :=
    { conn with
      sent := conn.sent ++ [⟨conn.sbuf, conn.soffset, conn.ssize - conn.soffset, ret⟩] }
  if 0 < ret then
    let c2 : ssa_conn := { c1 with soffset := c1.soffset + ret.toNat }
    if c2.soffset = c2.ssize then
      if c2.sbuf.differs c2.sbuf2 then
        if c2.sbuf2 = .null then (POLLIN, { c2 with sbuf := .ptr .null })
        else
          let c3 : ssa_conn :=
            { c2 with
              sbuf := .ptr c2.sbuf2
              ssize := c2.ssize2
              soffset := 0
              sent := c2.sent ++ [⟨.ptr c2.sbuf2, 0, c2.ssize2, ret2⟩] }
          if 0 < ret2 then
            let c4 : ssa_conn := { c3 with soffset := c3.soffset + ret2.toNat }
            if c4.soffset = c4.ssize then (POLLIN, { c4 with sbuf2 := .null })
            else (POLLOUT ||| POLLIN, c4)
          else (events, c3)
      else (POLLIN, { c2 with sbuf2 := .null })
    else (POLLOUT ||| POLLIN, c2)
  else (0, c1)

/-- The bytes `b` after `data` has been stored at offset `off`. -/
def write_at (b : List uint8_t) (off : Nat) (data : List uint8_t) : List uint8_t :=
  b.take off ++ data ++ b.drop (off + data.length)

/-- The connection after an `rrecv` has stored `data` at `rbuf + off`.  The
bytes of a header block are not kept; a store through NULL or through the
address of a descriptor of a NULL database has no defined result. -/
def rrecv_store (conn : ssa_conn) (off : Nat) (data : List uint8_t) : Option ssa_conn :=
  match conn.rbuf with
  | .null => none
  | .hdr => some conn
  | .blk b => some { conn with rbuf := .blk { b with data := write_at b.data off data } }
  | .db_def =>
    match conn.ssa_db with
    | none => none
    | some db =>
      some { conn with
             ssa_db := some { db with
               db_def := { db.db_def with data := write_at db.db_def.data off data } } }
  | .db_table_def =>
    match conn.ssa_db with
    | none => none
    | some db =>
      some { conn with
             ssa_db := some { db with
               db_table_def :=
                 { db.db_table_def with data := write_at db.db_table_def.data off data } } }

/-- The call `rrecv(rsock, rbuf, rsize, MSG_DONTWAIT)` that follows a response
header, with `roffset += ret` for a positive result; `ret` is the value that
`int ret` holds after the call. -/
def rrecv_first (conn : ssa_conn) (ret : Int) (data : List uint8_t) : Option ssa_conn :=
  if 0 < ret then
    match rrecv_store conn 0 data with
    | none => none
    | some c => some { c with roffset := c.roffset + ret.toNat }
  else some conn

/-- The conversion of a result of type `ssize_t` to the `int` that the code
stores it in (`int ret; ret = rsend(...)`): the value modulo `2 ^ 32`, taken
as a signed 32-bit number. -/
def int_cast (x : Int) : Int := (2147483648 + x) % 4294967296 - 2147483648

/-- The results of the calls into the environment made during one step of a
connection.  Each field is the result of one call site; the result of a send
or receive is the value that `rsend` or `rrecv` returns, of type `ssize_t`,
given as a function of the number of bytes of the call. -/
structure env where
  /-- `malloc` of the header block for receiving returned a block -/
  malloc_rbuf : Bool
  /-- result of the `rrecv` of the receive step, given the bytes asked for -/
  rrecv_res : Nat → Int
  /-- the bytes that this `rrecv` stored -/
  rrecv_data : List uint8_t
  /-- the header that a complete header block holds after this `rrecv` -/
  rrecv_hdr : ssa_msg_hdr
  /-- address of the payload block that `malloc` returned, `none` for NULL -/
  malloc_buf : Option Nat
  /-- result of the `rrecv` issued right after a response header, given the
  bytes asked for -/
  rrecv2_res : Nat → Int
  /-- the bytes that this second `rrecv` stored -/
  rrecv2_data : List uint8_t
  /-- `malloc` of a pointer array returned a block -/
  malloc_arr : Bool
  /-- `malloc` of the header block for sending returned a block -/
  malloc_sbuf : Bool
  /-- result of the `rsend` of a header, given the bytes offered -/
  rsend_res : Nat → Int
  /-- result of the `rsend` of a payload that follows its header at once,
  given the bytes offered -/
  rsend2_res : Nat → Int
  /-- result of the first `rsend` of `ssa_rsend_continue`, given the bytes
  offered -/
  cont_res : Nat → Int
  /-- result of the second `rsend` of `ssa_rsend_continue`, given the bytes
  offered -/
  cont2_res : Nat → Int

/-- The value of `int ret` after the `rrecv` of the receive step. -/
def env.rrecv_ret (E : env) (n : Nat) : Int := int_cast (E.rrecv_res n)

/-- The value of `int ret` after the `rrecv` issued right after a response
header. -/
def env.rrecv2_ret (E : env) (n : Nat) : Int := int_cast (E.rrecv2_res n)

/-- The value of `int ret` after the `rsend` of a header. -/
def env.rsend_ret (E : env) (n : Nat) : Int := int_cast (E.rsend_res n)

/-- The value of `int ret` after the `rsend` of a payload that follows its
header at once. -/
def env.rsend2_ret (E : env) (n : Nat) : Int := int_cast (E.rsend2_res n)

/-- The value of `int ret` after the first `rsend` of `ssa_rsend_continue`. -/
def env.cont_ret (E : env) (n : Nat) : Int := int_cast (E.cont_res n)

/-- The value of `int ret` after the second `rsend` of
`ssa_rsend_continue`. -/
def env.cont2_ret (E : env) (n : Nat) : Int := int_cast (E.cont2_res n)

/-- The databases held in the file-scope variables `smdb` and `prdb`, and
whether the code is compiled with `ACCESS_INTEGRATION`. -/
structure ssa_globals where
  /-- the macro `ACCESS_INTEGRATION` is defined -/
  ACCESS_INTEGRATION : Bool
  /-- the variable `smdb` -/
  smdb : Option ssa_db_raw
  /-- the variable `prdb` -/
  prdb : Option ssa_db_raw

/-- The database that `ssa_downstream_db` selects. -/
def ssa_downstream_db (G : ssa_globals) (conn : ssa_conn) : Option ssa_db_raw :=
  match conn.ssa_db with
  | some d => some d
  | none =>
    if G.ACCESS_INTEGRATION then G.prdb
    else if conn.dbtype = SSA_CONN_SMDB_TYPE then G.smdb
    else none

/-- The bytes of the element `i` of an array of `struct db_dataset` at `p`;
`none` where `p` is not a block. -/
def dataset_at (C : ssa_msg_consts) (p : void_ptr) (i : Nat) : Option (List uint8_t) :=
  match p with
  | .blk b => some ((b.data.drop (i * C.db_dataset_size)).take C.db_dataset_size)
  | _ => none

/-- The step `ssa_downstream_handle_query_defs`. -/
def ssa_downstream_handle_query_defs (C : ssa_msg_consts) (G : ssa_globals)
    (conn : ssa_conn) (hdr : ssa_msg_hdr) (events : Nat) (E : env) :
    Option (Nat × ssa_conn) :=
  match ssa_downstream_db G conn with
  | none =>
    some (ssa_downstream_send_resp C { conn with rid := ntohl hdr.id, roffset := 0 }
      C.SSA_MSG_DB_QUERY_DEF events E.malloc_sbuf (E.rsend_ret C.hdr_size))
  | some ssadb =>
    if conn.phase = SSA_DB_IDLE then
      some (ssa_downstream_send C
        { conn with phase := SSA_DB_DEFS, rid := ntohl hdr.id, roffset := 0 }
        C.SSA_MSG_DB_QUERY_DEF (.blk ssadb.db_def) C.db_def_size events
        E.malloc_sbuf (E.rsend_ret C.hdr_size) (E.rsend2_ret C.db_def_size))
    else some (events, conn)

/-- The step `ssa_downstream_handle_query_tbl_def`. -/
def ssa_downstream_handle_query_tbl_def (C : ssa_msg_consts) (G : ssa_globals)
    (conn : ssa_conn) (hdr : ssa_msg_hdr) (events : Nat) (E : env) :
    Option (Nat × ssa_conn) :=
  if conn.phase = SSA_DB_DEFS then
    match ssa_downstream_db G conn with
    | none => none
    | some ssadb =>
      some (ssa_downstream_send C { conn with rid := ntohl hdr.id, roffset := 0 }
        C.SSA_MSG_DB_QUERY_TBL_DEF (.blk ssadb.db_table_def) C.db_dataset_size events
        E.malloc_sbuf (E.rsend_ret C.hdr_size) (E.rsend2_ret C.db_dataset_size))
  else some (events, conn)

/-- The step `ssa_downstream_handle_query_tbl_defs`. -/
def ssa_downstream_handle_query_tbl_defs (C : ssa_msg_consts) (G : ssa_globals)
    (conn : ssa_conn) (hdr : ssa_msg_hdr) (events : Nat) (E : env) :
    Option (Nat × ssa_conn) :=
  if conn.phase = SSA_DB_DEFS then
    match ssa_downstream_db G conn with
    | none => none
    | some ssadb =>
      some (ssa_downstream_send C
        { conn with phase := SSA_DB_TBL_DEFS, rid := ntohl hdr.id, roffset := 0 }
        C.SSA_MSG_DB_QUERY_TBL_DEF_DATASET ssadb.p_def_tbl
        (C.db_dataset_set_size ssadb.db_table_def.data) events
        E.malloc_sbuf (E.rsend_ret C.hdr_size)
        (E.rsend2_ret (C.db_dataset_set_size ssadb.db_table_def.data)))
  else some (events, conn)

/-- The step `ssa_downstream_handle_query_field_defs`. -/
def ssa_downstream_handle_query_field_defs (C : ssa_msg_consts) (G : ssa_globals)
    (conn : ssa_conn) (hdr : ssa_msg_hdr) (events : Nat) (E : env) :
    Option (Nat × ssa_conn) :=
  if conn.phase = SSA_DB_TBL_DEFS then
    match ssa_downstream_db G conn with
    | none => none
    | some ssadb =>
      let r := ssa_downstream_send C
        { conn with phase := SSA_DB_FIELD_DEFS, rid := ntohl hdr.id, roffset := 0 }
        C.SSA_MSG_DB_QUERY_FIELD_DEF_DATASET ssadb.p_db_field_tables
        (ssadb.data_tbl_cnt * C.db_dataset_size) events
        E.malloc_sbuf (E.rsend_ret C.hdr_size)
        (E.rsend2_ret (ssadb.data_tbl_cnt * C.db_dataset_size))
      some (r.1, { r.2 with sindex := 0 })
  else if conn.phase = SSA_DB_FIELD_DEFS then
    match ssa_downstream_db G conn with
    | none => none
    | some ssadb =>
      let c1 : ssa_conn := { conn with rid := ntohl hdr.id, roffset := 0 }
      if c1.sindex < ssadb.data_tbl_cnt then
        match ssadb.pp_field_tables, dataset_at C ssadb.p_db_field_tables c1.sindex with
        | some tables, some d =>
          let r := ssa_downstream_send C c1 C.SSA_MSG_DB_QUERY_FIELD_DEF_DATASET
            (tables c1.sindex) (C.db_dataset_set_size d) events
            E.malloc_sbuf (E.rsend_ret C.hdr_size)
            (E.rsend2_ret (C.db_dataset_set_size d))
          some (r.1, { r.2 with sindex := r.2.sindex + 1 })
        | _, _ => none
      else
        some (ssa_downstream_send_resp C c1 C.SSA_MSG_DB_QUERY_FIELD_DEF_DATASET events
          E.malloc_sbuf (E.rsend_ret C.hdr_size))
  else some (events, conn)

/-- The step `ssa_downstream_handle_query_data`. -/
def ssa_downstream_handle_query_data (C : ssa_msg_consts) (G : ssa_globals)
    (conn : ssa_conn) (hdr : ssa_msg_hdr) (events : Nat) (E : env) :
    Option (Nat × ssa_conn) :=
  if conn.phase = SSA_DB_FIELD_DEFS then
    match ssa_downstream_db G conn with
    | none => none
    | some ssadb =>
      let r := ssa_downstream_send C
        { conn with phase := SSA_DB_DATA, rid := ntohl hdr.id, roffset := 0 }
        C.SSA_MSG_DB_QUERY_DATA_DATASET ssadb.p_db_tables
        (ssadb.data_tbl_cnt * C.db_dataset_size) events
        E.malloc_sbuf (E.rsend_ret C.hdr_size)
        (E.rsend2_ret (ssadb.data_tbl_cnt * C.db_dataset_size))
      some (r.1, { r.2 with sindex := 0 })
  else if conn.phase = SSA_DB_DATA then
    match ssa_downstream_db G conn with
    | none => none
    | some ssadb =>
      let c1 : ssa_conn := { conn with rid := ntohl hdr.id, roffset := 0 }
      if c1.sindex < ssadb.data_tbl_cnt then
        match ssadb.pp_tables, dataset_at C ssadb.p_db_tables c1.sindex with
        | some tables, some d =>
          let r := ssa_downstream_send C c1 C.SSA_MSG_DB_QUERY_DATA_DATASET
            (tables c1.sindex) (C.db_dataset_set_size d) events
            E.malloc_sbuf (E.rsend_ret C.hdr_size)
            (E.rsend2_ret (C.db_dataset_set_size d))
          some (r.1, { r.2 with sindex := r.2.sindex + 1 })
        | _, _ => none
      else
        some (ssa_downstream_send_resp C c1 C.SSA_MSG_DB_QUERY_DATA_DATASET events
          E.malloc_sbuf (E.rsend_ret C.hdr_size))
  else some (events, conn)

/-- The step `ssa_downstream_handle_op`: the `switch` on the host-order
operation of a request. -/
def ssa_downstream_handle_op (C : ssa_msg_consts) (G : ssa_globals)
    (conn : ssa_conn) (hdr : ssa_msg_hdr) (events : Nat) (E : env) :
    Option (Nat × ssa_conn) :=
  let op := ntohs hdr.op
  if op = C.SSA_MSG_DB_QUERY_DEF then
    ssa_downstream_handle_query_defs C G conn hdr events E
  else if op = C.SSA_MSG_DB_QUERY_TBL_DEF then
    ssa_downstream_handle_query_tbl_def C G conn hdr events E
  else if op = C.SSA_MSG_DB_QUERY_TBL_DEF_DATASET then
    ssa_downstream_handle_query_tbl_defs C G conn hdr events E
  else if op = C.SSA_MSG_DB_QUERY_FIELD_DEF_DATASET then
    ssa_downstream_handle_query_field_defs C G conn hdr events E
  else if op = C.SSA_MSG_DB_QUERY_DATA_DATASET then
    ssa_downstream_handle_query_data C G conn hdr events E
  else some (events, conn)

/-- The step `ssa_downstream_rrecv`: one `rrecv` into the receive block and,
once the block is complete, the handling of the header it holds. -/
def ssa_downstream_rrecv (C : ssa_msg_consts) (G : ssa_globals)
    (conn : ssa_conn) (events : Nat) (E : env) : Option (Nat × ssa_conn) :=
  let ret := E.rrecv_ret (conn.rsize - conn.roffset)
  if 0 < ret then
    match rrecv_store conn conn.roffset E.rrecv_data with
    | none => none
    | some c0 =>
      let c1 : ssa_conn := { c0 with roffset := c0.roffset + ret.toNat }
      if c1.roffset = c1.rsize then
        if validate_ssa_msg_hdr C E.rrecv_hdr ≠ 0 then
          ssa_downstream_handle_op C G c1 E.rrecv_hdr events E
        else some (events, c1)
      else some (events, c1)
  else some (events, conn)

/-- The step `ssa_downstream_handle_rsock_revents`. -/
def ssa_downstream_handle_rsock_revents (C : ssa_msg_consts) (G : ssa_globals)
    (conn : ssa_conn) (events : Nat) (E : env) : Option (Nat × ssa_conn) :=
  let r1 : Option (Nat × ssa_conn) :=
    if events &&& POLLIN ≠ 0 then
      let c1 : ssa_conn :=
        if conn.rbuf = .null then
          if E.malloc_rbuf then { conn with rbuf := .hdr, rsize := C.hdr_size, roffset := 0 }
          else conn
        else conn
      if c1.rbuf ≠ .null then ssa_downstream_rrecv C G c1 events E
      else some (events, c1)
    else some (events, conn)
  match r1 with
  | none => none
  | some (revents, c2) =>
    if events &&& POLLOUT ≠ 0 then
      some (ssa_rsend_continue c2 events (E.cont_ret (c2.ssize - c2.soffset))
        (E.cont2_ret c2.ssize2))
    else some (revents, c2)
/-- The service, `struct ssa_svc`, as far as the transfer uses it, with the
log `db_updates` of the databases handed to `ssa_upstream_send_db_update`,
which is not a field of the C structure. -/
structure ssa_svc where
  /-- the data connection to the parent -/
  conn_dataup : ssa_conn
  /-- transaction counter -/
  tid : Nat
  /-- the databases published by `ssa_upstream_send_db_update`, oldest first -/
  db_updates : List ssa_db_raw

/-- The step `ssa_upstream_send_query` hands a query header to `rsend`; this
is the header. -/
def ssa_upstream_send_query (C : ssa_msg_consts) (op id : Nat) : ssa_msg_hdr :=
  ssa_init_ssa_msg_hdr C op C.hdr_size C.SSA_MSG_FLAG_END id

/-- The step `ssa_upstream_update_phase`. -/
def ssa_upstream_update_phase (C : ssa_msg_consts) (conn : ssa_conn) (op : Nat) :
    ssa_conn :=
  if op = C.SSA_MSG_DB_QUERY_DEF then { conn with phase := SSA_DB_DEFS }
  else if op = C.SSA_MSG_DB_QUERY_TBL_DEF then conn
  else if op = C.SSA_MSG_DB_QUERY_TBL_DEF_DATASET then { conn with phase := SSA_DB_TBL_DEFS }
  else if op = C.SSA_MSG_DB_QUERY_FIELD_DEF_DATASET then
    { conn with phase := SSA_DB_FIELD_DEFS }
  else if op = C.SSA_MSG_DB_QUERY_DATA_DATASET then { conn with phase := SSA_DB_DATA }
  else conn

/-- The step `ssa_upstream_query`: a query header for `op` with the next
transaction number.  `ok` tells whether `malloc` returned a block and `ret` is
the value that `int ret` holds after the `rsend`. -/
def ssa_upstream_query (C : ssa_msg_consts) (svc : ssa_svc) (op : Nat) (events : Nat)
    (ok : Bool) (ret : Int) : Nat × ssa_svc :=
  if ok then
    let id := svc.tid % 4294967296
    let h := ssa_upstream_send_query C op id
    let c1 : ssa_conn :=
      { svc.conn_dataup with
        sbuf := .own h
        ssize := C.hdr_size
        soffset := 0
        sent := svc.conn_dataup.sent ++ [⟨.own h, 0, C.hdr_size, ret⟩] }
    let s1 : ssa_svc := { svc with conn_dataup := c1, tid := (svc.tid + 1) % C.tid_mod }
    if 0 < ret then
      let c2 := ssa_upstream_update_phase C c1 op
      let c3 : ssa_conn := { c2 with soffset := c2.soffset + ret.toNat, sid := id }
      if c3.soffset = c3.ssize then
        (POLLIN, { s1 with conn_dataup := { c3 with sbuf := .ptr .null } })
      else (POLLOUT ||| POLLIN, { s1 with conn_dataup := c3 })
    else (0, s1)
  else (events, { svc with conn_dataup := { svc.conn_dataup with sbuf := .ptr .null } })

/-- The step `ssa_upstream_handle_query_defs`. -/
def ssa_upstream_handle_query_defs (C : ssa_msg_consts) (conn : ssa_conn)
    (hdr : ssa_msg_hdr) (E : env) : Option ssa_conn :=
  if conn.phase = SSA_DB_DEFS then
    if conn.sid ≠ ntohl hdr.id then some conn
    else
      let c1 : ssa_conn := { conn with rhdr := some hdr }
      let size := if c1.rindex ≠ 0 then C.db_dataset_size else C.db_def_size
      if ntohl hdr.len ≠ C.hdr_size + size then some c1
      else
        rrecv_first
          { c1 with
            rbuf := if c1.rindex ≠ 0 then .db_table_def else .db_def
            rsize := ntohl hdr.len - C.hdr_size
            roffset := 0 }
          (E.rrecv2_ret (ntohl hdr.len - C.hdr_size)) E.rrecv2_data
  else some conn

/-- The common body of `ssa_upstream_handle_query_tbl_defs`,
`ssa_upstream_handle_query_field_defs` and `ssa_upstream_handle_query_data`,
which differ in the phase they expect. -/
def ssa_upstream_handle_query_payload (C : ssa_msg_consts) (phase : ssa_db_phase)
    (conn : ssa_conn) (hdr : ssa_msg_hdr) (E : env) : Option ssa_conn :=
  if conn.phase = phase then
    if conn.sid ≠ ntohl hdr.id then some conn
    else
      let c1 : ssa_conn := { conn with rhdr := some hdr }
      if C.hdr_size < ntohl hdr.len then
        match E.malloc_buf with
        | none => some c1
        | some a =>
          rrecv_first
            { c1 with
              rbuf := .blk ⟨a, List.replicate (ntohl hdr.len - C.hdr_size) 0⟩
              rsize := ntohl hdr.len - C.hdr_size
              roffset := 0 }
            (E.rrecv2_ret (ntohl hdr.len - C.hdr_size)) E.rrecv2_data
      else some c1
  else some conn

/-- The step `ssa_upstream_handle_query_tbl_defs`. -/
def ssa_upstream_handle_query_tbl_defs (C : ssa_msg_consts) (conn : ssa_conn)
    (hdr : ssa_msg_hdr) (E : env) : Option ssa_conn :=
  ssa_upstream_handle_query_payload C SSA_DB_TBL_DEFS conn hdr E

/-- The step `ssa_upstream_handle_query_field_defs`. -/
def ssa_upstream_handle_query_field_defs (C : ssa_msg_consts) (conn : ssa_conn)
    (hdr : ssa_msg_hdr) (E : env) : Option ssa_conn :=
  ssa_upstream_handle_query_payload C SSA_DB_FIELD_DEFS conn hdr E

/-- The step `ssa_upstream_handle_query_data`. -/
def ssa_upstream_handle_query_data (C : ssa_msg_consts) (conn : ssa_conn)
    (hdr : ssa_msg_hdr) (E : env) : Option ssa_conn :=
  ssa_upstream_handle_query_payload C SSA_DB_DATA conn hdr E
/-- The test `rbuf == rhdr && ntohs(rhdr->flags) & SSA_MSG_FLAG_END` of
`ssa_upstream_update_conn`: the message is a header without payload that
carries the END flag.  With both pointers NULL the source reads the flags
through NULL and there is no result. -/
def is_end_frame (C : ssa_msg_consts) (conn : ssa_conn) : Option Bool :=
  match conn.rhdr with
  | some h => some (conn.rbuf = .hdr && (ntohs h.flags &&& C.SSA_MSG_FLAG_END ≠ 0))
  | none => if conn.rbuf = .null then none else some false

/-- The lines common to the cases of `ssa_upstream_update_conn`:
`roffset = 0; free(rhdr); rhdr = NULL; rbuf = NULL`. -/
def release_rbuf (conn : ssa_conn) : ssa_conn :=
  { conn with roffset := 0, rhdr := none, rbuf := .null }

/-- The step `ssa_upstream_update_conn`: the message of the current phase is
complete; record it and send the next query. -/
def ssa_upstream_update_conn (C : ssa_msg_consts) (svc : ssa_svc) (events : Nat)
    (E : env) : Option (Nat × ssa_svc) :=
  let conn := svc.conn_dataup
  match conn.phase with
  | SSA_DB_IDLE =>
    let r := ssa_upstream_query C svc C.SSA_MSG_DB_QUERY_DEF events E.malloc_sbuf
      (E.rsend_ret C.hdr_size)
    some (r.1, { r.2 with conn_dataup := { r.2.conn_dataup with rindex := 0 } })
  | SSA_DB_DEFS =>
    let c1 : ssa_conn := if conn.rindex ≠ 0 then { conn with phase := SSA_DB_TBL_DEFS } else conn
    let c2 := release_rbuf c1
    let r := ssa_upstream_query C { svc with conn_dataup := c2 }
      (if c2.rindex = 0 then C.SSA_MSG_DB_QUERY_TBL_DEF
       else C.SSA_MSG_DB_QUERY_TBL_DEF_DATASET) events E.malloc_sbuf (E.rsend_ret C.hdr_size)
    let c3 := r.2.conn_dataup
    some (r.1, { r.2 with
      conn_dataup :=
        if c3.phase = SSA_DB_DEFS then { c3 with rindex := c3.rindex + 1 }
        else { c3 with rindex := 0 } })
  | SSA_DB_TBL_DEFS =>
    match conn.ssa_db with
    | none => none
    | some db =>
      let c1 : ssa_conn :=
        { conn with
          phase := SSA_DB_FIELD_DEFS
          roffset := 0
          ssa_db := some { db with p_def_tbl := conn.rbuf } }
      let c2 : ssa_conn := { c1 with rhdr := none, rbuf := .null }
      some (ssa_upstream_query C { svc with conn_dataup := c2 }
        C.SSA_MSG_DB_QUERY_FIELD_DEF_DATASET events E.malloc_sbuf (E.rsend_ret C.hdr_size))
  | SSA_DB_FIELD_DEFS =>
    match is_end_frame C conn with
    | none => none
    | some true =>
      let c2 := release_rbuf { conn with phase := SSA_DB_DATA }
      some (ssa_upstream_query C { svc with conn_dataup := c2 }
        C.SSA_MSG_DB_QUERY_DATA_DATASET events E.malloc_sbuf (E.rsend_ret C.hdr_size))
    | some false =>
      match conn.ssa_db with
      | none => none
      | some db =>
        let c1 : ssa_conn :=
          if db.p_db_field_tables = .null then
            let db1 : ssa_db_raw := { db with p_db_field_tables := conn.rbuf }
            let db2 : ssa_db_raw :=
              { db1 with
                pp_field_tables :=
                  if E.malloc_arr then some (fun _ => .null) else none }
            { conn with ssa_db := some db2, rindex := 0 }
          else
            let db1 : ssa_db_raw :=
              match db.pp_field_tables with
              | some tables =>
                { db with
                  pp_field_tables := some (Function.update tables conn.rindex conn.rbuf) }
              | none => db
            { conn with ssa_db := some db1, rindex := conn.rindex + 1 }
        let c2 := release_rbuf c1
        some (ssa_upstream_query C { svc with conn_dataup := c2 }
          C.SSA_MSG_DB_QUERY_FIELD_DEF_DATASET events E.malloc_sbuf (E.rsend_ret C.hdr_size))
  | SSA_DB_DATA =>
    match is_end_frame C conn with
    | none => none
    | some true =>
      let c2 := release_rbuf { conn with phase := SSA_DB_IDLE }
      match c2.ssa_db with
      | none => none
      | some db =>
        let db1 : ssa_db_raw :=
          { db with data_tbl_cnt := C.ssa_db_calculate_data_tbl_num db }
        some (events,
          { svc with
            conn_dataup := { c2 with ssa_db := some db1 }
            db_updates := svc.db_updates ++ [db1] })
    | some false =>
      match conn.ssa_db with
      | none => none
      | some db =>
        let c1 : ssa_conn :=
          if db.p_db_tables = .null then
            let db1 : ssa_db_raw := { db with p_db_tables := conn.rbuf }
            let db2 : ssa_db_raw :=
              { db1 with
                pp_tables :=
                  if E.malloc_arr then some (fun _ => .null) else none }
            { conn with ssa_db := some db2, rindex := 0 }
          else
            let db1 : ssa_db_raw :=
              match db.pp_tables with
              | some tables =>
                { db with pp_tables := some (Function.update tables conn.rindex conn.rbuf) }
              | none => db
            { conn with ssa_db := some db1, rindex := conn.rindex + 1 }
        let c2 := release_rbuf c1
        some (ssa_upstream_query C { svc with conn_dataup := c2 }
          C.SSA_MSG_DB_QUERY_DATA_DATASET events E.malloc_sbuf (E.rsend_ret C.hdr_size))

/-- The check that follows the handler of a response in
`ssa_upstream_handle_op`: in the phase `phase`, with the correlator of the
query in flight and a complete message, the connection moves on. -/
def ssa_upstream_handle_op_check (C : ssa_msg_consts) (phase : ssa_db_phase)
    (svc : ssa_svc) (hdr : ssa_msg_hdr) (events : Nat) (E : env) :
    Option (Nat × ssa_svc) :=
  if svc.conn_dataup.phase = phase then
    if ntohl hdr.id = svc.conn_dataup.sid then
      if svc.conn_dataup.roffset = svc.conn_dataup.rsize then
        ssa_upstream_update_conn C svc events E
      else some (events, svc)
    else some (events, svc)
  else some (events, svc)

/-- The step `ssa_upstream_handle_op`: the `switch` on the host-order
operation of a response. -/
def ssa_upstream_handle_op (C : ssa_msg_consts) (svc : ssa_svc) (hdr : ssa_msg_hdr)
    (events : Nat) (E : env) : Option (Nat × ssa_svc) :=
  let op := ntohs hdr.op
  if op = C.SSA_MSG_DB_QUERY_DEF ∨ op = C.SSA_MSG_DB_QUERY_TBL_DEF then
    match ssa_upstream_handle_query_defs C svc.conn_dataup hdr E with
    | none => none
    | some c =>
      ssa_upstream_handle_op_check C SSA_DB_DEFS { svc with conn_dataup := c } hdr events E
  else if op = C.SSA_MSG_DB_QUERY_TBL_DEF_DATASET then
    match ssa_upstream_handle_query_tbl_defs C svc.conn_dataup hdr E with
    | none => none
    | some c =>
      ssa_upstream_handle_op_check C SSA_DB_TBL_DEFS { svc with conn_dataup := c } hdr events E
  else if op = C.SSA_MSG_DB_QUERY_FIELD_DEF_DATASET then
    match ssa_upstream_handle_query_field_defs C svc.conn_dataup hdr E with
    | none => none
    | some c =>
      ssa_upstream_handle_op_check C SSA_DB_FIELD_DEFS { svc with conn_dataup := c } hdr
        events E
  else if op = C.SSA_MSG_DB_QUERY_DATA_DATASET then
    match ssa_upstream_handle_query_data C svc.conn_dataup hdr E with
    | none => none
    | some c =>
      ssa_upstream_handle_op_check C SSA_DB_DATA { svc with conn_dataup := c } hdr events E
  else some (events, svc)

/-- The step `ssa_upstream_rrecv`: one `rrecv` into the receive block and,
once the block is complete, the handling of the header or of the payload. -/
def ssa_upstream_rrecv (C : ssa_msg_consts) (svc : ssa_svc) (events : Nat) (E : env) :
    Option (Nat × ssa_svc) :=
  let ret := E.rrecv_ret (svc.conn_dataup.rsize - svc.conn_dataup.roffset)
  if 0 < ret then
    match rrecv_store svc.conn_dataup svc.conn_dataup.roffset E.rrecv_data with
    | none => none
    | some c0 =>
      let c1 : ssa_conn := { c0 with roffset := c0.roffset + ret.toNat }
      let s1 : ssa_svc := { svc with conn_dataup := c1 }
      if c1.roffset = c1.rsize then
        if c1.rhdr = none then
          if validate_ssa_msg_hdr C E.rrecv_hdr ≠ 0 then
            ssa_upstream_handle_op C s1 E.rrecv_hdr events E
          else some (events, s1)
        else ssa_upstream_update_conn C s1 events E
      else some (events, s1)
  else some (events, svc)

/-- The branch of `ssa_upstream_handler` for `POLLIN` on the data socket: a
header block is obtained when there is no receive block, then
`ssa_upstream_rrecv` runs. -/
def ssa_upstream_handler_pollin (C : ssa_msg_consts) (svc : ssa_svc) (events : Nat)
    (E : env) : Option (Nat × ssa_svc) :=
  let conn := svc.conn_dataup
  let c1 : ssa_conn :=
    if conn.rbuf = .null then
      if E.malloc_rbuf then
        { conn with rbuf := .hdr, rsize := C.hdr_size, roffset := 0, rhdr := none }
      else conn
    else conn
  if c1.rbuf ≠ .null then ssa_upstream_rrecv C { svc with conn_dataup := c1 } events E
  else some (events, { svc with conn_dataup := c1 })

/-- A connection with every field zero or NULL, the state written by
`ssa_init_ssa_conn` included. -/
def blank_conn (t : ssa_conn_type) (d : ssa_conn_dbtype) : ssa_conn :=
  { rsock := -1, type := t, dbtype := d, state := SSA_CONN_IDLE, phase := SSA_DB_IDLE,
    rbuf := .null, rsize := 0, roffset := 0, rhdr := none, rid := 0, rindex := 0,
    sbuf := .ptr .null, ssize := 0, soffset := 0, sbuf2 := .null, ssize2 := 0,
    sid := 0, sindex := 0, ssa_db := none, sent := [] }

/-- A server connection for the subnet database that has been accepted on
socket 7 and is about to receive a header. -/
def example_server_conn (phase : ssa_db_phase) : ssa_conn :=
  { blank_conn SSA_CONN_TYPE_DOWNSTREAM SSA_CONN_SMDB_TYPE with
    rsock := 7, state := SSA_CONN_CONNECTED, phase := phase,
    rbuf := .hdr, rsize := 32, roffset := 0 }

/-- An environment in which every allocation succeeds, every send and receive
handles all the bytes of the call, and the header received is `hdr`. -/
def complete_env (hdr : ssa_msg_hdr) (data : List uint8_t) : env :=
  { malloc_rbuf := true, rrecv_res := fun n => n, rrecv_data := [], rrecv_hdr := hdr,
    malloc_buf := some 4096, rrecv2_res := fun n => n, rrecv2_data := data,
    malloc_arr := true, malloc_sbuf := true, rsend_res := fun n => n,
    rsend2_res := fun n => n, cont_res := fun n => n, cont2_res := fun n => n }

/-- No database is held in the file-scope variables. -/
def no_globals : ssa_globals := { ACCESS_INTEGRATION := false, smdb := none, prdb := none }


/-- The database structure as `calloc` returns it. -/
def calloc_ssa_db (C : ssa_msg_consts) : ssa_db_raw :=
  { db_def := ⟨64, List.replicate C.db_def_size 0⟩
    db_table_def := ⟨128, List.replicate C.db_dataset_size 0⟩
    p_def_tbl := .null
    p_db_field_tables := .null
    pp_field_tables := none
    p_db_tables := .null
    pp_tables := none
    data_tbl_cnt := 0 }

/-- A client service whose data connection is connected on socket 5, is in
the given phase with query 9 in flight and is about to receive a header. -/
def example_client_svc (phase : ssa_db_phase) : ssa_svc :=
  { conn_dataup :=
      { blank_conn SSA_CONN_TYPE_UPSTREAM SSA_CONN_SMDB_TYPE with
        rsock := 5, state := SSA_CONN_CONNECTED, phase := phase,
        rbuf := .hdr, rsize := 32, roffset := 0, sid := 9,
        ssa_db := some (calloc_ssa_db example_msg_consts) }
    tid := 10
    db_updates := [] }

/-- A header with a version that `validate_ssa_msg_hdr` rejects for the
example constants. -/
def bad_version_hdr : ssa_msg_hdr :=
  { ssa_init_ssa_msg_hdr example_msg_consts 1 32 1 9 with version := 0 }

/-- A database with two data tables for the example constants: the first byte
of a dataset descriptor is its size and the table-definition dataset has one
byte per data table.  The second field dataset is empty. -/
def example_db : ssa_db_raw :=
  { db_def := ⟨1000, [1, 2, 3, 4, 5, 6, 7, 8]⟩
    db_table_def := ⟨1100, [2, 0, 0, 0]⟩
    p_def_tbl := .blk ⟨1200, [7, 7]⟩
    p_db_field_tables := .blk ⟨1300, [3, 0, 0, 0, 0, 0, 0, 0]⟩
    pp_field_tables := some (fun i =>
      if i = 0 then .blk ⟨1400, [11, 12, 13]⟩
      else if i = 1 then .blk ⟨1500, []⟩ else .null)
    p_db_tables := .blk ⟨1600, [2, 0, 0, 0, 1, 0, 0, 0]⟩
    pp_tables := some (fun i =>
      if i = 0 then .blk ⟨1700, [21, 22]⟩
      else if i = 1 then .blk ⟨1800, [31]⟩ else .null)
    data_tbl_cnt := 2 }

/-- The example database is the subnet database of the server. -/
def example_globals : ssa_globals :=
  { ACCESS_INTEGRATION := false, smdb := some example_db, prdb := none }

/-- The pointer is a block of bytes. -/
def void_ptr.is_blk : void_ptr → Bool
  | .blk _ => true
  | _ => false

/-- The phase in which the server expects the operation `op`. -/
def expected_phase (C : ssa_msg_consts) (op : Nat) (phase : ssa_db_phase) : Prop :=
  (op = C.SSA_MSG_DB_QUERY_DEF ∧ phase = SSA_DB_IDLE) ∨
  (op = C.SSA_MSG_DB_QUERY_TBL_DEF ∧ phase = SSA_DB_DEFS) ∨
  (op = C.SSA_MSG_DB_QUERY_TBL_DEF_DATASET ∧ phase = SSA_DB_DEFS) ∨
  (op = C.SSA_MSG_DB_QUERY_FIELD_DEF_DATASET ∧
    (phase = SSA_DB_TBL_DEFS ∨ phase = SSA_DB_FIELD_DEFS)) ∨
  (op = C.SSA_MSG_DB_QUERY_DATA_DATASET ∧
    (phase = SSA_DB_FIELD_DEFS ∨ phase = SSA_DB_DATA))

/-- The database has its two descriptor arrays and its two pointer arrays. -/
def db_complete (db : ssa_db_raw) : Prop :=
  db.p_db_field_tables.is_blk = true ∧ db.pp_field_tables.isSome = true ∧
  db.p_db_tables.is_blk = true ∧ db.pp_tables.isSome = true

/-- The property of a send step that P3 asks for: the send offset is within
the send size, and an event mask of POLLIN alone comes with a send block that
is sent completely and is not a live header block. -/
def send_step_ok (r : Nat × ssa_conn) : Prop :=
  r.2.soffset ≤ r.2.ssize ∧
  (r.1 = POLLIN → r.2.soffset = r.2.ssize ∧ ∀ h, r.2.sbuf ≠ .own h)

/-- The branch of `ssa_upstream_handler` for events on the data socket of a
connection that is CONNECTED: `ssa_rsend_continue` for `POLLOUT`, then the
receive branch for `POLLIN`.  `revents` are the events that occurred and
`events` is the mask that was asked for. -/
def ssa_upstream_handler_data (C : ssa_msg_consts) (svc : ssa_svc) (revents events : Nat)
    (E : env) : Option (Nat × ssa_svc) :=
  let r1 : Nat × ssa_svc :=
    if revents &&& POLLOUT ≠ 0 then
      let r := ssa_rsend_continue svc.conn_dataup events
        (E.cont_ret (svc.conn_dataup.ssize - svc.conn_dataup.soffset))
        (E.cont2_ret svc.conn_dataup.ssize2)
      (r.1, { svc with conn_dataup := r.2 })
    else (events, svc)
  if revents &&& POLLIN ≠ 0 then ssa_upstream_handler_pollin C r1.2 r1.1 E
  else some r1

/-- A list with every run of equal neighbours collapsed to one element: the
distinct phases that a connection passes through. -/
def distinct_phases : List ssa_db_phase → List ssa_db_phase
  | [] => []
  | [a] => [a]
  | a :: b :: l => if a = b then distinct_phases (b :: l) else a :: distinct_phases (b :: l)

/-- The phases of a client after each of a sequence of events on its data
socket; an event is the pair of the events that occurred and the results of
the environment, and the mask asked for is the one the previous event
returned.  The sequence ends where a step has no defined result. -/
def client_phases (C : ssa_msg_consts) :
    ssa_svc → Nat → List (Nat × env) → List ssa_db_phase
  | _, _, [] => []
  | svc, events, (revents, E) :: rest =>
    match ssa_upstream_handler_data C svc revents events E with
    | none => []
    | some (events1, svc1) => svc1.conn_dataup.phase :: client_phases C svc1 events1 rest

/-- The phases of a client during a session: the phase it starts in, the phase
after the `ssa_upstream_update_conn` that starts the transfer, and the phases
after each event on the data socket. -/
def client_session_phases (C : ssa_msg_consts) (svc : ssa_svc) (events : Nat) (E : env)
    (evs : List (Nat × env)) : List ssa_db_phase :=
  svc.conn_dataup.phase ::
    match ssa_upstream_update_conn C svc events E with
    | none => []
    | some (events1, svc1) => svc1.conn_dataup.phase :: client_phases C svc1 events1 evs

/-- The phases of a server connection after each of a sequence of calls of
`ssa_downstream_handle_rsock_revents`; the sequence ends where a step has no
defined result. -/
def server_phases (C : ssa_msg_consts) (G : ssa_globals) :
    ssa_conn → List (Nat × env) → List ssa_db_phase
  | _, [] => []
  | conn, (events, E) :: rest =>
    match ssa_downstream_handle_rsock_revents C G conn events E with
    | none => []
    | some (_, conn1) => conn1.phase :: server_phases C G conn1 rest

/-- The phase that follows `p` on the client. -/
def client_next : ssa_db_phase → ssa_db_phase
  | SSA_DB_IDLE => SSA_DB_IDLE
  | SSA_DB_DEFS => SSA_DB_TBL_DEFS
  | SSA_DB_TBL_DEFS => SSA_DB_FIELD_DEFS
  | SSA_DB_FIELD_DEFS => SSA_DB_DATA
  | SSA_DB_DATA => SSA_DB_IDLE

/-- The phase that follows `p` on the server. -/
def server_next : ssa_db_phase → ssa_db_phase
  | SSA_DB_IDLE => SSA_DB_DEFS
  | SSA_DB_DEFS => SSA_DB_TBL_DEFS
  | SSA_DB_TBL_DEFS => SSA_DB_FIELD_DEFS
  | SSA_DB_FIELD_DEFS => SSA_DB_DATA
  | SSA_DB_DATA => SSA_DB_DATA

/-- The phases from `p` to the end of a client session. -/
def client_rest : ssa_db_phase → List ssa_db_phase
  | SSA_DB_IDLE => [SSA_DB_IDLE]
  | SSA_DB_DEFS => [SSA_DB_DEFS, SSA_DB_TBL_DEFS, SSA_DB_FIELD_DEFS, SSA_DB_DATA, SSA_DB_IDLE]
  | SSA_DB_TBL_DEFS => [SSA_DB_TBL_DEFS, SSA_DB_FIELD_DEFS, SSA_DB_DATA, SSA_DB_IDLE]
  | SSA_DB_FIELD_DEFS => [SSA_DB_FIELD_DEFS, SSA_DB_DATA, SSA_DB_IDLE]
  | SSA_DB_DATA => [SSA_DB_DATA, SSA_DB_IDLE]

/-- The phases from `p` on that a server connection can pass through. -/
def server_rest : ssa_db_phase → List ssa_db_phase
  | SSA_DB_IDLE => [SSA_DB_IDLE, SSA_DB_DEFS, SSA_DB_TBL_DEFS, SSA_DB_FIELD_DEFS, SSA_DB_DATA]
  | SSA_DB_DEFS => [SSA_DB_DEFS, SSA_DB_TBL_DEFS, SSA_DB_FIELD_DEFS, SSA_DB_DATA]
  | SSA_DB_TBL_DEFS => [SSA_DB_TBL_DEFS, SSA_DB_FIELD_DEFS, SSA_DB_DATA]
  | SSA_DB_FIELD_DEFS => [SSA_DB_FIELD_DEFS, SSA_DB_DATA]
  | SSA_DB_DATA => [SSA_DB_DATA]

/-- The phase that `ssa_upstream_update_phase` sets for the operation `op` when
the phase is `p`. -/
def op_phase (C : ssa_msg_consts) (op : Nat) (p : ssa_db_phase) : ssa_db_phase :=
  if op = C.SSA_MSG_DB_QUERY_DEF then SSA_DB_DEFS
  else if op = C.SSA_MSG_DB_QUERY_TBL_DEF then p
  else if op = C.SSA_MSG_DB_QUERY_TBL_DEF_DATASET then SSA_DB_TBL_DEFS
  else if op = C.SSA_MSG_DB_QUERY_FIELD_DEF_DATASET then SSA_DB_FIELD_DEFS
  else if op = C.SSA_MSG_DB_QUERY_DATA_DATASET then SSA_DB_DATA
  else p

/-- The receive header is NULL while the client is in phase IDLE. -/
def client_inv (svc : ssa_svc) : Prop :=
  svc.conn_dataup.phase = SSA_DB_IDLE → svc.conn_dataup.rhdr = none

/-- A step of the client keeps the phase or moves it to the next one, and
keeps the receive header NULL in phase IDLE. -/
def client_step_ok (svc : ssa_svc) (r : Nat × ssa_svc) : Prop :=
  (r.2.conn_dataup.phase = svc.conn_dataup.phase ∨
    r.2.conn_dataup.phase = client_next svc.conn_dataup.phase) ∧
  client_inv r.2

/-- The bytes that the transport accepted in one call of `rsend` on a payload
block; for a header block the bytes are not modelled and the result is
empty. -/
def accepted_bytes (c : rsend_call) : List uint8_t :=
  match c.buf with
  | .ptr (.blk b) => (b.data.drop c.off).take c.ret.toNat
  | _ => []

/-- The messages of a log of `rsend` calls in which every header is handed
over in one call: a message is its header and the payload bytes accepted right
after it. -/
def frames : List rsend_call → List (ssa_msg_hdr × List uint8_t)
  | [] => []
  | ⟨.own h, _, _, _⟩ :: ⟨.ptr p, off, len, ret⟩ :: rest =>
    (h, accepted_bytes ⟨.ptr p, off, len, ret⟩) :: frames rest
  | ⟨.own h, _, _, _⟩ :: rest => (h, []) :: frames rest
  | _ :: rest => frames rest

/-- The environment of a step in which every allocation succeeds, a payload
block is obtained at address `addr`, every send and receive handles all the
bytes of the call, the header received is `hdr` and the payload received is
`data`. -/
def session_env (hdr : ssa_msg_hdr) (data : List uint8_t) (addr : Nat) : env :=
  { malloc_rbuf := true, rrecv_res := fun n => n, rrecv_data := [], rrecv_hdr := hdr,
    malloc_buf := some addr, rrecv2_res := fun n => n, rrecv2_data := data,
    malloc_arr := true, malloc_sbuf := true, rsend_res := fun n => n,
    rsend2_res := fun n => n, cont_res := fun n => n, cont2_res := fun n => n }

/-- The header of the last `rsend` call of a log. -/
def last_hdr (sent : List rsend_call) : Option ssa_msg_hdr :=
  match sent.getLast? with
  | some ⟨.own h, _, _, _⟩ => some h
  | _ => none

/-- One exchange of a transfer over a transport that takes every byte of every
send and receive: the server receives the query that the client sent last and
answers it, and the client receives the header of the answer and what follows
it.  The result holds what the two steps returned.  The payload block of
exchange `k` is obtained at address `4096 * (k + 1)`. -/
def exchange (C : ssa_msg_consts) (G : ssa_globals) (k : Nat)
    (st : ssa_svc × ssa_conn) : Option ((Nat × ssa_svc) × (Nat × ssa_conn)) :=
  match last_hdr st.1.conn_dataup.sent with
  | none => none
  | some hq =>
    match ssa_downstream_handle_rsock_revents C G st.2 POLLIN (session_env hq [] 0) with
    | none => none
    | some rs =>
      match frames (rs.2.sent.drop st.2.sent.length) with
      | [(h, data)] =>
        match ssa_upstream_handler_data C st.1 POLLIN POLLIN
            (session_env h data (4096 * (k + 1))) with
        | none => none
        | some rc => some (rc, rs)
      | _ => none

/-- One round of a transfer: an exchange in which every send and receive is
complete as the code sees it.  The server has sent its whole message and waits
for the next query (it returns `POLLIN` with `soffset == ssize`), and the
client has taken the whole message and released its receive block.  There is
no round otherwise: the bytes still in flight are not part of the state. -/
def transfer_round (C : ssa_msg_consts) (G : ssa_globals) (k : Nat)
    (st : ssa_svc × ssa_conn) : Option (ssa_svc × ssa_conn) :=
  match exchange C G k st with
  | none => none
  | some (rc, rs) =>
    if rs.1 = POLLIN ∧ rs.2.soffset = rs.2.ssize ∧ rc.2.conn_dataup.rbuf = .null then
      some (rc.2, rs.2)
    else none

/-- The rounds `k`, `k + 1`, ... of a transfer, `n` of them. -/
def transfer_rounds (C : ssa_msg_consts) (G : ssa_globals) :
    Nat → Nat → ssa_svc × ssa_conn → Option (ssa_svc × ssa_conn)
  | 0, _, st => some st
  | n + 1, k, st =>
    match transfer_round C G k st with
    | none => none
    | some st1 => transfer_rounds C G n (k + 1) st1

/-- The client before a transfer: connected on socket 5, with the database
structure that `calloc` returned and the transaction counter `tid`. -/
def client_start (C : ssa_msg_consts) (tid : Nat) : ssa_svc :=
  { conn_dataup :=
      { blank_conn SSA_CONN_TYPE_UPSTREAM SSA_CONN_SMDB_TYPE with
        rsock := 5, state := SSA_CONN_CONNECTED, ssa_db := some (calloc_ssa_db C) }
    tid := tid
    db_updates := [] }

/-- The server connection before a transfer: accepted on socket 7 for the
subnet database. -/
def server_start : ssa_conn :=
  { blank_conn SSA_CONN_TYPE_DOWNSTREAM SSA_CONN_SMDB_TYPE with
    rsock := 7, state := SSA_CONN_CONNECTED }

/-- A transfer of `n` rounds: the client starts with
`ssa_upstream_update_conn`, which sends the first query, and the rounds
follow. -/
def transfer_session (C : ssa_msg_consts) (G : ssa_globals) (tid n : Nat) :
    Option (ssa_svc × ssa_conn) :=
  match ssa_upstream_update_conn C (client_start C tid) POLLIN
      (session_env (ssa_init_ssa_msg_hdr C 0 0 0 0) [] 0) with
  | none => none
  | some (_, svc) => transfer_rounds C G n 0 (svc, server_start)

/-- The `size` bytes of the dataset at `p`: `none` where `p` does not point to
that many bytes.  No byte is read for a size of zero, whatever the pointer. -/
def dataset_read (p : void_ptr) (size : Nat) : Option (List uint8_t) :=
  match p with
  | .blk b => if size ≤ b.data.length then some (b.data.take size) else none
  | _ => if size = 0 then some [] else none

/-- The element `i` of a pointer array, NULL for an array that is NULL. -/
def pp_at (pp : Option (Nat → void_ptr)) (i : Nat) : void_ptr :=
  match pp with
  | some f => f i
  | none => .null

/-- The size in bytes that the descriptor `i` of the descriptor array at `p`
declares for its dataset. -/
def descr_size (C : ssa_msg_consts) (p : void_ptr) (i : Nat) : Nat :=
  match dataset_at C p i with
  | some d => C.db_dataset_set_size d
  | none => 0

/-- The size in bytes that the table descriptor declares for the
table-definition dataset. -/
def def_tbl_size (C : ssa_msg_consts) (D : ssa_db_raw) : Nat :=
  C.db_dataset_set_size D.db_table_def.data

/-- The sizes of the three structures sent on the wire are values of the
`int` that holds the result of a send or receive. -/
def int_sizes (C : ssa_msg_consts) : Prop :=
  C.hdr_size < 2147483648 ∧ C.db_def_size < 2147483648 ∧ C.db_dataset_size < 2147483648

/-- The header and a payload of `size` bytes can each be sent and received in
one call: both byte counts are values of the `int` that holds the result.
Their sum then fits the 32-bit length field of the header. -/
def fits (C : ssa_msg_consts) (size : Nat) : Prop :=
  size < 2147483648 ∧ C.hdr_size < 2147483648

/-- The database `D` is one that the server can send: the two descriptors have
the size of their structures, every dataset pointer points to the bytes that
its descriptor declares, the pointer arrays exist when there is a data table,
and the header, every descriptor and every dataset are smaller than `2 ^ 31`
bytes. -/
def db_wf (C : ssa_msg_consts) (D : ssa_db_raw) : Prop :=
  D.db_def.data.length = C.db_def_size ∧
  D.db_table_def.data.length = C.db_dataset_size ∧
  (dataset_read D.p_def_tbl (def_tbl_size C D)).isSome ∧
  (dataset_read D.p_db_field_tables (D.data_tbl_cnt * C.db_dataset_size)).isSome ∧
  (dataset_read D.p_db_tables (D.data_tbl_cnt * C.db_dataset_size)).isSome ∧
  (0 < D.data_tbl_cnt → D.pp_field_tables.isSome ∧ D.pp_tables.isSome) ∧
  (∀ i, i < D.data_tbl_cnt →
    (dataset_read (pp_at D.pp_field_tables i) (descr_size C D.p_db_field_tables i)).isSome ∧
    (dataset_read (pp_at D.pp_tables i) (descr_size C D.p_db_tables i)).isSome) ∧
  fits C C.db_def_size ∧ fits C C.db_dataset_size ∧ fits C (def_tbl_size C D) ∧
  fits C (D.data_tbl_cnt * C.db_dataset_size) ∧
  (∀ i, i < D.data_tbl_cnt →
    fits C (descr_size C D.p_db_field_tables i) ∧ fits C (descr_size C D.p_db_tables i))

/-- The database `db` has as many data tables as `D` and holds the same bytes:
the two descriptors, the table-definition dataset, the two descriptor arrays
and, for each of the data tables of `D`, the field dataset and the data
dataset, each read with the size that `D` declares for it. -/
def db_same (C : ssa_msg_consts) (D db : ssa_db_raw) : Prop :=
  db.data_tbl_cnt = D.data_tbl_cnt ∧
  db.db_def.data = D.db_def.data ∧
  db.db_table_def.data = D.db_table_def.data ∧
  dataset_read db.p_def_tbl (def_tbl_size C D) =
    dataset_read D.p_def_tbl (def_tbl_size C D) ∧
  dataset_read db.p_db_field_tables (D.data_tbl_cnt * C.db_dataset_size) =
    dataset_read D.p_db_field_tables (D.data_tbl_cnt * C.db_dataset_size) ∧
  dataset_read db.p_db_tables (D.data_tbl_cnt * C.db_dataset_size) =
    dataset_read D.p_db_tables (D.data_tbl_cnt * C.db_dataset_size) ∧
  ∀ i, i < D.data_tbl_cnt →
    dataset_read (pp_at db.pp_field_tables i) (descr_size C D.p_db_field_tables i) =
      dataset_read (pp_at D.pp_field_tables i) (descr_size C D.p_db_field_tables i) ∧
    dataset_read (pp_at db.pp_tables i) (descr_size C D.p_db_tables i) =
      dataset_read (pp_at D.pp_tables i) (descr_size C D.p_db_tables i)

/-- The bytes of the dataset of `size` bytes at `p`, empty where there are
none. -/
def dataset_bytes (p : void_ptr) (size : Nat) : List uint8_t :=
  (dataset_read p size).getD []

/-- What a message shows on the wire: operation, flags, length field and
payload. -/
def frame_view (f : ssa_msg_hdr × List uint8_t) : Nat × Nat × Nat × List uint8_t :=
  (ntohs f.1.op, ntohs f.1.flags, ntohl f.1.len, f.2)

/-- The responses of a transfer of `D` as the specification lists them: the
top-level descriptor, the table descriptor, the table-definition dataset, then
for the field phase the descriptor array, one payload per data table and a
header-only END message, and the same for the data phase. -/
def expected_frames (C : ssa_msg_consts) (D : ssa_db_raw) :
    List (Nat × Nat × Nat × List uint8_t) :=
  [(C.SSA_MSG_DB_QUERY_DEF, C.SSA_MSG_FLAG_RESP, C.hdr_size + C.db_def_size,
      D.db_def.data),
   (C.SSA_MSG_DB_QUERY_TBL_DEF, C.SSA_MSG_FLAG_RESP, C.hdr_size + C.db_dataset_size,
      D.db_table_def.data),
   (C.SSA_MSG_DB_QUERY_TBL_DEF_DATASET, C.SSA_MSG_FLAG_RESP,
      C.hdr_size + def_tbl_size C D, dataset_bytes D.p_def_tbl (def_tbl_size C D)),
   (C.SSA_MSG_DB_QUERY_FIELD_DEF_DATASET, C.SSA_MSG_FLAG_RESP,
      C.hdr_size + D.data_tbl_cnt * C.db_dataset_size,
      dataset_bytes D.p_db_field_tables (D.data_tbl_cnt * C.db_dataset_size))] ++
  (List.range D.data_tbl_cnt).map (fun i =>
    (C.SSA_MSG_DB_QUERY_FIELD_DEF_DATASET, C.SSA_MSG_FLAG_RESP,
      C.hdr_size + descr_size C D.p_db_field_tables i,
      dataset_bytes (pp_at D.pp_field_tables i) (descr_size C D.p_db_field_tables i))) ++
  [(C.SSA_MSG_DB_QUERY_FIELD_DEF_DATASET, C.SSA_MSG_FLAG_END ||| C.SSA_MSG_FLAG_RESP,
      C.hdr_size, []),
   (C.SSA_MSG_DB_QUERY_DATA_DATASET, C.SSA_MSG_FLAG_RESP,
      C.hdr_size + D.data_tbl_cnt * C.db_dataset_size,
      dataset_bytes D.p_db_tables (D.data_tbl_cnt * C.db_dataset_size))] ++
  (List.range D.data_tbl_cnt).map (fun i =>
    (C.SSA_MSG_DB_QUERY_DATA_DATASET, C.SSA_MSG_FLAG_RESP,
      C.hdr_size + descr_size C D.p_db_tables i,
      dataset_bytes (pp_at D.pp_tables i) (descr_size C D.p_db_tables i))) ++
  [(C.SSA_MSG_DB_QUERY_DATA_DATASET, C.SSA_MSG_FLAG_END ||| C.SSA_MSG_FLAG_RESP,
      C.hdr_size, [])]

/-- The file-scope variables of a server that holds `D` as its subnet
database. -/
def serving (D : ssa_db_raw) : ssa_globals :=
  { ACCESS_INTEGRATION := false, smdb := some D, prdb := none }
/-- The receive side and the database of the connection `c1` are those of
`c`. -/
def same_recv (c c1 : ssa_conn) : Prop :=
  c1.phase = c.phase ∧ c1.sindex = c.sindex ∧ c1.rbuf = c.rbuf ∧ c1.rsize = c.rsize ∧
  c1.roffset = c.roffset ∧ c1.ssa_db = c.ssa_db ∧ c1.dbtype = c.dbtype

/-- The server connection waits for a query in phase `phase` with send index
`sindex`: it has no receive block yet or an empty header block, and it serves
the subnet database of the file-scope variable. -/
def server_ready (C : ssa_msg_consts) (sconn : ssa_conn) (phase : ssa_db_phase)
    (sindex : Nat) : Prop :=
  sconn.phase = phase ∧ sconn.sindex = sindex ∧
  (sconn.rbuf = .null ∨
    (sconn.rbuf = .hdr ∧ sconn.rsize = C.hdr_size ∧ sconn.roffset = 0)) ∧
  sconn.ssa_db = none ∧ sconn.dbtype = SSA_CONN_SMDB_TYPE

/-- The client has the query for `op` in flight in phase `phase` with receive
index `rindex`, holds no receive block, and its database is `db`. -/
def client_ready (C : ssa_msg_consts) (svc : ssa_svc) (phase : ssa_db_phase)
    (rindex : Nat) (op : Nat) (db : ssa_db_raw) : Prop :=
  svc.conn_dataup.phase = phase ∧ svc.conn_dataup.rindex = rindex ∧
  svc.conn_dataup.rbuf = .null ∧ svc.conn_dataup.rhdr = none ∧
  svc.conn_dataup.sid < 4294967296 ∧
  last_hdr svc.conn_dataup.sent = some (ssa_upstream_send_query C op svc.conn_dataup.sid) ∧
  svc.conn_dataup.ssa_db = some db ∧ svc.db_updates = []

/-- The pointer under which the client keeps a payload of `len` bytes received
into a block at `addr`: the block, or for an empty payload the header block of
the message. -/
def recv_ptr (addr : Nat) (bytes : List uint8_t) (len : Nat) : void_ptr :=
  if len = 0 then .hdr else .blk ⟨addr, bytes⟩

/-- The server connection `sconn1` is `sconn` after one response: it waits for
the next query in phase `phase` with send index `sindex`, and its log has grown
by the `rsend` calls of one message with header `h` and payload `bytes`. -/
def server_answer (C : ssa_msg_consts) (sconn sconn1 : ssa_conn) (phase : ssa_db_phase)
    (sindex : Nat) (h : ssa_msg_hdr) (bytes : List uint8_t) : Prop :=
  server_ready C sconn1 phase sindex ∧
  ∃ rest, sconn1.sent = sconn.sent ++ ⟨.own h, 0, C.hdr_size, C.hdr_size⟩ :: rest ∧
    frames (⟨.own h, 0, C.hdr_size, C.hdr_size⟩ :: rest) = [(h, bytes)]

/-- The connection `c1` is `c` after a handler has answered a query: the phase
is `phase`, the send index is `sindex`, the receive offset is zero, the receive
block and the database are kept, the log has grown by the `rsend` calls of
one message with header `h` and payload `bytes`, and the send is complete
(`soffset == ssize`). -/
def handled (C : ssa_msg_consts) (c c1 : ssa_conn) (phase : ssa_db_phase) (sindex : Nat)
    (h : ssa_msg_hdr) (bytes : List uint8_t) : Prop :=
  c1.phase = phase ∧ c1.sindex = sindex ∧ c1.rbuf = c.rbuf ∧ c1.rsize = c.rsize ∧
  c1.roffset = 0 ∧ c1.ssa_db = c.ssa_db ∧ c1.dbtype = c.dbtype ∧
  ∃ rest, c1.sent = c.sent ++ ⟨.own h, 0, C.hdr_size, C.hdr_size⟩ :: rest ∧
    frames (⟨.own h, 0, C.hdr_size, C.hdr_size⟩ :: rest) = [(h, bytes)] ∧
    c1.soffset = c1.ssize

/-- The connection with a complete header in its receive block. -/
def with_hdr (C : ssa_msg_consts) (sconn : ssa_conn) : ssa_conn :=
  { sconn with rbuf := .hdr, rsize := C.hdr_size, roffset := C.hdr_size }

/-- The client connection with a complete header block and no header pointer
yet. -/
def got_hdr (C : ssa_msg_consts) (conn : ssa_conn) : ssa_conn :=
  { conn with rbuf := .hdr, rsize := C.hdr_size, roffset := C.hdr_size, rhdr := none }

/-- The operation is one of the five queries of a transfer. -/
def query_op (C : ssa_msg_consts) (op : Nat) : Prop :=
  op = C.SSA_MSG_DB_QUERY_DEF ∨ op = C.SSA_MSG_DB_QUERY_TBL_DEF ∨
  op = C.SSA_MSG_DB_QUERY_TBL_DEF_DATASET ∨ op = C.SSA_MSG_DB_QUERY_FIELD_DEF_DATASET ∨
  op = C.SSA_MSG_DB_QUERY_DATA_DATASET

/-- The state of a transfer between two rounds: the client has the query for
`op` in flight in phase `pc` with receive index `ri` and database `db`, the
server waits in phase `ps` with send index `si`, and the messages that the
server has sent show as `fr` on the wire. -/
def session_at (C : ssa_msg_consts) (st : ssa_svc × ssa_conn) (pc : ssa_db_phase)
    (ri op : Nat) (db : ssa_db_raw) (ps : ssa_db_phase) (si : Nat)
    (fr : List (Nat × Nat × Nat × List uint8_t)) : Prop :=
  client_ready C st.1 pc ri op db ∧ server_ready C st.2 ps si ∧
  (frames st.2.sent).map frame_view = fr

/-- The example constants with a dataset descriptor that declares sizes of
2 GiB and more: the size is the first byte of the descriptor plus `2 ^ 31`
times the second. -/
def big_msg_consts : ssa_msg_consts :=
  { example_msg_consts with
    db_dataset_set_size := fun d => (d.headD 0).val + 2147483648 * ((d.drop 1).headD 0).val }

/-- The example database with a table-definition dataset of `2 ^ 31` bytes. -/
def big_db : ssa_db_raw :=
  { example_db with
    db_table_def := ⟨1100, [0, 1, 0, 0]⟩
    p_def_tbl := .blk ⟨1200, List.replicate 2147483648 0⟩ }

/-- What an exchange shows of the server: the events returned, `soffset` and
`ssize`. -/
def server_view (r : (Nat × ssa_svc) × (Nat × ssa_conn)) : Nat × Nat × Nat :=
  (r.2.1, r.2.2.soffset, r.2.2.ssize)

/-- The calls of `rsend` that the server made in an exchange: offset, bytes
offered and the value of `int ret`. -/
def rsend_view (st : ssa_svc × ssa_conn) (r : (Nat × ssa_svc) × (Nat × ssa_conn)) :
    List (Nat × Nat × Int) :=
  (r.2.2.sent.drop st.2.sent.length).map fun c => (c.off, c.len, c.ret)

/-- What an exchange shows of the client: the phase, `roffset`, `rsize`,
whether the receive block is released, the number of databases published and
the number of queries sent in the exchange. -/
def client_view (st : ssa_svc × ssa_conn) (r : (Nat × ssa_svc) × (Nat × ssa_conn)) :
    ssa_db_phase × Nat × Nat × Bool × Nat × Nat :=
  (r.1.2.conn_dataup.phase, r.1.2.conn_dataup.roffset, r.1.2.conn_dataup.rsize,
    decide (r.1.2.conn_dataup.rbuf = .null), r.1.2.db_updates.length,
    r.1.2.conn_dataup.sent.length - st.1.conn_dataup.sent.length)

/-- Source: `smdb_lft_top_init`; the arguments are `uint16_t`. -/
def smdb_lft_top_init (lid lft_top : Nat) : smdb_lft_top :=
  { lid := htons lid, lft_top := htons lft_top }

/-- Source: `smdb_lft_block_init`; `lft` is the array `p_sw->lft`, from which
the `memcpy` takes the `UMAD_LEN_SMP_DATA` entries of the block. -/
def smdb_lft_block_init (lft : Nat → uint8_t) (lid block : Nat) : smdb_lft_block :=
  { lid := htons lid
    block_num := htons block
    block := fun j => lft (block * UMAD_LEN_SMP_DATA + j.val) }

/-- The port record carries the switch bit in its `rate` byte. -/
def is_switch_port (C : ssa_pr_consts) (r : smdb_port) : Prop :=
  r.rate.val &&& C.SSA_DB_PORT_IS_SWITCH_MASK ≠ 0

/-- The port record `r1` has the key of `r`: the LID, and for a switch port
the port number as well. -/
def same_port_key (C : ssa_pr_consts) (r r1 : smdb_port) : Prop :=
  r1.port_lid = r.port_lid ∧ (is_switch_port C r → r1.port_num = r.port_num)

/-- An LFT with entry 2 equal to 3, as in scenario S1. -/
def S1_lft : Nat → uint8_t := fun d => if d = 2 then 3 else 0

/-- The database of scenario S1 with the LFT records written by
`smdb_lft_top_init (1, 2)` and `smdb_lft_block_init (sw, 1, 0)`, followed by a
second LFT top record of LID 1 with top 0. -/
def two_tops_smdb : ssa_db :=
  { S1_full with
    lft_top := [smdb_lft_top_init 1 2, smdb_lft_top_init 1 0]
    lft_block := [smdb_lft_block_init S1_lft 1 0] }

/-- The database of scenario S1 with the LFT records written by
`smdb_lft_top_init (1, 2)` and `smdb_lft_block_init (sw, 1, 0)`. -/
def S1_init_smdb : ssa_db :=
  { S1_full with
    lft_top := [smdb_lft_top_init 1 2]
    lft_block := [smdb_lft_block_init S1_lft 1 0] }

/-!
# The field descriptors of the subnet database

The static table `field_tbl` of `plugin/src/ssa_smdb.c`.  The structure
`struct db_field_def` and the enumerators that the initialisers name are
declared in headers that are not part of the sources: the enumerators are the
fields of `smdb_consts`, and an initialiser is read by position.  The entry
`[SMDB_FIELDS] = { DB_VERSION_INVALID }` that ends the table is not a field
descriptor and is left out.
-/

/-- The enumerators named by the initialisers of `field_tbl`. -/
structure smdb_consts where
  DBF_DEF_VERSION : Nat
  DBF_TYPE_U8 : Nat
  DBF_TYPE_NET16 : Nat
  DBF_TYPE_NET64 : Nat
  IB_NODE_DESCRIPTION_SIZE : Nat
  SMDB_TBL_ID_MAX : Nat
  SMDB_TBL_ID_SUBNET_OPTS : Nat
  SMDB_TBL_ID_GUID2LID : Nat
  SMDB_TBL_ID_NODE : Nat
  SMDB_TBL_ID_LINK : Nat
  SMDB_TBL_ID_PORT : Nat
  SMDB_TBL_ID_LFT_TOP : Nat
  SMDB_TBL_ID_LFT_BLOCK : Nat
  SMDB_FIELD_ID_SUBNET_OPTS_CHANGE_MASK : Nat
  SMDB_FIELD_ID_SUBNET_OPTS_SUBNET_PREFIX : Nat
  SMDB_FIELD_ID_SUBNET_OPTS_SM_STATE : Nat
  SMDB_FIELD_ID_SUBNET_OPTS_LMC : Nat
  SMDB_FIELD_ID_SUBNET_OPTS_SUBNET_TIMEOUT : Nat
  SMDB_FIELD_ID_SUBNET_OPTS_ALLOW_BOTH_PKEYS : Nat
  SMDB_FIELD_ID_GUID2LID_GUID : Nat
  SMDB_FIELD_ID_GUID2LID_LID : Nat
  SMDB_FIELD_ID_GUID2LID_LMC : Nat
  SMDB_FIELD_ID_GUID2LID_IS_SWITCH : Nat
  SMDB_FIELD_ID_NODE_NODE_GUID : Nat
  SMDB_FIELD_ID_NODE_IS_ENHANCED_SP0 : Nat
  SMDB_FIELD_ID_NODE_NODE_TYPE : Nat
  SMDB_FIELD_ID_LINK_FROM_LID : Nat
  SMDB_FIELD_ID_LINK_TO_LID : Nat
  SMDB_FIELD_ID_LINK_FROM_PORT_NUM : Nat
  SMDB_FIELD_ID_LINK_TO_PORT_NUM : Nat
  SMDB_FIELD_ID_PORT_PKEY_TBL_OFFSET : Nat
  SMDB_FIELD_ID_PORT_PKEY_TBL_SIZE : Nat
  SMDB_FIELD_ID_PORT_PORT_LID : Nat
  SMDB_FIELD_ID_PORT_PORT_NUM : Nat
  SMDB_FIELD_ID_PORT_MTU_CAP : Nat
  SMDB_FIELD_ID_PORT_RATE : Nat
  SMDB_FIELD_ID_PORT_VL_ENFORCE : Nat
  SMDB_FIELD_ID_LFT_TOP_LID : Nat
  SMDB_FIELD_ID_LFT_TOP_LFT_TOP : Nat
  SMDB_FIELD_ID_LFT_BLOCK_LID : Nat
  SMDB_FIELD_ID_LFT_BLOCK_BLOCK_NUM : Nat
  SMDB_FIELD_ID_LFT_BLOCK_BLOCK : Nat

/-- The identifier `{ db, table, field }` of a descriptor. -/
structure db_id where
  db : Nat
  table : Nat
  field : Nat
deriving DecidableEq

/-- A field descriptor, `struct db_field_def`, with its members in the order
of the initialisers. -/
structure db_field_def where
  version : Nat
  size : Nat
  type : Nat
  pad : Nat
  id : db_id
  name : String
  field_size : be32_t
  field_offset : be32_t
deriving DecidableEq

/-- One initialiser of `field_tbl`:
`{ DBF_DEF_VERSION, 0, type, 0, { 0, SMDB_TBL_ID_MAX + table, field }, name,
__constant_htonl(bits), __constant_htonl(offset) }`. -/
def field_entry (C : smdb_consts) (type table field : Nat) (name : String)
    (bits offset : Nat) : db_field_def :=
  { version := C.DBF_DEF_VERSION, size := 0, type := type, pad := 0,
    id := { db := 0, table := C.SMDB_TBL_ID_MAX + table, field := field },
    name := name, field_size := htonl bits, field_offset := htonl offset }

/-- The table `field_tbl`, entry by entry. -/
def field_tbl (C : smdb_consts) : List db_field_def :=
  [field_entry C C.DBF_TYPE_NET64 C.SMDB_TBL_ID_SUBNET_OPTS
     C.SMDB_FIELD_ID_SUBNET_OPTS_CHANGE_MASK "change_mask" 64 0,
   field_entry C C.DBF_TYPE_NET64 C.SMDB_TBL_ID_SUBNET_OPTS
     C.SMDB_FIELD_ID_SUBNET_OPTS_SUBNET_PREFIX "subnet_prefix" 64 64,
   field_entry C C.DBF_TYPE_U8 C.SMDB_TBL_ID_SUBNET_OPTS
     C.SMDB_FIELD_ID_SUBNET_OPTS_SM_STATE "sm_state" 8 128,
   field_entry C C.DBF_TYPE_U8 C.SMDB_TBL_ID_SUBNET_OPTS
     C.SMDB_FIELD_ID_SUBNET_OPTS_LMC "lmc" 8 136,
   field_entry C C.DBF_TYPE_U8 C.SMDB_TBL_ID_SUBNET_OPTS
     C.SMDB_FIELD_ID_SUBNET_OPTS_SUBNET_TIMEOUT "subnet_timeout" 8 144,
   field_entry C C.DBF_TYPE_U8 C.SMDB_TBL_ID_SUBNET_OPTS
     C.SMDB_FIELD_ID_SUBNET_OPTS_ALLOW_BOTH_PKEYS "allow_both_pkeys" 8 152,
   field_entry C C.DBF_TYPE_NET64 C.SMDB_TBL_ID_GUID2LID
     C.SMDB_FIELD_ID_GUID2LID_GUID "guid" 64 0,
   field_entry C C.DBF_TYPE_NET16 C.SMDB_TBL_ID_GUID2LID
     C.SMDB_FIELD_ID_GUID2LID_LID "lid" 16 64,
   field_entry C C.DBF_TYPE_U8 C.SMDB_TBL_ID_GUID2LID
     C.SMDB_FIELD_ID_GUID2LID_LMC "lmc" 8 80,
   field_entry C C.DBF_TYPE_U8 C.SMDB_TBL_ID_GUID2LID
     C.SMDB_FIELD_ID_GUID2LID_IS_SWITCH "is_switch" 8 88,
   field_entry C C.DBF_TYPE_NET64 C.SMDB_TBL_ID_NODE
     C.SMDB_FIELD_ID_NODE_NODE_GUID "node_guid" 64 0,
   field_entry C C.DBF_TYPE_U8 C.SMDB_TBL_ID_NODE
     C.SMDB_FIELD_ID_NODE_IS_ENHANCED_SP0 "is_enhanced_sp0" 8 64,
   field_entry C C.DBF_TYPE_U8 C.SMDB_TBL_ID_NODE
     C.SMDB_FIELD_ID_NODE_NODE_TYPE "node_type" 8 72,
   field_entry C C.DBF_TYPE_U8 C.SMDB_TBL_ID_NODE
     C.SMDB_FIELD_ID_NODE_IS_ENHANCED_SP0 "description"
     (8 * C.IB_NODE_DESCRIPTION_SIZE) 80,
   field_entry C C.DBF_TYPE_NET16 C.SMDB_TBL_ID_LINK
     C.SMDB_FIELD_ID_LINK_FROM_LID "from_lid" 16 0,
   field_entry C C.DBF_TYPE_NET16 C.SMDB_TBL_ID_LINK
     C.SMDB_FIELD_ID_LINK_TO_LID "to_lid" 16 16,
   field_entry C C.DBF_TYPE_U8 C.SMDB_TBL_ID_LINK
     C.SMDB_FIELD_ID_LINK_FROM_PORT_NUM "from_port_num" 8 32,
   field_entry C C.DBF_TYPE_U8 C.SMDB_TBL_ID_LINK
     C.SMDB_FIELD_ID_LINK_TO_PORT_NUM "to_port_num" 8 40,
   field_entry C C.DBF_TYPE_NET64 C.SMDB_TBL_ID_PORT
     C.SMDB_FIELD_ID_PORT_PKEY_TBL_OFFSET "pkey_tbl_offset" 64 0,
   field_entry C C.DBF_TYPE_NET16 C.SMDB_TBL_ID_PORT
     C.SMDB_FIELD_ID_PORT_PKEY_TBL_SIZE "pkey_tbl_size" 16 64,
   field_entry C C.DBF_TYPE_NET16 C.SMDB_TBL_ID_PORT
     C.SMDB_FIELD_ID_PORT_PORT_LID "port_lid" 16 80,
   field_entry C C.DBF_TYPE_U8 C.SMDB_TBL_ID_PORT
     C.SMDB_FIELD_ID_PORT_PORT_NUM "port_num" 8 96,
   field_entry C C.DBF_TYPE_U8 C.SMDB_TBL_ID_PORT
     C.SMDB_FIELD_ID_PORT_MTU_CAP "mtu_cap" 8 104,
   field_entry C C.DBF_TYPE_U8 C.SMDB_TBL_ID_PORT
     C.SMDB_FIELD_ID_PORT_RATE "rate" 8 112,
   field_entry C C.DBF_TYPE_U8 C.SMDB_TBL_ID_PORT
     C.SMDB_FIELD_ID_PORT_VL_ENFORCE "vl_enforce" 8 120,
   field_entry C C.DBF_TYPE_NET16 C.SMDB_TBL_ID_LFT_TOP
     C.SMDB_FIELD_ID_LFT_TOP_LID "lid" 16 0,
   field_entry C C.DBF_TYPE_NET16 C.SMDB_TBL_ID_LFT_TOP
     C.SMDB_FIELD_ID_LFT_TOP_LFT_TOP "lft_top" 16 16,
   field_entry C C.DBF_TYPE_NET16 C.SMDB_TBL_ID_LFT_BLOCK
     C.SMDB_FIELD_ID_LFT_BLOCK_LID "lid" 16 0,
   field_entry C C.DBF_TYPE_NET16 C.SMDB_TBL_ID_LFT_BLOCK
     C.SMDB_FIELD_ID_LFT_BLOCK_BLOCK_NUM "block_num" 16 16,
   field_entry C C.DBF_TYPE_U8 C.SMDB_TBL_ID_LFT_BLOCK
     C.SMDB_FIELD_ID_LFT_BLOCK_BLOCK "block" (8 * UMAD_LEN_SMP_DATA) 32]

/-- The pair (table id, field id) of a field descriptor. -/
def field_key (f : db_field_def) : Nat × Nat := (f.id.table, f.id.field)

/-!
# The control paths of a service in `shared/ssa.c`

The join state machine (`ssa_upstream_dev_event`, `ssa_upstream_mad`,
`ssa_svc_join`), the routing of datagrams by transaction id (`ssa_svc_tid`,
`ssa_svc_from_tid`), the start and stop of the workers (`ssa_start_svc`,
`ssa_stop_svc`) and the database updates of the downstream worker.

* `struct ssa_svc` and `struct ssa_port` are declared in a header that is not
  part of the sources.  `ssa_svc_ctrl` holds the fields that these paths read
  and write; `timeout` is taken to be an `int` of 32 bits, and the width of the
  counter `tid` is the parameter `tid_mod` of the message constants.
* `umad_send`, `pthread_create` and the `read` of an acknowledgement are calls
  into the environment; their results are arguments.  The calls of `umad_send`
  and the calls on threads are kept in lists, oldest first.
* A pointer to a service is its address, a natural number.
-/

/-- The service states, `enum ssa_svc_state` of `include/common.h`. -/
inductive ssa_svc_state
  | SSA_STATE_IDLE
  | SSA_STATE_JOINING
  | SSA_STATE_FATAL_ERROR
  | SSA_STATE_ORPHAN
  | SSA_STATE_HAVE_PARENT
  | SSA_STATE_CONNECTING
  | SSA_STATE_CONNECTED
  | SSA_STATE_NO_BACKUP
  | SSA_STATE_HAVE_BACKUP
deriving DecidableEq

open ssa_svc_state

/-- The macro `DEFAULT_TIMEOUT`. -/
def DEFAULT_TIMEOUT : Int := 1000

/-- The macro `MAX_TIMEOUT`, which expands to `120 * DEFAULT_TIMEOUT`. -/
def MAX_TIMEOUT : Int := 120 * DEFAULT_TIMEOUT

/-- The macro `min` of a header outside the sources, with its usual
expansion `((a) < (b) ? (a) : (b))`. -/
def min_int (a b : Int) : Int := if a < b then a else b

/-- The value of `x << 1` for an `int` of 32 bits, in two's complement. -/
def shl1_int (x : Int) : Int := (x * 2 + 2147483648) % 4294967296 - 2147483648

/-- Constants of the control paths whose declarations are not part of the
sources. -/
structure ssa_ctrl_consts where
  /-- size of the array `fd_to_conn` -/
  FD_SETSIZE : Nat
  /-- attribute id of an InfoRecord -/
  SSA_ATTR_INFO_REC : Nat
  /-- the node type of a consumer -/
  SSA_NODE_CONSUMER : Nat
  /-- the bit of the access role in a node type -/
  SSA_NODE_ACCESS : Nat

/-- The events that `ssa_upstream_dev_event` distinguishes; every other event
type is `other`. -/
inductive ibv_event_type
  | IBV_EVENT_CLIENT_REREGISTER
  | IBV_EVENT_PORT_ERR
  | IBV_EVENT_PORT_ACTIVE
  | other
deriving DecidableEq

/-- One call of `umad_send`: a join request with the timeout passed and the
value returned, or the GET_RESP that acknowledges an InfoRecord. -/
inductive umad_send_call
  | join (timeout : Int) (ret : Int)
  | get_resp
deriving DecidableEq

/-- The fields of `struct ssa_svc` that the control paths use, with the log
`umad_sends` of the calls of `umad_send`, which is not a field of the C
structure. -/
structure ssa_svc_ctrl where
  /-- position of the service in `port->svc` -/
  index : Nat
  /-- transaction counter -/
  tid : Nat
  /-- state of the join state machine -/
  state : ssa_svc_state
  /-- timeout of the join request, in milliseconds -/
  timeout : Int
  /-- path data of the parent -/
  primary_parent : List uint8_t
  /-- the test `svc->port->state == IBV_PORT_ACTIVE` -/
  port_active : Bool
  /-- `svc->port->dev->ssa->node_type` -/
  node_type : Nat
  /-- listening connection for SMDB -/
  conn_listen_smdb : ssa_conn
  /-- listening connection for PRDB -/
  conn_listen_prdb : ssa_conn
  /-- data connection to the parent -/
  conn_dataup : ssa_conn
  /-- connections of the downstream worker by socket -/
  fd_to_conn : Nat → Option ssa_conn
  /-- the calls of `umad_send`, oldest first -/
  umad_sends : List umad_send_call

/-- A 64-bit value in network byte order. -/
abbrev be64_t := Fin 18446744073709551616

/-- Host to network byte order for 64-bit values on a little-endian host: the
two halves are swapped and each is converted with `htonl`; the argument is
narrowed to 64 bits. -/
def htonll (x : Nat) : be64_t :=
  ⟨(htonl (x % 4294967296)).val * 4294967296 + (htonl (x / 4294967296 % 4294967296)).val,
    by
      have h1 := (htonl (x % 4294967296)).isLt
      have h2 := (htonl (x / 4294967296 % 4294967296)).isLt
      omega⟩

/-- Network to host byte order for 64-bit values on a little-endian host. -/
def ntohll (y : be64_t) : Nat :=
  ntohl ⟨y.val % 4294967296, Nat.mod_lt _ (by decide)⟩ * 4294967296 +
    ntohl ⟨y.val / 4294967296, by have hy := y.isLt; omega⟩

/-- Source: `ssa_svc_tid`; the result pairs the transaction id with the
service after `svc->tid++`. -/
def ssa_svc_tid (C : ssa_msg_consts) (svc : ssa_svc_ctrl) : be64_t × ssa_svc_ctrl :=
  (htonll (((svc.index <<< 16) % 18446744073709551616) ||| svc.tid),
    { svc with tid := (svc.tid + 1) % C.tid_mod })

/-- Source: `ssa_svc_join`; `ret` is the result of `umad_send`.  The header of
the join request takes its transaction id from `ssa_svc_tid` (through
`ssa_init_join` and `ssa_init_mad_hdr`), which advances the counter. -/
def ssa_svc_join (M : ssa_msg_consts) (svc : ssa_svc_ctrl) (ret : Int) : ssa_svc_ctrl :=
  let s0 : ssa_svc_ctrl := (ssa_svc_tid M svc).2
  let s1 : ssa_svc_ctrl :=
    { s0 with
      state := SSA_STATE_JOINING
      umad_sends := s0.umad_sends ++ [.join s0.timeout ret] }
  if ret ≠ 0 then { s1 with state := SSA_STATE_IDLE } else s1

/-- The lines `if (conn.rsock >= 0) ssa_close_ssa_conn(&conn)`. -/
def close_if_open (conn : ssa_conn) : ssa_conn :=
  if 0 ≤ conn.rsock then ssa_close_ssa_conn conn else conn

/-- The first part of the case `IBV_EVENT_PORT_ERR` of
`ssa_upstream_dev_event`: the connections are closed and the state is IDLE. -/
def port_err_reset (C : ssa_ctrl_consts) (svc : ssa_svc_ctrl) : ssa_svc_ctrl :=
  { svc with
    conn_listen_smdb := close_if_open svc.conn_listen_smdb
    conn_listen_prdb := close_if_open svc.conn_listen_prdb
    conn_dataup := close_if_open svc.conn_dataup
    fd_to_conn :=
      if svc.node_type ≠ C.SSA_NODE_CONSUMER then
        fun i =>
          if i < C.FD_SETSIZE then
            match svc.fd_to_conn i with
            | some c => if 0 ≤ c.rsock then none else some c
            | none => none
          else svc.fd_to_conn i
      else svc.fd_to_conn
    state := SSA_STATE_IDLE }

/-- The case `IBV_EVENT_PORT_ACTIVE` of `ssa_upstream_dev_event`, into which
the case `IBV_EVENT_PORT_ERR` falls through. -/
def port_activate (M : ssa_msg_consts) (svc : ssa_svc_ctrl) (ret : Int) : ssa_svc_ctrl :=
  if svc.port_active = true ∧ svc.state = SSA_STATE_IDLE then
    ssa_svc_join M { svc with timeout := DEFAULT_TIMEOUT } ret
  else svc

/-- Source: `ssa_upstream_dev_event`; `ret` is the result of the `umad_send`
of the join request, should one be sent. -/
def ssa_upstream_dev_event (M : ssa_msg_consts) (C : ssa_ctrl_consts) (svc : ssa_svc_ctrl)
    (event : ibv_event_type) (ret : Int) : ssa_svc_ctrl :=
  match event with
  | .IBV_EVENT_CLIENT_REREGISTER => port_activate M (port_err_reset C svc) ret
  | .IBV_EVENT_PORT_ERR => port_activate M (port_err_reset C svc) ret
  | .IBV_EVENT_PORT_ACTIVE => port_activate M svc ret
  | .other => svc

/-- What `ssa_upstream_mad` reads of the datagram in `msg->data.umad`. -/
structure ssa_umad where
  /-- `umad.status` -/
  status : Int
  /-- `packet.mad_hdr.attr_id`, in network byte order -/
  attr_id : be16_t
  /-- the path data of the InfoRecord in `packet.data` -/
  path_data : List uint8_t

/-- Source: `ssa_upstream_mad`; `ret` is the result of the `umad_send` of the
join request, should one be sent. -/
def ssa_upstream_mad (M : ssa_msg_consts) (C : ssa_ctrl_consts) (svc : ssa_svc_ctrl)
    (umad : ssa_umad) (ret : Int) : ssa_svc_ctrl :=
  if svc.state = SSA_STATE_IDLE then { svc with timeout := DEFAULT_TIMEOUT }
  else if umad.status ≠ 0 then
    if svc.state ≠ SSA_STATE_JOINING then svc
    else
      ssa_svc_join M { svc with timeout := min_int (shl1_int svc.timeout) MAX_TIMEOUT } ret
  else
    let s1 : ssa_svc_ctrl := { svc with timeout := DEFAULT_TIMEOUT }
    let s2 : ssa_svc_ctrl :=
      if s1.state = SSA_STATE_JOINING then { s1 with state := SSA_STATE_ORPHAN } else s1
    if ntohs umad.attr_id ≠ C.SSA_ATTR_INFO_REC then s2
    else
      let s3 : ssa_svc_ctrl := { s2 with umad_sends := s2.umad_sends ++ [.get_resp] }
      match s3.state with
      | SSA_STATE_ORPHAN =>
        { s3 with state := SSA_STATE_HAVE_PARENT, primary_parent := umad.path_data }
      | SSA_STATE_HAVE_PARENT => { s3 with primary_parent := umad.path_data }
      | _ => s3

/-- An event of the upstream worker on its control socket: a device event or
a datagram, each with the result of the `umad_send` that handling it may
issue. -/
inductive ctrl_event
  | dev (event : ibv_event_type) (ret : Int)
  | mad (umad : ssa_umad) (ret : Int)

/-- The service after one event. -/
def ctrl_step (M : ssa_msg_consts) (C : ssa_ctrl_consts) (svc : ssa_svc_ctrl) :
    ctrl_event → ssa_svc_ctrl
  | .dev event ret => ssa_upstream_dev_event M C svc event ret
  | .mad umad ret => ssa_upstream_mad M C svc umad ret

/-- The service after a sequence of events. -/
def ctrl_run (M : ssa_msg_consts) (C : ssa_ctrl_consts) (svc : ssa_svc_ctrl)
    (evs : List ctrl_event) : ssa_svc_ctrl :=
  evs.foldl (ctrl_step M C) svc

/-- The event is a failed join send that arrives while the rejoin can be
sent: a datagram with an error status, the `umad_send` of the next join
request returning 0. -/
def is_join_failure : ctrl_event → Prop
  | .mad umad ret => umad.status ≠ 0 ∧ ret = 0
  | .dev _ _ => False

/-- Example values of the control constants. -/
def example_ctrl_consts : ssa_ctrl_consts :=
  { FD_SETSIZE := 1024, SSA_ATTR_INFO_REC := 4097, SSA_NODE_CONSUMER := 8,
    SSA_NODE_ACCESS := 4 }

/-- A service in state IDLE on an active port, as `ssa_start_svc` leaves it,
with index `index` and transaction counter `tid`. -/
def example_ctrl_svc (index tid : Nat) : ssa_svc_ctrl :=
  { index := index, tid := tid, state := SSA_STATE_IDLE, timeout := 0,
    primary_parent := [], port_active := true, node_type := 4,
    conn_listen_smdb := blank_conn SSA_CONN_TYPE_UPSTREAM SSA_CONN_SMDB_TYPE,
    conn_listen_prdb := blank_conn SSA_CONN_TYPE_UPSTREAM SSA_CONN_PRDB_TYPE,
    conn_dataup := blank_conn SSA_CONN_TYPE_UPSTREAM SSA_CONN_NODB_TYPE,
    fd_to_conn := fun _ => none, umad_sends := [] }

/-- A datagram that reports a failed send (status `ETIMEDOUT`). -/
def timeout_umad : ssa_umad := { status := 110, attr_id := 0, path_data := [] }

/-- The response to a join request: no error status, not an InfoRecord. -/
def join_ack_umad : ssa_umad := { status := 0, attr_id := htons 4096, path_data := [] }

/-- An InfoRecord with the path data 1, 2, 3. -/
def info_rec_umad : ssa_umad :=
  { status := 0, attr_id := htons 4097, path_data := [1, 2, 3] }

/-- The example service in state JOINING with the given timeout. -/
def example_joining_svc (timeout : Int) : ssa_svc_ctrl :=
  { example_ctrl_svc 0 0 with state := SSA_STATE_JOINING, timeout := timeout }

/-- The example service in state ORPHAN. -/
def example_orphan_svc : ssa_svc_ctrl :=
  { example_ctrl_svc 0 0 with state := SSA_STATE_ORPHAN, timeout := 1000 }

/-- An InfoRecord that comes back with an error status (`ETIMEDOUT`). -/
def failed_info_rec_umad : ssa_umad :=
  { status := 110, attr_id := htons 4097, path_data := [1, 2, 3] }

/-- The fields `svc_cnt` and `svc` of `struct ssa_port`: the number of
services and the array of pointers to them. -/
structure ssa_port where
  svc_cnt : Nat
  svc : Nat → Option Nat

/-- Source: `ssa_svc_from_tid`; the result is the pointer found, `none` for
NULL. -/
def ssa_svc_from_tid (port : ssa_port) (tid : be64_t) : Option Nat :=
  let index := (ntohll tid >>> 16) % 65536
  if index < port.svc_cnt then port.svc index else none

/-- The service after `n` calls of `ssa_svc_tid`. -/
def tid_calls (C : ssa_msg_consts) : Nat → ssa_svc_ctrl → ssa_svc_ctrl
  | 0, svc => svc
  | n + 1, svc => tid_calls C n (ssa_svc_tid C svc).2

/-- A port with two services, at the addresses 4100 and 4200. -/
def example_port : ssa_port :=
  { svc_cnt := 2, svc := fun i => if i = 0 then some 4100 else if i = 1 then some 4200 else none }

/-! # Starting and stopping the worker threads of a service -/

/-- The three worker threads of a service: the fields `upstream`, `downstream`
and `access` of `struct ssa_svc`. -/
inductive ssa_worker
  | upstream
  | downstream
  | access
  deriving DecidableEq, Repr

/-- A call of `pthread_create` or of `pthread_join` on a worker thread. -/
inductive thread_call
  | create (w : ssa_worker)
  | join (w : ssa_worker)
  deriving DecidableEq, Repr

/-- What `ssa_start_svc` meets when it starts a worker: the result of
`pthread_create`, and whether the following `read` of the control socket gave
a whole message of type `SSA_CTRL_ACK`. -/
structure start_env where
  create_ret : ssa_worker → Int
  ack : ssa_worker → Bool

/-- Source: `ssa_start_svc`, the block that starts the access worker, with the
labels `err11`, `err10` and `err9`; `log` holds the thread calls made before. -/
def start_access (C : ssa_ctrl_consts) (node_type : Nat) (E : start_env)
    (log : List thread_call) : Bool × List thread_call :=
  let err9 := [thread_call.join .upstream]
  let err10 := thread_call.join .downstream :: err9
  let err11 := thread_call.join .access :: err10
  if node_type &&& C.SSA_NODE_ACCESS ≠ 0 then
    if E.create_ret .access ≠ 0 then (false, log ++ err10)
    else
      let log := log ++ [thread_call.create .access]
      if E.ack .access = false then (false, log ++ err11)
      else (true, log)
  else (true, log)

/-- Source: `ssa_start_svc`, from the first `pthread_create` to the labels
`err11`, `err10` and `err9`; the socket pairs are taken as created.  The
result tells whether the service was started and lists the thread calls in
the order made. -/
def ssa_start_svc (C : ssa_ctrl_consts) (node_type : Nat) (E : start_env) :
    Bool × List thread_call :=
  let err9 := [thread_call.join .upstream]
  let err10 := thread_call.join .downstream :: err9
  if E.create_ret .upstream ≠ 0 then (false, [])
  else
    let log := [thread_call.create .upstream]
    if E.ack .upstream = false then (false, log ++ err9)
    else if node_type ≠ C.SSA_NODE_CONSUMER then
      if E.create_ret .downstream ≠ 0 then (false, log ++ err9)
      else
        let log := log ++ [thread_call.create .downstream]
        if E.ack .downstream = false then (false, log ++ err10)
        else start_access C node_type E log
    else start_access C node_type E log

/-- Source: `ssa_stop_svc`, the calls of `pthread_join` in the order made. -/
def ssa_stop_svc (C : ssa_ctrl_consts) (node_type : Nat) : List thread_call :=
  [thread_call.join .upstream] ++
  (if node_type &&& C.SSA_NODE_ACCESS ≠ 0 then [thread_call.join .access] else []) ++
  (if node_type ≠ C.SSA_NODE_CONSUMER then [thread_call.join .downstream] else [])

/-- The workers created by a list of thread calls, in order. -/
def started (calls : List thread_call) : List ssa_worker :=
  calls.filterMap fun c => match c with
    | .create w => some w
    | .join _ => none

/-- The workers joined by a list of thread calls, in order. -/
def joined (calls : List thread_call) : List ssa_worker :=
  calls.filterMap fun c => match c with
    | .create _ => none
    | .join w => some w

/-- Every `pthread_create` succeeds and every worker acknowledges. -/
def start_ok : start_env :=
  { create_ret := fun _ => 0, ack := fun _ => true }

/-! # The loop of the downstream worker -/

/-- The state that the loop of `ssa_downstream_handler` works on: the array
`svc->fd_to_conn` and the file-scope variables. -/
structure downstream_state where
  /-- connections by socket -/
  fd_to_conn : Nat → Option ssa_conn
  /-- the variables `smdb` and `prdb` -/
  G : ssa_globals

/-- What one turn of the loop of `ssa_downstream_handler` handles: a message
of the access worker, a message of the upstream or of the extract worker, or
events on the socket `fd` of a data slot. -/
inductive downstream_event
  /-- message of type `SSA_DB_UPDATE` on `sock_accessdown` -/
  | access_update (rsock : Int) (db : Option ssa_db_raw)
  /-- message of another type on `sock_accessdown` -/
  | access_other
  /-- message of type `SSA_DB_UPDATE` on `sock_updown` or `sock_extractdown` -/
  | upstream_update (db : Option ssa_db_raw)
  /-- message of another type on `sock_updown` or `sock_extractdown` -/
  | upstream_other
  /-- events `revents` on the data socket `fd` -/
  | data (fd : Nat) (revents : Nat) (E : env)

/-- Source: the body of the loop of `ssa_downstream_handler` for one event.
The result is `none` where the code reads `fd_to_conn` outside its
`FD_SETSIZE` entries or where the step on the connection has no defined
result. -/
def ssa_downstream_handler_step (C : ssa_msg_consts) (K : ssa_ctrl_consts)
    (st : downstream_state) : downstream_event → Option downstream_state
  | .access_update rsock db =>
    if 0 ≤ rsock ∧ rsock.toNat < K.FD_SETSIZE then
      match st.fd_to_conn rsock.toNat with
      | some c =>
        some { st with
               fd_to_conn :=
                 Function.update st.fd_to_conn rsock.toNat (some { c with ssa_db := db }) }
      | none => some st
    else none
  | .access_other => some st
  | .upstream_update db => some { st with G := { st.G with smdb := db } }
  | .upstream_other => some st
  | .data fd revents E =>
    if fd < K.FD_SETSIZE then
      match st.fd_to_conn fd with
      | some c =>
        match ssa_downstream_handle_rsock_revents C st.G c revents E with
        | some r => some { st with fd_to_conn := Function.update st.fd_to_conn fd (some r.2) }
        | none => none
      | none => some st
    else none

/-- The loop of `ssa_downstream_handler` over a list of events. -/
def downstream_run (C : ssa_msg_consts) (K : ssa_ctrl_consts) :
    downstream_state → List downstream_event → Option downstream_state
  | st, [] => some st
  | st, e :: es =>
    match ssa_downstream_handler_step C K st e with
    | some st1 => downstream_run C K st1 es
    | none => none

/-- The event is a database update of the access worker for socket `r`. -/
def updates_slot (r : Nat) : downstream_event → Prop
  | .access_update rsock _ => rsock.toNat = r
  | _ => False

/-- The receive block of a connection of the downstream worker: NULL or a
header block. -/
def server_rbuf (c : ssa_conn) : Prop := c.rbuf = .null ∨ c.rbuf = .hdr

/-- The fields of a connection that select its database are those of `c`. -/
def db_kept (c c1 : ssa_conn) : Prop :=
  c1.ssa_db = c.ssa_db ∧ c1.dbtype = c.dbtype ∧ c1.rbuf = c.rbuf

/-- A database derived for one peer, with one data table. -/
def derived_db : ssa_db_raw :=
  { db_def := ⟨3000, [9, 8, 7, 6, 5, 4, 3, 2]⟩
    db_table_def := ⟨3100, [1, 0, 0, 0]⟩
    p_def_tbl := .blk ⟨3200, [5]⟩
    p_db_field_tables := .blk ⟨3300, [1, 0, 0, 0]⟩
    pp_field_tables := some (fun i => if i = 0 then .blk ⟨3400, [41]⟩ else .null)
    p_db_tables := .blk ⟨3600, [1, 0, 0, 0]⟩
    pp_tables := some (fun i => if i = 0 then .blk ⟨3700, [51]⟩ else .null)
    data_tbl_cnt := 1 }

/-- The downstream worker of a node whose subnet database is the example
database, with one idle connection for path-record data on socket 7. -/
def example_downstream : downstream_state :=
  { fd_to_conn := fun i =>
      if i = 7 then
        some { example_server_conn SSA_DB_IDLE with dbtype := SSA_CONN_PRDB_TYPE }
      else none
    G := example_globals }

/-! # The bytes that a connection puts on the wire -/

/-- A byte accepted by the transport: byte `i` of the header `h`, or a byte of
a payload. -/
inductive wire_byte
  | hdr (h : ssa_msg_hdr) (i : Nat)
  | data (b : uint8_t)
  deriving DecidableEq

/-- The bytes that the transport accepted in one call of `rsend`: the first
`ret` bytes offered. -/
def wire_bytes (c : rsend_call) : List wire_byte :=
  match c.buf with
  | .own h => (List.range c.ret.toNat).map fun i => .hdr h (c.off + i)
  | .ptr (.blk b) => ((b.data.drop c.off).take c.ret.toNat).map .data
  | _ => []

/-- The bytes that the transport accepted over a log of `rsend` calls. -/
def wire_stream : List rsend_call → List wire_byte
  | [] => []
  | c :: rest => wire_bytes c ++ wire_stream rest

/-- A response as it is transmitted when every write completes: the bytes of
the header, then the payload. -/
def response_bytes (C : ssa_msg_consts) (h : ssa_msg_hdr) (payload : List uint8_t) :
    List wire_byte :=
  ((List.range C.hdr_size).map fun i => .hdr h i) ++ payload.map .data

/-- The calls of `ssa_downstream_handle_rsock_revents` on one connection for a
list of poll results, each with the environment of its call. -/
def downstream_steps (C : ssa_msg_consts) (G : ssa_globals) :
    ssa_conn → List (Nat × env) → Option ssa_conn
  | conn, [] => some conn
  | conn, (revents, E) :: rest =>
    match ssa_downstream_handle_rsock_revents C G conn revents E with
    | some r => downstream_steps C G r.2 rest
    | none => none

/-- The query of the client for the next data dataset, with correlator 9. -/
def data_query : ssa_msg_hdr := ssa_init_ssa_msg_hdr example_msg_consts 5 32 0 9

/-- An environment in which the transport accepts only 10 bytes of a header
and every other call handles all its bytes. -/
def short_hdr_env (hdr : ssa_msg_hdr) : env :=
  { complete_env hdr [] with rsend_res := fun _ => 10 }

/-- A server connection in the data phase that has sent the first of the two
data datasets of the example database. -/
def data_phase_conn : ssa_conn :=
  { example_server_conn SSA_DB_DATA with sindex := 1 }

/-! # Theorems -/

/-! ## Byte order -/

theorem ntohs_lt (x : be16_t) : ntohs x < 65536 := by
  have := x.isLt
  unfold ntohs
  omega

theorem ntohs_injective {x y : be16_t} (h : ntohs x = ntohs y) : x = y := by
  have hx := x.isLt
  have hy := y.isLt
  unfold ntohs at h
  apply Fin.ext
  omega

theorem ntohs_htons (n : Nat) (h : n < 65536) : ntohs (htons n) = n := by
  have hb : n / 256 < 256 := by omega
  unfold ntohs htons
  simp only [Nat.mod_eq_of_lt hb]
  omega

/-! ## The loops of the builders -/

theorem lft_top_loop_lt (rs : List smdb_lft_top) :
    ∀ lk : Nat → Nat, (∀ l, lk l < 65536) → ∀ l, lft_top_loop rs lk l < 65536 := by
  induction rs with
  | nil => intro lk h l; simpa [lft_top_loop] using h l
  | cons r rs ih =>
    intro lk h l
    simp only [lft_top_loop]
    apply ih
    intro l'
    by_cases hl : l' = ntohs r.lid
    · subst hl; simpa using ntohs_lt r.lft_top
    · simpa [Function.update_noteq hl] using h l'

theorem lft_block_loop_entries (d : Nat) (rs : List smdb_lft_block) :
    ∀ (i : Nat) (lk : Nat → Option (Nat → Nat)), block_entries_ok i d lk →
      block_entries_ok (i + rs.length) d (lft_block_loop d rs i lk) := by
  induction rs with
  | nil => intro i lk h; simpa [lft_block_loop] using h
  | cons r rs ih =>
    intro i lk h
    simp only [lft_block_loop, List.length_cons]
    have := ih (i + 1) (Function.update lk (ntohs r.lid)
        (some (Function.update (match lk (ntohs r.lid) with
          | some bl => bl
          | none => fun _ => d) (ntohs r.block_num) i))) ?_
    · rw [show i + (rs.length + 1) = i + 1 + rs.length by omega]; exact this
    · intro l bl hl b
      by_cases hk : l = ntohs r.lid
      · subst hk
        rw [Function.update_same] at hl
        cases hl
        by_cases hb : b = ntohs r.block_num
        · subst hb; left; simp
        · rw [Function.update_noteq hb]
          cases hlk : lk (ntohs r.lid) with
          | none => right; rfl
          | some bl0 =>
            rcases h _ bl0 hlk b with h1 | h1
            · left; simp only; omega
            · right; exact h1
      · rw [Function.update_noteq hk] at hl
        rcases h l bl hl b with h1 | h1
        · left; omega
        · right; exact h1

theorem lft_block_loop_keeps (d : Nat) (rs : List smdb_lft_block) :
    ∀ (i : Nat) (lk : Nat → Option (Nat → Nat)) (l b : Nat),
      (∃ bl, lk l = some bl ∧ bl b < i) →
      ∃ bl, lft_block_loop d rs i lk l = some bl ∧ bl b < i + rs.length := by
  induction rs with
  | nil => intro i lk l b h; simpa [lft_block_loop] using h
  | cons r rs ih =>
    intro i lk l b h
    obtain ⟨bl, hbl, hlt⟩ := h
    simp only [lft_block_loop, List.length_cons]
    rw [show i + (rs.length + 1) = i + 1 + rs.length by omega]
    apply ih
    by_cases hk : l = ntohs r.lid
    · subst hk
      refine ⟨_, Function.update_same _ _ _, ?_⟩
      simp only [hbl]
      by_cases hb : b = ntohs r.block_num
      · subst hb; simp
      · rw [Function.update_noteq hb]; omega
    · exact ⟨bl, by rw [Function.update_noteq hk]; exact hbl, by omega⟩

theorem lft_block_loop_present (d : Nat) (rs : List smdb_lft_block) :
    ∀ (i : Nat) (lk : Nat → Option (Nat → Nat)) (r : smdb_lft_block), r ∈ rs →
      ∃ bl, lft_block_loop d rs i lk (ntohs r.lid) = some bl ∧
        bl (ntohs r.block_num) < i + rs.length := by
  induction rs with
  | nil => intro i lk r h; cases h
  | cons r0 rs ih =>
    intro i lk r h
    simp only [lft_block_loop, List.length_cons]
    rw [show i + (rs.length + 1) = i + 1 + rs.length by omega]
    rcases List.mem_cons.1 h with h | h
    · subst h
      apply lft_block_loop_keeps
      exact ⟨_, Function.update_same _ _ _, by simp⟩
    · exact ih _ _ r h

theorem port_loop_frame (C : ssa_pr_consts) (d : Nat) (rs : List smdb_port) :
    ∀ (i : Nat) (I : ssa_pr_smdb_index),
      (port_loop C d rs i I).is_switch_lookup = I.is_switch_lookup ∧
      (port_loop C d rs i I).lft_top_lookup = I.lft_top_lookup ∧
      (port_loop C d rs i I).ca_link_lookup = I.ca_link_lookup ∧
      (port_loop C d rs i I).switch_link_lookup = I.switch_link_lookup ∧
      (port_loop C d rs i I).lft_block_lookup = I.lft_block_lookup ∧
      (port_loop C d rs i I).epoch = I.epoch := by
  induction rs with
  | nil => intro i I; simp [port_loop]
  | cons r rs ih =>
    intro i I
    simp only [port_loop]
    split
    · exact ih _ _
    · exact ih _ _

theorem port_loop_is_switch (C : ssa_pr_consts) (d : Nat) (rs : List smdb_port) (i : Nat)
    (I : ssa_pr_smdb_index) : (port_loop C d rs i I).is_switch_lookup = I.is_switch_lookup :=
  (port_loop_frame C d rs i I).1

theorem port_loop_ca_bound (C : ssa_pr_consts) (d : Nat) (rs : List smdb_port) :
    ∀ (i : Nat) (I : ssa_pr_smdb_index),
      (∀ l, I.ca_port_lookup l = 0 ∨ I.ca_port_lookup l < i) →
      ∀ l, (port_loop C d rs i I).ca_port_lookup l = 0 ∨
        (port_loop C d rs i I).ca_port_lookup l < i + rs.length := by
  induction rs with
  | nil => intro i I h l; simpa [port_loop] using h l
  | cons r rs ih =>
    intro i I h l
    simp only [port_loop, List.length_cons]
    rw [show i + (rs.length + 1) = i + 1 + rs.length by omega]
    split
    · apply ih
      intro l'
      rcases h l' with h1 | h1
      · left; exact h1
      · right; simp only; omega
    · apply ih
      intro l'
      by_cases hl : l' = ntohs r.port_lid
      · subst hl; right; simp
      · simp only [Function.update_noteq hl]
        rcases h l' with h1 | h1
        · left; exact h1
        · right; omega

theorem find_port_index_congr {I J : ssa_pr_smdb_index}
    (h1 : I.is_switch_lookup = J.is_switch_lookup)
    (h2 : I.switch_port_lookup = J.switch_port_lookup)
    (h3 : I.ca_port_lookup = J.ca_port_lookup) (lid : be16_t) (p : Nat) :
    find_port_index I lid p = find_port_index J lid p := by
  unfold find_port_index
  rw [h1, h2, h3]

theorem link_loop_frame (pc d : Nat) (rs : List smdb_link) :
    ∀ (I : ssa_pr_smdb_index),
      (link_loop pc d rs I).2.is_switch_lookup = I.is_switch_lookup ∧
      (link_loop pc d rs I).2.lft_top_lookup = I.lft_top_lookup ∧
      (link_loop pc d rs I).2.ca_port_lookup = I.ca_port_lookup ∧
      (link_loop pc d rs I).2.switch_port_lookup = I.switch_port_lookup ∧
      (link_loop pc d rs I).2.lft_block_lookup = I.lft_block_lookup ∧
      (link_loop pc d rs I).2.epoch = I.epoch := by
  induction rs with
  | nil => intro I; simp [link_loop]
  | cons r rs ih =>
    intro I
    simp only [link_loop]
    split
    · simp
    · split
      · exact ih _
      · exact ih _

theorem link_loop_fst_zero (pc d : Nat) (rs : List smdb_link) :
    ∀ I : ssa_pr_smdb_index, (link_loop pc d rs I).1 = 0 ↔
      ∀ r ∈ rs, find_port_index I r.to_lid r.to_port_num.val < pc := by
  induction rs with
  | nil => intro I; simp [link_loop]
  | cons r rs ih =>
    intro I
    simp only [link_loop, List.mem_cons, forall_eq_or_imp]
    by_cases h : find_port_index I r.to_lid r.to_port_num.val ≥ pc
    · simp only [if_pos h]
      constructor
      · intro h0; simp at h0
      · intro h0; omega
    · simp only [if_neg h]
      have hc : ∀ J : ssa_pr_smdb_index, J.is_switch_lookup = I.is_switch_lookup →
          J.switch_port_lookup = I.switch_port_lookup → J.ca_port_lookup = I.ca_port_lookup →
          ((link_loop pc d rs J).1 = 0 ↔
            (find_port_index I r.to_lid r.to_port_num.val < pc ∧
              ∀ r ∈ rs, find_port_index I r.to_lid r.to_port_num.val < pc)) := by
        intro J j1 j2 j3
        rw [ih J]
        constructor
        · intro h0
          refine ⟨by omega, fun r' hr' => ?_⟩
          rw [← find_port_index_congr j1 j2 j3]
          exact h0 r' hr'
        · intro h0 r' hr'
          rw [find_port_index_congr j1 j2 j3]
          exact h0.2 r' hr'
      split
      · exact hc _ rfl rfl rfl
      · exact hc _ rfl rfl rfl

theorem link_loop_fst_cases (pc d : Nat) (rs : List smdb_link) :
    ∀ I : ssa_pr_smdb_index, (link_loop pc d rs I).1 = 0 ∨ (link_loop pc d rs I).1 = -1 := by
  induction rs with
  | nil => intro I; simp [link_loop]
  | cons r rs ih =>
    intro I
    simp only [link_loop]
    split
    · right; rfl
    · split
      · exact ih _
      · exact ih _

/-! ## The builders -/

theorem build_is_switch_lookup_fst (I : ssa_pr_smdb_index) (D : ssa_db) :
    (build_is_switch_lookup I D).1 = if D.guid2lid.length = 0 then 1 else 0 := by
  unfold build_is_switch_lookup
  split <;> rfl

theorem build_port_index_fst (C : ssa_pr_consts) (I : ssa_pr_smdb_index) (D : ssa_db) :
    (build_port_index C I D).1 = if D.port.length = 0 then 1 else 0 := by
  unfold build_port_index
  simp only []
  split <;> rfl

theorem build_lft_top_lookup_fst (I : ssa_pr_smdb_index) (D : ssa_db) :
    (build_lft_top_lookup I D).1 = if D.lft_top.length = 0 then 1 else 0 := by
  unfold build_lft_top_lookup
  split <;> rfl

theorem build_lft_block_lookup_fst (I : ssa_pr_smdb_index) (D : ssa_db) :
    (build_lft_block_lookup I D).1 = if D.lft_block.length = 0 then 1 else 0 := by
  unfold build_lft_block_lookup
  simp only []
  split <;> rfl

theorem build_is_switch_lookup_snd (I : ssa_pr_smdb_index) (D : ssa_db) :
    (build_is_switch_lookup I D).2 =
      { I with is_switch_lookup := is_switch_loop D.guid2lid (fun _ => 0) } := by
  unfold build_is_switch_lookup
  cases hg : D.guid2lid <;> simp [is_switch_loop]

theorem build_lft_top_lookup_snd (I : ssa_pr_smdb_index) (D : ssa_db) :
    (build_lft_top_lookup I D).2 =
      { I with lft_top_lookup := lft_top_loop D.lft_top (fun _ => 0) } := by
  unfold build_lft_top_lookup
  cases hg : D.lft_top <;> simp [lft_top_loop]

theorem build_lft_block_lookup_snd (I : ssa_pr_smdb_index) (D : ssa_db) :
    (build_lft_block_lookup I D).2 =
      { I with
        lft_block_lookup :=
          lft_block_loop (D.lft_block.length + 1) D.lft_block 0 (fun _ => none) } := by
  unfold build_lft_block_lookup
  cases hg : D.lft_block <;> simp [lft_block_loop]

theorem build_port_index_snd (C : ssa_pr_consts) (I : ssa_pr_smdb_index) (D : ssa_db) :
    (build_port_index C I D).2 =
      port_loop C (D.port.length + 1) D.port 0
        { I with ca_port_lookup := fun _ => 0, switch_port_lookup := fun _ => none } := by
  unfold build_port_index
  cases hg : D.port <;> simp [port_loop]

theorem ssa_pr_build_indexes_eq (C : ssa_pr_consts) (I : ssa_pr_smdb_index) (D : ssa_db) :
    ssa_pr_build_indexes C I D =
      if D.guid2lid.length = 0 then build_is_switch_lookup I D
      else if D.port.length = 0 then build_port_index C (build_is_switch_lookup I D).2 D
      else if D.lft_top.length = 0 then
        build_lft_top_lookup (build_port_index C (build_is_switch_lookup I D).2 D).2 D
      else if D.lft_block.length = 0 then
        build_lft_block_lookup (build_lft_top_lookup
          (build_port_index C (build_is_switch_lookup I D).2 D).2 D).2 D
      else if (build_link_index C (before_link C I D) D).1 ≠ 0 then
        build_link_index C (before_link C I D) D
      else (0, { (build_link_index C (before_link C I D) D).2 with epoch := D.epoch }) := by
  unfold ssa_pr_build_indexes before_link ssa_db_get_epoch
  simp only [build_is_switch_lookup_fst, build_port_index_fst, build_lft_top_lookup_fst,
    build_lft_block_lookup_fst]
  by_cases h1 : D.guid2lid.length = 0
  · simp [h1]
  by_cases h2 : D.port.length = 0
  · simp [h1, h2]
  by_cases h3 : D.lft_top.length = 0
  · simp [h1, h2, h3]
  by_cases h4 : D.lft_block.length = 0
  · simp [h1, h2, h3, h4]
  simp [h1, h2, h3, h4]

theorem before_link_is_switch (C : ssa_pr_consts) (I : ssa_pr_smdb_index) (D : ssa_db) :
    (before_link C I D).is_switch_lookup = is_switch_loop D.guid2lid (fun _ => 0) := by
  simp [before_link, build_is_switch_lookup_snd, build_lft_top_lookup_snd,
    build_lft_block_lookup_snd, build_port_index_snd, (port_loop_frame C _ _ _ _).1]

theorem before_link_lft_top (C : ssa_pr_consts) (I : ssa_pr_smdb_index) (D : ssa_db) :
    (before_link C I D).lft_top_lookup = lft_top_loop D.lft_top (fun _ => 0) := by
  simp [before_link, build_is_switch_lookup_snd, build_lft_top_lookup_snd,
    build_lft_block_lookup_snd, build_port_index_snd]

theorem before_link_lft_block (C : ssa_pr_consts) (I : ssa_pr_smdb_index) (D : ssa_db) :
    (before_link C I D).lft_block_lookup =
      lft_block_loop (D.lft_block.length + 1) D.lft_block 0 (fun _ => none) := by
  simp [before_link, build_is_switch_lookup_snd, build_lft_top_lookup_snd,
    build_lft_block_lookup_snd, build_port_index_snd]

theorem before_link_ports (C : ssa_pr_consts) (I : ssa_pr_smdb_index) (D : ssa_db) :
    (before_link C I D).ca_port_lookup =
        (build_port_index C (build_is_switch_lookup I D).2 D).2.ca_port_lookup ∧
    (before_link C I D).switch_port_lookup =
        (build_port_index C (build_is_switch_lookup I D).2 D).2.switch_port_lookup := by
  simp [before_link, build_lft_top_lookup_snd, build_lft_block_lookup_snd]

theorem find_port_index_before_link (C : ssa_pr_consts) (I : ssa_pr_smdb_index) (D : ssa_db)
    (lid : be16_t) (p : Nat) :
    find_port_index (before_link C I D) lid p =
      find_port_index (build_port_index C (build_is_switch_lookup I D).2 D).2 lid p := by
  apply find_port_index_congr
  · rw [before_link_is_switch, build_port_index_snd, (port_loop_frame C _ _ _ _).1,
      build_is_switch_lookup_snd]
  · exact (before_link_ports C I D).2
  · exact (before_link_ports C I D).1

theorem build_link_index_frame (C : ssa_pr_consts) (I : ssa_pr_smdb_index) (D : ssa_db) :
    (build_link_index C I D).2.is_switch_lookup = I.is_switch_lookup ∧
    (build_link_index C I D).2.lft_top_lookup = I.lft_top_lookup ∧
    (build_link_index C I D).2.ca_port_lookup = I.ca_port_lookup ∧
    (build_link_index C I D).2.switch_port_lookup = I.switch_port_lookup ∧
    (build_link_index C I D).2.lft_block_lookup = I.lft_block_lookup ∧
    (build_link_index C I D).2.epoch = I.epoch := by
  unfold build_link_index
  simp only []
  split
  · simp
  · split
    · simp
    · exact link_loop_frame _ _ _ _

theorem build_link_index_fst (C : ssa_pr_consts) (I : ssa_pr_smdb_index) (D : ssa_db) :
    ((build_link_index C I D).1 = 0 ↔ D.link.length ≠ 0 ∧ D.port.length ≠ 0 ∧
        ∀ r ∈ D.link, find_port_index I r.to_lid r.to_port_num.val < D.port.length) ∧
    ((build_link_index C I D).1 = 1 ↔ D.link.length = 0 ∨ D.port.length = 0) ∧
    ((build_link_index C I D).1 = -1 ↔ D.link.length ≠ 0 ∧ D.port.length ≠ 0 ∧
        ∃ r ∈ D.link, ¬ find_port_index I r.to_lid r.to_port_num.val < D.port.length) := by
  unfold build_link_index
  simp only []
  by_cases h1 : D.link.length = 0
  · simp [h1]
  by_cases h2 : D.port.length = 0
  · simp [h1, h2]
  rw [if_neg h1, if_neg h2]
  simp only [ne_eq, h1, h2, not_false_eq_true, true_and, or_self, iff_false]
  have hz := link_loop_fst_zero D.port.length (D.port.length + 1) D.link
    { I with
      ca_link_lookup := fun _ => 0,
      switch_link_lookup := fun l =>
        if l < C.MAX_LOOKUP_PORT + 1 then none else I.switch_link_lookup l }
  have hc := link_loop_fst_cases D.port.length (D.port.length + 1) D.link
    { I with
      ca_link_lookup := fun _ => 0,
      switch_link_lookup := fun l =>
        if l < C.MAX_LOOKUP_PORT + 1 then none else I.switch_link_lookup l }
  have hfp : ∀ (lid : be16_t) (p : Nat), find_port_index
      { I with
        ca_link_lookup := fun _ => 0,
        switch_link_lookup := fun l =>
          if l < C.MAX_LOOKUP_PORT + 1 then none else I.switch_link_lookup l } lid p =
      find_port_index I lid p := fun lid p => find_port_index_congr rfl rfl rfl lid p
  simp only [hfp] at hz
  refine ⟨hz, ?_, ?_⟩
  · rcases hc with h | h <;> rw [h] <;> decide
  · rw [← not_iff_not]
    push_neg
    rw [← hz]
    rcases hc with h | h <;> rw [h] <;> decide

/-! ## The whole build -/

theorem build_indexes_fst_spec (C : ssa_pr_consts) (I : ssa_pr_smdb_index) (D : ssa_db) :
    ((ssa_pr_build_indexes C I D).1 = 0 ↔
      D.guid2lid.length ≠ 0 ∧ D.port.length ≠ 0 ∧ D.lft_top.length ≠ 0 ∧
      D.lft_block.length ≠ 0 ∧ D.link.length ≠ 0 ∧
      ∀ r ∈ D.link, find_port_index (build_port_index C (build_is_switch_lookup I D).2 D).2
        r.to_lid r.to_port_num.val < D.port.length) ∧
    ((ssa_pr_build_indexes C I D).1 = 1 ↔
      D.guid2lid.length = 0 ∨ D.port.length = 0 ∨ D.lft_top.length = 0 ∨
      D.lft_block.length = 0 ∨ D.link.length = 0) ∧
    ((ssa_pr_build_indexes C I D).1 = -1 ↔
      D.guid2lid.length ≠ 0 ∧ D.port.length ≠ 0 ∧ D.lft_top.length ≠ 0 ∧
      D.lft_block.length ≠ 0 ∧ D.link.length ≠ 0 ∧
      ∃ r ∈ D.link, ¬ find_port_index (build_port_index C (build_is_switch_lookup I D).2 D).2
        r.to_lid r.to_port_num.val < D.port.length) := by
  rw [ssa_pr_build_indexes_eq]
  by_cases h1 : D.guid2lid.length = 0
  · simp [h1, build_is_switch_lookup_fst]
  by_cases h2 : D.port.length = 0
  · simp [h1, h2, build_port_index_fst]
  by_cases h3 : D.lft_top.length = 0
  · simp [h1, h2, h3, build_lft_top_lookup_fst]
  by_cases h4 : D.lft_block.length = 0
  · simp [h1, h2, h3, h4, build_lft_block_lookup_fst]
  obtain ⟨l0, l1, l2⟩ := build_link_index_fst C (before_link C I D) D
  simp only [find_port_index_before_link] at l0 l1 l2
  simp only [ne_eq, h2, not_false_eq_true, true_and, or_false] at l0 l1 l2
  simp only [h1, h2, h3, h4, if_false, ne_eq, not_false_eq_true, true_and, false_or]
  by_cases h5 : (build_link_index C (before_link C I D) D).1 = 0
  · simp only [h5, not_true_eq_false, if_false]
    have h5' := l0.1 h5
    refine ⟨⟨fun _ => h5', fun _ => trivial⟩, ?_, ?_⟩
    · constructor
      · intro h; simp at h
      · intro h; exact absurd h h5'.1
    · constructor
      · intro h; simp at h
      · rintro ⟨-, r, hr, hn⟩
        exact absurd (h5'.2 r hr) hn
  · simp only [h5, not_false_eq_true, if_true]
    refine ⟨?_, l1, l2⟩
    rw [← l0]
    exact ⟨False.elim, h5⟩

theorem build_indexes_ok {C : ssa_pr_consts} {I : ssa_pr_smdb_index} {D : ssa_db}
    (h : (ssa_pr_build_indexes C I D).1 = 0) :
    D.guid2lid.length ≠ 0 ∧ D.port.length ≠ 0 ∧ D.lft_top.length ≠ 0 ∧
    D.lft_block.length ≠ 0 ∧
    (build_link_index C (before_link C I D) D).1 = 0 ∧
    (ssa_pr_build_indexes C I D).2 =
      { (build_link_index C (before_link C I D) D).2 with epoch := D.epoch } := by
  rw [ssa_pr_build_indexes_eq] at h ⊢
  by_cases h1 : D.guid2lid.length = 0
  · simp [h1, build_is_switch_lookup_fst] at h
  by_cases h2 : D.port.length = 0
  · simp [h1, h2, build_port_index_fst] at h
  by_cases h3 : D.lft_top.length = 0
  · simp [h1, h2, h3, build_lft_top_lookup_fst] at h
  by_cases h4 : D.lft_block.length = 0
  · simp [h1, h2, h3, h4, build_lft_block_lookup_fst] at h
  by_cases h5 : (build_link_index C (before_link C I D) D).1 = 0
  · simp [h1, h2, h3, h4, h5]
  · simp [h1, h2, h3, h4, h5] at h

theorem build_ok_lft {C : ssa_pr_consts} {I : ssa_pr_smdb_index} {D : ssa_db}
    (h : (ssa_pr_build_indexes C I D).1 = 0) :
    (ssa_pr_build_indexes C I D).2.lft_top_lookup = lft_top_loop D.lft_top (fun _ => 0) ∧
    (ssa_pr_build_indexes C I D).2.lft_block_lookup =
      lft_block_loop (D.lft_block.length + 1) D.lft_block 0 (fun _ => none) := by
  obtain ⟨-, -, -, -, -, h6⟩ := build_indexes_ok h
  rw [h6]
  obtain ⟨-, f2, -, -, f5, -⟩ := build_link_index_frame C (before_link C I D) D
  simp only [f2, f5, before_link_lft_top, before_link_lft_block, and_self]

theorem built_block_entries {C : ssa_pr_consts} {I : ssa_pr_smdb_index} {D : ssa_db}
    (h : (ssa_pr_build_indexes C I D).1 = 0) :
    block_entries_ok D.lft_block.length (D.lft_block.length + 1)
      (ssa_pr_build_indexes C I D).2.lft_block_lookup := by
  rw [(build_ok_lft h).2]
  have := lft_block_loop_entries (D.lft_block.length + 1) D.lft_block 0 (fun _ => none)
    (by intro l bl hl; cases hl)
  simpa using this

theorem built_lft_top_lt {C : ssa_pr_consts} {I : ssa_pr_smdb_index} {D : ssa_db}
    (h : (ssa_pr_build_indexes C I D).1 = 0) (l : Nat) :
    (ssa_pr_build_indexes C I D).2.lft_top_lookup l < 65536 := by
  rw [(build_ok_lft h).1]
  exact lft_top_loop_lt _ _ (by intro _; decide) l

theorem find_destination_port_congr (D : ssa_db) {I J : ssa_pr_smdb_index}
    (h1 : I.lft_top_lookup = J.lft_top_lookup) (h2 : I.lft_block_lookup = J.lft_block_lookup)
    (s d : be16_t) : find_destination_port D I s d = find_destination_port D J s d := by
  unfold find_destination_port
  rw [h1, h2]

theorem find_destination_port_built {C : ssa_pr_consts} {I : ssa_pr_smdb_index} {D : ssa_db}
    (h : (ssa_pr_build_indexes C I D).1 = 0) (s d : be16_t) :
    find_destination_port D (ssa_pr_build_indexes C I D).2 s d =
      find_destination_port D
        (lft_part (lft_top_loop D.lft_top (fun _ => 0))
          (lft_block_loop (D.lft_block.length + 1) D.lft_block 0 (fun _ => none))) s d :=
  find_destination_port_congr D (build_ok_lft h).1 (build_ok_lft h).2 s d

theorem build_fail_epoch (C : ssa_pr_consts) (I : ssa_pr_smdb_index) (D : ssa_db)
    (h : (ssa_pr_build_indexes C I D).1 ≠ 0) :
    (ssa_pr_build_indexes C I D).2.epoch = I.epoch := by
  rw [ssa_pr_build_indexes_eq] at h ⊢
  by_cases h1 : D.guid2lid.length = 0
  · simp [h1, build_is_switch_lookup_snd]
  by_cases h2 : D.port.length = 0
  · simp [h1, h2, build_is_switch_lookup_snd, build_port_index_snd,
      (port_loop_frame C _ _ _ _).2.2.2.2.2]
  by_cases h3 : D.lft_top.length = 0
  · simp [h1, h2, h3, build_is_switch_lookup_snd, build_port_index_snd,
      build_lft_top_lookup_snd, (port_loop_frame C _ _ _ _).2.2.2.2.2]
  by_cases h4 : D.lft_block.length = 0
  · simp [h1, h2, h3, h4, build_is_switch_lookup_snd, build_port_index_snd,
      build_lft_top_lookup_snd, build_lft_block_lookup_snd,
      (port_loop_frame C _ _ _ _).2.2.2.2.2]
  by_cases h5 : (build_link_index C (before_link C I D) D).1 = 0
  · simp [h1, h2, h3, h4, h5] at h
  · simp only [h1, h2, h3, h4, h5, if_false, ne_eq, not_false_eq_true, if_true]
    rw [(build_link_index_frame C _ D).2.2.2.2.2]
    simp [before_link, build_is_switch_lookup_snd, build_port_index_snd,
      build_lft_top_lookup_snd, build_lft_block_lookup_snd,
      (port_loop_frame C _ _ _ _).2.2.2.2.2]

/-! ## Rebuild -/

theorem rebuild_of_eq (C : ssa_pr_consts) (I : ssa_pr_smdb_index) (D : ssa_db)
    (h : I.epoch = D.epoch) : ssa_pr_rebuild_indexes C I D = (0, I) := by
  unfold ssa_pr_rebuild_indexes ssa_db_get_epoch
  simp [h]

theorem rebuild_of_ne (C : ssa_pr_consts) (I : ssa_pr_smdb_index) (D : ssa_db)
    (h : I.epoch ≠ D.epoch) :
    ssa_pr_rebuild_indexes C I D =
      if (ssa_pr_build_indexes C (ssa_pr_destroy_indexes C I) D).1 ≠ 0 then
        ssa_pr_build_indexes C (ssa_pr_destroy_indexes C I) D
      else (0, { (ssa_pr_build_indexes C (ssa_pr_destroy_indexes C I) D).2 with
                 epoch := D.epoch }) := by
  unfold ssa_pr_rebuild_indexes ssa_db_get_epoch
  simp only [ne_eq, h, not_false_eq_true, if_true]

theorem rebuild_epoch_cases (C : ssa_pr_consts) (I : ssa_pr_smdb_index) (D : ssa_db) :
    (ssa_pr_rebuild_indexes C I D).2.epoch = D.epoch ∨
    (ssa_pr_rebuild_indexes C I D).2.epoch = C.DB_EPOCH_INVALID := by
  by_cases h : I.epoch = D.epoch
  · left
    rw [rebuild_of_eq C I D h]
    exact h
  · rw [rebuild_of_ne C I D h]
    by_cases hb : (ssa_pr_build_indexes C (ssa_pr_destroy_indexes C I) D).1 = 0
    · left; simp [hb]
    · right
      simp only [ne_eq, hb, not_false_eq_true, if_true]
      rw [build_fail_epoch C _ D hb]
      rfl

/-! ## The linear scan by GUID -/

theorem find_guid_loop_spec (g : Nat) (rs : List smdb_guid2lid) :
    ∀ k : Nat,
      (find_guid_loop g rs k = none → ∀ r ∈ rs, r.guid ≠ g) ∧
      (∀ i, find_guid_loop g rs k = some i →
        ∃ n r, i = k + n ∧ rs[n]? = some r ∧ r.guid = g ∧
          ∀ j r', j < n → rs[j]? = some r' → r'.guid ≠ g) := by
  induction rs with
  | nil =>
    intro k
    simp [find_guid_loop]
  | cons r0 rs ih =>
    intro k
    simp only [find_guid_loop]
    by_cases h : g = r0.guid
    · rw [if_pos h]
      refine ⟨fun h0 => (by cases h0), fun i hi => ?_⟩
      cases hi
      exact ⟨0, r0, rfl, List.getElem?_cons_zero, h.symm,
        fun j r' hj => absurd hj (Nat.not_lt_zero j)⟩
    · rw [if_neg h]
      obtain ⟨ih1, ih2⟩ := ih (k + 1)
      refine ⟨fun h0 r hr => ?_, fun i hi => ?_⟩
      · rcases List.mem_cons.1 hr with hr | hr
        · subst hr; exact fun e => h e.symm
        · exact ih1 h0 r hr
      · obtain ⟨n, r, hn, hr, hg, hfirst⟩ := ih2 i hi
        refine ⟨n + 1, r, by omega, by simpa using hr, hg, fun j r' hj hj' => ?_⟩
        cases j with
        | zero =>
          simp only [List.getElem?_cons_zero, Option.some.injEq] at hj'
          subst hj'
          exact fun e => h e.symm
        | succ j =>
          simp only [List.getElem?_cons_succ] at hj'
          exact hfirst j r' (by omega) hj'

/-! ## Last record of a key in the link lookups -/

theorem link_loop_keeps_switch (pc d : Nat) (l p v : Nat) (post : List smdb_link) :
    ∀ J : ssa_pr_smdb_index,
      (∃ pl, J.switch_link_lookup l = some pl ∧ pl p = v) →
      (∀ r' ∈ post, ¬ (ntohs r'.from_lid = l ∧ r'.from_port_num.val = p)) →
      ∃ pl, (link_loop pc d post J).2.switch_link_lookup l = some pl ∧ pl p = v := by
  induction post with
  | nil => intro J h _; simpa [link_loop] using h
  | cons r0 post ih =>
    intro J h hpost
    obtain ⟨pl, hpl, hv⟩ := h
    have h0 := hpost r0 (List.mem_cons_self _ _)
    have hrest : ∀ r' ∈ post, ¬ (ntohs r'.from_lid = l ∧ r'.from_port_num.val = p) :=
      fun r' hr' => hpost r' (List.mem_cons_of_mem _ hr')
    simp only [link_loop]
    split
    · exact ⟨pl, hpl, hv⟩
    · split
      · apply ih _ _ hrest
        by_cases hk : l = ntohs r0.from_lid
        · subst hk
          refine ⟨_, Function.update_same _ _ _, ?_⟩
          simp only [hpl]
          have hp : p ≠ r0.from_port_num.val := fun e => h0 ⟨rfl, e.symm⟩
          rw [Function.update_noteq hp]
          exact hv
        · exact ⟨pl, by simp only [Function.update_noteq hk]; exact hpl, hv⟩
      · exact ih _ ⟨pl, hpl, hv⟩ hrest

theorem link_loop_keeps_ca (pc d : Nat) (l v : Nat) (post : List smdb_link) :
    ∀ J : ssa_pr_smdb_index,
      J.ca_link_lookup l = v →
      (∀ r' ∈ post, ntohs r'.from_lid ≠ l) →
      (link_loop pc d post J).2.ca_link_lookup l = v := by
  induction post with
  | nil => intro J h _; simpa [link_loop] using h
  | cons r0 post ih =>
    intro J h hpost
    have h0 := hpost r0 (List.mem_cons_self _ _)
    have hrest : ∀ r' ∈ post, ntohs r'.from_lid ≠ l :=
      fun r' hr' => hpost r' (List.mem_cons_of_mem _ hr')
    simp only [link_loop]
    split
    · exact h
    · split
      · exact ih _ h hrest
      · apply ih _ _ hrest
        simp only [Function.update_noteq (Ne.symm h0)]
        exact h

theorem link_loop_last (pc d : Nat) (r : smdb_link) (post : List smdb_link)
    (pre : List smdb_link) :
    ∀ J : ssa_pr_smdb_index,
      (link_loop pc d (pre ++ r :: post) J).1 = 0 →
      (∀ r' ∈ post, ¬ (ntohs r'.from_lid = ntohs r.from_lid ∧
        (J.is_switch_lookup (ntohs r.from_lid) ≠ 0 → r'.from_port_num = r.from_port_num))) →
      find_port_index J r.to_lid r.to_port_num.val < pc ∧
      (J.is_switch_lookup (ntohs r.from_lid) ≠ 0 →
        ∃ pl, (link_loop pc d (pre ++ r :: post) J).2.switch_link_lookup (ntohs r.from_lid)
            = some pl ∧
          pl r.from_port_num.val = find_port_index J r.to_lid r.to_port_num.val) ∧
      (J.is_switch_lookup (ntohs r.from_lid) = 0 →
        (link_loop pc d (pre ++ r :: post) J).2.ca_link_lookup (ntohs r.from_lid)
          = find_port_index J r.to_lid r.to_port_num.val) := by
  induction pre with
  | nil =>
    intro J hok hpost
    simp only [List.nil_append, link_loop] at hok ⊢
    by_cases hf : find_port_index J r.to_lid r.to_port_num.val ≥ pc
    · simp [if_pos hf] at hok
    · simp only [if_neg hf] at hok ⊢
      refine ⟨by omega, ?_, ?_⟩
      · intro hsw
        simp only [if_pos hsw]
        apply link_loop_keeps_switch
        · exact ⟨_, Function.update_same _ _ _, by simp⟩
        · intro r' hr' hk
          exact hpost r' hr' ⟨hk.1, fun _ => Fin.ext hk.2⟩
      · intro hsw
        have hsw' : ¬ J.is_switch_lookup (ntohs r.from_lid) ≠ 0 := by simp [hsw]
        simp only [if_neg hsw']
        apply link_loop_keeps_ca
        · simp
        · intro r' hr' hk
          exact hpost r' hr' ⟨hk, fun h => absurd hsw h⟩
  | cons r0 pre ih =>
    intro J hok hpost
    simp only [List.cons_append, link_loop] at hok ⊢
    by_cases hf : find_port_index J r0.to_lid r0.to_port_num.val ≥ pc
    · simp [if_pos hf] at hok
    · simp only [if_neg hf] at hok ⊢
      have hc : ∀ J' : ssa_pr_smdb_index, J'.is_switch_lookup = J.is_switch_lookup →
          J'.switch_port_lookup = J.switch_port_lookup →
          J'.ca_port_lookup = J.ca_port_lookup →
          (link_loop pc d (pre ++ r :: post) J').1 = 0 →
          find_port_index J r.to_lid r.to_port_num.val < pc ∧
          (J.is_switch_lookup (ntohs r.from_lid) ≠ 0 →
            ∃ pl, (link_loop pc d (pre ++ r :: post) J').2.switch_link_lookup
                (ntohs r.from_lid) = some pl ∧
              pl r.from_port_num.val = find_port_index J r.to_lid r.to_port_num.val) ∧
          (J.is_switch_lookup (ntohs r.from_lid) = 0 →
            (link_loop pc d (pre ++ r :: post) J').2.ca_link_lookup (ntohs r.from_lid)
              = find_port_index J r.to_lid r.to_port_num.val) := by
        intro J' j1 j2 j3 hok'
        have := ih J' hok' (by rw [j1]; exact hpost)
        rw [j1, find_port_index_congr j1 j2 j3] at this
        exact this
      split at hok
      · rw [if_pos (by assumption)]
        exact hc _ rfl rfl rfl hok
      · rw [if_neg (by assumption)]
        exact hc _ rfl rfl rfl hok

theorem build_link_index_eq (C : ssa_pr_consts) (I : ssa_pr_smdb_index) (D : ssa_db)
    (h1 : D.link.length ≠ 0) (h2 : D.port.length ≠ 0) :
    build_link_index C I D =
      link_loop D.port.length (D.port.length + 1) D.link (link_cleared C I) := by
  unfold build_link_index link_cleared
  simp only [h1, h2, if_false]

theorem built_index_eq {C : ssa_pr_consts} {I : ssa_pr_smdb_index} {D : ssa_db}
    (h : (ssa_pr_build_indexes C I D).1 = 0) :
    (link_loop D.port.length (D.port.length + 1) D.link
      (link_cleared C (before_link C I D))).1 = 0 ∧
    (ssa_pr_build_indexes C I D).2 =
      { (link_loop D.port.length (D.port.length + 1) D.link
          (link_cleared C (before_link C I D))).2 with epoch := D.epoch } := by
  obtain ⟨-, h2, -, -, h5, h6⟩ := build_indexes_ok h
  have h1 : D.link.length ≠ 0 := ((build_indexes_fst_spec C I D).1.1 h).2.2.2.2.1
  rw [build_link_index_eq C _ D h1 h2] at h5 h6
  exact ⟨h5, h6⟩

/-- What holds of the link lookup: after a successful build, for a link record
that is the last one of the link table with its source key (LID and port
number for a switch LID, LID alone otherwise), `find_linked_port` at the source
of the link and `find_port` at its far end return the same port record. -/
theorem find_linked_port_last_link (C : ssa_pr_consts) (I0 : ssa_pr_smdb_index) (D : ssa_db)
    (pre post : List smdb_link) (r : smdb_link)
    (hbuild : (ssa_pr_build_indexes C I0 D).1 = 0)
    (hsplit : D.link = pre ++ r :: post)
    (hlast : ∀ r' ∈ post, ¬ (ntohs r'.from_lid = ntohs r.from_lid ∧
      ((ssa_pr_build_indexes C I0 D).2.is_switch_lookup (ntohs r.from_lid) ≠ 0 →
        r'.from_port_num = r.from_port_num))) :
    ∃ i, i < D.port.length ∧
      find_linked_port D (ssa_pr_build_indexes C I0 D).2 r.from_lid r.from_port_num.val = some i ∧
      find_port D (ssa_pr_build_indexes C I0 D).2 r.to_lid r.to_port_num.val = some i := by
  obtain ⟨hok, heq⟩ := built_index_eq hbuild
  obtain ⟨f1, -, f3, f4, -, -⟩ := link_loop_frame D.port.length (D.port.length + 1) D.link
    (link_cleared C (before_link C I0 D))
  have hsw : (ssa_pr_build_indexes C I0 D).2.is_switch_lookup =
      (link_cleared C (before_link C I0 D)).is_switch_lookup := by rw [heq]; exact f1
  have hfp : ∀ lid p, find_port_index (ssa_pr_build_indexes C I0 D).2 lid p =
      find_port_index (link_cleared C (before_link C I0 D)) lid p := by
    intro lid p
    apply find_port_index_congr hsw
    · rw [heq]; exact f4
    · rw [heq]; exact f3
  rw [hsw] at hlast
  rw [hsplit] at hok
  obtain ⟨hlt, hs, hc⟩ := link_loop_last D.port.length (D.port.length + 1) r post pre
    (link_cleared C (before_link C I0 D)) hok hlast
  rw [← hsplit] at hs hc
  refine ⟨find_port_index (link_cleared C (before_link C I0 D)) r.to_lid r.to_port_num.val,
    hlt, ?_, ?_⟩
  · unfold find_linked_port
    rw [hsw]
    by_cases hr : (link_cleared C (before_link C I0 D)).is_switch_lookup (ntohs r.from_lid) ≠ 0
    · obtain ⟨pl, hpl, hv⟩ := hs hr
      rw [if_pos hr, heq]
      simp only [hpl, hv]
      rw [if_neg (by omega)]
    · have hr0 : (link_cleared C (before_link C I0 D)).is_switch_lookup (ntohs r.from_lid) = 0 := by
        simpa using hr
      rw [if_neg hr, heq]
      simp only [hc hr0]
      rw [if_neg (by omega)]
  · unfold find_port
    simp only [hfp]
    rw [if_neg (by omega)]

/-! ## Port lookups of a built index -/

theorem port_loop_congr (C : ssa_pr_consts) (d : Nat) (rs : List smdb_port) :
    ∀ (i : Nat) (I J : ssa_pr_smdb_index),
      I.ca_port_lookup = J.ca_port_lookup → I.switch_port_lookup = J.switch_port_lookup →
      (port_loop C d rs i I).ca_port_lookup = (port_loop C d rs i J).ca_port_lookup ∧
      (port_loop C d rs i I).switch_port_lookup = (port_loop C d rs i J).switch_port_lookup := by
  induction rs with
  | nil => intro i I J h1 h2; exact ⟨h1, h2⟩
  | cons r rs ih =>
    intro i I J h1 h2
    simp only [port_loop]
    split
    · apply ih
      · exact h1
      · simp only [h2]
    · apply ih
      · simp only [h1]
      · exact h2

theorem built_ports {C : ssa_pr_consts} {I : ssa_pr_smdb_index} {D : ssa_db}
    (h : (ssa_pr_build_indexes C I D).1 = 0) :
    (ssa_pr_build_indexes C I D).2.is_switch_lookup = is_switch_loop D.guid2lid (fun _ => 0) ∧
    (ssa_pr_build_indexes C I D).2.ca_port_lookup =
      (port_loop C (D.port.length + 1) D.port 0 zero_index).ca_port_lookup ∧
    (ssa_pr_build_indexes C I D).2.switch_port_lookup =
      (port_loop C (D.port.length + 1) D.port 0 zero_index).switch_port_lookup := by
  obtain ⟨-, -, -, -, -, h6⟩ := build_indexes_ok h
  rw [h6]
  obtain ⟨f1, -, f3, f4, -, -⟩ := build_link_index_frame C (before_link C I D) D
  simp only [f1, f3, f4, before_link_is_switch, (before_link_ports C I D).1,
    (before_link_ports C I D).2, build_port_index_snd, true_and]
  refine port_loop_congr C _ _ 0 _ zero_index ?_ ?_ <;> rfl

theorem port_loop_switch_default (C : ssa_pr_consts) (d l p : Nat) (rs : List smdb_port) :
    ∀ (i : Nat) (I : ssa_pr_smdb_index),
      (∀ r ∈ rs, ¬ (ntohs r.port_lid = l ∧ r.port_num.val = p)) →
      (∀ pl, I.switch_port_lookup l = some pl → pl p = d) →
      ∀ pl, (port_loop C d rs i I).switch_port_lookup l = some pl → pl p = d := by
  induction rs with
  | nil => intro i I _ h pl hpl; exact h pl (by simpa [port_loop] using hpl)
  | cons r rs ih =>
    intro i I hno h
    have h0 := hno r (List.mem_cons_self _ _)
    have hrest : ∀ r' ∈ rs, ¬ (ntohs r'.port_lid = l ∧ r'.port_num.val = p) :=
      fun r' hr' => hno r' (List.mem_cons_of_mem _ hr')
    simp only [port_loop]
    split
    · apply ih _ _ hrest
      intro pl hpl
      by_cases hk : l = ntohs r.port_lid
      · subst hk
        simp only [Function.update_same, Option.some.injEq] at hpl
        subst hpl
        have hp : p ≠ r.port_num.val := fun e => h0 ⟨rfl, e.symm⟩
        rw [Function.update_noteq hp]
        cases hI : I.switch_port_lookup (ntohs r.port_lid) with
        | none => rfl
        | some pl0 => exact h pl0 hI
      · simp only [Function.update_noteq hk] at hpl
        exact h pl hpl
    · exact ih _ _ hrest h

/-- What holds of a missing port entry: after a successful build, for a switch
LID `l` and a port number `p` such that no port record has LID `l` and port
number `p`, `find_port` returns NULL (the port table holding fewer than
`2 ^ 64` records). -/
theorem find_port_switch_missing (C : ssa_pr_consts) (I0 : ssa_pr_smdb_index) (D : ssa_db)
    (l : be16_t) (p : Nat)
    (hbuild : (ssa_pr_build_indexes C I0 D).1 = 0)
    (hlen : D.port.length ≤ SIZE_MAX)
    (hsw : (ssa_pr_build_indexes C I0 D).2.is_switch_lookup (ntohs l) ≠ 0)
    (hno : ∀ r ∈ D.port, ¬ (r.port_lid = l ∧ r.port_num.val = p)) :
    find_port D (ssa_pr_build_indexes C I0 D).2 l p = none := by
  obtain ⟨-, -, h3⟩ := built_ports hbuild
  have hd := port_loop_switch_default C (D.port.length + 1) (ntohs l) p D.port 0 zero_index
    (fun r hr hk => hno r hr ⟨ntohs_injective hk.1, hk.2⟩)
    (fun pl hpl => by cases hpl)
  unfold find_port find_port_index
  rw [if_pos hsw, h3]
  cases hpl : (port_loop C (D.port.length + 1) D.port 0 zero_index).switch_port_lookup (ntohs l) with
  | none => simp only [if_pos hlen]
  | some pl =>
    simp only [hd pl hpl]
    rw [if_pos (by omega)]

/-! ## Dependence of the build on the prior index state -/

theorem link_loop_congr (S : Nat → Prop) (pc d : Nat) (rs : List smdb_link) :
    ∀ J1 J2 : ssa_pr_smdb_index, link_agree S J1 J2 →
      (link_loop pc d rs J1).1 = (link_loop pc d rs J2).1 ∧
      link_agree S (link_loop pc d rs J1).2 (link_loop pc d rs J2).2 := by
  induction rs with
  | nil => intro J1 J2 h; exact ⟨rfl, h⟩
  | cons r rs ih =>
    intro J1 J2 h
    obtain ⟨a1, a2, a3, a4, a5⟩ := h
    have hfp : find_port_index J1 r.to_lid r.to_port_num.val =
        find_port_index J2 r.to_lid r.to_port_num.val := find_port_index_congr a1 a3 a2 _ _
    simp only [link_loop, hfp]
    by_cases hf : find_port_index J2 r.to_lid r.to_port_num.val ≥ pc
    · simp only [if_pos hf]
      exact ⟨trivial, a1, a2, a3, a4, a5⟩
    · simp only [if_neg hf]
      by_cases hs : J2.is_switch_lookup (ntohs r.from_lid) ≠ 0
      · have hs1 : J1.is_switch_lookup (ntohs r.from_lid) ≠ 0 := by rw [a1]; exact hs
        simp only [if_pos hs, if_pos hs1]
        apply ih
        refine ⟨a1, a2, a3, a4, ?_⟩
        intro l hl
        by_cases hk : l = ntohs r.from_lid
        · subst hk
          simp only [Function.update_same, a5 _ hl]
        · simp only [Function.update_noteq hk]
          exact a5 l hl
      · have hs1 : ¬ J1.is_switch_lookup (ntohs r.from_lid) ≠ 0 := by rw [a1]; exact hs
        simp only [if_neg hs, if_neg hs1]
        apply ih
        refine ⟨a1, a2, a3, ?_, a5⟩
        simp only [a4]

theorem before_link_switch_link (C : ssa_pr_consts) (I : ssa_pr_smdb_index) (D : ssa_db) :
    (before_link C I D).switch_link_lookup = I.switch_link_lookup := by
  simp [before_link, build_is_switch_lookup_snd, build_lft_top_lookup_snd,
    build_lft_block_lookup_snd, build_port_index_snd, (port_loop_frame C _ _ _ _).2.2.2.1]

theorem link_cleared_agree (C : ssa_pr_consts) (I1 I2 : ssa_pr_smdb_index) (D : ssa_db) :
    link_agree
      (fun l => l < C.MAX_LOOKUP_PORT + 1 ∨ I1.switch_link_lookup l = I2.switch_link_lookup l)
      (link_cleared C (before_link C I1 D)) (link_cleared C (before_link C I2 D)) := by
  refine ⟨?_, ?_, ?_, rfl, ?_⟩
  · show (before_link C I1 D).is_switch_lookup = (before_link C I2 D).is_switch_lookup
    rw [before_link_is_switch, before_link_is_switch]
  · show (before_link C I1 D).ca_port_lookup = (before_link C I2 D).ca_port_lookup
    rw [(before_link_ports C I1 D).1, (before_link_ports C I2 D).1, build_port_index_snd,
      build_port_index_snd]
    refine (port_loop_congr C _ _ 0 _ _ ?_ ?_).1 <;> rfl
  · show (before_link C I1 D).switch_port_lookup = (before_link C I2 D).switch_port_lookup
    rw [(before_link_ports C I1 D).2, (before_link_ports C I2 D).2, build_port_index_snd,
      build_port_index_snd]
    refine (port_loop_congr C _ _ 0 _ _ ?_ ?_).2 <;> rfl
  · intro l hl
    show (if l < C.MAX_LOOKUP_PORT + 1 then none else (before_link C I1 D).switch_link_lookup l) =
      (if l < C.MAX_LOOKUP_PORT + 1 then none else (before_link C I2 D).switch_link_lookup l)
    rw [before_link_switch_link, before_link_switch_link]
    rcases hl with hl | hl
    · simp only [if_pos hl]
    · rw [hl]

theorem build_link_index_congr (C : ssa_pr_consts) (I1 I2 : ssa_pr_smdb_index) (D : ssa_db) :
    (build_link_index C (before_link C I1 D) D).1 =
      (build_link_index C (before_link C I2 D) D).1 ∧
    ((build_link_index C (before_link C I1 D) D).1 = 0 →
      link_agree
        (fun l => l < C.MAX_LOOKUP_PORT + 1 ∨ I1.switch_link_lookup l = I2.switch_link_lookup l)
        (build_link_index C (before_link C I1 D) D).2
        (build_link_index C (before_link C I2 D) D).2) := by
  by_cases h1 : D.link.length = 0
  · have e1 := ((build_link_index_fst C (before_link C I1 D) D).2.1).2 (Or.inl h1)
    have e2 := ((build_link_index_fst C (before_link C I2 D) D).2.1).2 (Or.inl h1)
    rw [e1, e2]
    exact ⟨rfl, fun h => absurd h (by decide)⟩
  by_cases h2 : D.port.length = 0
  · have e1 := ((build_link_index_fst C (before_link C I1 D) D).2.1).2 (Or.inr h2)
    have e2 := ((build_link_index_fst C (before_link C I2 D) D).2.1).2 (Or.inr h2)
    rw [e1, e2]
    exact ⟨rfl, fun h => absurd h (by decide)⟩
  rw [build_link_index_eq C _ D h1 h2, build_link_index_eq C _ D h1 h2]
  have := link_loop_congr _ D.port.length (D.port.length + 1) D.link _ _
    (link_cleared_agree C I1 I2 D)
  exact ⟨this.1, fun _ => this.2⟩

/-- Extent of the dependence on the prior state: the return value of
`ssa_pr_build_indexes` does not depend on the prior index state, and after a
successful build every lookup is the same for any two prior states, except the
per-switch link arrays of LIDs above `MAX_LOOKUP_PORT` on which the two prior
states differ. -/
theorem build_indexes_prior_state (C : ssa_pr_consts) (I1 I2 : ssa_pr_smdb_index) (D : ssa_db) :
    (ssa_pr_build_indexes C I1 D).1 = (ssa_pr_build_indexes C I2 D).1 ∧
    ((ssa_pr_build_indexes C I1 D).1 = 0 →
      (ssa_pr_build_indexes C I1 D).2.is_switch_lookup =
        (ssa_pr_build_indexes C I2 D).2.is_switch_lookup ∧
      (ssa_pr_build_indexes C I1 D).2.lft_top_lookup =
        (ssa_pr_build_indexes C I2 D).2.lft_top_lookup ∧
      (ssa_pr_build_indexes C I1 D).2.ca_port_lookup =
        (ssa_pr_build_indexes C I2 D).2.ca_port_lookup ∧
      (ssa_pr_build_indexes C I1 D).2.switch_port_lookup =
        (ssa_pr_build_indexes C I2 D).2.switch_port_lookup ∧
      (ssa_pr_build_indexes C I1 D).2.lft_block_lookup =
        (ssa_pr_build_indexes C I2 D).2.lft_block_lookup ∧
      (ssa_pr_build_indexes C I1 D).2.ca_link_lookup =
        (ssa_pr_build_indexes C I2 D).2.ca_link_lookup ∧
      (ssa_pr_build_indexes C I1 D).2.epoch = (ssa_pr_build_indexes C I2 D).2.epoch ∧
      ∀ l, (l < C.MAX_LOOKUP_PORT + 1 ∨ I1.switch_link_lookup l = I2.switch_link_lookup l) →
        (ssa_pr_build_indexes C I1 D).2.switch_link_lookup l =
          (ssa_pr_build_indexes C I2 D).2.switch_link_lookup l) := by
  obtain ⟨hc, ha⟩ := build_link_index_congr C I1 I2 D
  have hcode : (ssa_pr_build_indexes C I1 D).1 = (ssa_pr_build_indexes C I2 D).1 := by
    rw [ssa_pr_build_indexes_eq, ssa_pr_build_indexes_eq]
    by_cases h1 : D.guid2lid.length = 0
    · simp [h1, build_is_switch_lookup_fst]
    by_cases h2 : D.port.length = 0
    · simp [h1, h2, build_port_index_fst]
    by_cases h3 : D.lft_top.length = 0
    · simp [h1, h2, h3, build_lft_top_lookup_fst]
    by_cases h4 : D.lft_block.length = 0
    · simp [h1, h2, h3, h4, build_lft_block_lookup_fst]
    simp only [h1, h2, h3, h4, if_false]
    by_cases h5 : (build_link_index C (before_link C I1 D) D).1 = 0
    · have h5' : (build_link_index C (before_link C I2 D) D).1 = 0 := hc ▸ h5
      simp [h5, h5']
    · have h5' : ¬ (build_link_index C (before_link C I2 D) D).1 = 0 :=
        fun e => h5 (hc.trans e)
      simp only [ne_eq, h5, h5', not_false_eq_true, if_true]
      exact hc
  refine ⟨hcode, fun hb1 => ?_⟩
  have hb2 : (ssa_pr_build_indexes C I2 D).1 = 0 := hcode ▸ hb1
  obtain ⟨p1, p2, p3⟩ := built_ports hb1
  obtain ⟨q1, q2, q3⟩ := built_ports hb2
  obtain ⟨-, -, -, -, k1, e1⟩ := build_indexes_ok hb1
  obtain ⟨-, -, -, -, -, e2⟩ := build_indexes_ok hb2
  obtain ⟨-, -, -, a4, a5⟩ := ha k1
  refine ⟨by rw [p1, q1], by rw [(build_ok_lft hb1).1, (build_ok_lft hb2).1],
    by rw [p2, q2], by rw [p3, q3], by rw [(build_ok_lft hb1).2, (build_ok_lft hb2).2],
    ?_, ?_, ?_⟩
  · rw [e1, e2]; exact a4
  · rw [e1, e2]
  · intro l hl
    rw [e1, e2]
    exact a5 l hl

/-! ## Routing through the LFT lookups -/

/-- C1: for an index built successfully from `D` (into any prior index state),
a destination `dst` not above the LFT top of `src`, and a block record present
for `(src, dst >> 6)` (in the LFT block table or, which is the same for a built
index, as a lookup entry other than the default value), `find_destination_port`
returns entry `dst mod 64` of the record of `D` at position
`lft_block_lookup[src][dst >> 6]`, and that position is inside the table. -/
theorem find_destination_port_eq_block (C : ssa_pr_consts) (I0 : ssa_pr_smdb_index)
    (D : ssa_db) (src dst : be16_t)
    (hbuild : (ssa_pr_build_indexes C I0 D).1 = 0)
    (htop : ntohs dst ≤ (ssa_pr_build_indexes C I0 D).2.lft_top_lookup (ntohs src))
    (hblk : (∃ r ∈ D.lft_block, ntohs r.lid = ntohs src ∧ ntohs r.block_num = ntohs dst >>> 6) ∨
      (∃ bl, (ssa_pr_build_indexes C I0 D).2.lft_block_lookup (ntohs src) = some bl ∧
        bl (ntohs dst >>> 6) ≠ D.lft_block.length + 1)) :
    ∃ bl rec, (ssa_pr_build_indexes C I0 D).2.lft_block_lookup (ntohs src) = some bl ∧
      D.lft_block[bl (ntohs dst >>> 6)]? = some rec ∧
      find_destination_port D (ssa_pr_build_indexes C I0 D).2 src dst =
        some (((rec.block ⟨ntohs dst % 64, Nat.mod_lt _ (by decide)⟩).val : Nat) : Int) := by
  have hent := built_block_entries hbuild
  have hlt := built_lft_top_lt hbuild (ntohs src)
  have hpres : ∃ bl, (ssa_pr_build_indexes C I0 D).2.lft_block_lookup (ntohs src) = some bl ∧
      bl (ntohs dst >>> 6) < D.lft_block.length := by
    rcases hblk with ⟨r, hr, hl, hb⟩ | ⟨bl, hbl, hne⟩
    · have := lft_block_loop_present (D.lft_block.length + 1) D.lft_block 0 (fun _ => none) r hr
      rw [(build_ok_lft hbuild).2, ← hl, ← hb]
      simpa using this
    · refine ⟨bl, hbl, ?_⟩
      rcases hent _ bl hbl (ntohs dst >>> 6) with h1 | h1
      · exact h1
      · exact absurd h1 hne
  obtain ⟨bl, hbl, hidx⟩ := hpres
  refine ⟨bl, D.lft_block[bl (ntohs dst >>> 6)], hbl, List.getElem?_eq_getElem hidx, ?_⟩
  unfold find_destination_port
  simp only [Nat.mod_eq_of_lt hlt, hbl]
  rw [if_neg (by omega), if_neg (by omega), List.getElem?_eq_getElem hidx]
  rfl

theorem find_destination_port_eq_block_witness :
    ∃ bl rec,
      (ssa_pr_build_indexes example_consts zero_index S1_full).2.lft_block_lookup
        (ntohs (htons 1)) = some bl ∧
      S1_full.lft_block[bl (ntohs (htons 2) >>> 6)]? = some rec ∧
      find_destination_port S1_full
        (ssa_pr_build_indexes example_consts zero_index S1_full).2 (htons 1) (htons 2) =
        some (((rec.block ⟨ntohs (htons 2) % 64, Nat.mod_lt _ (by decide)⟩).val : Nat) : Int) :=
  find_destination_port_eq_block example_consts zero_index S1_full
    (htons 1) (htons 2) (by decide) (by decide)
    (Or.inl ⟨_, List.mem_cons_self _ _, by decide, by decide⟩)

/-- C2: for an index built successfully from `D`, `find_destination_port`
returns -1 exactly when `dst` exceeds the LFT top of `src`, or `src` has no
LFT block lookup array, or the lookup entry of block `dst >> 6` is the default
value `count + 1`; in every other case it returns a port number in 0..255.
The statement holds for all LIDs, the non-zero ones included. -/
theorem find_destination_port_fails_iff (C : ssa_pr_consts) (I0 : ssa_pr_smdb_index)
    (D : ssa_db) (src dst : be16_t)
    (hbuild : (ssa_pr_build_indexes C I0 D).1 = 0) :
    (find_destination_port D (ssa_pr_build_indexes C I0 D).2 src dst = some (-1) ↔
      (ntohs dst > (ssa_pr_build_indexes C I0 D).2.lft_top_lookup (ntohs src) ∨
       (ssa_pr_build_indexes C I0 D).2.lft_block_lookup (ntohs src) = none ∨
       ∃ bl, (ssa_pr_build_indexes C I0 D).2.lft_block_lookup (ntohs src) = some bl ∧
         bl (ntohs dst >>> 6) = D.lft_block.length + 1)) ∧
    (find_destination_port D (ssa_pr_build_indexes C I0 D).2 src dst ≠ some (-1) →
      ∃ p : Nat, p ≤ 255 ∧
        find_destination_port D (ssa_pr_build_indexes C I0 D).2 src dst = some (p : Int)) := by
  have hent := built_block_entries hbuild
  have hlt := built_lft_top_lt hbuild (ntohs src)
  generalize (ssa_pr_build_indexes C I0 D).2 = I at hent hlt ⊢
  unfold find_destination_port
  simp only [Nat.mod_eq_of_lt hlt]
  by_cases h1 : ntohs dst > I.lft_top_lookup (ntohs src)
  · simp [h1]
  · cases hbl : I.lft_block_lookup (ntohs src) with
    | none => simp [h1]
    | some bl =>
      simp only [if_neg h1]
      rcases hent _ bl hbl (ntohs dst >>> 6) with h3 | h3
      · have hn : ¬ bl (ntohs dst >>> 6) > D.lft_block.length := by omega
        have hne : bl (ntohs dst >>> 6) ≠ D.lft_block.length + 1 := by omega
        simp only [if_neg hn, List.getElem?_eq_getElem h3, Option.map_some']
        have hb := (D.lft_block[bl (ntohs dst >>> 6)].block
          ⟨ntohs dst % UMAD_LEN_SMP_DATA, Nat.mod_lt _ (by decide)⟩).isLt
        refine ⟨?_, fun _ => ⟨_, by omega, rfl⟩⟩
        constructor
        · intro h
          have := Option.some.inj h
          omega
        · rintro (h | h | ⟨bl', hb', he⟩)
          · exact absurd h h1
          · cases h
          · cases hb'; exact absurd he hne
      · have hp : bl (ntohs dst >>> 6) > D.lft_block.length := by omega
        simp only [if_pos hp]
        exact ⟨⟨fun _ => Or.inr (Or.inr ⟨bl, rfl, h3⟩), fun _ => trivial⟩, fun h => absurd rfl h⟩

theorem find_destination_port_fails_iff_witness :
    (ssa_pr_build_indexes example_consts zero_index S1_full).1 = 0 ∧
    find_destination_port S1_full (ssa_pr_build_indexes example_consts zero_index S1_full).2
      (htons 1) (htons 3) = some (-1) :=
  ⟨by decide,
   (find_destination_port_fails_iff example_consts zero_index S1_full
      (htons 1) (htons 3) (by decide)).1.2 (Or.inl (by decide))⟩

/-- C3: scenario S1.  For the minimal database of the scenario, over any
non-empty port table, with any values of the constants and any prior index
state, `ssa_pr_build_indexes` returns 0, `find_destination_port` from LID 1 to
LID 2 returns 3, and from LID 1 to LID 3 it returns -1. -/
theorem scenario_S1 (C : ssa_pr_consts) (I0 : ssa_pr_smdb_index) (ports : List smdb_port)
    (hports : ports.length ≠ 0) :
    (ssa_pr_build_indexes C I0 (S1_smdb ports)).1 = 0 ∧
    find_destination_port (S1_smdb ports) (ssa_pr_build_indexes C I0 (S1_smdb ports)).2
      (htons 1) (htons 2) = some 3 ∧
    find_destination_port (S1_smdb ports) (ssa_pr_build_indexes C I0 (S1_smdb ports)).2
      (htons 1) (htons 3) = some (-1) := by
  have h2 : ntohs (htons 2) = 2 := by decide
  have hb : (ssa_pr_build_indexes C I0 (S1_smdb ports)).1 = 0 := by
    rw [(build_indexes_fst_spec C I0 (S1_smdb ports)).1]
    refine ⟨by simp [S1_smdb], hports, by simp [S1_smdb], by simp [S1_smdb],
      by simp [S1_smdb], ?_⟩
    intro r hr
    have hr' : r = (⟨htons 1, htons 2, 3, 0⟩ : smdb_link) := by simpa [S1_smdb] using hr
    subst hr'
    have hsw : (port_loop C ((S1_smdb ports).port.length + 1) (S1_smdb ports).port 0
        { (build_is_switch_lookup I0 (S1_smdb ports)).2 with
          ca_port_lookup := fun _ => 0, switch_port_lookup := fun _ => none }).is_switch_lookup
        (ntohs (htons 2)) = 0 := by
      rw [port_loop_is_switch, h2]
      simp only [build_is_switch_lookup_snd]
      rfl
    have hca := port_loop_ca_bound C ((S1_smdb ports).port.length + 1) (S1_smdb ports).port 0
      { (build_is_switch_lookup I0 (S1_smdb ports)).2 with
        ca_port_lookup := fun _ => 0, switch_port_lookup := fun _ => none }
      (fun _ => Or.inl rfl) (ntohs (htons 2))
    unfold find_port_index
    rw [build_port_index_snd]
    simp only [hsw, ne_eq, not_true_eq_false, if_false]
    have hlen : 0 + (S1_smdb ports).port.length = (S1_smdb ports).port.length := Nat.zero_add _
    rcases hca with h | h
    · exact lt_of_eq_of_lt h (Nat.pos_of_ne_zero hports)
    · exact lt_of_lt_of_eq h hlen
  refine ⟨hb, ?_, ?_⟩
  · rw [find_destination_port_built hb]
    rfl
  · rw [find_destination_port_built hb]
    rfl

theorem scenario_S1_witness :
    (S1_ports example_consts).length ≠ 0 ∧
    (ssa_pr_build_indexes example_consts zero_index (S1_smdb (S1_ports example_consts))).1 = 0 ∧
    find_destination_port (S1_smdb (S1_ports example_consts))
      (ssa_pr_build_indexes example_consts zero_index (S1_smdb (S1_ports example_consts))).2
      (htons 1) (htons 2) = some 3 ∧
    find_destination_port (S1_smdb (S1_ports example_consts))
      (ssa_pr_build_indexes example_consts zero_index (S1_smdb (S1_ports example_consts))).2
      (htons 1) (htons 3) = some (-1) :=
  ⟨by decide, scenario_S1 example_consts zero_index (S1_ports example_consts) (by decide)⟩

/-! ## Result of the build -/

/-- C4, as stated, fails.  In `dangling_link_smdb` the link, port, LFT top and
LFT block tables are all non-empty, yet `ssa_pr_build_indexes` does not return
0, and its return value is -1, not the value 1 of an empty table.  In
`no_guid_smdb` the four tables are non-empty as well, and the build returns 1
for the empty GUID to LID table. -/
theorem build_indexes_four_tables_counterexample :
    (¬ ((ssa_pr_build_indexes example_consts zero_index dangling_link_smdb).1 = 0 ↔
        (dangling_link_smdb.link.length ≠ 0 ∧ dangling_link_smdb.port.length ≠ 0 ∧
         dangling_link_smdb.lft_top.length ≠ 0 ∧ dangling_link_smdb.lft_block.length ≠ 0)) ∧
      (ssa_pr_build_indexes example_consts zero_index dangling_link_smdb).1 = -1) ∧
    (¬ ((ssa_pr_build_indexes example_consts zero_index no_guid_smdb).1 = 0 ↔
        (no_guid_smdb.link.length ≠ 0 ∧ no_guid_smdb.port.length ≠ 0 ∧
         no_guid_smdb.lft_top.length ≠ 0 ∧ no_guid_smdb.lft_block.length ≠ 0)) ∧
      (ssa_pr_build_indexes example_consts zero_index no_guid_smdb).1 = 1) := by
  decide

/-- C4, amended: `ssa_pr_build_indexes` returns 0 exactly when the GUID to LID,
port, LFT top, LFT block and link tables are all non-empty and the far end of
every link record is found by the port lookup below the port count; it returns
1 exactly when one of these five tables is empty, and -1 exactly when all five
are non-empty and the far end of some link record is not found. -/
theorem build_indexes_result (C : ssa_pr_consts) (I : ssa_pr_smdb_index) (D : ssa_db) :
    ((ssa_pr_build_indexes C I D).1 = 0 ↔
      D.guid2lid.length ≠ 0 ∧ D.port.length ≠ 0 ∧ D.lft_top.length ≠ 0 ∧
      D.lft_block.length ≠ 0 ∧ D.link.length ≠ 0 ∧
      ∀ r ∈ D.link, find_port_index (build_port_index C (build_is_switch_lookup I D).2 D).2
        r.to_lid r.to_port_num.val < D.port.length) ∧
    ((ssa_pr_build_indexes C I D).1 = 1 ↔
      D.guid2lid.length = 0 ∨ D.port.length = 0 ∨ D.lft_top.length = 0 ∨
      D.lft_block.length = 0 ∨ D.link.length = 0) ∧
    ((ssa_pr_build_indexes C I D).1 = -1 ↔
      D.guid2lid.length ≠ 0 ∧ D.port.length ≠ 0 ∧ D.lft_top.length ≠ 0 ∧
      D.lft_block.length ≠ 0 ∧ D.link.length ≠ 0 ∧
      ∃ r ∈ D.link, ¬ find_port_index (build_port_index C (build_is_switch_lookup I D).2 D).2
        r.to_lid r.to_port_num.val < D.port.length) :=
  build_indexes_fst_spec C I D

/-! ## Rebuild and epochs -/

/-- C5: when the epoch of the index equals the epoch of the database,
`ssa_pr_rebuild_indexes` returns 0 and leaves the index, with all its lookups
and its epoch, as it was. -/
theorem rebuild_same_epoch (C : ssa_pr_consts) (I : ssa_pr_smdb_index) (D : ssa_db)
    (h : I.epoch = ssa_db_get_epoch D) : ssa_pr_rebuild_indexes C I D = (0, I) :=
  rebuild_of_eq C I D h

theorem rebuild_same_epoch_witness :
    (ssa_pr_build_indexes example_consts zero_index S1_full).2.epoch =
        ssa_db_get_epoch S1_full ∧
      ssa_pr_rebuild_indexes example_consts
        (ssa_pr_build_indexes example_consts zero_index S1_full).2 S1_full =
      (0, (ssa_pr_build_indexes example_consts zero_index S1_full).2) :=
  ⟨by decide, rebuild_same_epoch _ _ _ (by decide)⟩

/-- C6, as stated, fails when the epoch of the second database is
`DB_EPOCH_INVALID`: with `DB_EPOCH_INVALID = 0`, rebuilding from a database of
epoch 1 and then from one of epoch 0 builds the lookups of the second database,
while a destroyed index is left untouched by a rebuild from the database of
epoch 0. -/
theorem rebuild_twice_invalid_epoch_counterexample :
    ssa_db_get_epoch (S1_at_epoch 1) ≠ ssa_db_get_epoch (S1_at_epoch 0) ∧
      ssa_pr_rebuild_indexes example_consts
        (ssa_pr_rebuild_indexes example_consts zero_index (S1_at_epoch 1)).2 (S1_at_epoch 0) ≠
      ssa_pr_rebuild_indexes example_consts
        (ssa_pr_destroy_indexes example_consts zero_index) (S1_at_epoch 0) := by
  refine ⟨by decide, fun h => ?_⟩
  have h' := congrArg (fun r => r.2.lft_top_lookup 1) h
  revert h'
  decide

/-- C6, amended: for databases `D1` and `D2` with different epochs, where the
epoch of `D2` is not `DB_EPOCH_INVALID`, rebuilding from `D1` and then from
`D2` gives the same return value and the same index (lookups and epoch) as
rebuilding any destroyed index from `D2` alone. -/
theorem rebuild_twice_eq_fresh (C : ssa_pr_consts) (I I' : ssa_pr_smdb_index) (D1 D2 : ssa_db)
    (hne : ssa_db_get_epoch D1 ≠ ssa_db_get_epoch D2)
    (hvalid : ssa_db_get_epoch D2 ≠ C.DB_EPOCH_INVALID) :
    ssa_pr_rebuild_indexes C (ssa_pr_rebuild_indexes C I D1).2 D2 =
      ssa_pr_rebuild_indexes C (ssa_pr_destroy_indexes C I') D2 := by
  unfold ssa_db_get_epoch at hne hvalid
  have h1 : (ssa_pr_rebuild_indexes C I D1).2.epoch ≠ D2.epoch := by
    rcases rebuild_epoch_cases C I D1 with h | h <;> rw [h]
    · exact hne
    · exact fun e => hvalid e.symm
  have h2 : (ssa_pr_destroy_indexes C I').epoch ≠ D2.epoch := fun e => hvalid e.symm
  rw [rebuild_of_ne C _ D2 h1, rebuild_of_ne C _ D2 h2]
  rfl

theorem rebuild_twice_eq_fresh_witness :
    ssa_db_get_epoch (S1_at_epoch 1) ≠ ssa_db_get_epoch (S1_at_epoch 2) ∧
      ssa_db_get_epoch (S1_at_epoch 2) ≠ example_consts.DB_EPOCH_INVALID ∧
      ssa_pr_rebuild_indexes example_consts
        (ssa_pr_rebuild_indexes example_consts zero_index (S1_at_epoch 1)).2 (S1_at_epoch 2) =
      ssa_pr_rebuild_indexes example_consts
        (ssa_pr_destroy_indexes example_consts zero_index) (S1_at_epoch 2) :=
  ⟨by decide, by decide, rebuild_twice_eq_fresh _ _ _ _ _ (by decide) (by decide)⟩

/-! ## Dependence on the prior index state -/

/-- C7, evaluated at the failing input: after a first successful build from a
database in which the switch at LID 300 has a link at port 5, a second
successful build from a database in which that switch only has a link at port
1 still resolves the link at port 5 of LID 300, while the same build into a
zero index does not; the two resulting link lookups differ. -/
theorem build_keeps_stale_switch_links :
    (ssa_pr_build_indexes example_consts zero_index (switch300_smdb 5)).1 = 0 ∧
    (ssa_pr_build_indexes example_consts index_after_first_build (switch300_smdb 1)).1 = 0 ∧
    (ssa_pr_build_indexes example_consts zero_index (switch300_smdb 1)).1 = 0 ∧
    find_linked_port (switch300_smdb 1)
      (ssa_pr_build_indexes example_consts index_after_first_build (switch300_smdb 1)).2
      (htons 300) 5 = some 1 ∧
    find_linked_port (switch300_smdb 1)
      (ssa_pr_build_indexes example_consts zero_index (switch300_smdb 1)).2
      (htons 300) 5 = none := by
  decide

/-! ## Lookup by GUID -/

/-- C8: `find_guid_to_lid_rec_by_guid` returns the record at position `i`
exactly when that record has the GUID `g` and no earlier record of the table
has it; it returns NULL exactly when no record of the table has the GUID `g`;
so it returns a record exactly when some record has the GUID `g`. -/
theorem find_guid_to_lid_rec_by_guid_spec (D : ssa_db) (g : Nat) :
    (∀ i, find_guid_to_lid_rec_by_guid D g = some i ↔
      (∃ r, D.guid2lid[i]? = some r ∧ r.guid = g) ∧
        ∀ j r', j < i → D.guid2lid[j]? = some r' → r'.guid ≠ g) ∧
    (find_guid_to_lid_rec_by_guid D g = none ↔ ∀ r ∈ D.guid2lid, r.guid ≠ g) ∧
    ((∃ i, find_guid_to_lid_rec_by_guid D g = some i) ↔ ∃ r ∈ D.guid2lid, r.guid = g) := by
  unfold find_guid_to_lid_rec_by_guid
  obtain ⟨hnone, hsome⟩ := find_guid_loop_spec g D.guid2lid 0
  have key : ∀ i, ((∃ r, D.guid2lid[i]? = some r ∧ r.guid = g) ∧
      ∀ j r', j < i → D.guid2lid[j]? = some r' → r'.guid ≠ g) →
      find_guid_loop g D.guid2lid 0 = some i := by
    rintro i ⟨⟨r, hr, hg⟩, hfirst⟩
    cases hres : find_guid_loop g D.guid2lid 0 with
    | none => exact absurd hg (hnone hres r (List.getElem?_mem hr))
    | some i' =>
      obtain ⟨n, r1, hn, hr1, hg1, hfirst1⟩ := hsome i' hres
      have hi' : i' = n := by omega
      subst hi'
      rcases Nat.lt_trichotomy i i' with hlt | heq | hgt
      · exact absurd hg (hfirst1 i r hlt hr)
      · rw [heq]
      · exact absurd hg1 (hfirst i' r1 hgt hr1)
  have hnone' : find_guid_loop g D.guid2lid 0 = none ↔ ∀ r ∈ D.guid2lid, r.guid ≠ g := by
    refine ⟨hnone, fun h => ?_⟩
    cases hres : find_guid_loop g D.guid2lid 0 with
    | none => rfl
    | some i =>
      obtain ⟨n, r, -, hr, hg, -⟩ := hsome i hres
      exact absurd hg (h r (List.getElem?_mem hr))
  refine ⟨fun i => ⟨fun h => ?_, key i⟩, hnone', ?_⟩
  · obtain ⟨n, r, hn, hr, hg, hfirst⟩ := hsome i h
    have hi : i = n := by omega
    subst hi
    exact ⟨⟨r, hr, hg⟩, hfirst⟩
  · constructor
    · rintro ⟨i, hi⟩
      obtain ⟨n, r, -, hr, hg, -⟩ := hsome i hi
      exact ⟨r, List.getElem?_mem hr, hg⟩
    · rintro ⟨r, hr, hg⟩
      cases hres : find_guid_loop g D.guid2lid 0 with
      | none => exact absurd hg (hnone hres r hr)
      | some i => exact ⟨i, rfl⟩

/-! ## Missing entries of the host-adaptor lookups -/

/-- C9, evaluated at the failing input: in the database of scenario S1 no port
record has LID 7, and `find_port` for LID 7 returns the port record at
position 0 instead of NULL. -/
theorem find_port_missing_ca_entry :
    (ssa_pr_build_indexes example_consts zero_index S1_full).1 = 0 ∧
    (∀ r ∈ S1_full.port, r.port_lid ≠ htons 7) ∧
    find_port S1_full (ssa_pr_build_indexes example_consts zero_index S1_full).2
      (htons 7) 0 = some 0 := by
  decide

/-- C10, evaluated at the failing input: in the database of scenario S1 no
link record starts at LID 7, and `find_linked_port` for LID 7 returns the port
record at position 0 instead of NULL. -/
theorem find_linked_port_missing_ca_entry :
    (ssa_pr_build_indexes example_consts zero_index S1_full).1 = 0 ∧
    (∀ r ∈ S1_full.link, r.from_lid ≠ htons 7) ∧
    find_linked_port S1_full (ssa_pr_build_indexes example_consts zero_index S1_full).2
      (htons 7) 0 = some 0 := by
  decide

/-! ## Message header -/

theorem bytes_of_u32 (n : Nat) (h : n < 4294967296) :
    ∃ a b c d, a < 256 ∧ b < 256 ∧ c < 256 ∧ d < 256 ∧
      n = a + 256 * b + 65536 * c + 16777216 * d :=
  ⟨n % 256, n / 256 % 256, n / 65536 % 256, n / 16777216,
    by omega, by omega, by omega, by omega, by omega⟩

theorem byte_parts (a b c d : Nat) (ha : a < 256) (hb : b < 256) (hc : c < 256) :
    (a + 256 * b + 65536 * c + 16777216 * d) % 256 = a ∧
    (a + 256 * b + 65536 * c + 16777216 * d) / 256 % 256 = b ∧
    (a + 256 * b + 65536 * c + 16777216 * d) / 65536 % 256 = c ∧
    (a + 256 * b + 65536 * c + 16777216 * d) / 16777216 = d :=
  ⟨by omega, by omega, by omega, by omega⟩

theorem ntohl_htonl (n : Nat) (h : n < 4294967296) : ntohl (htonl n) = n := by
  obtain ⟨a, b, c, d, ha, hb, hc, hd, rfl⟩ := bytes_of_u32 n h
  obtain ⟨h0, h1, h2, h3⟩ := byte_parts a b c d ha hb hc
  unfold ntohl htonl
  simp only [h0, h1, h2, h3, Nat.mod_eq_of_lt hd]
  obtain ⟨k0, k1, k2, k3⟩ := byte_parts d c b a hd hc hb
  have e : a * 16777216 + b * 65536 + c * 256 + d =
      d + 256 * c + 65536 * b + 16777216 * a := by omega
  simp only [e, k0, k1, k2, k3]
  omega

theorem htonl_ntohl (x : be32_t) : htonl (ntohl x) = x := by
  apply Fin.ext
  obtain ⟨a, b, c, d, ha, hb, hc, hd, hx⟩ := bytes_of_u32 x.val x.isLt
  obtain ⟨h0, h1, h2, h3⟩ := byte_parts a b c d ha hb hc
  unfold ntohl htonl
  simp only [hx, h0, h1, h2, h3]
  obtain ⟨k0, k1, k2, k3⟩ := byte_parts d c b a hd hc hb
  have e : a * 16777216 + b * 65536 + c * 256 + d =
      d + 256 * c + 65536 * b + 16777216 * a := by omega
  simp only [e, k0, k1, k2, k3, Nat.mod_eq_of_lt ha]
  omega

theorem valid_op_iff (C : ssa_msg_consts) (op : Nat) :
    valid_op C op = true ↔
      op ∈ [C.SSA_MSG_DB_QUERY_DEF, C.SSA_MSG_DB_QUERY_TBL_DEF,
        C.SSA_MSG_DB_QUERY_TBL_DEF_DATASET, C.SSA_MSG_DB_QUERY_FIELD_DEF_DATASET,
        C.SSA_MSG_DB_QUERY_DATA_DATASET, C.SSA_MSG_DB_PUBLISH_EPOCH_BUF] := by
  simp [valid_op, or_assoc]

theorem validate_eq_one_iff (C : ssa_msg_consts) (hdr : ssa_msg_hdr) :
    validate_ssa_msg_hdr C hdr = 1 ↔
      hdr.version = C.SSA_MSG_VERSION ∧ hdr.class_ = C.SSA_MSG_CLASS_DB ∧
      valid_op C (ntohs hdr.op) = true := by
  unfold validate_ssa_msg_hdr
  by_cases hv : hdr.version = C.SSA_MSG_VERSION
  · by_cases hc : hdr.class_ = C.SSA_MSG_CLASS_DB
    · by_cases ho : valid_op C (ntohs hdr.op) = true
      · simp [hv, hc, ho]
      · simp [hv, hc, ho]
    · simp [hv, hc]
  · simp [hv]

/-- C11: `validate_ssa_msg_hdr` returns 1 exactly when the version is
`SSA_MSG_VERSION`, the class is `SSA_MSG_CLASS_DB` and the host-order operation
is one of the six enumerated operations; otherwise it returns 0, and two
headers that agree on these three fields get the same result whatever their
other fields hold. -/
theorem validate_ssa_msg_hdr_spec (C : ssa_msg_consts) (hdr : ssa_msg_hdr) :
    (validate_ssa_msg_hdr C hdr = 1 ↔
      hdr.version = C.SSA_MSG_VERSION ∧ hdr.class_ = C.SSA_MSG_CLASS_DB ∧
      ntohs hdr.op ∈ [C.SSA_MSG_DB_QUERY_DEF, C.SSA_MSG_DB_QUERY_TBL_DEF,
        C.SSA_MSG_DB_QUERY_TBL_DEF_DATASET, C.SSA_MSG_DB_QUERY_FIELD_DEF_DATASET,
        C.SSA_MSG_DB_QUERY_DATA_DATASET, C.SSA_MSG_DB_PUBLISH_EPOCH_BUF]) ∧
    (validate_ssa_msg_hdr C hdr = 1 ∨ validate_ssa_msg_hdr C hdr = 0) ∧
    ∀ len flags status id reserved rdma_len rdma_addr,
      validate_ssa_msg_hdr C
        { hdr with len := len, flags := flags, status := status, id := id,
                   reserved := reserved, rdma_len := rdma_len,
                   rdma_addr := rdma_addr } = validate_ssa_msg_hdr C hdr := by
  refine ⟨?_, ?_, ?_⟩
  · rw [validate_eq_one_iff, valid_op_iff]
  · unfold validate_ssa_msg_hdr
    split_ifs <;> simp
  · intro len flags status id reserved rdma_len rdma_addr
    rfl

/-- C12: for every 16-bit operation and flags and every 32-bit length and
correlator, the header written by `ssa_init_ssa_msg_hdr` decodes with `ntohs`
and `ntohl` to exactly these values, its status, reserved, RDMA length and
RDMA address are zero, and it passes `validate_ssa_msg_hdr` whenever the
operation is one of the six enumerated operations. -/
theorem ssa_init_ssa_msg_hdr_roundtrip (C : ssa_msg_consts) (op len flags id : Nat)
    (hop : op < 65536) (hlen : len < 4294967296) (hflags : flags < 65536)
    (hid : id < 4294967296) :
    ntohs (ssa_init_ssa_msg_hdr C op len flags id).op = op ∧
    ntohl (ssa_init_ssa_msg_hdr C op len flags id).len = len ∧
    ntohs (ssa_init_ssa_msg_hdr C op len flags id).flags = flags ∧
    ntohl (ssa_init_ssa_msg_hdr C op len flags id).id = id ∧
    (ssa_init_ssa_msg_hdr C op len flags id).status = 0 ∧
    (ssa_init_ssa_msg_hdr C op len flags id).reserved = 0 ∧
    (ssa_init_ssa_msg_hdr C op len flags id).rdma_len = 0 ∧
    (ssa_init_ssa_msg_hdr C op len flags id).rdma_addr = 0 ∧
    (op ∈ [C.SSA_MSG_DB_QUERY_DEF, C.SSA_MSG_DB_QUERY_TBL_DEF,
        C.SSA_MSG_DB_QUERY_TBL_DEF_DATASET, C.SSA_MSG_DB_QUERY_FIELD_DEF_DATASET,
        C.SSA_MSG_DB_QUERY_DATA_DATASET, C.SSA_MSG_DB_PUBLISH_EPOCH_BUF] →
      validate_ssa_msg_hdr C (ssa_init_ssa_msg_hdr C op len flags id) = 1) := by
  refine ⟨ntohs_htons op hop, ntohl_htonl len hlen, ntohs_htons flags hflags,
    ntohl_htonl id hid, rfl, rfl, rfl, rfl, ?_⟩
  intro hmem
  rw [validate_eq_one_iff]
  refine ⟨rfl, rfl, ?_⟩
  rw [valid_op_iff]
  have e : ntohs (ssa_init_ssa_msg_hdr C op len flags id).op = op := ntohs_htons op hop
  rw [e]
  exact hmem

/-- C12 at a concrete input: a data query of length 32 with the END flag and
correlator 7, for the example constants. -/
theorem ssa_init_ssa_msg_hdr_roundtrip_witness :
    ntohs (ssa_init_ssa_msg_hdr example_msg_consts 5 32 1 7).op = 5 ∧
    ntohl (ssa_init_ssa_msg_hdr example_msg_consts 5 32 1 7).len = 32 ∧
    ntohs (ssa_init_ssa_msg_hdr example_msg_consts 5 32 1 7).flags = 1 ∧
    ntohl (ssa_init_ssa_msg_hdr example_msg_consts 5 32 1 7).id = 7 ∧
    validate_ssa_msg_hdr example_msg_consts
      (ssa_init_ssa_msg_hdr example_msg_consts 5 32 1 7) = 1 :=
  have h := ssa_init_ssa_msg_hdr_roundtrip example_msg_consts 5 32 1 7
    (by norm_num) (by norm_num) (by norm_num) (by norm_num)
  ⟨h.1, h.2.1, h.2.2.1, h.2.2.2.1,
    h.2.2.2.2.2.2.2.2 (by simp [example_msg_consts])⟩

/-! ## Receiving a header that fails validation -/

/-- C13 fails: a complete header with a wrong version is received on a server
connection and on a client connection that are CONNECTED; afterwards both are
still CONNECTED on their sockets 7 and 5, and the event mask is returned as it
came. -/
theorem rrecv_invalid_hdr_counterexample :
    validate_ssa_msg_hdr example_msg_consts bad_version_hdr = 0 ∧
    (ssa_downstream_rrecv example_msg_consts no_globals (example_server_conn SSA_DB_IDLE)
        POLLIN (complete_env bad_version_hdr [])).map
      (fun r => (r.1, r.2.rsock, r.2.state, r.2.roffset)) =
      some (POLLIN, 7, SSA_CONN_CONNECTED, 32) ∧
    (ssa_upstream_rrecv example_msg_consts (example_client_svc SSA_DB_DEFS)
        POLLIN (complete_env bad_version_hdr [])).map
      (fun r => (r.1, r.2.conn_dataup.rsock, r.2.conn_dataup.state, r.2.conn_dataup.roffset)) =
      some (POLLIN, 5, SSA_CONN_CONNECTED, 32) := by
  decide

theorem ssa_downstream_rrecv_invalid (C : ssa_msg_consts) (G : ssa_globals)
    (conn : ssa_conn) (events : Nat) (E : env) (hrb : conn.rbuf = .hdr)
    (hret : 0 < E.rrecv_ret (conn.rsize - conn.roffset))
    (hfull : conn.roffset + (E.rrecv_ret (conn.rsize - conn.roffset)).toNat = conn.rsize)
    (hv : validate_ssa_msg_hdr C E.rrecv_hdr = 0) :
    ssa_downstream_rrecv C G conn events E =
      some (events, { conn with roffset := conn.rsize }) := by
  unfold ssa_downstream_rrecv
  simp only [hret, if_true, rrecv_store, hrb, hfull, hv, ne_eq, not_true_eq_false, if_false]

theorem ssa_upstream_rrecv_invalid (C : ssa_msg_consts) (svc : ssa_svc) (events : Nat)
    (E : env) (hrb : svc.conn_dataup.rbuf = .hdr) (hrh : svc.conn_dataup.rhdr = none)
    (hret : 0 < E.rrecv_ret (svc.conn_dataup.rsize - svc.conn_dataup.roffset))
    (hfull : svc.conn_dataup.roffset +
      (E.rrecv_ret (svc.conn_dataup.rsize - svc.conn_dataup.roffset)).toNat =
        svc.conn_dataup.rsize)
    (hv : validate_ssa_msg_hdr C E.rrecv_hdr = 0) :
    ssa_upstream_rrecv C svc events E =
      some (events,
        { svc with conn_dataup := { svc.conn_dataup with roffset := svc.conn_dataup.rsize } }) := by
  unfold ssa_upstream_rrecv
  simp only [hret, if_true, rrecv_store, hrb, hrh, hfull, hv, ne_eq, not_true_eq_false,
    if_false]

/-- C13, amended: when the receive that completes a header block yields a
header that fails `validate_ssa_msg_hdr`, `ssa_downstream_rrecv` and
`ssa_upstream_rrecv` return the event mask they were given and change nothing
but the receive offset, which has reached the receive size: the socket, the
connection state and the phase are kept and nothing is sent. -/
theorem rrecv_invalid_hdr_keeps_conn (C : ssa_msg_consts) (G : ssa_globals)
    (conn : ssa_conn) (svc : ssa_svc) (events : Nat) (E : env)
    (hv : validate_ssa_msg_hdr C E.rrecv_hdr = 0)
    (hrb : conn.rbuf = .hdr)
    (hret : 0 < E.rrecv_ret (conn.rsize - conn.roffset))
    (hfull : conn.roffset + (E.rrecv_ret (conn.rsize - conn.roffset)).toNat = conn.rsize)
    (hrb' : svc.conn_dataup.rbuf = .hdr) (hrh : svc.conn_dataup.rhdr = none)
    (hret' : 0 < E.rrecv_ret (svc.conn_dataup.rsize - svc.conn_dataup.roffset))
    (hfull' : svc.conn_dataup.roffset +
      (E.rrecv_ret (svc.conn_dataup.rsize - svc.conn_dataup.roffset)).toNat =
        svc.conn_dataup.rsize) :
    ssa_downstream_rrecv C G conn events E =
      some (events, { conn with roffset := conn.rsize }) ∧
    ssa_upstream_rrecv C svc events E =
      some (events,
        { svc with conn_dataup := { svc.conn_dataup with roffset := svc.conn_dataup.rsize } }) :=
  ⟨ssa_downstream_rrecv_invalid C G conn events E hrb hret hfull hv,
    ssa_upstream_rrecv_invalid C svc events E hrb' hrh hret' hfull' hv⟩

/-- C13, amended, at a concrete input: the header with the wrong version on
the example connections. -/
theorem rrecv_invalid_hdr_keeps_conn_witness :
    ssa_downstream_rrecv example_msg_consts no_globals (example_server_conn SSA_DB_IDLE)
        POLLIN (complete_env bad_version_hdr []) =
      some (POLLIN, { example_server_conn SSA_DB_IDLE with roffset := 32 }) ∧
    ssa_upstream_rrecv example_msg_consts (example_client_svc SSA_DB_DEFS) POLLIN
        (complete_env bad_version_hdr []) =
      some (POLLIN,
        { example_client_svc SSA_DB_DEFS with
          conn_dataup := { (example_client_svc SSA_DB_DEFS).conn_dataup with roffset := 32 } }) :=
  rrecv_invalid_hdr_keeps_conn example_msg_consts no_globals
    (example_server_conn SSA_DB_IDLE) (example_client_svc SSA_DB_DEFS) POLLIN
    (complete_env bad_version_hdr []) (by decide) rfl (by decide) (by decide) rfl rfl
    (by decide) (by decide)

/-! ## Requests out of phase -/

theorem ops_ne (C : ssa_msg_consts) :
    C.SSA_MSG_DB_QUERY_DEF ≠ C.SSA_MSG_DB_QUERY_TBL_DEF ∧
    C.SSA_MSG_DB_QUERY_DEF ≠ C.SSA_MSG_DB_QUERY_TBL_DEF_DATASET ∧
    C.SSA_MSG_DB_QUERY_DEF ≠ C.SSA_MSG_DB_QUERY_FIELD_DEF_DATASET ∧
    C.SSA_MSG_DB_QUERY_DEF ≠ C.SSA_MSG_DB_QUERY_DATA_DATASET ∧
    C.SSA_MSG_DB_QUERY_TBL_DEF ≠ C.SSA_MSG_DB_QUERY_TBL_DEF_DATASET ∧
    C.SSA_MSG_DB_QUERY_TBL_DEF ≠ C.SSA_MSG_DB_QUERY_FIELD_DEF_DATASET ∧
    C.SSA_MSG_DB_QUERY_TBL_DEF ≠ C.SSA_MSG_DB_QUERY_DATA_DATASET ∧
    C.SSA_MSG_DB_QUERY_TBL_DEF_DATASET ≠ C.SSA_MSG_DB_QUERY_FIELD_DEF_DATASET ∧
    C.SSA_MSG_DB_QUERY_TBL_DEF_DATASET ≠ C.SSA_MSG_DB_QUERY_DATA_DATASET ∧
    C.SSA_MSG_DB_QUERY_FIELD_DEF_DATASET ≠ C.SSA_MSG_DB_QUERY_DATA_DATASET := by
  have h := C.ops_nodup
  simp only [List.nodup_cons, List.mem_cons, List.mem_singleton, not_or, List.not_mem_nil,
    not_false_eq_true, List.nodup_nil, and_true] at h
  obtain ⟨⟨h1, h2, h3, h4, _⟩, ⟨h5, h6, h7, _⟩, ⟨h8, h9, _⟩, ⟨h10, _⟩, _⟩ := h
  exact ⟨h1, h2, h3, h4, h5, h6, h7, h8, h9, h10⟩

theorem ssa_downstream_handle_op_field (C : ssa_msg_consts) (G : ssa_globals)
    (conn : ssa_conn) (hdr : ssa_msg_hdr) (events : Nat) (E : env)
    (hop : ntohs hdr.op = C.SSA_MSG_DB_QUERY_FIELD_DEF_DATASET) :
    ssa_downstream_handle_op C G conn hdr events E =
      ssa_downstream_handle_query_field_defs C G conn hdr events E := by
  obtain ⟨_, _, h3, _, _, h6, _, h8, _, _⟩ := ops_ne C
  unfold ssa_downstream_handle_op
  simp only [hop, if_neg h3.symm, if_neg h6.symm, if_neg h8.symm, if_true]

/-- C17 fails: a server connection in phase DEFS that holds the example
database receives a valid QUERY_FIELD_DEF_DATASET header; no `rsend` is
issued, so there is no header-only END response, and the event mask comes back
unchanged. -/
theorem S2_no_response_counterexample :
    validate_ssa_msg_hdr example_msg_consts
      (ssa_init_ssa_msg_hdr example_msg_consts 4 32 1 9) = 1 ∧
    (ssa_downstream_rrecv example_msg_consts example_globals
        (example_server_conn SSA_DB_DEFS) POLLIN
        (complete_env (ssa_init_ssa_msg_hdr example_msg_consts 4 32 1 9) [])).map
      (fun r => (r.1, r.2.sent, r.2.sbuf, r.2.phase)) =
      some (POLLIN, [], .ptr .null, SSA_DB_DEFS) := by
  decide

/-- C17, amended (scenario S2): a server connection in phase DEFS that
handles a QUERY_FIELD_DEF_DATASET request sends nothing: the handler returns
the event mask it was given and leaves the connection as it was, in phase
DEFS. -/
theorem S2_field_query_in_defs (C : ssa_msg_consts) (G : ssa_globals)
    (conn : ssa_conn) (hdr : ssa_msg_hdr) (events : Nat) (E : env)
    (hphase : conn.phase = SSA_DB_DEFS)
    (hop : ntohs hdr.op = C.SSA_MSG_DB_QUERY_FIELD_DEF_DATASET) :
    ssa_downstream_handle_op C G conn hdr events E = some (events, conn) := by
  rw [ssa_downstream_handle_op_field C G conn hdr events E hop]
  unfold ssa_downstream_handle_query_field_defs
  simp [hphase]

/-- C17, amended, at a concrete input: the example server connection in phase
DEFS and a QUERY_FIELD_DEF_DATASET header with correlator 9. -/
theorem S2_field_query_in_defs_witness :
    ssa_downstream_handle_op example_msg_consts example_globals
        (example_server_conn SSA_DB_DEFS)
        (ssa_init_ssa_msg_hdr example_msg_consts 4 32 1 9) POLLIN
        (complete_env (ssa_init_ssa_msg_hdr example_msg_consts 4 32 1 9) []) =
      some (POLLIN, example_server_conn SSA_DB_DEFS) :=
  S2_field_query_in_defs example_msg_consts example_globals
    (example_server_conn SSA_DB_DEFS) (ssa_init_ssa_msg_hdr example_msg_consts 4 32 1 9)
    POLLIN (complete_env (ssa_init_ssa_msg_hdr example_msg_consts 4 32 1 9) []) rfl
    (by decide)

/-! ## Responses with a foreign correlator -/

theorem ssa_upstream_handle_query_defs_mismatch (C : ssa_msg_consts) (conn : ssa_conn)
    (hdr : ssa_msg_hdr) (E : env) (hid : ntohl hdr.id ≠ conn.sid) :
    ssa_upstream_handle_query_defs C conn hdr E = some conn := by
  unfold ssa_upstream_handle_query_defs
  have h : conn.sid ≠ ntohl hdr.id := fun e => hid e.symm
  split_ifs <;> rfl

theorem ssa_upstream_handle_query_payload_mismatch (C : ssa_msg_consts)
    (phase : ssa_db_phase) (conn : ssa_conn) (hdr : ssa_msg_hdr) (E : env)
    (hid : ntohl hdr.id ≠ conn.sid) :
    ssa_upstream_handle_query_payload C phase conn hdr E = some conn := by
  unfold ssa_upstream_handle_query_payload
  have h : conn.sid ≠ ntohl hdr.id := fun e => hid e.symm
  split_ifs <;> rfl

theorem ssa_upstream_handle_op_check_mismatch (C : ssa_msg_consts) (phase : ssa_db_phase)
    (svc : ssa_svc) (hdr : ssa_msg_hdr) (events : Nat) (E : env)
    (hid : ntohl hdr.id ≠ svc.conn_dataup.sid) :
    ssa_upstream_handle_op_check C phase svc hdr events E = some (events, svc) := by
  unfold ssa_upstream_handle_op_check
  split_ifs <;> rfl

/-- C15: a response whose correlator differs from `conn.sid` is ignored by
the client: `ssa_upstream_handle_op` returns the event mask it was given and
the service unchanged, so the phase, the receive index and every part of the
database under construction are what they were and no query is sent. -/
theorem ssa_upstream_handle_op_id_mismatch (C : ssa_msg_consts) (svc : ssa_svc)
    (hdr : ssa_msg_hdr) (events : Nat) (E : env)
    (hid : ntohl hdr.id ≠ svc.conn_dataup.sid) :
    ssa_upstream_handle_op C svc hdr events E = some (events, svc) := by
  unfold ssa_upstream_handle_op ssa_upstream_handle_query_tbl_defs
    ssa_upstream_handle_query_field_defs ssa_upstream_handle_query_data
  simp only [ssa_upstream_handle_query_defs_mismatch C svc.conn_dataup hdr E hid,
    ssa_upstream_handle_query_payload_mismatch C _ svc.conn_dataup hdr E hid,
    ssa_upstream_handle_op_check_mismatch C _ svc hdr events E hid]
  split_ifs <;> rfl

/-- C15 at a concrete input: the example client has query 9 in flight in
phase DEFS and receives a QUERY_DEF response with correlator 8. -/
theorem ssa_upstream_handle_op_id_mismatch_witness :
    ssa_upstream_handle_op example_msg_consts (example_client_svc SSA_DB_DEFS)
        (ssa_init_ssa_msg_hdr example_msg_consts 1 40 2 8) POLLIN
        (complete_env (ssa_init_ssa_msg_hdr example_msg_consts 1 40 2 8) []) =
      some (POLLIN, example_client_svc SSA_DB_DEFS) :=
  ssa_upstream_handle_op_id_mismatch example_msg_consts (example_client_svc SSA_DB_DEFS)
    (ssa_init_ssa_msg_hdr example_msg_consts 1 40 2 8) POLLIN
    (complete_env (ssa_init_ssa_msg_hdr example_msg_consts 1 40 2 8) []) (by decide)

/-! ## The correlator of a response -/

theorem ssa_downstream_handle_op_def (C : ssa_msg_consts) (G : ssa_globals)
    (conn : ssa_conn) (hdr : ssa_msg_hdr) (events : Nat) (E : env)
    (hop : ntohs hdr.op = C.SSA_MSG_DB_QUERY_DEF) :
    ssa_downstream_handle_op C G conn hdr events E =
      ssa_downstream_handle_query_defs C G conn hdr events E := by
  unfold ssa_downstream_handle_op
  simp only [hop, if_true]

theorem ssa_downstream_handle_op_tbl_def (C : ssa_msg_consts) (G : ssa_globals)
    (conn : ssa_conn) (hdr : ssa_msg_hdr) (events : Nat) (E : env)
    (hop : ntohs hdr.op = C.SSA_MSG_DB_QUERY_TBL_DEF) :
    ssa_downstream_handle_op C G conn hdr events E =
      ssa_downstream_handle_query_tbl_def C G conn hdr events E := by
  obtain ⟨h1, _⟩ := ops_ne C
  unfold ssa_downstream_handle_op
  simp only [hop, if_neg h1.symm, if_true]

theorem ssa_downstream_handle_op_tbl_defs (C : ssa_msg_consts) (G : ssa_globals)
    (conn : ssa_conn) (hdr : ssa_msg_hdr) (events : Nat) (E : env)
    (hop : ntohs hdr.op = C.SSA_MSG_DB_QUERY_TBL_DEF_DATASET) :
    ssa_downstream_handle_op C G conn hdr events E =
      ssa_downstream_handle_query_tbl_defs C G conn hdr events E := by
  obtain ⟨_, h2, _, _, h5, _⟩ := ops_ne C
  unfold ssa_downstream_handle_op
  simp only [hop, if_neg h2.symm, if_neg h5.symm, if_true]

theorem ssa_downstream_handle_op_data (C : ssa_msg_consts) (G : ssa_globals)
    (conn : ssa_conn) (hdr : ssa_msg_hdr) (events : Nat) (E : env)
    (hop : ntohs hdr.op = C.SSA_MSG_DB_QUERY_DATA_DATASET) :
    ssa_downstream_handle_op C G conn hdr events E =
      ssa_downstream_handle_query_data C G conn hdr events E := by
  obtain ⟨_, _, _, h4, _, _, h7, _, h9, h10⟩ := ops_ne C
  unfold ssa_downstream_handle_op
  simp only [hop, if_neg h4.symm, if_neg h7.symm, if_neg h9.symm, if_neg h10.symm, if_true]

/-- The first call of `rsend` made by `ssa_downstream_send` hands over the
header built from the arguments and `conn.rid`. -/
theorem ssa_downstream_send_sent (C : ssa_msg_consts) (conn : ssa_conn) (op : Nat)
    (buf : void_ptr) (len events : Nat) (ret ret2 : Int) :
    ∃ rest, (ssa_downstream_send C conn op buf len events true ret ret2).2.sent =
      conn.sent ++
        ⟨.own (ssa_init_ssa_msg_hdr C op (C.hdr_size + len) C.SSA_MSG_FLAG_RESP conn.rid),
          0, C.hdr_size, ret⟩ :: rest := by
  unfold ssa_downstream_send
  simp only [if_true]
  split_ifs
  · exact ⟨[], rfl⟩
  · exact ⟨[⟨.ptr buf, 0, len, ret2⟩], by simp⟩
  · exact ⟨[⟨.ptr buf, 0, len, ret2⟩], by simp⟩
  · exact ⟨[⟨.ptr buf, 0, len, ret2⟩], by simp⟩
  · exact ⟨[], rfl⟩
  · exact ⟨[], rfl⟩

/-- The call of `rsend` made by `ssa_downstream_send_resp` hands over the
header built from the arguments and `conn.rid`. -/
theorem ssa_downstream_send_resp_sent (C : ssa_msg_consts) (conn : ssa_conn) (op : Nat)
    (events : Nat) (ret : Int) :
    (ssa_downstream_send_resp C conn op events true ret).2.sent =
      conn.sent ++
        [⟨.own (ssa_init_ssa_msg_hdr C op C.hdr_size
            (C.SSA_MSG_FLAG_END ||| C.SSA_MSG_FLAG_RESP) conn.rid),
          0, C.hdr_size, ret⟩] := by
  unfold ssa_downstream_send_resp
  simp only [if_true]
  split_ifs <;> rfl

theorem resp_flag_set (C : ssa_msg_consts) :
    ntohs (htons C.SSA_MSG_FLAG_RESP) &&& C.SSA_MSG_FLAG_RESP = C.SSA_MSG_FLAG_RESP ∧
    ntohs (htons (C.SSA_MSG_FLAG_END ||| C.SSA_MSG_FLAG_RESP)) &&& C.SSA_MSG_FLAG_RESP =
      C.SSA_MSG_FLAG_RESP ∧
    ntohs (htons (C.SSA_MSG_FLAG_END ||| C.SSA_MSG_FLAG_RESP)) &&& C.SSA_MSG_FLAG_END =
      C.SSA_MSG_FLAG_END := by
  obtain ⟨he, hr⟩ := C.flags_lt
  have hor : C.SSA_MSG_FLAG_END ||| C.SSA_MSG_FLAG_RESP < 65536 :=
    Nat.or_lt_two_pow (n := 16) he hr
  rw [ntohs_htons _ hr, ntohs_htons _ hor]
  refine ⟨Nat.and_self _, ?_, ?_⟩
  · apply Nat.eq_of_testBit_eq
    intro i
    simp only [Nat.testBit_and, Nat.testBit_or]
    cases C.SSA_MSG_FLAG_END.testBit i <;> cases C.SSA_MSG_FLAG_RESP.testBit i <;> rfl
  · apply Nat.eq_of_testBit_eq
    intro i
    simp only [Nat.testBit_and, Nat.testBit_or]
    cases C.SSA_MSG_FLAG_END.testBit i <;> cases C.SSA_MSG_FLAG_RESP.testBit i <;> rfl

theorem ssa_downstream_send_echo (C : ssa_msg_consts) (conn : ssa_conn) (hdr : ssa_msg_hdr)
    (op : Nat) (buf : void_ptr) (len events : Nat) (ret ret2 : Int)
    (hrid : conn.rid = ntohl hdr.id) :
    ∃ h rest, (ssa_downstream_send C conn op buf len events true ret ret2).2.sent =
        conn.sent ++ ⟨.own h, 0, C.hdr_size, ret⟩ :: rest ∧
      h.id = hdr.id ∧
      ntohs h.flags &&& C.SSA_MSG_FLAG_RESP = C.SSA_MSG_FLAG_RESP := by
  obtain ⟨rest, hrest⟩ := ssa_downstream_send_sent C conn op buf len events ret ret2
  refine ⟨_, rest, hrest, ?_, (resp_flag_set C).1⟩
  show htonl conn.rid = hdr.id
  rw [hrid, htonl_ntohl]

theorem ssa_downstream_send_resp_echo (C : ssa_msg_consts) (conn : ssa_conn)
    (hdr : ssa_msg_hdr) (op : Nat) (events : Nat) (ret : Int)
    (hrid : conn.rid = ntohl hdr.id) :
    ∃ h rest, (ssa_downstream_send_resp C conn op events true ret).2.sent =
        conn.sent ++ ⟨.own h, 0, C.hdr_size, ret⟩ :: rest ∧
      h.id = hdr.id ∧
      ntohs h.flags &&& C.SSA_MSG_FLAG_RESP = C.SSA_MSG_FLAG_RESP := by
  refine ⟨_, [], ssa_downstream_send_resp_sent C conn op events ret, ?_,
    (resp_flag_set C).2.1⟩
  show htonl conn.rid = hdr.id
  rw [hrid, htonl_ntohl]

theorem is_blk_dataset_at (C : ssa_msg_consts) (p : void_ptr) (i : Nat)
    (h : p.is_blk = true) : ∃ d, dataset_at C p i = some d := by
  cases p <;> simp [void_ptr.is_blk] at h
  exact ⟨_, rfl⟩

/-- The server answers a request handled in the phase expected for its
operation with a header that carries the correlator of the request and the
RESP flag. -/
theorem ssa_downstream_handle_op_echo (C : ssa_msg_consts) (G : ssa_globals)
    (conn : ssa_conn) (hdr : ssa_msg_hdr) (events : Nat) (E : env)
    (hok : E.malloc_sbuf = true)
    (hcase : (ssa_downstream_db G conn = none ∧ ntohs hdr.op = C.SSA_MSG_DB_QUERY_DEF) ∨
      (∃ db, ssa_downstream_db G conn = some db ∧ db_complete db ∧
        expected_phase C (ntohs hdr.op) conn.phase)) :
    ∃ r h rest, ssa_downstream_handle_op C G conn hdr events E = some r ∧
      r.2.sent = conn.sent ++ ⟨.own h, 0, C.hdr_size, E.rsend_ret C.hdr_size⟩ :: rest ∧
      h.id = hdr.id ∧
      ntohs h.flags &&& C.SSA_MSG_FLAG_RESP = C.SSA_MSG_FLAG_RESP := by
  rcases hcase with ⟨hdb, hop⟩ | ⟨db, hdb, ⟨hf, hpf, ht, hpt⟩, hexp⟩
  · rw [ssa_downstream_handle_op_def C G conn hdr events E hop]
    unfold ssa_downstream_handle_query_defs
    simp only [hdb, hok]
    obtain ⟨h, rest, h1, h2, h3⟩ := ssa_downstream_send_resp_echo C
      { conn with rid := ntohl hdr.id, roffset := 0 } hdr C.SSA_MSG_DB_QUERY_DEF events
      (E.rsend_ret C.hdr_size) rfl
    exact ⟨_, h, rest, rfl, h1, h2, h3⟩
  · rcases hexp with ⟨hop, hph⟩ | ⟨hop, hph⟩ | ⟨hop, hph⟩ | ⟨hop, hph⟩ | ⟨hop, hph⟩
    · rw [ssa_downstream_handle_op_def C G conn hdr events E hop]
      unfold ssa_downstream_handle_query_defs
      simp only [hdb, hok]
      rw [if_pos hph]
      obtain ⟨h, rest, h1, h2, h3⟩ := ssa_downstream_send_echo C
        { conn with phase := SSA_DB_DEFS, rid := ntohl hdr.id, roffset := 0 } hdr
        C.SSA_MSG_DB_QUERY_DEF (.blk db.db_def) C.db_def_size events
        (E.rsend_ret C.hdr_size) (E.rsend2_ret C.db_def_size) rfl
      exact ⟨_, h, rest, rfl, h1, h2, h3⟩
    · rw [ssa_downstream_handle_op_tbl_def C G conn hdr events E hop]
      unfold ssa_downstream_handle_query_tbl_def
      rw [if_pos hph]
      simp only [hdb, hok]
      obtain ⟨h, rest, h1, h2, h3⟩ := ssa_downstream_send_echo C
        { conn with rid := ntohl hdr.id, roffset := 0 } hdr
        C.SSA_MSG_DB_QUERY_TBL_DEF (.blk db.db_table_def) C.db_dataset_size events
        (E.rsend_ret C.hdr_size) (E.rsend2_ret C.db_dataset_size) rfl
      exact ⟨_, h, rest, rfl, h1, h2, h3⟩
    · rw [ssa_downstream_handle_op_tbl_defs C G conn hdr events E hop]
      unfold ssa_downstream_handle_query_tbl_defs
      rw [if_pos hph]
      simp only [hdb, hok]
      obtain ⟨h, rest, h1, h2, h3⟩ := ssa_downstream_send_echo C
        { conn with phase := SSA_DB_TBL_DEFS, rid := ntohl hdr.id, roffset := 0 } hdr
        C.SSA_MSG_DB_QUERY_TBL_DEF_DATASET db.p_def_tbl
        (C.db_dataset_set_size db.db_table_def.data) events
        (E.rsend_ret C.hdr_size)
        (E.rsend2_ret (C.db_dataset_set_size db.db_table_def.data)) rfl
      exact ⟨_, h, rest, rfl, h1, h2, h3⟩
    · rw [ssa_downstream_handle_op_field C G conn hdr events E hop]
      unfold ssa_downstream_handle_query_field_defs
      rcases hph with hph | hph
      · rw [if_pos hph]
        simp only [hdb, hok]
        obtain ⟨h, rest, h1, h2, h3⟩ := ssa_downstream_send_echo C
          { conn with phase := SSA_DB_FIELD_DEFS, rid := ntohl hdr.id, roffset := 0 } hdr
          C.SSA_MSG_DB_QUERY_FIELD_DEF_DATASET db.p_db_field_tables
          (db.data_tbl_cnt * C.db_dataset_size) events
          (E.rsend_ret C.hdr_size) (E.rsend2_ret (db.data_tbl_cnt * C.db_dataset_size)) rfl
        exact ⟨_, h, rest, rfl, h1, h2, h3⟩
      · obtain ⟨tables, htab⟩ := Option.isSome_iff_exists.mp hpf
        obtain ⟨d, hd⟩ := is_blk_dataset_at C db.p_db_field_tables conn.sindex hf
        have hne : conn.phase ≠ SSA_DB_TBL_DEFS := by rw [hph]; decide
        rw [if_neg hne, if_pos hph]
        simp only [hdb, hok, htab, hd]
        by_cases hs : conn.sindex < db.data_tbl_cnt
        · simp only [hs, if_true]
          obtain ⟨h, rest, h1, h2, h3⟩ := ssa_downstream_send_echo C
            { conn with rid := ntohl hdr.id, roffset := 0 } hdr
            C.SSA_MSG_DB_QUERY_FIELD_DEF_DATASET (tables conn.sindex)
            (C.db_dataset_set_size d) events
            (E.rsend_ret C.hdr_size) (E.rsend2_ret (C.db_dataset_set_size d)) rfl
          exact ⟨_, h, rest, rfl, h1, h2, h3⟩
        · simp only [hs, if_false]
          obtain ⟨h, rest, h1, h2, h3⟩ := ssa_downstream_send_resp_echo C
            { conn with rid := ntohl hdr.id, roffset := 0 } hdr
            C.SSA_MSG_DB_QUERY_FIELD_DEF_DATASET events (E.rsend_ret C.hdr_size) rfl
          exact ⟨_, h, rest, rfl, h1, h2, h3⟩
    · rw [ssa_downstream_handle_op_data C G conn hdr events E hop]
      unfold ssa_downstream_handle_query_data
      rcases hph with hph | hph
      · rw [if_pos hph]
        simp only [hdb, hok]
        obtain ⟨h, rest, h1, h2, h3⟩ := ssa_downstream_send_echo C
          { conn with phase := SSA_DB_DATA, rid := ntohl hdr.id, roffset := 0 } hdr
          C.SSA_MSG_DB_QUERY_DATA_DATASET db.p_db_tables
          (db.data_tbl_cnt * C.db_dataset_size) events
          (E.rsend_ret C.hdr_size) (E.rsend2_ret (db.data_tbl_cnt * C.db_dataset_size)) rfl
        exact ⟨_, h, rest, rfl, h1, h2, h3⟩
      · obtain ⟨tables, htab⟩ := Option.isSome_iff_exists.mp hpt
        obtain ⟨d, hd⟩ := is_blk_dataset_at C db.p_db_tables conn.sindex ht
        have hne : conn.phase ≠ SSA_DB_FIELD_DEFS := by rw [hph]; decide
        rw [if_neg hne, if_pos hph]
        simp only [hdb, hok, htab, hd]
        by_cases hs : conn.sindex < db.data_tbl_cnt
        · simp only [hs, if_true]
          obtain ⟨h, rest, h1, h2, h3⟩ := ssa_downstream_send_echo C
            { conn with rid := ntohl hdr.id, roffset := 0 } hdr
            C.SSA_MSG_DB_QUERY_DATA_DATASET (tables conn.sindex)
            (C.db_dataset_set_size d) events
            (E.rsend_ret C.hdr_size) (E.rsend2_ret (C.db_dataset_set_size d)) rfl
          exact ⟨_, h, rest, rfl, h1, h2, h3⟩
        · simp only [hs, if_false]
          obtain ⟨h, rest, h1, h2, h3⟩ := ssa_downstream_send_resp_echo C
            { conn with rid := ntohl hdr.id, roffset := 0 } hdr
            C.SSA_MSG_DB_QUERY_DATA_DATASET events (E.rsend_ret C.hdr_size) rfl
          exact ⟨_, h, rest, rfl, h1, h2, h3⟩

/-- C14: the server echoes the correlator.  For every request that the server
handles in the phase expected for its operation (or, for QUERY_DEF, while it
has no database), once the header block is allocated the first `rsend` of
`ssa_downstream_send` or `ssa_downstream_send_resp` hands over a response
header whose `id` is the `id` of the request and whose flags contain RESP. -/
theorem response_echoes_id (C : ssa_msg_consts) (G : ssa_globals)
    (conn : ssa_conn) (hdr : ssa_msg_hdr) (events : Nat) (E : env)
    (hok : E.malloc_sbuf = true)
    (hcase : (ssa_downstream_db G conn = none ∧ ntohs hdr.op = C.SSA_MSG_DB_QUERY_DEF) ∨
      (∃ db, ssa_downstream_db G conn = some db ∧ db_complete db ∧
        expected_phase C (ntohs hdr.op) conn.phase)) :
    ∃ r h rest, ssa_downstream_handle_op C G conn hdr events E = some r ∧
      r.2.sent = conn.sent ++ ⟨.own h, 0, C.hdr_size, E.rsend_ret C.hdr_size⟩ :: rest ∧
      h.id = hdr.id ∧
      ntohs h.flags &&& C.SSA_MSG_FLAG_RESP = C.SSA_MSG_FLAG_RESP :=
  ssa_downstream_handle_op_echo C G conn hdr events E hok hcase

/-- C14 at a concrete input: the example server in phase FIELD_DEFS answers a
QUERY_FIELD_DEF_DATASET request with correlator 9. -/
theorem response_echoes_id_witness :
    ∃ r h rest,
      ssa_downstream_handle_op example_msg_consts example_globals
        (example_server_conn SSA_DB_FIELD_DEFS)
        (ssa_init_ssa_msg_hdr example_msg_consts 4 32 1 9) POLLIN
        (complete_env (ssa_init_ssa_msg_hdr example_msg_consts 4 32 1 9) []) = some r ∧
      r.2.sent = (example_server_conn SSA_DB_FIELD_DEFS).sent ++
        ⟨.own h, 0, example_msg_consts.hdr_size,
          (complete_env (ssa_init_ssa_msg_hdr example_msg_consts 4 32 1 9) []).rsend_ret
            example_msg_consts.hdr_size⟩ :: rest ∧
      h.id = (ssa_init_ssa_msg_hdr example_msg_consts 4 32 1 9).id ∧
      ntohs h.flags &&& example_msg_consts.SSA_MSG_FLAG_RESP =
        example_msg_consts.SSA_MSG_FLAG_RESP :=
  response_echoes_id example_msg_consts example_globals
    (example_server_conn SSA_DB_FIELD_DEFS)
    (ssa_init_ssa_msg_hdr example_msg_consts 4 32 1 9) POLLIN
    (complete_env (ssa_init_ssa_msg_hdr example_msg_consts 4 32 1 9) []) rfl
    (Or.inr ⟨example_db, rfl, ⟨rfl, rfl, rfl, rfl⟩,
      Or.inr (Or.inr (Or.inr (Or.inl ⟨by decide, Or.inr rfl⟩)))⟩)

/-! ## Send steps -/

theorem pollout_pollin_ne : POLLOUT ||| POLLIN ≠ POLLIN := by decide

theorem ssa_downstream_send_resp_ok (C : ssa_msg_consts) (conn : ssa_conn) (op events : Nat)
    (ret : Int) (hpos : 0 < ret) (hle : ret ≤ C.hdr_size) :
    send_step_ok (ssa_downstream_send_resp C conn op events true ret) := by
  unfold send_step_ok ssa_downstream_send_resp
  simp only [if_true, hpos]
  split_ifs with h1
  · exact ⟨by simp only; omega, fun _ => ⟨h1, fun h hh => by cases hh⟩⟩
  · refine ⟨by simp only; omega, fun hm => ?_⟩
    exact absurd hm pollout_pollin_ne

theorem ssa_downstream_send_ok (C : ssa_msg_consts) (conn : ssa_conn) (op : Nat)
    (buf : void_ptr) (len events : Nat) (ret ret2 : Int) (hpos : 0 < ret)
    (hle : ret ≤ C.hdr_size) (hpos2 : 0 < len → 0 < ret2) (hle2 : ret2 ≤ len) :
    send_step_ok (ssa_downstream_send C conn op buf len events true ret ret2) := by
  unfold send_step_ok ssa_downstream_send
  simp only [if_true, hpos]
  split_ifs with h1 h2 h3 h4
  · exact ⟨le_of_eq h1, fun _ => ⟨h1, fun h hh => by cases hh⟩⟩
  · exact ⟨le_of_eq h4, fun _ => ⟨h4, fun h hh => by cases hh⟩⟩
  · refine ⟨by simp only; omega, fun hm => absurd hm pollout_pollin_ne⟩
  · exact absurd (hpos2 (Nat.pos_of_ne_zero (fun e => h2 (Or.inr e)))) h3
  · refine ⟨by simp only; omega, fun hm => absurd hm pollout_pollin_ne⟩

theorem ssa_upstream_query_ok (C : ssa_msg_consts) (svc : ssa_svc) (op events : Nat)
    (ret : Int) (hpos : 0 < ret) (hle : ret ≤ C.hdr_size) :
    send_step_ok ((ssa_upstream_query C svc op events true ret).1,
      (ssa_upstream_query C svc op events true ret).2.conn_dataup) := by
  have hp : ∀ c : ssa_conn, (ssa_upstream_update_phase C c op).soffset = c.soffset ∧
      (ssa_upstream_update_phase C c op).ssize = c.ssize := by
    intro c
    unfold ssa_upstream_update_phase
    split_ifs <;> exact ⟨rfl, rfl⟩
  unfold send_step_ok ssa_upstream_query
  simp only [if_true, hpos]
  split_ifs with h1
  · exact ⟨le_of_eq h1, fun _ => ⟨h1, fun h hh => by cases hh⟩⟩
  · refine ⟨?_, fun hm => absurd hm pollout_pollin_ne⟩
    simp only [(hp _).1, (hp _).2]
    omega

theorem ssa_rsend_continue_ok (conn : ssa_conn) (events : Nat) (ret ret2 : Int)
    (hinv : conn.soffset ≤ conn.ssize)
    (hle : ret ≤ (conn.ssize - conn.soffset : Nat))
    (hpos2 : 0 < conn.ssize2 → 0 < ret2) (hle2 : ret2 ≤ conn.ssize2) :
    send_step_ok (ssa_rsend_continue conn events ret ret2) := by
  unfold send_step_ok ssa_rsend_continue
  dsimp only
  split_ifs with h0 h1 h2 h3 h4 h5 <;> dsimp only
  · exact ⟨le_of_eq h1, fun _ => ⟨h1, fun h hh => by cases hh⟩⟩
  · exact ⟨le_of_eq h5, fun _ => ⟨h5, fun h hh => by cases hh⟩⟩
  · exact ⟨by omega, fun hm => absurd hm pollout_pollin_ne⟩
  · have hz : conn.ssize2 = 0 := by
      by_contra hne
      exact h4 (hpos2 (Nat.pos_of_ne_zero hne))
    exact ⟨Nat.zero_le _, fun _ => ⟨hz.symm, fun h hh => by cases hh⟩⟩
  · refine ⟨le_of_eq h1, fun _ => ⟨h1, fun h hh => ?_⟩⟩
    rw [hh] at h2
    exact h2 rfl
  · exact ⟨by omega, fun hm => absurd hm pollout_pollin_ne⟩
  · exact ⟨hinv, fun hm => absurd hm (by decide)⟩

/-- C19, code at the failing input: `ssa_downstream_send_resp` is called with
the event mask POLLIN and its `rsend` returns -1, which is within the bytes
offered.  The step returns POLLIN alone although nothing of the 32 bytes has
been sent and the header block is still held. -/
theorem send_resp_failure_returns_pollin :
    (ssa_downstream_send_resp example_msg_consts (example_server_conn SSA_DB_DATA) 5
        POLLIN true (-1)).1 = POLLIN ∧
    (ssa_downstream_send_resp example_msg_consts (example_server_conn SSA_DB_DATA) 5
        POLLIN true (-1)).2.soffset = 0 ∧
    (ssa_downstream_send_resp example_msg_consts (example_server_conn SSA_DB_DATA) 5
        POLLIN true (-1)).2.ssize = 32 ∧
    (ssa_downstream_send_resp example_msg_consts (example_server_conn SSA_DB_DATA) 5
        POLLIN true (-1)).2.sbuf =
      .own (ssa_init_ssa_msg_hdr example_msg_consts 5 32 3 0) := by
  decide

/-- A short write of the header in `ssa_downstream_send`: the mask is
POLLOUT | POLLIN and the connection state is kept; when the transport then
takes all the bytes that `ssa_rsend_continue` offers and the payload is absent
or not empty, the mask is POLLIN alone. -/
theorem short_write_then_continue (C : ssa_msg_consts) (conn : ssa_conn) (op : Nat)
    (buf : void_ptr) (len events events2 : Nat) (n : Nat) (ret2 : Int)
    (hn : 0 < n) (hlt : n < C.hdr_size) (hbuf : buf = .null ∨ 0 < len) :
    (ssa_downstream_send C conn op buf len events true n ret2).1 = POLLOUT ||| POLLIN ∧
    (ssa_downstream_send C conn op buf len events true n ret2).2.state = conn.state ∧
    (ssa_rsend_continue (ssa_downstream_send C conn op buf len events true n ret2).2
      events2 ((C.hdr_size - n : Nat) : Int) (len : Int)).1 = POLLIN := by
  have hn' : (0 : Int) < (n : Int) := by exact_mod_cast hn
  have hne : ¬ (0 + ((n : Int)).toNat = C.hdr_size) := by
    simp only [Int.toNat_ofNat]
    omega
  have hsend : ssa_downstream_send C conn op buf len events true n ret2 =
      (POLLOUT ||| POLLIN,
        { conn with
          sbuf := .own (ssa_init_ssa_msg_hdr C op (C.hdr_size + len) C.SSA_MSG_FLAG_RESP
            conn.rid)
          sbuf2 := buf
          ssize := C.hdr_size
          ssize2 := len
          soffset := 0 + ((n : Int)).toNat
          sent := conn.sent ++
            [⟨.own (ssa_init_ssa_msg_hdr C op (C.hdr_size + len) C.SSA_MSG_FLAG_RESP
              conn.rid), 0, C.hdr_size, n⟩] }) := by
    unfold ssa_downstream_send
    simp only [if_true, hn', hne, if_false]
  rw [hsend]
  refine ⟨rfl, rfl, ?_⟩
  have hr : (0 : Int) < ((C.hdr_size - n : Nat) : Int) := by
    have : 0 < C.hdr_size - n := by omega
    exact_mod_cast this
  have hfull : 0 + ((n : Int)).toNat + (((C.hdr_size - n : Nat) : Int)).toNat = C.hdr_size := by
    simp only [Int.toNat_ofNat]
    omega
  unfold ssa_rsend_continue
  simp only [hr, if_true, hfull, sbuf_t.differs]
  rcases hbuf with hb | hl
  · simp only [hb, if_true]
  · have hl' : (0 : Int) < (len : Int) := by exact_mod_cast hl
    by_cases hb : buf = .null
    · simp only [hb, if_true]
    · simp only [hb, if_false, hl', if_true, Int.toNat_ofNat, Nat.zero_add]

/-- C20, code at the failing input (scenario S4 with an empty payload): the
example server answers the query for the second field dataset, which is empty
and not NULL.  The first `rsend` takes 10 of the 32 bytes of the header: the
mask is POLLOUT | POLLIN and the connection stays CONNECTED.  The following
`ssa_rsend_continue` is given the mask POLLOUT | POLLIN; its `rsend` takes
the 22 remaining bytes and the `rsend` of the 0 bytes of the payload returns
0.  All bytes of the message are sent, yet the mask returned is
POLLOUT | POLLIN, not POLLIN. -/
theorem S4_empty_payload_mask :
    (ssa_downstream_send example_msg_consts (example_server_conn SSA_DB_FIELD_DEFS) 4
        (.blk ⟨1500, []⟩) 0 POLLIN true 10 0).1 = POLLOUT ||| POLLIN ∧
    (ssa_downstream_send example_msg_consts (example_server_conn SSA_DB_FIELD_DEFS) 4
        (.blk ⟨1500, []⟩) 0 POLLIN true 10 0).2.state = SSA_CONN_CONNECTED ∧
    (ssa_rsend_continue
        (ssa_downstream_send example_msg_consts (example_server_conn SSA_DB_FIELD_DEFS) 4
          (.blk ⟨1500, []⟩) 0 POLLIN true 10 0).2 (POLLOUT ||| POLLIN) 22 0).1 =
      POLLOUT ||| POLLIN ∧
    ((ssa_rsend_continue
        (ssa_downstream_send example_msg_consts (example_server_conn SSA_DB_FIELD_DEFS) 4
          (.blk ⟨1500, []⟩) 0 POLLIN true 10 0).2 (POLLOUT ||| POLLIN) 22 0).2.sent.map
      (fun c => (c.off, c.len, c.ret))) = [(0, 32, 10), (10, 22, 22), (0, 0, 0)] ∧
    POLLOUT ||| POLLIN ≠ POLLIN := by
  decide

/-! ## The order of the phases -/

theorem distinct_phases_cons_self (p : ssa_db_phase) (l : List ssa_db_phase) :
    distinct_phases (p :: p :: l) = distinct_phases (p :: l) := by
  simp [distinct_phases]

theorem distinct_phases_cons_ne (p q : ssa_db_phase) (l : List ssa_db_phase) (h : p ≠ q) :
    distinct_phases (p :: q :: l) = p :: distinct_phases (q :: l) := by
  simp [distinct_phases, h]

/-- A sequence of phases in which every step stays or moves to the next phase
passes through a prefix of the phases from its first element on. -/
theorem distinct_phases_prefix (next : ssa_db_phase → ssa_db_phase)
    (rest : ssa_db_phase → List ssa_db_phase)
    (hrest : ∀ p, rest p = if next p = p then [p] else p :: rest (next p))
    (p : ssa_db_phase) (l : List ssa_db_phase)
    (hl : List.Chain (fun q q' => q' = q ∨ q' = next q) p l) :
    distinct_phases (p :: l) <+: rest p := by
  induction l generalizing p with
  | nil =>
    rw [hrest p]
    split_ifs
    · exact List.prefix_refl _
    · exact ⟨_, rfl⟩
  | cons q l ih =>
    rw [List.chain_cons] at hl
    obtain ⟨hq, hl⟩ := hl
    by_cases hpq : p = q
    · subst hpq
      rw [distinct_phases_cons_self]
      exact ih p hl
    · rw [distinct_phases_cons_ne p q l hpq]
      have hq' : q = next p := by
        rcases hq with h | h
        · exact absurd h.symm hpq
        · exact h
      rw [hrest p, if_neg (fun e => hpq (by rw [hq', e]))]
      rw [← hq']
      exact (List.prefix_cons_inj p).mpr (ih q hl)

theorem client_rest_eq (p : ssa_db_phase) :
    client_rest p = if client_next p = p then [p] else p :: client_rest (client_next p) := by
  cases p <;> rfl

theorem server_rest_eq (p : ssa_db_phase) :
    server_rest p = if server_next p = p then [p] else p :: server_rest (server_next p) := by
  cases p <;> rfl
theorem ssa_downstream_send_phase (C : ssa_msg_consts) (conn : ssa_conn) (op : Nat)
    (buf : void_ptr) (len events : Nat) (ok : Bool) (ret ret2 : Int) :
    (ssa_downstream_send C conn op buf len events ok ret ret2).2.phase = conn.phase := by
  unfold ssa_downstream_send
  dsimp only
  split_ifs <;> rfl

theorem ssa_downstream_send_resp_phase (C : ssa_msg_consts) (conn : ssa_conn) (op : Nat)
    (events : Nat) (ok : Bool) (ret : Int) :
    (ssa_downstream_send_resp C conn op events ok ret).2.phase = conn.phase := by
  unfold ssa_downstream_send_resp
  dsimp only
  split_ifs <;> rfl

theorem ssa_rsend_continue_phase (conn : ssa_conn) (events : Nat) (ret ret2 : Int) :
    (ssa_rsend_continue conn events ret ret2).2.phase = conn.phase ∧
    (ssa_rsend_continue conn events ret ret2).2.rhdr = conn.rhdr ∧
    (ssa_rsend_continue conn events ret ret2).2.rbuf = conn.rbuf := by
  unfold ssa_rsend_continue
  dsimp only
  split_ifs <;> exact ⟨rfl, rfl, rfl⟩

theorem rrecv_store_phase (conn c : ssa_conn) (off : Nat) (data : List uint8_t)
    (h : rrecv_store conn off data = some c) :
    c.phase = conn.phase ∧ c.rhdr = conn.rhdr := by
  unfold rrecv_store at h
  split at h
  · cases h
  · cases h; exact ⟨rfl, rfl⟩
  · cases h; exact ⟨rfl, rfl⟩
  · split at h
    · cases h
    · cases h; exact ⟨rfl, rfl⟩
  · split at h
    · cases h
    · cases h; exact ⟨rfl, rfl⟩

theorem ssa_downstream_handle_op_phase (C : ssa_msg_consts) (G : ssa_globals)
    (conn : ssa_conn) (hdr : ssa_msg_hdr) (events : Nat) (E : env) (r : Nat × ssa_conn)
    (h : ssa_downstream_handle_op C G conn hdr events E = some r) :
    r.2.phase = conn.phase ∨ r.2.phase = server_next conn.phase := by
  unfold ssa_downstream_handle_op at h
  dsimp only at h
  split_ifs at h
  · unfold ssa_downstream_handle_query_defs at h
    split at h
    · cases h
      exact Or.inl (ssa_downstream_send_resp_phase _ _ _ _ _ _)
    · split_ifs at h with hp
      · cases h
        refine Or.inr ?_
        rw [ssa_downstream_send_phase, hp]
        rfl
      · cases h
        exact Or.inl rfl
  · unfold ssa_downstream_handle_query_tbl_def at h
    split_ifs at h with hp
    · split at h
      · cases h
      · cases h
        exact Or.inl (ssa_downstream_send_phase _ _ _ _ _ _ _ _ _)
    · cases h
      exact Or.inl rfl
  · unfold ssa_downstream_handle_query_tbl_defs at h
    split_ifs at h with hp
    · split at h
      · cases h
      · cases h
        refine Or.inr ?_
        rw [ssa_downstream_send_phase, hp]
        rfl
    · cases h
      exact Or.inl rfl
  · unfold ssa_downstream_handle_query_field_defs at h
    split_ifs at h with hp hp2
    · split at h
      · cases h
      · cases h
        refine Or.inr ?_
        show (ssa_downstream_send _ _ _ _ _ _ _ _ _).2.phase = _
        rw [ssa_downstream_send_phase, hp]
        rfl
    · split at h
      · cases h
      · dsimp only at h
        split_ifs at h
        · split at h
          · cases h
            refine Or.inl ?_
            show (ssa_downstream_send _ _ _ _ _ _ _ _ _).2.phase = _
            rw [ssa_downstream_send_phase]
          · cases h
        · cases h
          exact Or.inl (ssa_downstream_send_resp_phase _ _ _ _ _ _)
    · cases h
      exact Or.inl rfl
  · unfold ssa_downstream_handle_query_data at h
    split_ifs at h with hp hp2
    · split at h
      · cases h
      · cases h
        refine Or.inr ?_
        show (ssa_downstream_send _ _ _ _ _ _ _ _ _).2.phase = _
        rw [ssa_downstream_send_phase, hp]
        rfl
    · split at h
      · cases h
      · dsimp only at h
        split_ifs at h
        · split at h
          · cases h
            refine Or.inl ?_
            show (ssa_downstream_send _ _ _ _ _ _ _ _ _).2.phase = _
            rw [ssa_downstream_send_phase]
          · cases h
        · cases h
          exact Or.inl (ssa_downstream_send_resp_phase _ _ _ _ _ _)
    · cases h
      exact Or.inl rfl
  · cases h
    exact Or.inl rfl

theorem ssa_downstream_rrecv_phase (C : ssa_msg_consts) (G : ssa_globals)
    (conn : ssa_conn) (events : Nat) (E : env) (r : Nat × ssa_conn)
    (h : ssa_downstream_rrecv C G conn events E = some r) :
    r.2.phase = conn.phase ∨ r.2.phase = server_next conn.phase := by
  unfold ssa_downstream_rrecv at h
  dsimp only at h
  by_cases h0 : 0 < E.rrecv_ret (conn.rsize - conn.roffset)
  · rw [if_pos h0] at h
    cases hs : rrecv_store conn conn.roffset E.rrecv_data with
    | none => rw [hs] at h; cases h
    | some c0 =>
      rw [hs] at h
      dsimp only at h
      have hp := (rrecv_store_phase conn c0 _ _ hs).1
      split_ifs at h
      · have := ssa_downstream_handle_op_phase C G _ _ _ _ r h
        simpa only [hp] using this
      · cases h
        exact Or.inl hp
      · cases h
        exact Or.inl hp
  · rw [if_neg h0] at h
    cases h
    exact Or.inl rfl

theorem ssa_downstream_handle_rsock_revents_phase (C : ssa_msg_consts) (G : ssa_globals)
    (conn : ssa_conn) (events : Nat) (E : env) (r : Nat × ssa_conn)
    (h : ssa_downstream_handle_rsock_revents C G conn events E = some r) :
    r.2.phase = conn.phase ∨ r.2.phase = server_next conn.phase := by
  unfold ssa_downstream_handle_rsock_revents at h
  dsimp only at h
  have key : ∀ r1 : Nat × ssa_conn,
      (if events &&& POLLIN ≠ 0 then
        if (if conn.rbuf = void_ptr.null then
              if E.malloc_rbuf = true then
                { conn with rbuf := .hdr, rsize := C.hdr_size, roffset := 0 }
              else conn
            else conn).rbuf ≠ void_ptr.null then
          ssa_downstream_rrecv C G
            (if conn.rbuf = void_ptr.null then
              if E.malloc_rbuf = true then
                { conn with rbuf := .hdr, rsize := C.hdr_size, roffset := 0 }
              else conn
            else conn) events E
        else some (events,
            (if conn.rbuf = void_ptr.null then
              if E.malloc_rbuf = true then
                { conn with rbuf := .hdr, rsize := C.hdr_size, roffset := 0 }
              else conn
            else conn))
      else some (events, conn)) = some r1 →
      r1.2.phase = conn.phase ∨ r1.2.phase = server_next conn.phase := by
    intro r1 h1
    have hc : (if conn.rbuf = void_ptr.null then
              if E.malloc_rbuf = true then
                ({ conn with rbuf := .hdr, rsize := C.hdr_size, roffset := 0 } : ssa_conn)
              else conn
            else conn).phase = conn.phase := by
      split_ifs <;> rfl
    split_ifs at h1
    all_goals first
      | (have hph := ssa_downstream_rrecv_phase C G _ events E r1 h1
         simpa only [hc] using hph)
      | (cases h1; exact Or.inl rfl)
  split at h
  · cases h
  · rename_i revents c2 h1
    have hk := key (revents, c2) h1
    split_ifs at h
    · cases h
      rw [(ssa_rsend_continue_phase _ _ _ _).1]
      exact hk
    · cases h
      exact hk

theorem server_phases_chain (C : ssa_msg_consts) (G : ssa_globals)
    (evs : List (Nat × env)) (conn : ssa_conn) :
    List.Chain (fun q q' => q' = q ∨ q' = server_next q) conn.phase
      (server_phases C G conn evs) := by
  induction evs generalizing conn with
  | nil => exact List.Chain.nil
  | cons e rest ih =>
    obtain ⟨events, E⟩ := e
    unfold server_phases
    cases h : ssa_downstream_handle_rsock_revents C G conn events E with
    | none => exact List.Chain.nil
    | some r =>
      obtain ⟨ev1, conn1⟩ := r
      exact List.Chain.cons
        (ssa_downstream_handle_rsock_revents_phase C G conn events E (ev1, conn1) h)
        (ih conn1)

theorem ssa_upstream_update_phase_eq (C : ssa_msg_consts) (c : ssa_conn) (op : Nat) :
    ssa_upstream_update_phase C c op = { c with phase := op_phase C op c.phase } := by
  unfold ssa_upstream_update_phase op_phase
  split_ifs <;> rfl

theorem op_phase_consts (C : ssa_msg_consts) (p : ssa_db_phase) :
    op_phase C C.SSA_MSG_DB_QUERY_DEF p = SSA_DB_DEFS ∧
    op_phase C C.SSA_MSG_DB_QUERY_TBL_DEF p = p ∧
    op_phase C C.SSA_MSG_DB_QUERY_TBL_DEF_DATASET p = SSA_DB_TBL_DEFS ∧
    op_phase C C.SSA_MSG_DB_QUERY_FIELD_DEF_DATASET p = SSA_DB_FIELD_DEFS ∧
    op_phase C C.SSA_MSG_DB_QUERY_DATA_DATASET p = SSA_DB_DATA := by
  obtain ⟨h1, h2, h3, h4, h5, h6, h7, h8, h9, h10⟩ := ops_ne C
  unfold op_phase
  refine ⟨?_, ?_, ?_, ?_, ?_⟩
  · simp only [if_true]
  · simp only [if_neg h1.symm, if_true]
  · simp only [if_neg h2.symm, if_neg h5.symm, if_true]
  · simp only [if_neg h3.symm, if_neg h6.symm, if_neg h8.symm, if_true]
  · simp only [if_neg h4.symm, if_neg h7.symm, if_neg h9.symm, if_neg h10.symm, if_true]

/-- A query changes the phase to the phase of its operation or not at all and
keeps the receive side of the connection. -/
theorem ssa_upstream_query_phase (C : ssa_msg_consts) (svc : ssa_svc) (op events : Nat)
    (ok : Bool) (ret : Int) :
    ((ssa_upstream_query C svc op events ok ret).2.conn_dataup.phase =
        svc.conn_dataup.phase ∨
      (ssa_upstream_query C svc op events ok ret).2.conn_dataup.phase =
        op_phase C op svc.conn_dataup.phase) ∧
    (ssa_upstream_query C svc op events ok ret).2.conn_dataup.rhdr = svc.conn_dataup.rhdr := by
  unfold ssa_upstream_query
  dsimp only
  simp only [ssa_upstream_update_phase_eq]
  split_ifs <;> first
    | exact ⟨Or.inl rfl, rfl⟩
    | exact ⟨Or.inr rfl, rfl⟩

theorem ssa_upstream_query_phase_of (C : ssa_msg_consts) (svc : ssa_svc) (op events : Nat)
    (ok : Bool) (ret : Int) (r : Nat × ssa_svc)
    (h : ssa_upstream_query C svc op events ok ret = r) :
    (r.2.conn_dataup.phase = svc.conn_dataup.phase ∨
      r.2.conn_dataup.phase = op_phase C op svc.conn_dataup.phase) ∧
    r.2.conn_dataup.rhdr = svc.conn_dataup.rhdr := by
  subst h
  exact ssa_upstream_query_phase C svc op events ok ret

theorem release_rbuf_ite_phase (c : Prop) [Decidable c] (a b : ssa_conn) :
    (release_rbuf (if c then a else b)).phase = if c then a.phase else b.phase := by
  split_ifs <;> rfl

theorem release_rbuf_rhdr (c : ssa_conn) : (release_rbuf c).rhdr = none := rfl

theorem ssa_upstream_update_conn_phase (C : ssa_msg_consts) (svc : ssa_svc) (events : Nat)
    (E : env) (r : Nat × ssa_svc) (h : ssa_upstream_update_conn C svc events E = some r) :
    (svc.conn_dataup.phase = SSA_DB_IDLE →
      (r.2.conn_dataup.phase = SSA_DB_IDLE ∨ r.2.conn_dataup.phase = SSA_DB_DEFS) ∧
      r.2.conn_dataup.rhdr = svc.conn_dataup.rhdr) ∧
    (svc.conn_dataup.phase ≠ SSA_DB_IDLE →
      (r.2.conn_dataup.phase = svc.conn_dataup.phase ∨
        r.2.conn_dataup.phase = client_next svc.conn_dataup.phase) ∧
      r.2.conn_dataup.rhdr = none) := by
  have hop := op_phase_consts C
  unfold ssa_upstream_update_conn at h
  dsimp only at h
  split at h
  · rename_i hp
    cases h
    refine ⟨fun _ => ?_, fun hne => absurd hp hne⟩
    have hq' := ssa_upstream_query_phase C svc C.SSA_MSG_DB_QUERY_DEF events E.malloc_sbuf
      (E.rsend_ret C.hdr_size)
    rw [(hop _).1, hp] at hq'
    exact ⟨hq'.1, hq'.2⟩
  · rename_i hp
    refine ⟨fun h0 => absurd (hp.symm.trans h0) (by decide), fun _ => ?_⟩
    rw [hp]
    generalize hr0 : ssa_upstream_query C _ _ events E.malloc_sbuf (E.rsend_ret C.hdr_size) = r0
      at h
    have hq' := ssa_upstream_query_phase_of C _ _ _ _ _ _ hr0
    cases h
    dsimp only [release_rbuf] at hq'
    have hfin : ∀ c : ssa_conn, (if c.phase = SSA_DB_DEFS then
        ({ c with rindex := c.rindex + 1 } : ssa_conn) else { c with rindex := 0 }).phase =
          c.phase ∧
        (if c.phase = SSA_DB_DEFS then
        ({ c with rindex := c.rindex + 1 } : ssa_conn) else { c with rindex := 0 }).rhdr =
          c.rhdr := by
      intro c
      split_ifs <;> exact ⟨rfl, rfl⟩
    show ((if r0.2.conn_dataup.phase = SSA_DB_DEFS then _ else _ : ssa_conn).phase = _ ∨ _) ∧ _
    rw [(hfin _).1, (hfin _).2]
    by_cases hri : svc.conn_dataup.rindex = 0
    · simp only [hri, ne_eq, not_true_eq_false, if_false, if_true, (hop _).2.1, hp] at hq'
      exact ⟨Or.inl (hq'.1.elim id id), hq'.2⟩
    · simp only [hri, ne_eq, not_false_eq_true, if_false, if_true, (hop _).2.2.1] at hq'
      exact ⟨Or.inr (hq'.1.elim id id), hq'.2⟩
  · rename_i hp
    refine ⟨fun h0 => absurd (hp.symm.trans h0) (by decide), fun _ => ?_⟩
    rw [hp]
    split at h
    · cases h
    · generalize hr0 : ssa_upstream_query C _ _ events E.malloc_sbuf (E.rsend_ret C.hdr_size)
        = r0 at h
      have hq' := ssa_upstream_query_phase_of C _ _ _ _ _ _ hr0
      cases h
      dsimp only at hq'
      rw [(hop _).2.2.2.1] at hq'
      exact ⟨Or.inr (hq'.1.elim id id), hq'.2⟩
  · rename_i hp
    refine ⟨fun h0 => absurd (hp.symm.trans h0) (by decide), fun _ => ?_⟩
    rw [hp]
    split at h
    · cases h
    · generalize hr0 : ssa_upstream_query C _ _ events E.malloc_sbuf (E.rsend_ret C.hdr_size)
        = r0 at h
      have hq' := ssa_upstream_query_phase_of C _ _ _ _ _ _ hr0
      cases h
      dsimp only [release_rbuf] at hq'
      rw [(hop _).2.2.2.2] at hq'
      exact ⟨Or.inr (hq'.1.elim id id), hq'.2⟩
    · split at h
      · cases h
      · generalize hr0 : ssa_upstream_query C _ _ events E.malloc_sbuf
          (E.rsend_ret C.hdr_size) = r0 at h
        have hq' := ssa_upstream_query_phase_of C _ _ _ _ _ _ hr0
        cases h
        dsimp only at hq'
        rw [(hop _).2.2.2.1, release_rbuf_ite_phase, release_rbuf_rhdr] at hq'
        dsimp only at hq'
        rw [ite_self, hp] at hq'
        exact ⟨Or.inl (hq'.1.elim id id), hq'.2⟩
  · rename_i hp
    refine ⟨fun h0 => absurd (hp.symm.trans h0) (by decide), fun _ => ?_⟩
    rw [hp]
    split at h
    · cases h
    · dsimp only [release_rbuf] at h
      split at h
      · cases h
      · cases h
        exact ⟨Or.inr rfl, rfl⟩
    · split at h
      · cases h
      · generalize hr0 : ssa_upstream_query C _ _ events E.malloc_sbuf
          (E.rsend_ret C.hdr_size) = r0 at h
        have hq' := ssa_upstream_query_phase_of C _ _ _ _ _ _ hr0
        cases h
        dsimp only at hq'
        rw [(hop _).2.2.2.2, release_rbuf_ite_phase, release_rbuf_rhdr] at hq'
        dsimp only at hq'
        rw [ite_self, hp] at hq'
        exact ⟨Or.inl (hq'.1.elim id id), hq'.2⟩

theorem rrecv_first_phase (conn c : ssa_conn) (ret : Int) (data : List uint8_t)
    (h : rrecv_first conn ret data = some c) :
    c.phase = conn.phase ∧ c.rhdr = conn.rhdr := by
  unfold rrecv_first at h
  split_ifs at h
  · cases hs : rrecv_store conn 0 data with
    | none => rw [hs] at h; cases h
    | some c0 =>
      rw [hs] at h
      cases h
      exact rrecv_store_phase conn c0 0 data hs
  · cases h
    exact ⟨rfl, rfl⟩

theorem ssa_upstream_handle_query_defs_phase (C : ssa_msg_consts) (conn c : ssa_conn)
    (hdr : ssa_msg_hdr) (E : env)
    (h : ssa_upstream_handle_query_defs C conn hdr E = some c) :
    c.phase = conn.phase ∧ (conn.phase = SSA_DB_IDLE → c.rhdr = conn.rhdr) := by
  unfold ssa_upstream_handle_query_defs at h
  dsimp only at h
  split_ifs at h with hp
  all_goals first
    | (cases h
       exact ⟨rfl, fun _ => rfl⟩)
    | (cases h
       exact ⟨rfl, fun h0 => absurd (hp.symm.trans h0) (by decide)⟩)
    | (have hph := rrecv_first_phase _ _ _ _ h
       exact ⟨hph.1, fun h0 => absurd (hp.symm.trans h0) (by decide)⟩)

theorem ssa_upstream_handle_query_payload_phase (C : ssa_msg_consts) (phase : ssa_db_phase)
    (conn c : ssa_conn) (hdr : ssa_msg_hdr) (E : env) (hne : phase ≠ SSA_DB_IDLE)
    (h : ssa_upstream_handle_query_payload C phase conn hdr E = some c) :
    c.phase = conn.phase ∧ (conn.phase = SSA_DB_IDLE → c.rhdr = conn.rhdr) := by
  unfold ssa_upstream_handle_query_payload at h
  dsimp only at h
  split_ifs at h with hp
  · cases h
    exact ⟨rfl, fun _ => rfl⟩
  · split at h
    · cases h
      exact ⟨rfl, fun h0 => absurd (hp.symm.trans h0) hne⟩
    · have := rrecv_first_phase _ _ _ _ h
      exact ⟨this.1, fun h0 => absurd (hp.symm.trans h0) hne⟩
  · cases h
    exact ⟨rfl, fun h0 => absurd (hp.symm.trans h0) hne⟩
  · cases h
    exact ⟨rfl, fun _ => rfl⟩

theorem ssa_upstream_update_conn_step (C : ssa_msg_consts) (svc : ssa_svc) (events : Nat)
    (E : env) (r : Nat × ssa_svc) (hne : svc.conn_dataup.phase ≠ SSA_DB_IDLE)
    (h : ssa_upstream_update_conn C svc events E = some r) : client_step_ok svc r := by
  obtain ⟨hph, hrh⟩ := (ssa_upstream_update_conn_phase C svc events E r h).2 hne
  exact ⟨hph, fun _ => hrh⟩

theorem ssa_upstream_handle_op_check_step (C : ssa_msg_consts) (phase : ssa_db_phase)
    (svc : ssa_svc) (hdr : ssa_msg_hdr) (events : Nat) (E : env) (r : Nat × ssa_svc)
    (hne : phase ≠ SSA_DB_IDLE) (hinv : client_inv svc)
    (h : ssa_upstream_handle_op_check C phase svc hdr events E = some r) :
    client_step_ok svc r := by
  unfold ssa_upstream_handle_op_check at h
  split_ifs at h with hp
  · exact ssa_upstream_update_conn_step C svc events E r (by rw [hp]; exact hne) h
  · cases h
    exact ⟨Or.inl rfl, hinv⟩
  · cases h
    exact ⟨Or.inl rfl, hinv⟩
  · cases h
    exact ⟨Or.inl rfl, hinv⟩

theorem client_step_ok_of_conn (svc : ssa_svc) (c : ssa_conn) (r : Nat × ssa_svc)
    (hp : c.phase = svc.conn_dataup.phase)
    (h : client_step_ok { svc with conn_dataup := c } r) : client_step_ok svc r := by
  unfold client_step_ok at h ⊢
  dsimp only at h
  rw [hp] at h
  exact h

theorem ssa_upstream_handle_op_step (C : ssa_msg_consts) (svc : ssa_svc)
    (hdr : ssa_msg_hdr) (events : Nat) (E : env) (r : Nat × ssa_svc)
    (hinv : client_inv svc) (h : ssa_upstream_handle_op C svc hdr events E = some r) :
    client_step_ok svc r := by
  unfold ssa_upstream_handle_op ssa_upstream_handle_query_tbl_defs
    ssa_upstream_handle_query_field_defs ssa_upstream_handle_query_data at h
  dsimp only at h
  split_ifs at h
  · cases hq : ssa_upstream_handle_query_defs C svc.conn_dataup hdr E with
    | none => rw [hq] at h; cases h
    | some c =>
      rw [hq] at h
      obtain ⟨hp, hr⟩ := ssa_upstream_handle_query_defs_phase C _ c hdr E hq
      refine client_step_ok_of_conn svc c r hp
        (ssa_upstream_handle_op_check_step C _ _ hdr events E r (by decide) ?_ h)
      intro h0
      exact (hr (hp.symm.trans h0)).trans (hinv (hp.symm.trans h0))
  · cases hq : ssa_upstream_handle_query_payload C SSA_DB_TBL_DEFS svc.conn_dataup hdr E with
    | none => rw [hq] at h; cases h
    | some c =>
      rw [hq] at h
      obtain ⟨hp, hr⟩ := ssa_upstream_handle_query_payload_phase C _ _ c hdr E (by decide) hq
      refine client_step_ok_of_conn svc c r hp
        (ssa_upstream_handle_op_check_step C _ _ hdr events E r (by decide) ?_ h)
      intro h0
      exact (hr (hp.symm.trans h0)).trans (hinv (hp.symm.trans h0))
  · cases hq : ssa_upstream_handle_query_payload C SSA_DB_FIELD_DEFS svc.conn_dataup hdr E with
    | none => rw [hq] at h; cases h
    | some c =>
      rw [hq] at h
      obtain ⟨hp, hr⟩ := ssa_upstream_handle_query_payload_phase C _ _ c hdr E (by decide) hq
      refine client_step_ok_of_conn svc c r hp
        (ssa_upstream_handle_op_check_step C _ _ hdr events E r (by decide) ?_ h)
      intro h0
      exact (hr (hp.symm.trans h0)).trans (hinv (hp.symm.trans h0))
  · cases hq : ssa_upstream_handle_query_payload C SSA_DB_DATA svc.conn_dataup hdr E with
    | none => rw [hq] at h; cases h
    | some c =>
      rw [hq] at h
      obtain ⟨hp, hr⟩ := ssa_upstream_handle_query_payload_phase C _ _ c hdr E (by decide) hq
      refine client_step_ok_of_conn svc c r hp
        (ssa_upstream_handle_op_check_step C _ _ hdr events E r (by decide) ?_ h)
      intro h0
      exact (hr (hp.symm.trans h0)).trans (hinv (hp.symm.trans h0))
  · cases h
    exact ⟨Or.inl rfl, hinv⟩

theorem ssa_upstream_rrecv_step (C : ssa_msg_consts) (svc : ssa_svc) (events : Nat)
    (E : env) (r : Nat × ssa_svc) (hinv : client_inv svc)
    (h : ssa_upstream_rrecv C svc events E = some r) : client_step_ok svc r := by
  unfold ssa_upstream_rrecv at h
  dsimp only at h
  by_cases h0 : 0 < E.rrecv_ret (svc.conn_dataup.rsize - svc.conn_dataup.roffset)
  · rw [if_pos h0] at h
    cases hs : rrecv_store svc.conn_dataup svc.conn_dataup.roffset E.rrecv_data with
    | none => rw [hs] at h; cases h
    | some c0 =>
      rw [hs] at h
      dsimp only at h
      obtain ⟨hp, hr⟩ := rrecv_store_phase _ c0 _ _ hs
      have hinv1 : ∀ n : Nat, client_inv
          { svc with conn_dataup := { c0 with roffset := n } } := by
        intro n h1
        exact hr.trans (hinv (hp.symm.trans h1))
      split_ifs at h with h1 h2 h3
      · refine client_step_ok_of_conn svc _ r ?_
          (ssa_upstream_handle_op_step C _ _ events E r (hinv1 _) h)
        exact hp
      · cases h
        exact ⟨Or.inl hp, hinv1 _⟩
      · refine client_step_ok_of_conn svc _ r ?_
          (ssa_upstream_update_conn_step C _ events E r ?_ h)
        · exact hp
        · intro hidle
          exact h2 (hinv1 0 hidle)
      · cases h
        exact ⟨Or.inl hp, hinv1 _⟩
  · rw [if_neg h0] at h
    cases h
    exact ⟨Or.inl rfl, hinv⟩

theorem ssa_upstream_handler_pollin_step (C : ssa_msg_consts) (svc : ssa_svc)
    (events : Nat) (E : env) (r : Nat × ssa_svc) (hinv : client_inv svc)
    (h : ssa_upstream_handler_pollin C svc events E = some r) : client_step_ok svc r := by
  unfold ssa_upstream_handler_pollin at h
  dsimp only at h
  by_cases hb : svc.conn_dataup.rbuf = .null
  · by_cases hm : E.malloc_rbuf = true
    · simp only [hb, hm, if_true] at h
      rw [if_pos (by decide)] at h
      refine client_step_ok_of_conn svc _ r ?_
        (ssa_upstream_rrecv_step C _ events E r ?_ h)
      · rfl
      · intro _
        rfl
    · simp only [hb, hm, if_true, if_false] at h
      rw [if_neg (by simp [hb])] at h
      cases h
      exact ⟨Or.inl rfl, hinv⟩
  · simp only [hb, if_false] at h
    rw [if_pos hb] at h
    exact ssa_upstream_rrecv_step C svc events E r hinv h

theorem ssa_upstream_handler_data_step (C : ssa_msg_consts) (svc : ssa_svc)
    (revents events : Nat) (E : env) (r : Nat × ssa_svc) (hinv : client_inv svc)
    (h : ssa_upstream_handler_data C svc revents events E = some r) :
    client_step_ok svc r := by
  unfold ssa_upstream_handler_data at h
  dsimp only at h
  obtain ⟨hp, hr, _⟩ := ssa_rsend_continue_phase svc.conn_dataup events
    (E.cont_ret (svc.conn_dataup.ssize - svc.conn_dataup.soffset))
    (E.cont2_ret svc.conn_dataup.ssize2)
  have hinv1 : client_inv { svc with conn_dataup := (ssa_rsend_continue svc.conn_dataup events
      (E.cont_ret (svc.conn_dataup.ssize - svc.conn_dataup.soffset))
      (E.cont2_ret svc.conn_dataup.ssize2)).2 } := by
    intro h1
    exact hr.trans (hinv (hp.symm.trans h1))
  by_cases ho : revents &&& POLLOUT ≠ 0
  · rw [if_pos ho] at h
    dsimp only at h
    split_ifs at h
    · exact client_step_ok_of_conn svc _ r hp
        (ssa_upstream_handler_pollin_step C _ _ E r hinv1 h)
    · cases h
      exact ⟨Or.inl hp, hinv1⟩
  · rw [if_neg ho] at h
    dsimp only at h
    split_ifs at h
    · exact ssa_upstream_handler_pollin_step C svc events E r hinv h
    · cases h
      exact ⟨Or.inl rfl, hinv⟩

theorem client_phases_chain (C : ssa_msg_consts) (evs : List (Nat × env)) (svc : ssa_svc)
    (events : Nat) (hinv : client_inv svc) :
    List.Chain (fun q q' => q' = q ∨ q' = client_next q) svc.conn_dataup.phase
      (client_phases C svc events evs) := by
  induction evs generalizing svc events with
  | nil => exact List.Chain.nil
  | cons e rest ih =>
    obtain ⟨revents, E⟩ := e
    unfold client_phases
    cases h : ssa_upstream_handler_data C svc revents events E with
    | none => exact List.Chain.nil
    | some r =>
      obtain ⟨ev1, svc1⟩ := r
      obtain ⟨hstep, hinv1⟩ := ssa_upstream_handler_data_step C svc revents events E _ hinv h
      exact List.Chain.cons hstep (ih svc1 ev1 hinv1)

/-- The phases of a client session are a prefix of IDLE, DEFS, TBL_DEFS,
FIELD_DEFS, DATA, IDLE. -/
theorem client_session_ordered (C : ssa_msg_consts) (svc : ssa_svc) (events : Nat) (E : env)
    (evs : List (Nat × env)) (hp : svc.conn_dataup.phase = SSA_DB_IDLE)
    (hr : svc.conn_dataup.rhdr = none) :
    distinct_phases (client_session_phases C svc events E evs) <+:
      [SSA_DB_IDLE, SSA_DB_DEFS, SSA_DB_TBL_DEFS, SSA_DB_FIELD_DEFS, SSA_DB_DATA,
        SSA_DB_IDLE] := by
  unfold client_session_phases
  rw [hp]
  cases h : ssa_upstream_update_conn C svc events E with
  | none => exact ⟨_, rfl⟩
  | some r =>
    obtain ⟨ev1, svc1⟩ := r
    obtain ⟨hph, hrh⟩ := (ssa_upstream_update_conn_phase C svc events E _ h).1 hp
    have hinv1 : client_inv svc1 := fun _ => hrh.trans hr
    have hch := client_phases_chain C evs svc1 ev1 hinv1
    have hpre := distinct_phases_prefix client_next client_rest client_rest_eq _ _ hch
    dsimp only
    rcases hph with h1 | h1
    · rw [h1] at hpre ⊢
      rw [distinct_phases_cons_self]
      exact hpre.trans ⟨_, rfl⟩
    · rw [h1] at hpre ⊢
      rw [distinct_phases_cons_ne _ _ _ (by decide)]
      exact (List.prefix_cons_inj _).mpr hpre

/-- The phases of a server connection are a prefix of IDLE, DEFS, TBL_DEFS,
FIELD_DEFS, DATA. -/
theorem server_session_ordered (C : ssa_msg_consts) (G : ssa_globals) (conn : ssa_conn)
    (evs : List (Nat × env)) (hp : conn.phase = SSA_DB_IDLE) :
    distinct_phases (conn.phase :: server_phases C G conn evs) <+:
      [SSA_DB_IDLE, SSA_DB_DEFS, SSA_DB_TBL_DEFS, SSA_DB_FIELD_DEFS, SSA_DB_DATA] := by
  have hch := server_phases_chain C G evs conn
  have hpre := distinct_phases_prefix server_next server_rest server_rest_eq _ _ hch
  rw [hp] at hpre ⊢
  exact hpre

/-- C16 fails for the server: the transfer of the example database runs its
eleven rounds over a transport that completes every send and receive.  The
server has sent the final END of the DATA phase and the client is back in
IDLE, but the server connection is still in phase DATA. -/
theorem server_stays_in_data_counterexample :
    (transfer_session example_msg_consts example_globals 10 11).map
      (fun st => (st.1.conn_dataup.phase, st.2.phase,
        (frames st.2.sent).getLast?.map (fun f => (ntohs f.1.op, ntohl f.1.len, ntohs f.1.flags)))) =
      some (SSA_DB_IDLE, SSA_DB_DATA, some (5, 32, 3)) := by
  decide

/-- C16, amended: in every session of the client (the
`ssa_upstream_update_conn` that starts the transfer from phase IDLE, followed
by any sequence of events on the data socket) the distinct phases in order
are a prefix of IDLE, DEFS, TBL_DEFS, FIELD_DEFS, DATA, IDLE, and for every
sequence of events on a server connection that starts in IDLE they are a
prefix of IDLE, DEFS, TBL_DEFS, FIELD_DEFS, DATA: the server does not return
to IDLE. -/
theorem phases_prefix (C : ssa_msg_consts) (G : ssa_globals) (svc : ssa_svc)
    (events : Nat) (E : env) (evs : List (Nat × env)) (conn : ssa_conn)
    (sevs : List (Nat × env))
    (hp : svc.conn_dataup.phase = SSA_DB_IDLE) (hr : svc.conn_dataup.rhdr = none)
    (hc : conn.phase = SSA_DB_IDLE) :
    distinct_phases (client_session_phases C svc events E evs) <+:
      [SSA_DB_IDLE, SSA_DB_DEFS, SSA_DB_TBL_DEFS, SSA_DB_FIELD_DEFS, SSA_DB_DATA,
        SSA_DB_IDLE] ∧
    distinct_phases (conn.phase :: server_phases C G conn sevs) <+:
      [SSA_DB_IDLE, SSA_DB_DEFS, SSA_DB_TBL_DEFS, SSA_DB_FIELD_DEFS, SSA_DB_DATA] :=
  ⟨client_session_ordered C svc events E evs hp hr, server_session_ordered C G conn sevs hc⟩

/-- C16, amended, at a concrete input: the example client starts a transfer
and receives the response to its first query; the example server receives
that query. -/
theorem phases_prefix_witness :
    distinct_phases (client_session_phases example_msg_consts
        (client_start example_msg_consts 10) POLLIN
        (session_env (ssa_init_ssa_msg_hdr example_msg_consts 0 0 0 0) [] 0)
        [(POLLIN, session_env (ssa_init_ssa_msg_hdr example_msg_consts 1 40 2 10)
          [1, 2, 3, 4, 5, 6, 7, 8] 4096)]) <+:
      [SSA_DB_IDLE, SSA_DB_DEFS, SSA_DB_TBL_DEFS, SSA_DB_FIELD_DEFS, SSA_DB_DATA,
        SSA_DB_IDLE] ∧
    distinct_phases (server_start.phase :: server_phases example_msg_consts example_globals
        server_start
        [(POLLIN, session_env (ssa_init_ssa_msg_hdr example_msg_consts 1 32 1 10) [] 0)]) <+:
      [SSA_DB_IDLE, SSA_DB_DEFS, SSA_DB_TBL_DEFS, SSA_DB_FIELD_DEFS, SSA_DB_DATA] :=
  phases_prefix example_msg_consts example_globals (client_start example_msg_consts 10)
    POLLIN (session_env (ssa_init_ssa_msg_hdr example_msg_consts 0 0 0 0) [] 0)
    [(POLLIN, session_env (ssa_init_ssa_msg_hdr example_msg_consts 1 40 2 10)
      [1, 2, 3, 4, 5, 6, 7, 8] 4096)]
    server_start
    [(POLLIN, session_env (ssa_init_ssa_msg_hdr example_msg_consts 1 32 1 10) [] 0)]
    rfl rfl rfl

/-! ## The transfer of a database -/
theorem frames_append_own (l : List rsend_call) (h : ssa_msg_hdr) (off len : Nat) (ret : Int)
    (rest : List rsend_call) :
    frames (l ++ ⟨.own h, off, len, ret⟩ :: rest) =
      frames l ++ frames (⟨.own h, off, len, ret⟩ :: rest) := by
  induction l using frames.induct with
  | case1 => rfl
  | case2 h1 o1 l1 r1 p o2 l2 r2 rest1 ih =>
    rw [List.cons_append, List.cons_append, frames.eq_2, frames.eq_2, ih, List.cons_append]
  | case3 h1 o1 l1 r1 rest1 hno ih =>
    rw [List.cons_append, frames.eq_3 _ _ _ _ _ hno, List.cons_append, ← ih, frames.eq_3]
    intro p o2 l2 r2 rest2 he
    cases rest1 with
    | nil =>
      rw [List.nil_append] at he
      cases he
    | cons c rest3 =>
      rw [List.cons_append] at he
      injection he with he1 he2
      exact hno p o2 l2 r2 rest3 (by rw [he1])
  | case4 c rest1 hno1 hno2 ih =>
    rw [List.cons_append, frames.eq_4 _ _ hno1 hno2, ← ih, frames.eq_4]
    · intro h2 o2 l2 r2 p o3 l3 r3 rest3 he _
      exact hno2 h2 o2 l2 r2 he
    · exact hno2

theorem hdr_size_pos_int (C : ssa_msg_consts) : (0 : Int) < (C.hdr_size : Int) := by
  have := C.sizes_pos.1
  exact_mod_cast this

theorem int_cast_natCast (n : Nat) (h : n < 2147483648) : int_cast (n : Int) = (n : Int) := by
  unfold int_cast
  omega

theorem session_rrecv_ret (hq : ssa_msg_hdr) (d : List uint8_t) (a n : Nat) :
    (session_env hq d a).rrecv_ret n = int_cast (n : Int) := rfl

theorem session_rrecv2_ret (hq : ssa_msg_hdr) (d : List uint8_t) (a n : Nat) :
    (session_env hq d a).rrecv2_ret n = int_cast (n : Int) := rfl

theorem session_rsend_ret (hq : ssa_msg_hdr) (d : List uint8_t) (a n : Nat) :
    (session_env hq d a).rsend_ret n = int_cast (n : Int) := rfl

theorem session_rsend2_ret (hq : ssa_msg_hdr) (d : List uint8_t) (a n : Nat) :
    (session_env hq d a).rsend2_ret n = int_cast (n : Int) := rfl

/-- The sizes that a well-formed database hands to `rsend` are values of
`int`. -/
theorem db_wf_sizes (C : ssa_msg_consts) (D : ssa_db_raw) (hwf : db_wf C D) :
    int_sizes C ∧ def_tbl_size C D < 2147483648 ∧
    D.data_tbl_cnt * C.db_dataset_size < 2147483648 ∧
    ∀ i, i < D.data_tbl_cnt →
      descr_size C D.p_db_field_tables i < 2147483648 ∧
      descr_size C D.p_db_tables i < 2147483648 := by
  obtain ⟨_, _, _, _, _, _, _, f1, f2, f3, f4, f5⟩ := hwf
  exact ⟨⟨f1.2, f1.1, f2.1⟩, f3.1, f4.1, fun i hi => ⟨(f5 i hi).1.1, (f5 i hi).2.1⟩⟩

theorem fits_len (C : ssa_msg_consts) (size : Nat) (h : fits C size) :
    C.hdr_size + size < 4294967296 := by
  unfold fits at h
  omega

theorem dataset_bytes_zero (p : void_ptr) : dataset_bytes p 0 = [] := by
  unfold dataset_bytes dataset_read
  cases p <;> simp

theorem dataset_read_some (p : void_ptr) (len : Nat) (h : (dataset_read p len).isSome)
    (hlen : len ≠ 0) : ∃ b, p = .blk b ∧ len ≤ b.data.length := by
  unfold dataset_read at h
  cases p with
  | blk b =>
    refine ⟨b, rfl, ?_⟩
    by_contra hc
    simp [hc] at h
  | null => simp [hlen] at h
  | hdr => simp [hlen] at h
  | db_def => simp [hlen] at h
  | db_table_def => simp [hlen] at h

/-- A response with payload over a transport that takes every byte. -/
theorem ssa_downstream_send_complete (C : ssa_msg_consts) (conn : ssa_conn) (op : Nat)
    (buf : void_ptr) (len : Nat) (hrd : (dataset_read buf len).isSome) :
    ∃ c1 rest,
      ssa_downstream_send C conn op buf len POLLIN true (C.hdr_size : Int) (len : Int) =
        (POLLIN, c1) ∧
      same_recv conn c1 ∧
      c1.sent = conn.sent ++
        ⟨.own (ssa_init_ssa_msg_hdr C op (C.hdr_size + len) C.SSA_MSG_FLAG_RESP conn.rid),
          0, C.hdr_size, C.hdr_size⟩ :: rest ∧
      frames (⟨.own (ssa_init_ssa_msg_hdr C op (C.hdr_size + len) C.SSA_MSG_FLAG_RESP
          conn.rid), 0, C.hdr_size, C.hdr_size⟩ :: rest) =
        [(ssa_init_ssa_msg_hdr C op (C.hdr_size + len) C.SSA_MSG_FLAG_RESP conn.rid,
          dataset_bytes buf len)] ∧
      c1.soffset = c1.ssize := by
  have hpos := hdr_size_pos_int C
  unfold ssa_downstream_send
  simp only [if_true, hpos, Int.toNat_ofNat, Nat.zero_add]
  by_cases hz : buf = .null ∨ len = 0
  · simp only [hz, if_true]
    refine ⟨_, [], rfl, ⟨rfl, rfl, rfl, rfl, rfl, rfl, rfl⟩, rfl, ?_, rfl⟩
    rw [frames.eq_3 _ _ _ _ _ (by intro p o l r rest he; cases he), frames.eq_1]
    rcases hz with hb | hl
    · by_cases hl : len = 0
      · rw [hl, dataset_bytes_zero]
      · obtain ⟨b, hb', _⟩ := dataset_read_some buf len hrd hl
        rw [hb] at hb'
        cases hb'
    · rw [hl, dataset_bytes_zero]
  · have hl : len ≠ 0 := fun e => hz (Or.inr e)
    have hlpos : (0 : Int) < (len : Int) := by
      have : 0 < len := Nat.pos_of_ne_zero hl
      exact_mod_cast this
    obtain ⟨b, hb, hle⟩ := dataset_read_some buf len hrd hl
    simp only [hz, if_false, hlpos, if_true]
    refine ⟨_, [⟨.ptr buf, 0, len, len⟩], rfl, ⟨rfl, rfl, rfl, rfl, rfl, rfl, rfl⟩,
      by simp, ?_, rfl⟩
    rw [frames.eq_2, frames.eq_1]
    subst hb
    simp [accepted_bytes, dataset_bytes, dataset_read, hle]

/-- A header-only response over a transport that takes every byte. -/
theorem ssa_downstream_send_resp_complete (C : ssa_msg_consts) (conn : ssa_conn) (op : Nat) :
    ∃ c1,
      ssa_downstream_send_resp C conn op POLLIN true (C.hdr_size : Int) = (POLLIN, c1) ∧
      same_recv conn c1 ∧
      c1.sent = conn.sent ++
        [⟨.own (ssa_init_ssa_msg_hdr C op C.hdr_size
          (C.SSA_MSG_FLAG_END ||| C.SSA_MSG_FLAG_RESP) conn.rid), 0, C.hdr_size,
          C.hdr_size⟩] ∧
      c1.soffset = c1.ssize := by
  have hpos := hdr_size_pos_int C
  unfold ssa_downstream_send_resp
  simp only [if_true, hpos, Int.toNat_ofNat, Nat.zero_add]
  exact ⟨_, rfl, ⟨rfl, rfl, rfl, rfl, rfl, rfl, rfl⟩, rfl, rfl⟩

theorem pollin_bits : POLLIN &&& POLLIN ≠ 0 ∧ ¬ (POLLIN &&& POLLOUT ≠ 0) := by decide

/-- The server receives a complete valid query in one `rrecv` and handles
it. -/
theorem server_receives (C : ssa_msg_consts) (G : ssa_globals) (sconn : ssa_conn)
    (hq : ssa_msg_hdr) (phase : ssa_db_phase) (sindex : Nat)
    (hr : server_ready C sconn phase sindex) (hv : validate_ssa_msg_hdr C hq = 1)
    (hC : C.hdr_size < 2147483648) :
    ssa_downstream_handle_rsock_revents C G sconn POLLIN (session_env hq [] 0) =
      ssa_downstream_handle_op C G
        { sconn with rbuf := .hdr, rsize := C.hdr_size, roffset := C.hdr_size } hq POLLIN
        (session_env hq [] 0) := by
  obtain ⟨_, _, hrb, _, _⟩ := hr
  have hpos := hdr_size_pos_int C
  have hv' : validate_ssa_msg_hdr C hq ≠ 0 := by rw [hv]; decide
  have key : ssa_downstream_rrecv C G
      { sconn with rbuf := .hdr, rsize := C.hdr_size, roffset := 0 } POLLIN
      (session_env hq [] 0) =
      ssa_downstream_handle_op C G
        { sconn with rbuf := .hdr, rsize := C.hdr_size, roffset := C.hdr_size } hq POLLIN
        (session_env hq [] 0) := by
    unfold ssa_downstream_rrecv
    simp only [env.rrecv_ret, session_env, Nat.sub_zero, int_cast_natCast _ hC, hpos,
      if_true, rrecv_store, Int.toNat_ofNat, Nat.zero_add, ne_eq, hv', not_false_eq_true]
  unfold ssa_downstream_handle_rsock_revents
  simp only [pollin_bits.1, pollin_bits.2, ne_eq, not_false_eq_true, if_true, if_false]
  have hc1 : (if sconn.rbuf = void_ptr.null then
        if (session_env hq [] 0).malloc_rbuf = true then
          ({ sconn with rbuf := .hdr, rsize := C.hdr_size, roffset := 0 } : ssa_conn)
        else sconn
      else sconn) = { sconn with rbuf := .hdr, rsize := C.hdr_size, roffset := 0 } := by
    rcases hrb with h | ⟨h1, h2, h3⟩
    · simp only [h, if_true, session_env]
    · have hne : sconn.rbuf ≠ .null := by rw [h1]; decide
      rw [if_neg hne]
      cases sconn
      simp only at h1 h2 h3
      subst h1 h2 h3
      rfl
  rw [hc1]
  simp only [not_true_eq_false, not_false_eq_true, if_true, key]
  cases ssa_downstream_handle_op C G
    { sconn with rbuf := .hdr, rsize := C.hdr_size, roffset := C.hdr_size } hq POLLIN
    (session_env hq [] 0) with
  | none => rfl
  | some r => rfl

theorem serving_db (D : ssa_db_raw) (conn : ssa_conn) (h1 : conn.ssa_db = none)
    (h2 : conn.dbtype = SSA_CONN_SMDB_TYPE) :
    ssa_downstream_db (serving D) conn = some D := by
  unfold ssa_downstream_db serving
  simp [h1, h2]

theorem handled_of_send (C : ssa_msg_consts) (c c0 c1 : ssa_conn) (h : ssa_msg_hdr)
    (phase : ssa_db_phase) (sindex : Nat) (rest : List rsend_call) (bytes : List uint8_t)
    (hs : same_recv c0 c1)
    (hsent : c1.sent = c0.sent ++ ⟨.own h, 0, C.hdr_size, C.hdr_size⟩ :: rest)
    (hfr : frames (⟨.own h, 0, C.hdr_size, C.hdr_size⟩ :: rest) = [(h, bytes)])
    (hso : c1.soffset = c1.ssize)
    (hp : c0.phase = phase) (hi : c0.sindex = sindex) (hb : c0.rbuf = c.rbuf)
    (hz : c0.rsize = c.rsize) (ho : c0.roffset = 0) (hd : c0.ssa_db = c.ssa_db)
    (ht : c0.dbtype = c.dbtype) (hse : c0.sent = c.sent) :
    handled C c c1 phase sindex h bytes := by
  obtain ⟨h1, h2, h3, h4, h5, h6, h7⟩ := hs
  refine ⟨h1.trans hp, h2.trans hi, h3.trans hb, h4.trans hz, h5.trans ho, h6.trans hd,
    h7.trans ht, rest, ?_, hfr, hso⟩
  rw [hsent, hse]

/-- The handler of QUERY_DEF in phase IDLE. -/
theorem handle_query_defs_complete (C : ssa_msg_consts) (D : ssa_db_raw) (c : ssa_conn)
    (hq : ssa_msg_hdr) (hwf : db_wf C D) (hp : c.phase = SSA_DB_IDLE)
    (hd : c.ssa_db = none) (ht : c.dbtype = SSA_CONN_SMDB_TYPE) :
    ∃ c1,
      ssa_downstream_handle_query_defs C (serving D) c hq POLLIN (session_env hq [] 0) =
        some (POLLIN, c1) ∧
      handled C c c1 SSA_DB_DEFS c.sindex
        (ssa_init_ssa_msg_hdr C C.SSA_MSG_DB_QUERY_DEF (C.hdr_size + C.db_def_size)
          C.SSA_MSG_FLAG_RESP (ntohl hq.id)) D.db_def.data := by
  obtain ⟨⟨hb0, hb1, _⟩, _⟩ := db_wf_sizes C D hwf
  unfold ssa_downstream_handle_query_defs
  rw [serving_db D c hd ht]
  simp only [hp, if_true, env.rsend_ret, env.rsend2_ret, session_env,
    int_cast_natCast _ hb0, int_cast_natCast _ hb1]
  have hrd : (dataset_read (.blk D.db_def) C.db_def_size).isSome := by
    simp [dataset_read, hwf.1]
  obtain ⟨c1, rest, he, hs, hsent, hfr, hso⟩ := ssa_downstream_send_complete C
    { c with phase := SSA_DB_DEFS, rid := ntohl hq.id, roffset := 0 }
    C.SSA_MSG_DB_QUERY_DEF (.blk D.db_def) C.db_def_size hrd
  refine ⟨c1, ?_, ?_⟩
  · rw [← he]
  · have hb : dataset_bytes (.blk D.db_def) C.db_def_size = D.db_def.data := by
      simp [dataset_bytes, dataset_read, hwf.1]
    rw [hb] at hfr
    exact handled_of_send C c
      { c with phase := SSA_DB_DEFS, rid := ntohl hq.id, roffset := 0 } c1 _ _ _ rest _
      hs hsent hfr hso rfl rfl rfl rfl rfl rfl rfl rfl

theorem handled_sindex (C : ssa_msg_consts) (c c1 : ssa_conn) (phase : ssa_db_phase)
    (i j : Nat) (h : ssa_msg_hdr) (bytes : List uint8_t)
    (hh : handled C c c1 phase i h bytes) :
    handled C c { c1 with sindex := j } phase j h bytes := by
  obtain ⟨h1, _, h3, h4, h5, h6, h7, h8⟩ := hh
  exact ⟨h1, rfl, h3, h4, h5, h6, h7, h8⟩

theorem handled_of_send_resp (C : ssa_msg_consts) (c c0 c1 : ssa_conn) (h : ssa_msg_hdr)
    (phase : ssa_db_phase) (sindex : Nat)
    (hs : same_recv c0 c1)
    (hsent : c1.sent = c0.sent ++ [⟨.own h, 0, C.hdr_size, C.hdr_size⟩])
    (hso : c1.soffset = c1.ssize)
    (hp : c0.phase = phase) (hi : c0.sindex = sindex) (hb : c0.rbuf = c.rbuf)
    (hz : c0.rsize = c.rsize) (ho : c0.roffset = 0) (hd : c0.ssa_db = c.ssa_db)
    (ht : c0.dbtype = c.dbtype) (hse : c0.sent = c.sent) :
    handled C c c1 phase sindex h [] := by
  refine handled_of_send C c c0 c1 h phase sindex [] [] hs hsent ?_ hso hp hi hb hz ho hd ht hse
  rw [frames.eq_3 _ _ _ _ _ (by intro p o l r rest he; cases he), frames.eq_1]

/-- The handler of QUERY_TBL_DEF in phase DEFS. -/
theorem handle_query_tbl_def_complete (C : ssa_msg_consts) (D : ssa_db_raw) (c : ssa_conn)
    (hq : ssa_msg_hdr) (hwf : db_wf C D) (hp : c.phase = SSA_DB_DEFS)
    (hd : c.ssa_db = none) (ht : c.dbtype = SSA_CONN_SMDB_TYPE) :
    ∃ c1,
      ssa_downstream_handle_query_tbl_def C (serving D) c hq POLLIN (session_env hq [] 0) =
        some (POLLIN, c1) ∧
      handled C c c1 SSA_DB_DEFS c.sindex
        (ssa_init_ssa_msg_hdr C C.SSA_MSG_DB_QUERY_TBL_DEF (C.hdr_size + C.db_dataset_size)
          C.SSA_MSG_FLAG_RESP (ntohl hq.id)) D.db_table_def.data := by
  obtain ⟨⟨hb0, _, hb2⟩, _⟩ := db_wf_sizes C D hwf
  unfold ssa_downstream_handle_query_tbl_def
  rw [if_pos hp, serving_db D c hd ht]
  simp only [env.rsend_ret, env.rsend2_ret, session_env, int_cast_natCast _ hb0,
    int_cast_natCast _ hb2]
  have hrd : (dataset_read (.blk D.db_table_def) C.db_dataset_size).isSome := by
    simp [dataset_read, hwf.2.1]
  obtain ⟨c1, rest, he, hs, hsent, hfr, hso⟩ := ssa_downstream_send_complete C
    { c with rid := ntohl hq.id, roffset := 0 }
    C.SSA_MSG_DB_QUERY_TBL_DEF (.blk D.db_table_def) C.db_dataset_size hrd
  refine ⟨c1, ?_, ?_⟩
  · rw [← he]
  · have hb : dataset_bytes (.blk D.db_table_def) C.db_dataset_size = D.db_table_def.data := by
      simp [dataset_bytes, dataset_read, hwf.2.1]
    rw [hb] at hfr
    exact handled_of_send C c { c with rid := ntohl hq.id, roffset := 0 } c1 _ _ _ rest _
      hs hsent hfr hso hp rfl rfl rfl rfl rfl rfl rfl

/-- The handler of QUERY_TBL_DEF_DATASET in phase DEFS. -/
theorem handle_query_tbl_defs_complete (C : ssa_msg_consts) (D : ssa_db_raw) (c : ssa_conn)
    (hq : ssa_msg_hdr) (hwf : db_wf C D) (hp : c.phase = SSA_DB_DEFS)
    (hd : c.ssa_db = none) (ht : c.dbtype = SSA_CONN_SMDB_TYPE) :
    ∃ c1,
      ssa_downstream_handle_query_tbl_defs C (serving D) c hq POLLIN (session_env hq [] 0) =
        some (POLLIN, c1) ∧
      handled C c c1 SSA_DB_TBL_DEFS c.sindex
        (ssa_init_ssa_msg_hdr C C.SSA_MSG_DB_QUERY_TBL_DEF_DATASET
          (C.hdr_size + def_tbl_size C D) C.SSA_MSG_FLAG_RESP (ntohl hq.id))
        (dataset_bytes D.p_def_tbl (def_tbl_size C D)) := by
  obtain ⟨⟨hb0, _, _⟩, hb3, _⟩ := db_wf_sizes C D hwf
  have hb3' : C.db_dataset_set_size D.db_table_def.data < 2147483648 := hb3
  unfold ssa_downstream_handle_query_tbl_defs
  rw [if_pos hp, serving_db D c hd ht]
  simp only [env.rsend_ret, env.rsend2_ret, session_env, int_cast_natCast _ hb0,
    int_cast_natCast _ hb3']
  obtain ⟨c1, rest, he, hs, hsent, hfr, hso⟩ := ssa_downstream_send_complete C
    { c with phase := SSA_DB_TBL_DEFS, rid := ntohl hq.id, roffset := 0 }
    C.SSA_MSG_DB_QUERY_TBL_DEF_DATASET D.p_def_tbl (def_tbl_size C D) hwf.2.2.1
  refine ⟨c1, ?_, ?_⟩
  · rw [← he]
    rfl
  · exact handled_of_send C c
      { c with phase := SSA_DB_TBL_DEFS, rid := ntohl hq.id, roffset := 0 } c1 _ _ _ rest _
      hs hsent hfr hso rfl rfl rfl rfl rfl rfl rfl rfl

/-- The handler of the first QUERY_FIELD_DEF_DATASET, in phase TBL_DEFS. -/
theorem handle_query_field_defs_first (C : ssa_msg_consts) (D : ssa_db_raw) (c : ssa_conn)
    (hq : ssa_msg_hdr) (hwf : db_wf C D) (hp : c.phase = SSA_DB_TBL_DEFS)
    (hd : c.ssa_db = none) (ht : c.dbtype = SSA_CONN_SMDB_TYPE) :
    ∃ c1,
      ssa_downstream_handle_query_field_defs C (serving D) c hq POLLIN
        (session_env hq [] 0) = some (POLLIN, c1) ∧
      handled C c c1 SSA_DB_FIELD_DEFS 0
        (ssa_init_ssa_msg_hdr C C.SSA_MSG_DB_QUERY_FIELD_DEF_DATASET
          (C.hdr_size + D.data_tbl_cnt * C.db_dataset_size) C.SSA_MSG_FLAG_RESP
          (ntohl hq.id))
        (dataset_bytes D.p_db_field_tables (D.data_tbl_cnt * C.db_dataset_size)) := by
  obtain ⟨⟨hb0, _, _⟩, _, hb4, _⟩ := db_wf_sizes C D hwf
  unfold ssa_downstream_handle_query_field_defs
  rw [if_pos hp, serving_db D c hd ht]
  simp only [env.rsend_ret, env.rsend2_ret, session_env, int_cast_natCast _ hb0,
    int_cast_natCast _ hb4]
  obtain ⟨c1, rest, he, hs, hsent, hfr, hso⟩ := ssa_downstream_send_complete C
    { c with phase := SSA_DB_FIELD_DEFS, rid := ntohl hq.id, roffset := 0 }
    C.SSA_MSG_DB_QUERY_FIELD_DEF_DATASET D.p_db_field_tables
    (D.data_tbl_cnt * C.db_dataset_size) hwf.2.2.2.1
  refine ⟨{ c1 with sindex := 0 }, ?_, ?_⟩
  · rw [he]
  · exact handled_sindex C c c1 _ c.sindex 0 _ _ (handled_of_send C c
      { c with phase := SSA_DB_FIELD_DEFS, rid := ntohl hq.id, roffset := 0 } c1 _ _ _ rest _
      hs hsent hfr hso rfl rfl rfl rfl rfl rfl rfl rfl)

theorem wf_blk_of_pos (C : ssa_msg_consts) (p : void_ptr) (n i : Nat) (hi : i < n)
    (h : (dataset_read p (n * C.db_dataset_size)).isSome) :
    ∃ d, dataset_at C p i = some d ∧ descr_size C p i = C.db_dataset_set_size d := by
  have hpos : n * C.db_dataset_size ≠ 0 :=
    Nat.mul_ne_zero (by omega) (by have := C.sizes_pos.2.2; omega)
  obtain ⟨b, hb, _⟩ := dataset_read_some p _ h hpos
  subst hb
  exact ⟨_, rfl, rfl⟩

/-- The handler of QUERY_FIELD_DEF_DATASET in phase FIELD_DEFS for the data
table `c.sindex`. -/
theorem handle_query_field_defs_table (C : ssa_msg_consts) (D : ssa_db_raw) (c : ssa_conn)
    (hq : ssa_msg_hdr) (hwf : db_wf C D) (hp : c.phase = SSA_DB_FIELD_DEFS)
    (hd : c.ssa_db = none) (ht : c.dbtype = SSA_CONN_SMDB_TYPE)
    (hi : c.sindex < D.data_tbl_cnt) :
    ∃ c1,
      ssa_downstream_handle_query_field_defs C (serving D) c hq POLLIN
        (session_env hq [] 0) = some (POLLIN, c1) ∧
      handled C c c1 SSA_DB_FIELD_DEFS (c.sindex + 1)
        (ssa_init_ssa_msg_hdr C C.SSA_MSG_DB_QUERY_FIELD_DEF_DATASET
          (C.hdr_size + descr_size C D.p_db_field_tables c.sindex) C.SSA_MSG_FLAG_RESP
          (ntohl hq.id))
        (dataset_bytes (pp_at D.pp_field_tables c.sindex)
          (descr_size C D.p_db_field_tables c.sindex)) := by
  obtain ⟨⟨hb0, _, _⟩, _, _, hb5⟩ := db_wf_sizes C D hwf
  have hb6 := (hb5 _ hi).1
  obtain ⟨_, _, _, hft, _, hpp, htab, _⟩ := hwf
  obtain ⟨d, hd1, hd2⟩ := wf_blk_of_pos C _ _ _ hi hft
  rw [hd2] at hb6
  obtain ⟨tables, htables⟩ := Option.isSome_iff_exists.mp (hpp (by omega)).1
  have hrd := (htab _ hi).1
  rw [htables] at hrd
  rw [hd2] at hrd ⊢
  rw [htables]
  unfold ssa_downstream_handle_query_field_defs
  have hne : c.phase ≠ SSA_DB_TBL_DEFS := by rw [hp]; decide
  rw [if_neg hne, if_pos hp, serving_db D c hd ht]
  simp only [env.rsend_ret, env.rsend2_ret, session_env, hi, if_true, htables, hd1, pp_at,
    int_cast_natCast _ hb0, int_cast_natCast _ hb6]
  simp only [pp_at] at hrd
  obtain ⟨c1, rest, he, hs, hsent, hfr, hso⟩ := ssa_downstream_send_complete C
    { c with rid := ntohl hq.id, roffset := 0 }
    C.SSA_MSG_DB_QUERY_FIELD_DEF_DATASET (tables c.sindex) (C.db_dataset_set_size d) hrd
  refine ⟨{ c1 with sindex := c1.sindex + 1 }, ?_, ?_⟩
  · rw [he]
  · have h2 : c1.sindex = c.sindex := hs.2.1
    rw [h2]
    exact handled_sindex C c c1 _ c.sindex (c.sindex + 1) _ _ (handled_of_send C c
      { c with rid := ntohl hq.id, roffset := 0 } c1 _ _ _ rest _
      hs hsent hfr hso hp rfl rfl rfl rfl rfl rfl rfl)

/-- The handler of QUERY_FIELD_DEF_DATASET in phase FIELD_DEFS after the last
data table. -/
theorem handle_query_field_defs_end (C : ssa_msg_consts) (D : ssa_db_raw) (c : ssa_conn)
    (hq : ssa_msg_hdr) (hp : c.phase = SSA_DB_FIELD_DEFS)
    (hd : c.ssa_db = none) (ht : c.dbtype = SSA_CONN_SMDB_TYPE)
    (hi : ¬ c.sindex < D.data_tbl_cnt) (hC : C.hdr_size < 2147483648) :
    ∃ c1,
      ssa_downstream_handle_query_field_defs C (serving D) c hq POLLIN
        (session_env hq [] 0) = some (POLLIN, c1) ∧
      handled C c c1 SSA_DB_FIELD_DEFS c.sindex
        (ssa_init_ssa_msg_hdr C C.SSA_MSG_DB_QUERY_FIELD_DEF_DATASET C.hdr_size
          (C.SSA_MSG_FLAG_END ||| C.SSA_MSG_FLAG_RESP) (ntohl hq.id)) [] := by
  unfold ssa_downstream_handle_query_field_defs
  have hne : c.phase ≠ SSA_DB_TBL_DEFS := by rw [hp]; decide
  rw [if_neg hne, if_pos hp, serving_db D c hd ht]
  dsimp only
  rw [if_neg hi]
  simp only [env.rsend_ret, session_env, int_cast_natCast _ hC]
  obtain ⟨c1, he, hs, hsent, hso⟩ := ssa_downstream_send_resp_complete C
    { c with rid := ntohl hq.id, roffset := 0 } C.SSA_MSG_DB_QUERY_FIELD_DEF_DATASET
  refine ⟨c1, ?_, ?_⟩
  · rw [← he]
  · exact handled_of_send_resp C c { c with rid := ntohl hq.id, roffset := 0 } c1 _ _ _
      hs hsent hso hp rfl rfl rfl rfl rfl rfl rfl

/-- The handler of the first QUERY_DATA_DATASET, in phase FIELD_DEFS. -/
theorem handle_query_data_first (C : ssa_msg_consts) (D : ssa_db_raw) (c : ssa_conn)
    (hq : ssa_msg_hdr) (hwf : db_wf C D) (hp : c.phase = SSA_DB_FIELD_DEFS)
    (hd : c.ssa_db = none) (ht : c.dbtype = SSA_CONN_SMDB_TYPE) :
    ∃ c1,
      ssa_downstream_handle_query_data C (serving D) c hq POLLIN
        (session_env hq [] 0) = some (POLLIN, c1) ∧
      handled C c c1 SSA_DB_DATA 0
        (ssa_init_ssa_msg_hdr C C.SSA_MSG_DB_QUERY_DATA_DATASET
          (C.hdr_size + D.data_tbl_cnt * C.db_dataset_size) C.SSA_MSG_FLAG_RESP
          (ntohl hq.id))
        (dataset_bytes D.p_db_tables (D.data_tbl_cnt * C.db_dataset_size)) := by
  obtain ⟨⟨hb0, _, _⟩, _, hb4, _⟩ := db_wf_sizes C D hwf
  unfold ssa_downstream_handle_query_data
  rw [if_pos hp, serving_db D c hd ht]
  simp only [env.rsend_ret, env.rsend2_ret, session_env, int_cast_natCast _ hb0,
    int_cast_natCast _ hb4]
  obtain ⟨c1, rest, he, hs, hsent, hfr, hso⟩ := ssa_downstream_send_complete C
    { c with phase := SSA_DB_DATA, rid := ntohl hq.id, roffset := 0 }
    C.SSA_MSG_DB_QUERY_DATA_DATASET D.p_db_tables
    (D.data_tbl_cnt * C.db_dataset_size) hwf.2.2.2.2.1
  refine ⟨{ c1 with sindex := 0 }, ?_, ?_⟩
  · rw [he]
  · exact handled_sindex C c c1 _ c.sindex 0 _ _ (handled_of_send C c
      { c with phase := SSA_DB_DATA, rid := ntohl hq.id, roffset := 0 } c1 _ _ _ rest _
      hs hsent hfr hso rfl rfl rfl rfl rfl rfl rfl rfl)

/-- The handler of QUERY_DATA_DATASET in phase DATA for the data table
`c.sindex`. -/
theorem handle_query_data_table (C : ssa_msg_consts) (D : ssa_db_raw) (c : ssa_conn)
    (hq : ssa_msg_hdr) (hwf : db_wf C D) (hp : c.phase = SSA_DB_DATA)
    (hd : c.ssa_db = none) (ht : c.dbtype = SSA_CONN_SMDB_TYPE)
    (hi : c.sindex < D.data_tbl_cnt) :
    ∃ c1,
      ssa_downstream_handle_query_data C (serving D) c hq POLLIN
        (session_env hq [] 0) = some (POLLIN, c1) ∧
      handled C c c1 SSA_DB_DATA (c.sindex + 1)
        (ssa_init_ssa_msg_hdr C C.SSA_MSG_DB_QUERY_DATA_DATASET
          (C.hdr_size + descr_size C D.p_db_tables c.sindex) C.SSA_MSG_FLAG_RESP
          (ntohl hq.id))
        (dataset_bytes (pp_at D.pp_tables c.sindex)
          (descr_size C D.p_db_tables c.sindex)) := by
  obtain ⟨⟨hb0, _, _⟩, _, _, hb5⟩ := db_wf_sizes C D hwf
  have hb6 := (hb5 _ hi).2
  obtain ⟨_, _, _, _, hdt, hpp, htab, _⟩ := hwf
  obtain ⟨d, hd1, hd2⟩ := wf_blk_of_pos C _ _ _ hi hdt
  rw [hd2] at hb6
  obtain ⟨tables, htables⟩ := Option.isSome_iff_exists.mp (hpp (by omega)).2
  have hrd := (htab _ hi).2
  rw [htables] at hrd
  rw [hd2] at hrd ⊢
  rw [htables]
  unfold ssa_downstream_handle_query_data
  have hne : c.phase ≠ SSA_DB_FIELD_DEFS := by rw [hp]; decide
  rw [if_neg hne, if_pos hp, serving_db D c hd ht]
  simp only [env.rsend_ret, env.rsend2_ret, session_env, hi, if_true, htables, hd1, pp_at,
    int_cast_natCast _ hb0, int_cast_natCast _ hb6]
  simp only [pp_at] at hrd
  obtain ⟨c1, rest, he, hs, hsent, hfr, hso⟩ := ssa_downstream_send_complete C
    { c with rid := ntohl hq.id, roffset := 0 }
    C.SSA_MSG_DB_QUERY_DATA_DATASET (tables c.sindex) (C.db_dataset_set_size d) hrd
  refine ⟨{ c1 with sindex := c1.sindex + 1 }, ?_, ?_⟩
  · rw [he]
  · have h2 : c1.sindex = c.sindex := hs.2.1
    rw [h2]
    exact handled_sindex C c c1 _ c.sindex (c.sindex + 1) _ _ (handled_of_send C c
      { c with rid := ntohl hq.id, roffset := 0 } c1 _ _ _ rest _
      hs hsent hfr hso hp rfl rfl rfl rfl rfl rfl rfl)

/-- The handler of QUERY_DATA_DATASET in phase DATA after the last data
table. -/
theorem handle_query_data_end (C : ssa_msg_consts) (D : ssa_db_raw) (c : ssa_conn)
    (hq : ssa_msg_hdr) (hp : c.phase = SSA_DB_DATA)
    (hd : c.ssa_db = none) (ht : c.dbtype = SSA_CONN_SMDB_TYPE)
    (hi : ¬ c.sindex < D.data_tbl_cnt) (hC : C.hdr_size < 2147483648) :
    ∃ c1,
      ssa_downstream_handle_query_data C (serving D) c hq POLLIN
        (session_env hq [] 0) = some (POLLIN, c1) ∧
      handled C c c1 SSA_DB_DATA c.sindex
        (ssa_init_ssa_msg_hdr C C.SSA_MSG_DB_QUERY_DATA_DATASET C.hdr_size
          (C.SSA_MSG_FLAG_END ||| C.SSA_MSG_FLAG_RESP) (ntohl hq.id)) [] := by
  unfold ssa_downstream_handle_query_data
  have hne : c.phase ≠ SSA_DB_FIELD_DEFS := by rw [hp]; decide
  rw [if_neg hne, if_pos hp, serving_db D c hd ht]
  dsimp only
  rw [if_neg hi]
  simp only [env.rsend_ret, session_env, int_cast_natCast _ hC]
  obtain ⟨c1, he, hs, hsent, hso⟩ := ssa_downstream_send_resp_complete C
    { c with rid := ntohl hq.id, roffset := 0 } C.SSA_MSG_DB_QUERY_DATA_DATASET
  refine ⟨c1, ?_, ?_⟩
  · rw [← he]
  · exact handled_of_send_resp C c { c with rid := ntohl hq.id, roffset := 0 } c1 _ _ _
      hs hsent hso hp rfl rfl rfl rfl rfl rfl rfl


theorem server_round_of_handled (C : ssa_msg_consts) (G : ssa_globals) (sconn c1 : ssa_conn)
    (hq : ssa_msg_hdr) (phase p1 : ssa_db_phase) (sindex i1 : Nat) (h : ssa_msg_hdr)
    (bytes : List uint8_t)
    (hr : server_ready C sconn phase sindex) (hv : validate_ssa_msg_hdr C hq = 1)
    (he : ssa_downstream_handle_op C G (with_hdr C sconn) hq POLLIN (session_env hq [] 0) =
      some (POLLIN, c1))
    (hh : handled C (with_hdr C sconn) c1 p1 i1 h bytes)
    (hC : C.hdr_size < 2147483648) :
    ssa_downstream_handle_rsock_revents C G sconn POLLIN (session_env hq [] 0) =
      some (POLLIN, c1) ∧
    server_ready C c1 p1 i1 ∧ frames (c1.sent.drop sconn.sent.length) = [(h, bytes)] ∧
    c1.soffset = c1.ssize := by
  refine ⟨?_, ?_, ?_, ?_⟩
  · rw [server_receives C G sconn hq phase sindex hr hv hC]
    exact he
  · obtain ⟨h1, h2, h3, h4, h5, h6, h7, _⟩ := hh
    exact ⟨h1, h2, Or.inr ⟨h3, h4, h5⟩, h6.trans hr.2.2.2.1, h7.trans hr.2.2.2.2⟩
  · obtain ⟨_, _, _, _, _, _, _, rest, hs, hf, _⟩ := hh
    have : (with_hdr C sconn).sent = sconn.sent := rfl
    rw [hs, this, List.drop_left]
    exact hf
  · obtain ⟨_, _, _, _, _, _, _, rest, _, _, hso⟩ := hh
    exact hso

theorem query_op_facts (C : ssa_msg_consts) (op : Nat) (h : query_op C op) :
    op < 65536 ∧ valid_op C op = true := by
  have hl := C.ops_lt
  simp only [List.mem_cons, List.mem_singleton, List.not_mem_nil, or_false, forall_eq_or_imp,
    forall_eq] at hl
  obtain ⟨h1, h2, h3, h4, h5, _⟩ := hl
  rw [valid_op_iff]
  simp only [List.mem_cons, List.mem_singleton, List.not_mem_nil, or_false]
  rcases h with h | h | h | h | h <;> subst h
  · exact ⟨h1, Or.inl rfl⟩
  · exact ⟨h2, Or.inr (Or.inl rfl)⟩
  · exact ⟨h3, Or.inr (Or.inr (Or.inl rfl))⟩
  · exact ⟨h4, Or.inr (Or.inr (Or.inr (Or.inl rfl)))⟩
  · exact ⟨h5, Or.inr (Or.inr (Or.inr (Or.inr (Or.inl rfl))))⟩

/-- What the receiver reads in a header that `ssa_init_ssa_msg_hdr` wrote. -/
theorem init_hdr_facts (C : ssa_msg_consts) (op len flags id : Nat) (hq : query_op C op)
    (hlen : len < 4294967296) (hflags : flags < 65536) (hid : id < 4294967296) :
    ntohs (ssa_init_ssa_msg_hdr C op len flags id).op = op ∧
    ntohl (ssa_init_ssa_msg_hdr C op len flags id).len = len ∧
    ntohs (ssa_init_ssa_msg_hdr C op len flags id).flags = flags ∧
    ntohl (ssa_init_ssa_msg_hdr C op len flags id).id = id ∧
    validate_ssa_msg_hdr C (ssa_init_ssa_msg_hdr C op len flags id) = 1 := by
  obtain ⟨hop, hval⟩ := query_op_facts C op hq
  refine ⟨ntohs_htons op hop, ntohl_htonl len hlen, ntohs_htons flags hflags,
    ntohl_htonl id hid, ?_⟩
  rw [validate_eq_one_iff]
  refine ⟨rfl, rfl, ?_⟩
  have e : ntohs (ssa_init_ssa_msg_hdr C op len flags id).op = op := ntohs_htons op hop
  rw [e]
  exact hval

theorem last_hdr_concat (l : List rsend_call) (h : ssa_msg_hdr) (off len : Nat) (ret : Int) :
    last_hdr (l ++ [⟨.own h, off, len, ret⟩]) = some h := by
  unfold last_hdr
  rw [List.getLast?_concat]

/-- A query whose header is allocated and sent completely. -/
theorem ssa_upstream_query_complete (C : ssa_msg_consts) (svc : ssa_svc) (op events : Nat) :
    ∃ svc1,
      ssa_upstream_query C svc op events true (C.hdr_size : Int) = (POLLIN, svc1) ∧
      svc1.conn_dataup.phase = op_phase C op svc.conn_dataup.phase ∧
      svc1.conn_dataup.rindex = svc.conn_dataup.rindex ∧
      svc1.conn_dataup.rbuf = svc.conn_dataup.rbuf ∧
      svc1.conn_dataup.rhdr = svc.conn_dataup.rhdr ∧
      svc1.conn_dataup.ssa_db = svc.conn_dataup.ssa_db ∧
      svc1.db_updates = svc.db_updates ∧
      svc1.conn_dataup.sid < 4294967296 ∧
      last_hdr svc1.conn_dataup.sent =
        some (ssa_upstream_send_query C op svc1.conn_dataup.sid) := by
  have hpos := hdr_size_pos_int C
  unfold ssa_upstream_query
  simp only [if_true, hpos, ssa_upstream_update_phase_eq, Int.toNat_ofNat, Nat.zero_add]
  refine ⟨_, rfl, rfl, rfl, rfl, rfl, rfl, rfl, ?_, ?_⟩
  · exact Nat.mod_lt _ (by norm_num)
  · exact last_hdr_concat _ _ _ _ _

/-- The client receives a complete valid header in one `rrecv` and handles
it. -/
theorem client_receives (C : ssa_msg_consts) (svc : ssa_svc) (h : ssa_msg_hdr)
    (data : List uint8_t) (addr : Nat) (hb : svc.conn_dataup.rbuf = .null)
    (hv : validate_ssa_msg_hdr C h = 1) (hC : C.hdr_size < 2147483648) :
    ssa_upstream_handler_data C svc POLLIN POLLIN (session_env h data addr) =
      ssa_upstream_handle_op C { svc with conn_dataup := got_hdr C svc.conn_dataup } h POLLIN
        (session_env h data addr) := by
  have hpos := hdr_size_pos_int C
  have hv' : validate_ssa_msg_hdr C h ≠ 0 := by rw [hv]; decide
  unfold ssa_upstream_handler_data
  simp only [pollin_bits.1, pollin_bits.2, ne_eq, not_false_eq_true, if_true, if_false,
    not_true_eq_false]
  unfold ssa_upstream_handler_pollin
  simp only [hb, if_true, session_env, ne_eq]
  have hne : ¬ (void_ptr.hdr = void_ptr.null) := by decide
  simp only [hne, not_false_eq_true, if_true]
  unfold ssa_upstream_rrecv
  simp only [env.rrecv_ret, Nat.sub_zero, int_cast_natCast _ hC, hpos, if_true, rrecv_store,
    Int.toNat_ofNat, Nat.zero_add, ne_eq, hv', not_false_eq_true]
  rfl

theorem write_at_full (b data : List uint8_t) (h : b.length = data.length) :
    write_at b 0 data = data := by
  unfold write_at
  rw [List.take_zero, List.nil_append, Nat.zero_add, ← h, List.drop_length, List.append_nil]

/-- The client receives the payload that follows a response header of the
phases TBL_DEFS, FIELD_DEFS and DATA in one `rrecv`. -/
theorem payload_received (C : ssa_msg_consts) (phase : ssa_db_phase) (conn : ssa_conn)
    (h : ssa_msg_hdr) (data : List uint8_t) (addr len : Nat)
    (hp : conn.phase = phase) (hid : conn.sid = ntohl h.id)
    (hlen : ntohl h.len = C.hdr_size + len) (hd : data.length = len)
    (hlb : len < 2147483648) :
    ∃ c,
      ssa_upstream_handle_query_payload C phase (got_hdr C conn) h
        (session_env h data addr) = some c ∧
      c.roffset = c.rsize ∧ c.rbuf = recv_ptr addr data len ∧ c.rhdr = some h ∧
      c.phase = phase ∧ c.sid = conn.sid ∧ c.rindex = conn.rindex ∧
      c.ssa_db = conn.ssa_db ∧ c.sent = conn.sent := by
  have hp1 : (got_hdr C conn).phase = phase := hp
  have hid1 : ¬ (got_hdr C conn).sid ≠ ntohl h.id := by
    intro hne
    exact hne hid
  unfold ssa_upstream_handle_query_payload
  rw [if_pos hp1, if_neg hid1, hlen]
  by_cases hz : len = 0
  · subst hz
    have hnl : ¬ C.hdr_size < C.hdr_size + 0 := by omega
    simp only [hnl, if_false]
    exact ⟨_, rfl, rfl, by simp [recv_ptr, got_hdr], rfl, hp, rfl, rfl, rfl, rfl⟩
  · have hl : C.hdr_size < C.hdr_size + len := by omega
    have hpos : (0 : Int) < ((C.hdr_size + len - C.hdr_size : Nat) : Int) := by
      rw [Nat.add_sub_cancel_left]
      exact_mod_cast Nat.pos_of_ne_zero hz
    have hlb' : C.hdr_size + len - C.hdr_size < 2147483648 := by omega
    simp only [hl, if_true, env.rrecv2_ret, session_env, int_cast_natCast _ hlb', rrecv_first,
      hpos, rrecv_store, Int.toNat_ofNat, Nat.zero_add]
    refine ⟨_, rfl, rfl, ?_, rfl, hp, rfl, rfl, rfl, rfl⟩
    simp only [recv_ptr, if_neg hz, Nat.add_sub_cancel_left]
    rw [write_at_full]
    rw [List.length_replicate, hd]

/-- The client receives the descriptor that follows a response header of the
phase DEFS in one `rrecv`. -/
theorem defs_received (C : ssa_msg_consts) (conn : ssa_conn) (db : ssa_db_raw)
    (h : ssa_msg_hdr) (data : List uint8_t) (addr : Nat)
    (hp : conn.phase = SSA_DB_DEFS) (hid : conn.sid = ntohl h.id)
    (hdb : conn.ssa_db = some db)
    (hlen : ntohl h.len =
      C.hdr_size + (if conn.rindex ≠ 0 then C.db_dataset_size else C.db_def_size))
    (hdl : (if conn.rindex ≠ 0 then db.db_table_def.data.length else db.db_def.data.length) =
      data.length)
    (hC : int_sizes C) :
    ∃ c,
      ssa_upstream_handle_query_defs C (got_hdr C conn) h (session_env h data addr) = some c ∧
      c.roffset = c.rsize ∧ c.rhdr = some h ∧
      c.phase = SSA_DB_DEFS ∧ c.sid = conn.sid ∧ c.rindex = conn.rindex ∧
      c.ssa_db = some (if conn.rindex ≠ 0 then
          { db with db_table_def := { db.db_table_def with data := data } }
        else { db with db_def := { db.db_def with data := data } }) ∧
      c.sent = conn.sent := by
  have hp1 : (got_hdr C conn).phase = SSA_DB_DEFS := hp
  have hid1 : ¬ (got_hdr C conn).sid ≠ ntohl h.id := by
    intro hne
    exact hne hid
  have hri : (got_hdr C conn).rindex = conn.rindex := rfl
  have hsz := C.sizes_pos
  unfold ssa_upstream_handle_query_defs
  rw [if_pos hp1, if_neg hid1]
  simp only [hri]
  have hlen1 : ¬ ntohl h.len ≠
      C.hdr_size + (if conn.rindex ≠ 0 then C.db_dataset_size else C.db_def_size) := by
    intro hne
    exact hne hlen
  rw [if_neg hlen1, hlen, Nat.add_sub_cancel_left]
  have hpos : (0 : Int) <
      ((if conn.rindex ≠ 0 then C.db_dataset_size else C.db_def_size : Nat) : Int) := by
    split_ifs
    · exact_mod_cast hsz.2.2
    · exact_mod_cast hsz.2.1
  have hbs : (if conn.rindex ≠ 0 then C.db_dataset_size else C.db_def_size) <
      2147483648 := by
    split_ifs
    · exact hC.2.2
    · exact hC.2.1
  simp only [env.rrecv2_ret, session_env, int_cast_natCast _ hbs, rrecv_first, hpos, if_true]
  by_cases hr : conn.rindex ≠ 0
  · simp only [hr, if_true, not_false_eq_true, ne_eq] at hdl ⊢
    simp only [rrecv_store, got_hdr, hdb, Int.toNat_ofNat, Nat.zero_add]
    refine ⟨_, rfl, rfl, rfl, hp, rfl, rfl, ?_, rfl⟩
    rw [write_at_full _ _ hdl]
  · simp only [hr, if_false, not_false_eq_true, ne_eq] at hdl ⊢
    simp only [rrecv_store, got_hdr, hdb, Int.toNat_ofNat, Nat.zero_add]
    refine ⟨_, rfl, rfl, rfl, hp, rfl, rfl, ?_, rfl⟩
    rw [write_at_full _ _ hdl]

theorem handle_op_check_complete (C : ssa_msg_consts) (phase : ssa_db_phase) (svc : ssa_svc)
    (h : ssa_msg_hdr) (E : env) (hp : svc.conn_dataup.phase = phase)
    (hid : svc.conn_dataup.sid = ntohl h.id)
    (ho : svc.conn_dataup.roffset = svc.conn_dataup.rsize) :
    ssa_upstream_handle_op_check C phase svc h POLLIN E =
      ssa_upstream_update_conn C svc POLLIN E := by
  unfold ssa_upstream_handle_op_check
  rw [if_pos hp, if_pos hid.symm, if_pos ho]

/-- The phase in which the client expects the payload response to `op`. -/
theorem client_payload_step (C : ssa_msg_consts) (svc : ssa_svc) (phase : ssa_db_phase)
    (op : Nat) (h : ssa_msg_hdr) (data : List uint8_t) (addr len : Nat)
    (hpo : (op = C.SSA_MSG_DB_QUERY_TBL_DEF_DATASET ∧ phase = SSA_DB_TBL_DEFS) ∨
      (op = C.SSA_MSG_DB_QUERY_FIELD_DEF_DATASET ∧ phase = SSA_DB_FIELD_DEFS) ∨
      (op = C.SSA_MSG_DB_QUERY_DATA_DATASET ∧ phase = SSA_DB_DATA))
    (hop : ntohs h.op = op) (hv : validate_ssa_msg_hdr C h = 1)
    (hb : svc.conn_dataup.rbuf = .null) (hp : svc.conn_dataup.phase = phase)
    (hid : svc.conn_dataup.sid = ntohl h.id)
    (hlen : ntohl h.len = C.hdr_size + len) (hd : data.length = len)
    (hC : C.hdr_size < 2147483648) (hlb : len < 2147483648) :
    ∃ c,
      ssa_upstream_handler_data C svc POLLIN POLLIN (session_env h data addr) =
        ssa_upstream_update_conn C { svc with conn_dataup := c } POLLIN
          (session_env h data addr) ∧
      c.rbuf = recv_ptr addr data len ∧ c.rhdr = some h ∧
      c.phase = phase ∧ c.rindex = svc.conn_dataup.rindex ∧
      c.ssa_db = svc.conn_dataup.ssa_db ∧ c.sent = svc.conn_dataup.sent := by
  obtain ⟨c, he, h1, h2, h3, h4, h5, h6, h7, h8⟩ :=
    payload_received C phase svc.conn_dataup h data addr len hp hid hlen hd hlb
  refine ⟨c, ?_, h2, h3, h4, h6, h7, h8⟩
  rw [client_receives C svc h data addr hb hv hC]
  obtain ⟨n1, n2, n3, n4, n5, n6, n7, n8, n9, n10⟩ := ops_ne C
  have hck := handle_op_check_complete C phase { svc with conn_dataup := c } h
    (session_env h data addr) h4 (h5.trans hid) h1
  unfold ssa_upstream_handle_op
  rcases hpo with ⟨ho, hph⟩ | ⟨ho, hph⟩ | ⟨ho, hph⟩
  · subst ho hph
    simp only [hop, n2.symm, n5.symm, or_self, if_false, if_true]
    unfold ssa_upstream_handle_query_tbl_defs
    rw [he]
    exact hck
  · subst ho hph
    simp only [hop, n3.symm, n6.symm, n8.symm, or_self, if_false, if_true]
    unfold ssa_upstream_handle_query_field_defs
    rw [he]
    exact hck
  · subst ho hph
    simp only [hop, n4.symm, n7.symm, n9.symm, n10.symm, or_self, if_false, if_true]
    unfold ssa_upstream_handle_query_data
    rw [he]
    exact hck

/-- The client receives a descriptor in phase DEFS. -/
theorem client_defs_step (C : ssa_msg_consts) (svc : ssa_svc) (db : ssa_db_raw)
    (h : ssa_msg_hdr) (data : List uint8_t) (addr : Nat)
    (hop : ntohs h.op = C.SSA_MSG_DB_QUERY_DEF ∨ ntohs h.op = C.SSA_MSG_DB_QUERY_TBL_DEF)
    (hv : validate_ssa_msg_hdr C h = 1)
    (hb : svc.conn_dataup.rbuf = .null) (hp : svc.conn_dataup.phase = SSA_DB_DEFS)
    (hid : svc.conn_dataup.sid = ntohl h.id) (hdb : svc.conn_dataup.ssa_db = some db)
    (hlen : ntohl h.len = C.hdr_size +
      (if svc.conn_dataup.rindex ≠ 0 then C.db_dataset_size else C.db_def_size))
    (hdl : (if svc.conn_dataup.rindex ≠ 0 then db.db_table_def.data.length
      else db.db_def.data.length) = data.length)
    (hC : int_sizes C) :
    ∃ c,
      ssa_upstream_handler_data C svc POLLIN POLLIN (session_env h data addr) =
        ssa_upstream_update_conn C { svc with conn_dataup := c } POLLIN
          (session_env h data addr) ∧
      c.rhdr = some h ∧ c.phase = SSA_DB_DEFS ∧ c.rindex = svc.conn_dataup.rindex ∧
      c.ssa_db = some (if svc.conn_dataup.rindex ≠ 0 then
          { db with db_table_def := { db.db_table_def with data := data } }
        else { db with db_def := { db.db_def with data := data } }) ∧
      c.sent = svc.conn_dataup.sent := by
  obtain ⟨c, he, h1, h2, h3, h4, h5, h6, h7⟩ :=
    defs_received C svc.conn_dataup db h data addr hp hid hdb hlen hdl hC
  refine ⟨c, ?_, h2, h3, h5, h6, h7⟩
  rw [client_receives C svc h data addr hb hv hC.1]
  unfold ssa_upstream_handle_op
  simp only [hop, if_true]
  rw [he]
  exact handle_op_check_complete C SSA_DB_DEFS { svc with conn_dataup := c } h
    (session_env h data addr) h3 (h4.trans hid) h1

theorem client_ready_of_query (C : ssa_msg_consts) (svc0 svc1 : ssa_svc) (op : Nat)
    (phase : ssa_db_phase) (rindex : Nat) (db : ssa_db_raw)
    (h1 : svc1.conn_dataup.phase = op_phase C op svc0.conn_dataup.phase)
    (h2 : svc1.conn_dataup.rindex = svc0.conn_dataup.rindex)
    (h3 : svc1.conn_dataup.rbuf = svc0.conn_dataup.rbuf)
    (h4 : svc1.conn_dataup.rhdr = svc0.conn_dataup.rhdr)
    (h5 : svc1.conn_dataup.ssa_db = svc0.conn_dataup.ssa_db)
    (h6 : svc1.db_updates = svc0.db_updates)
    (h7 : svc1.conn_dataup.sid < 4294967296)
    (h8 : last_hdr svc1.conn_dataup.sent =
      some (ssa_upstream_send_query C op svc1.conn_dataup.sid))
    (hp : op_phase C op svc0.conn_dataup.phase = phase)
    (hi : svc0.conn_dataup.rindex = rindex) (hb : svc0.conn_dataup.rbuf = .null)
    (hh : svc0.conn_dataup.rhdr = none) (hd : svc0.conn_dataup.ssa_db = some db)
    (hu : svc0.db_updates = []) :
    client_ready C svc1 phase rindex op db :=
  ⟨h1.trans hp, h2.trans hi, h3.trans hb, h4.trans hh, h7, h8, h5.trans hd, h6.trans hu⟩

theorem client_ready_rindex (C : ssa_msg_consts) (svc : ssa_svc) (op : Nat)
    (phase : ssa_db_phase) (i j : Nat) (db : ssa_db_raw)
    (h : client_ready C svc phase i op db) :
    client_ready C { svc with conn_dataup := { svc.conn_dataup with rindex := j } }
      phase j op db := by
  obtain ⟨h1, _, h3, h4, h5, h6, h7, h8⟩ := h
  exact ⟨h1, rfl, h3, h4, h5, h6, h7, h8⟩

/-- The first query of a transfer. -/
theorem update_conn_idle (C : ssa_msg_consts) (svc : ssa_svc) (db : ssa_db_raw)
    (h : ssa_msg_hdr) (data : List uint8_t) (addr : Nat)
    (hp : svc.conn_dataup.phase = SSA_DB_IDLE) (hb : svc.conn_dataup.rbuf = .null)
    (hh : svc.conn_dataup.rhdr = none) (hd : svc.conn_dataup.ssa_db = some db)
    (hu : svc.db_updates = [])
    (hC : C.hdr_size < 2147483648) :
    ∃ svc1,
      ssa_upstream_update_conn C svc POLLIN (session_env h data addr) = some (POLLIN, svc1) ∧
      client_ready C svc1 SSA_DB_DEFS 0 C.SSA_MSG_DB_QUERY_DEF db := by
  obtain ⟨svc1, he, h1, h2, h3, h4, h5, h6, h7, h8⟩ :=
    ssa_upstream_query_complete C svc C.SSA_MSG_DB_QUERY_DEF POLLIN
  refine ⟨{ svc1 with conn_dataup := { svc1.conn_dataup with rindex := 0 } }, ?_, ?_⟩
  · unfold ssa_upstream_update_conn
    simp only [hp, env.rsend_ret, session_env, int_cast_natCast _ hC]
    rw [he]
  · exact client_ready_rindex C svc1 _ _ svc.conn_dataup.rindex 0 db
      (client_ready_of_query C svc svc1 _ _ _ db h1 h2 h3 h4 h5 h6 h7 h8
        (op_phase_consts C _).1 rfl hb hh hd hu)

theorem ssa_upstream_query_ready (C : ssa_msg_consts) (svc : ssa_svc) (op events : Nat)
    (r : Nat × ssa_svc) (phase : ssa_db_phase) (rindex : Nat) (db : ssa_db_raw)
    (h : ssa_upstream_query C svc op events true (C.hdr_size : Int) = r)
    (hp : op_phase C op svc.conn_dataup.phase = phase)
    (hi : svc.conn_dataup.rindex = rindex) (hb : svc.conn_dataup.rbuf = .null)
    (hh : svc.conn_dataup.rhdr = none) (hd : svc.conn_dataup.ssa_db = some db)
    (hu : svc.db_updates = []) :
    r.1 = POLLIN ∧ client_ready C r.2 phase rindex op db := by
  obtain ⟨svc1, he, h1, h2, h3, h4, h5, h6, h7, h8⟩ :=
    ssa_upstream_query_complete C svc op events
  rw [he] at h
  subst h
  exact ⟨rfl, client_ready_of_query C svc svc1 _ _ _ db h1 h2 h3 h4 h5 h6 h7 h8
    hp hi hb hh hd hu⟩

/-- After the top-level descriptor the client asks for the table
descriptor. -/
theorem update_conn_defs_first (C : ssa_msg_consts) (svc : ssa_svc) (db : ssa_db_raw)
    (h : ssa_msg_hdr) (data : List uint8_t) (addr : Nat)
    (hp : svc.conn_dataup.phase = SSA_DB_DEFS) (hi : svc.conn_dataup.rindex = 0)
    (hd : svc.conn_dataup.ssa_db = some db) (hu : svc.db_updates = [])
    (r : Option (Nat × ssa_svc))
    (hr : ssa_upstream_update_conn C svc POLLIN (session_env h data addr) = r)
    (hC : C.hdr_size < 2147483648) :
    ∃ svc1, r = some (POLLIN, svc1) ∧
      client_ready C svc1 SSA_DB_DEFS 1 C.SSA_MSG_DB_QUERY_TBL_DEF db := by
  unfold ssa_upstream_update_conn at hr
  simp only [hp, hi, ne_eq, not_true_eq_false, if_false, release_rbuf, if_true,
    env.rsend_ret, session_env, int_cast_natCast _ hC] at hr
  generalize hq : ssa_upstream_query C _ _ _ _ _ = q at hr
  obtain ⟨e1, e2⟩ := ssa_upstream_query_ready C _ _ _ q SSA_DB_DEFS 0 db hq
    (op_phase_consts C _).2.1 rfl rfl rfl hd hu
  subst hr
  rw [e1, if_pos e2.1]
  refine ⟨_, rfl, ?_⟩
  have e3 := e2.2.1
  rw [e3]
  exact client_ready_rindex C q.2 _ _ 0 (0 + 1) db e2

/-- After the table descriptor the client asks for the table-definition
dataset. -/
theorem update_conn_defs_second (C : ssa_msg_consts) (svc : ssa_svc) (db : ssa_db_raw)
    (h : ssa_msg_hdr) (data : List uint8_t) (addr : Nat)
    (hp : svc.conn_dataup.phase = SSA_DB_DEFS) (hi : svc.conn_dataup.rindex = 1)
    (hd : svc.conn_dataup.ssa_db = some db) (hu : svc.db_updates = [])
    (r : Option (Nat × ssa_svc))
    (hr : ssa_upstream_update_conn C svc POLLIN (session_env h data addr) = r)
    (hC : C.hdr_size < 2147483648) :
    ∃ svc1, r = some (POLLIN, svc1) ∧
      client_ready C svc1 SSA_DB_TBL_DEFS 0 C.SSA_MSG_DB_QUERY_TBL_DEF_DATASET db := by
  unfold ssa_upstream_update_conn at hr
  simp only [hp, hi, ne_eq, one_ne_zero, not_false_eq_true, if_false, release_rbuf, if_true,
    env.rsend_ret, session_env, int_cast_natCast _ hC] at hr
  generalize hq : ssa_upstream_query C _ _ _ _ _ = q at hr
  obtain ⟨e1, e2⟩ := ssa_upstream_query_ready C _ _ _ q SSA_DB_TBL_DEFS 1 db hq
    (op_phase_consts C _).2.2.1 rfl rfl rfl hd hu
  have hne : ¬ q.2.conn_dataup.phase = SSA_DB_DEFS := by rw [e2.1]; decide
  subst hr
  rw [e1, if_neg hne]
  exact ⟨_, rfl, client_ready_rindex C q.2 _ _ 1 0 db e2⟩

/-- After the table-definition dataset the client keeps it and asks for the
field descriptors. -/
theorem update_conn_tbl_defs (C : ssa_msg_consts) (svc : ssa_svc) (db : ssa_db_raw)
    (h : ssa_msg_hdr) (data : List uint8_t) (addr : Nat)
    (hp : svc.conn_dataup.phase = SSA_DB_TBL_DEFS)
    (hd : svc.conn_dataup.ssa_db = some db) (hu : svc.db_updates = [])
    (r : Option (Nat × ssa_svc))
    (hr : ssa_upstream_update_conn C svc POLLIN (session_env h data addr) = r)
    (hC : C.hdr_size < 2147483648) :
    ∃ svc1, r = some (POLLIN, svc1) ∧
      client_ready C svc1 SSA_DB_FIELD_DEFS svc.conn_dataup.rindex
        C.SSA_MSG_DB_QUERY_FIELD_DEF_DATASET
        { db with p_def_tbl := svc.conn_dataup.rbuf } := by
  unfold ssa_upstream_update_conn at hr
  simp only [hp, hd, env.rsend_ret, session_env, int_cast_natCast _ hC] at hr
  generalize hq : ssa_upstream_query C _ _ _ _ _ = q at hr
  obtain ⟨e1, e2⟩ := ssa_upstream_query_ready C _ _ _ q SSA_DB_FIELD_DEFS
    svc.conn_dataup.rindex { db with p_def_tbl := svc.conn_dataup.rbuf } hq
    (op_phase_consts C _).2.2.2.1 rfl rfl rfl rfl hu
  subst hr
  exact ⟨q.2, by rw [← e1], e2⟩

theorem is_end_frame_false (C : ssa_msg_consts) (conn : ssa_conn) (h : ssa_msg_hdr)
    (hh : conn.rhdr = some h) (hf : ntohs h.flags &&& C.SSA_MSG_FLAG_END = 0) :
    is_end_frame C conn = some false := by
  unfold is_end_frame
  simp [hh, hf]

theorem is_end_frame_true (C : ssa_msg_consts) (conn : ssa_conn) (h : ssa_msg_hdr)
    (hh : conn.rhdr = some h) (hb : conn.rbuf = .hdr)
    (hf : ntohs h.flags &&& C.SSA_MSG_FLAG_END ≠ 0) :
    is_end_frame C conn = some true := by
  unfold is_end_frame
  simp [hh, hf, hb]

/-- The client keeps the array of field descriptors and asks for the first
field dataset. -/
theorem update_conn_field_array (C : ssa_msg_consts) (svc : ssa_svc) (db : ssa_db_raw)
    (h0 h : ssa_msg_hdr) (data : List uint8_t) (addr : Nat)
    (hp : svc.conn_dataup.phase = SSA_DB_FIELD_DEFS) (hh : svc.conn_dataup.rhdr = some h0)
    (hf : ntohs h0.flags &&& C.SSA_MSG_FLAG_END = 0)
    (hd : svc.conn_dataup.ssa_db = some db) (hn : db.p_db_field_tables = .null)
    (hu : svc.db_updates = [])
    (r : Option (Nat × ssa_svc))
    (hr : ssa_upstream_update_conn C svc POLLIN (session_env h data addr) = r)
    (hC : C.hdr_size < 2147483648) :
    ∃ svc1, r = some (POLLIN, svc1) ∧
      client_ready C svc1 SSA_DB_FIELD_DEFS 0 C.SSA_MSG_DB_QUERY_FIELD_DEF_DATASET
        { db with
          p_db_field_tables := svc.conn_dataup.rbuf
          pp_field_tables := some (fun _ => .null) } := by
  unfold ssa_upstream_update_conn at hr
  simp only [hp, hd, hn, is_end_frame_false C _ h0 hh hf, env.rsend_ret, session_env, int_cast_natCast _ hC, if_true,
    release_rbuf] at hr
  generalize hq : ssa_upstream_query C _ _ _ _ _ = q at hr
  obtain ⟨e1, e2⟩ := ssa_upstream_query_ready C _ _ _ q SSA_DB_FIELD_DEFS 0
    { db with
      p_db_field_tables := svc.conn_dataup.rbuf
      pp_field_tables := some (fun _ => .null) } hq
    (op_phase_consts C _).2.2.2.1 rfl rfl rfl rfl hu
  subst hr
  exact ⟨q.2, by rw [← e1], e2⟩

/-- The client keeps a field dataset and asks for the next. -/
theorem update_conn_field_table (C : ssa_msg_consts) (svc : ssa_svc) (db : ssa_db_raw)
    (tables : Nat → void_ptr)
    (h0 h : ssa_msg_hdr) (data : List uint8_t) (addr : Nat)
    (hp : svc.conn_dataup.phase = SSA_DB_FIELD_DEFS) (hh : svc.conn_dataup.rhdr = some h0)
    (hf : ntohs h0.flags &&& C.SSA_MSG_FLAG_END = 0)
    (hd : svc.conn_dataup.ssa_db = some db) (hn : db.p_db_field_tables ≠ .null)
    (ht : db.pp_field_tables = some tables)
    (hu : svc.db_updates = [])
    (r : Option (Nat × ssa_svc))
    (hr : ssa_upstream_update_conn C svc POLLIN (session_env h data addr) = r)
    (hC : C.hdr_size < 2147483648) :
    ∃ svc1, r = some (POLLIN, svc1) ∧
      client_ready C svc1 SSA_DB_FIELD_DEFS (svc.conn_dataup.rindex + 1)
        C.SSA_MSG_DB_QUERY_FIELD_DEF_DATASET
        { db with
          pp_field_tables :=
            some (Function.update tables svc.conn_dataup.rindex svc.conn_dataup.rbuf) } := by
  unfold ssa_upstream_update_conn at hr
  simp only [hp, hd, hn, ht, is_end_frame_false C _ h0 hh hf, env.rsend_ret, session_env, int_cast_natCast _ hC, if_false,
    release_rbuf] at hr
  generalize hq : ssa_upstream_query C _ _ _ _ _ = q at hr
  obtain ⟨e1, e2⟩ := ssa_upstream_query_ready C _ _ _ q SSA_DB_FIELD_DEFS
    (svc.conn_dataup.rindex + 1)
    { db with
      pp_field_tables :=
        some (Function.update tables svc.conn_dataup.rindex svc.conn_dataup.rbuf) } hq
    (op_phase_consts C _).2.2.2.1 rfl rfl rfl rfl hu
  subst hr
  exact ⟨q.2, by rw [← e1], e2⟩

/-- The client ends the field phase on a header-only END message and asks for
the data. -/
theorem update_conn_field_end (C : ssa_msg_consts) (svc : ssa_svc) (db : ssa_db_raw)
    (h0 h : ssa_msg_hdr) (data : List uint8_t) (addr : Nat)
    (hp : svc.conn_dataup.phase = SSA_DB_FIELD_DEFS) (hh : svc.conn_dataup.rhdr = some h0)
    (hb : svc.conn_dataup.rbuf = .hdr)
    (hf : ntohs h0.flags &&& C.SSA_MSG_FLAG_END ≠ 0)
    (hd : svc.conn_dataup.ssa_db = some db) (hu : svc.db_updates = [])
    (r : Option (Nat × ssa_svc))
    (hr : ssa_upstream_update_conn C svc POLLIN (session_env h data addr) = r)
    (hC : C.hdr_size < 2147483648) :
    ∃ svc1, r = some (POLLIN, svc1) ∧
      client_ready C svc1 SSA_DB_DATA svc.conn_dataup.rindex
        C.SSA_MSG_DB_QUERY_DATA_DATASET db := by
  unfold ssa_upstream_update_conn at hr
  simp only [hp, is_end_frame_true C _ h0 hh hb hf, env.rsend_ret, session_env, int_cast_natCast _ hC, release_rbuf] at hr
  generalize hq : ssa_upstream_query C _ _ _ _ _ = q at hr
  obtain ⟨e1, e2⟩ := ssa_upstream_query_ready C _ _ _ q SSA_DB_DATA
    svc.conn_dataup.rindex db hq
    (op_phase_consts C _).2.2.2.2 rfl rfl rfl hd hu
  subst hr
  exact ⟨q.2, by rw [← e1], e2⟩

/-- The client keeps the array of data descriptors and asks for the first
data dataset. -/
theorem update_conn_data_array (C : ssa_msg_consts) (svc : ssa_svc) (db : ssa_db_raw)
    (h0 h : ssa_msg_hdr) (data : List uint8_t) (addr : Nat)
    (hp : svc.conn_dataup.phase = SSA_DB_DATA) (hh : svc.conn_dataup.rhdr = some h0)
    (hf : ntohs h0.flags &&& C.SSA_MSG_FLAG_END = 0)
    (hd : svc.conn_dataup.ssa_db = some db) (hn : db.p_db_tables = .null)
    (hu : svc.db_updates = [])
    (r : Option (Nat × ssa_svc))
    (hr : ssa_upstream_update_conn C svc POLLIN (session_env h data addr) = r)
    (hC : C.hdr_size < 2147483648) :
    ∃ svc1, r = some (POLLIN, svc1) ∧
      client_ready C svc1 SSA_DB_DATA 0 C.SSA_MSG_DB_QUERY_DATA_DATASET
        { db with
          p_db_tables := svc.conn_dataup.rbuf
          pp_tables := some (fun _ => .null) } := by
  unfold ssa_upstream_update_conn at hr
  simp only [hp, hd, hn, is_end_frame_false C _ h0 hh hf, env.rsend_ret, session_env, int_cast_natCast _ hC, if_true,
    release_rbuf] at hr
  generalize hq : ssa_upstream_query C _ _ _ _ _ = q at hr
  obtain ⟨e1, e2⟩ := ssa_upstream_query_ready C _ _ _ q SSA_DB_DATA 0
    { db with
      p_db_tables := svc.conn_dataup.rbuf
      pp_tables := some (fun _ => .null) } hq
    (op_phase_consts C _).2.2.2.2 rfl rfl rfl rfl hu
  subst hr
  exact ⟨q.2, by rw [← e1], e2⟩

/-- The client keeps a data dataset and asks for the next. -/
theorem update_conn_data_table (C : ssa_msg_consts) (svc : ssa_svc) (db : ssa_db_raw)
    (tables : Nat → void_ptr)
    (h0 h : ssa_msg_hdr) (data : List uint8_t) (addr : Nat)
    (hp : svc.conn_dataup.phase = SSA_DB_DATA) (hh : svc.conn_dataup.rhdr = some h0)
    (hf : ntohs h0.flags &&& C.SSA_MSG_FLAG_END = 0)
    (hd : svc.conn_dataup.ssa_db = some db) (hn : db.p_db_tables ≠ .null)
    (ht : db.pp_tables = some tables)
    (hu : svc.db_updates = [])
    (r : Option (Nat × ssa_svc))
    (hr : ssa_upstream_update_conn C svc POLLIN (session_env h data addr) = r)
    (hC : C.hdr_size < 2147483648) :
    ∃ svc1, r = some (POLLIN, svc1) ∧
      client_ready C svc1 SSA_DB_DATA (svc.conn_dataup.rindex + 1)
        C.SSA_MSG_DB_QUERY_DATA_DATASET
        { db with
          pp_tables :=
            some (Function.update tables svc.conn_dataup.rindex svc.conn_dataup.rbuf) } := by
  unfold ssa_upstream_update_conn at hr
  simp only [hp, hd, hn, ht, is_end_frame_false C _ h0 hh hf, env.rsend_ret, session_env, int_cast_natCast _ hC, if_false,
    release_rbuf] at hr
  generalize hq : ssa_upstream_query C _ _ _ _ _ = q at hr
  obtain ⟨e1, e2⟩ := ssa_upstream_query_ready C _ _ _ q SSA_DB_DATA
    (svc.conn_dataup.rindex + 1)
    { db with
      pp_tables :=
        some (Function.update tables svc.conn_dataup.rindex svc.conn_dataup.rbuf) } hq
    (op_phase_consts C _).2.2.2.2 rfl rfl rfl rfl hu
  subst hr
  exact ⟨q.2, by rw [← e1], e2⟩

/-- The client ends the transfer on a header-only END message: it returns to
IDLE and publishes its database. -/
theorem update_conn_data_end (C : ssa_msg_consts) (svc : ssa_svc) (db : ssa_db_raw)
    (h0 h : ssa_msg_hdr) (data : List uint8_t) (addr : Nat)
    (hp : svc.conn_dataup.phase = SSA_DB_DATA) (hh : svc.conn_dataup.rhdr = some h0)
    (hb : svc.conn_dataup.rbuf = .hdr)
    (hf : ntohs h0.flags &&& C.SSA_MSG_FLAG_END ≠ 0)
    (hd : svc.conn_dataup.ssa_db = some db) (hu : svc.db_updates = [])
    (r : Option (Nat × ssa_svc))
    (hr : ssa_upstream_update_conn C svc POLLIN (session_env h data addr) = r) :
    ∃ svc1, r = some (POLLIN, svc1) ∧
      svc1.conn_dataup.phase = SSA_DB_IDLE ∧
      svc1.db_updates = [{ db with data_tbl_cnt := C.ssa_db_calculate_data_tbl_num db }] ∧
      svc1.conn_dataup.rbuf = .null := by
  unfold ssa_upstream_update_conn at hr
  simp only [hp, hd, hu, is_end_frame_true C _ h0 hh hb hf, release_rbuf,
    List.nil_append] at hr
  subst hr
  exact ⟨_, rfl, rfl, rfl, rfl⟩

theorem frames_of_handled (C : ssa_msg_consts) (sconn c1 : ssa_conn) (p1 : ssa_db_phase)
    (i1 : Nat) (h : ssa_msg_hdr) (bytes : List uint8_t)
    (hh : handled C (with_hdr C sconn) c1 p1 i1 h bytes) :
    frames c1.sent = frames sconn.sent ++ [(h, bytes)] := by
  obtain ⟨_, _, _, _, _, _, _, rest, hs, hf, _⟩ := hh
  have : (with_hdr C sconn).sent = sconn.sent := rfl
  rw [hs, this, frames_append_own, hf]

theorem dataset_bytes_length (p : void_ptr) (size : Nat)
    (h : (dataset_read p size).isSome) : (dataset_bytes p size).length = size := by
  unfold dataset_bytes
  cases p with
  | blk b =>
    simp only [dataset_read] at h ⊢
    by_cases hs : size ≤ b.data.length
    · simp only [hs, if_true, Option.getD_some, List.length_take]
      omega
    · simp [hs] at h
  | null =>
    simp only [dataset_read] at h ⊢
    by_cases hs : size = 0
    · simp [hs]
    · simp [hs] at h
  | hdr =>
    simp only [dataset_read] at h ⊢
    by_cases hs : size = 0
    · simp [hs]
    · simp [hs] at h
  | db_def =>
    simp only [dataset_read] at h ⊢
    by_cases hs : size = 0
    · simp [hs]
    · simp [hs] at h
  | db_table_def =>
    simp only [dataset_read] at h ⊢
    by_cases hs : size = 0
    · simp [hs]
    · simp [hs] at h

theorem transfer_round_of_steps (C : ssa_msg_consts) (G : ssa_globals) (k : Nat)
    (st : ssa_svc × ssa_conn) (hq h : ssa_msg_hdr) (c1 : ssa_conn) (bytes : List uint8_t)
    (svc1 : ssa_svc) (ev : Nat)
    (hl : last_hdr st.1.conn_dataup.sent = some hq)
    (hs : ssa_downstream_handle_rsock_revents C G st.2 POLLIN (session_env hq [] 0) =
      some (POLLIN, c1))
    (hf : frames (c1.sent.drop st.2.sent.length) = [(h, bytes)])
    (hc : ssa_upstream_handler_data C st.1 POLLIN POLLIN
      (session_env h bytes (4096 * (k + 1))) = some (ev, svc1))
    (hso : c1.soffset = c1.ssize) (hrb : svc1.conn_dataup.rbuf = .null) :
    transfer_round C G k st = some (svc1, c1) := by
  have hx : exchange C G k st = some ((ev, svc1), (POLLIN, c1)) := by
    unfold exchange
    rw [hl]
    simp only
    rw [hs]
    simp only
    rw [hf]
    simp only
    rw [hc]
  unfold transfer_round
  rw [hx]
  exact if_pos ⟨rfl, hso, hrb⟩

/-- One round of a transfer, up to the step of the client: the server answers
the query in flight with the message that its handler sends. -/
theorem round_server (C : ssa_msg_consts) (D : ssa_db_raw) (k : Nat)
    (st : ssa_svc × ssa_conn) (pc : ssa_db_phase) (ri op : Nat) (db : ssa_db_raw)
    (ps ps1 : ssa_db_phase) (si si1 len flags : Nat) (bytes : List uint8_t)
    (hc : client_ready C st.1 pc ri op db) (hs : server_ready C st.2 ps si)
    (hqo : query_op C op) (hfit : fits C len) (hflags : flags < 65536)
    (hsrv : ∀ hq : ssa_msg_hdr, ntohs hq.op = op →
      ∃ c1, ssa_downstream_handle_op C (serving D) (with_hdr C st.2) hq POLLIN
          (session_env hq [] 0) = some (POLLIN, c1) ∧
        handled C (with_hdr C st.2) c1 ps1 si1
          (ssa_init_ssa_msg_hdr C op (C.hdr_size + len) flags (ntohl hq.id)) bytes) :
    ∃ c1 h,
      server_ready C c1 ps1 si1 ∧
      frames c1.sent = frames st.2.sent ++ [(h, bytes)] ∧
      frame_view (h, bytes) = (op, flags, C.hdr_size + len, bytes) ∧
      ntohs h.op = op ∧ ntohl h.len = C.hdr_size + len ∧ ntohs h.flags = flags ∧
      st.1.conn_dataup.sid = ntohl h.id ∧ validate_ssa_msg_hdr C h = 1 ∧
      ∀ svc1 ev,
        ssa_upstream_handler_data C st.1 POLLIN POLLIN
          (session_env h bytes (4096 * (k + 1))) = some (ev, svc1) →
        svc1.conn_dataup.rbuf = .null →
        transfer_round C (serving D) k st = some (svc1, c1) := by
  obtain ⟨_, _, _, _, hsid, hlast, _, _⟩ := hc
  have hsz := C.sizes_pos.1
  have hfl := fits_len C len hfit
  obtain ⟨q1, _, _, q4, q5⟩ := init_hdr_facts C op C.hdr_size C.SSA_MSG_FLAG_END
    st.1.conn_dataup.sid hqo (by omega) C.flags_lt.1 hsid
  obtain ⟨c1, he, hh⟩ := hsrv (ssa_upstream_send_query C op st.1.conn_dataup.sid) q1
  have hid : ntohl (ssa_upstream_send_query C op st.1.conn_dataup.sid).id =
      st.1.conn_dataup.sid := q4
  rw [hid] at hh
  obtain ⟨r1, r2, r3, r4, r5⟩ := init_hdr_facts C op (C.hdr_size + len) flags
    st.1.conn_dataup.sid hqo hfl hflags hsid
  obtain ⟨s1, s2, s3, s4⟩ := server_round_of_handled C (serving D) st.2 c1 _ ps _ si _ _ _
    hs q5 he hh hfit.2
  refine ⟨c1, _, s2, frames_of_handled C st.2 c1 _ _ _ _ hh, ?_, r1, r2, r3, r4.symm, r5, ?_⟩
  · unfold frame_view
    simp only [r1, r2, r3]
  · intro svc1 ev hcl hrb
    exact transfer_round_of_steps C (serving D) k st _ _ c1 bytes svc1 ev hlast s1 s3 hcl s4 hrb

theorem ready_with_hdr (C : ssa_msg_consts) (sconn : ssa_conn) (ps : ssa_db_phase) (si : Nat)
    (hs : server_ready C sconn ps si) :
    (with_hdr C sconn).phase = ps ∧ (with_hdr C sconn).sindex = si ∧
    (with_hdr C sconn).ssa_db = none ∧ (with_hdr C sconn).dbtype = SSA_CONN_SMDB_TYPE :=
  ⟨hs.1, hs.2.1, hs.2.2.2.1, hs.2.2.2.2⟩

theorem frames_view_append (sent sent1 : List rsend_call) (f : ssa_msg_hdr × List uint8_t)
    (fr : List (Nat × Nat × Nat × List uint8_t)) (v : Nat × Nat × Nat × List uint8_t)
    (h1 : frames sent1 = frames sent ++ [f]) (h2 : (frames sent).map frame_view = fr)
    (h3 : frame_view f = v) :
    (frames sent1).map frame_view = fr ++ [v] := by
  rw [h1, List.map_append, h2, List.map_singleton, h3]

/-- Round 0: the top-level descriptor. -/
theorem round_def (C : ssa_msg_consts) (D : ssa_db_raw) (k : Nat) (st : ssa_svc × ssa_conn)
    (db : ssa_db_raw) (si : Nat) (fr : List (Nat × Nat × Nat × List uint8_t))
    (hwf : db_wf C D)
    (hst : session_at C st SSA_DB_DEFS 0 C.SSA_MSG_DB_QUERY_DEF db SSA_DB_IDLE si fr)
    (hl : db.db_def.data.length = C.db_def_size) :
    ∃ st1, transfer_round C (serving D) k st = some st1 ∧
      session_at C st1 SSA_DB_DEFS 1 C.SSA_MSG_DB_QUERY_TBL_DEF
        { db with db_def := { db.db_def with data := D.db_def.data } } SSA_DB_DEFS si
        (fr ++ [(C.SSA_MSG_DB_QUERY_DEF, C.SSA_MSG_FLAG_RESP, C.hdr_size + C.db_def_size,
          D.db_def.data)]) := by
  obtain ⟨hI, hB1, hB2, hB3⟩ := db_wf_sizes C D hwf
  obtain ⟨hc, hs, hfr⟩ := hst
  obtain ⟨w1, w2, w3, w4⟩ := ready_with_hdr C st.2 _ _ hs
  obtain ⟨c1, h, s1, s2, s3, a1, a2, a3, a4, a5, hround⟩ :=
    round_server C D k st _ _ _ db _ SSA_DB_DEFS si si C.db_def_size C.SSA_MSG_FLAG_RESP
      D.db_def.data hc hs (Or.inl rfl) hwf.2.2.2.2.2.2.2.1 C.flags_lt.2
      (fun hq hop => by
        rw [ssa_downstream_handle_op_def C _ _ hq _ _ hop]
        have := handle_query_defs_complete C D (with_hdr C st.2) hq hwf w1 w3 w4
        rw [w2] at this
        exact this)
  obtain ⟨p1, p2, p3, p4, p5, p6, p7, p8⟩ := hc
  have hri : ¬ st.1.conn_dataup.rindex ≠ 0 := by
    intro hne
    exact hne p2
  obtain ⟨c, e1, e2, e3, e4, e5, e6⟩ := client_defs_step C st.1 db h D.db_def.data
    (4096 * (k + 1)) (Or.inl a1) a5 p3 p1 a4 p7
    (by rw [if_neg hri]; exact a2)
    (by rw [if_neg hri, hl, hwf.1]) hI
  rw [if_neg hri] at e5
  obtain ⟨svc1, e7, e8⟩ := update_conn_defs_first C { st.1 with conn_dataup := c } _ h
    D.db_def.data (4096 * (k + 1)) e3 (e4.trans p2) e5 p8 _ rfl hI.1
  refine ⟨(svc1, c1), hround svc1 POLLIN (e1.trans e7) e8.2.2.1, e8, s1, ?_⟩
  exact frames_view_append _ _ _ _ _ s2 hfr s3

theorem or_and_left_self (a b : Nat) : (a ||| b) &&& a = a := by
  apply Nat.eq_of_testBit_eq
  intro i
  simp only [Nat.testBit_and, Nat.testBit_or]
  cases Nat.testBit a i <;> cases Nat.testBit b i <;> rfl

theorem end_resp_facts (C : ssa_msg_consts) (hE : C.SSA_MSG_FLAG_END ≠ 0) :
    C.SSA_MSG_FLAG_END ||| C.SSA_MSG_FLAG_RESP < 65536 ∧
    (C.SSA_MSG_FLAG_END ||| C.SSA_MSG_FLAG_RESP) &&& C.SSA_MSG_FLAG_END ≠ 0 := by
  refine ⟨?_, ?_⟩
  · exact Nat.or_lt_two_pow (n := 16) C.flags_lt.1 C.flags_lt.2
  · rw [or_and_left_self]
    exact hE

/-- Round 1: the table descriptor. -/
theorem round_tbl_def (C : ssa_msg_consts) (D : ssa_db_raw) (k : Nat)
    (st : ssa_svc × ssa_conn)
    (db : ssa_db_raw) (si : Nat) (fr : List (Nat × Nat × Nat × List uint8_t))
    (hwf : db_wf C D)
    (hst : session_at C st SSA_DB_DEFS 1 C.SSA_MSG_DB_QUERY_TBL_DEF db SSA_DB_DEFS si fr)
    (hl : db.db_table_def.data.length = C.db_dataset_size) :
    ∃ st1, transfer_round C (serving D) k st = some st1 ∧
      session_at C st1 SSA_DB_TBL_DEFS 0 C.SSA_MSG_DB_QUERY_TBL_DEF_DATASET
        { db with db_table_def := { db.db_table_def with data := D.db_table_def.data } }
        SSA_DB_DEFS si
        (fr ++ [(C.SSA_MSG_DB_QUERY_TBL_DEF, C.SSA_MSG_FLAG_RESP,
          C.hdr_size + C.db_dataset_size, D.db_table_def.data)]) := by
  obtain ⟨hI, hB1, hB2, hB3⟩ := db_wf_sizes C D hwf
  obtain ⟨hc, hs, hfr⟩ := hst
  obtain ⟨w1, w2, w3, w4⟩ := ready_with_hdr C st.2 _ _ hs
  obtain ⟨c1, h, s1, s2, s3, a1, a2, a3, a4, a5, hround⟩ :=
    round_server C D k st _ _ _ db _ SSA_DB_DEFS si si C.db_dataset_size C.SSA_MSG_FLAG_RESP
      D.db_table_def.data hc hs (Or.inr (Or.inl rfl)) hwf.2.2.2.2.2.2.2.2.1 C.flags_lt.2
      (fun hq hop => by
        rw [ssa_downstream_handle_op_tbl_def C _ _ hq _ _ hop]
        have := handle_query_tbl_def_complete C D (with_hdr C st.2) hq hwf w1 w3 w4
        rw [w2] at this
        exact this)
  obtain ⟨p1, p2, p3, p4, p5, p6, p7, p8⟩ := hc
  have hri : st.1.conn_dataup.rindex ≠ 0 := by rw [p2]; decide
  obtain ⟨c, e1, e2, e3, e4, e5, e6⟩ := client_defs_step C st.1 db h D.db_table_def.data
    (4096 * (k + 1)) (Or.inr a1) a5 p3 p1 a4 p7
    (by rw [if_pos hri]; exact a2)
    (by rw [if_pos hri, hl, hwf.2.1]) hI
  rw [if_pos hri] at e5
  obtain ⟨svc1, e7, e8⟩ := update_conn_defs_second C { st.1 with conn_dataup := c } _ h
    D.db_table_def.data (4096 * (k + 1)) e3 (e4.trans p2) e5 p8 _ rfl hI.1
  refine ⟨(svc1, c1), hround svc1 POLLIN (e1.trans e7) e8.2.2.1, e8, s1, ?_⟩
  exact frames_view_append _ _ _ _ _ s2 hfr s3

/-- Round 2: the table-definition dataset. -/
theorem round_tbl_defs (C : ssa_msg_consts) (D : ssa_db_raw) (k : Nat)
    (st : ssa_svc × ssa_conn)
    (db : ssa_db_raw) (ri si : Nat) (fr : List (Nat × Nat × Nat × List uint8_t))
    (hwf : db_wf C D)
    (hst : session_at C st SSA_DB_TBL_DEFS ri C.SSA_MSG_DB_QUERY_TBL_DEF_DATASET db
      SSA_DB_DEFS si fr) :
    ∃ st1, transfer_round C (serving D) k st = some st1 ∧
      session_at C st1 SSA_DB_FIELD_DEFS ri C.SSA_MSG_DB_QUERY_FIELD_DEF_DATASET
        { db with
          p_def_tbl := recv_ptr (4096 * (k + 1))
            (dataset_bytes D.p_def_tbl (def_tbl_size C D)) (def_tbl_size C D) }
        SSA_DB_TBL_DEFS si
        (fr ++ [(C.SSA_MSG_DB_QUERY_TBL_DEF_DATASET, C.SSA_MSG_FLAG_RESP,
          C.hdr_size + def_tbl_size C D,
          dataset_bytes D.p_def_tbl (def_tbl_size C D))]) := by
  obtain ⟨hI, hB1, hB2, hB3⟩ := db_wf_sizes C D hwf
  obtain ⟨hc, hs, hfr⟩ := hst
  obtain ⟨w1, w2, w3, w4⟩ := ready_with_hdr C st.2 _ _ hs
  obtain ⟨c1, h, s1, s2, s3, a1, a2, a3, a4, a5, hround⟩ :=
    round_server C D k st _ _ _ db _ SSA_DB_TBL_DEFS si si (def_tbl_size C D)
      C.SSA_MSG_FLAG_RESP (dataset_bytes D.p_def_tbl (def_tbl_size C D)) hc hs
      (Or.inr (Or.inr (Or.inl rfl))) hwf.2.2.2.2.2.2.2.2.2.1 C.flags_lt.2
      (fun hq hop => by
        rw [ssa_downstream_handle_op_tbl_defs C _ _ hq _ _ hop]
        have := handle_query_tbl_defs_complete C D (with_hdr C st.2) hq hwf w1 w3 w4
        rw [w2] at this
        exact this)
  obtain ⟨p1, p2, p3, p4, p5, p6, p7, p8⟩ := hc
  obtain ⟨c, e1, e2, e3, e4, e5, e6, _⟩ := client_payload_step C st.1 SSA_DB_TBL_DEFS _ h
    (dataset_bytes D.p_def_tbl (def_tbl_size C D)) (4096 * (k + 1)) (def_tbl_size C D)
    (Or.inl ⟨rfl, rfl⟩) a1 a5 p3 p1 a4 a2 (dataset_bytes_length _ _ hwf.2.2.1) hI.1 hB1
  obtain ⟨svc1, e7, e8⟩ := update_conn_tbl_defs C { st.1 with conn_dataup := c } db h
    (dataset_bytes D.p_def_tbl (def_tbl_size C D)) (4096 * (k + 1)) e4 (e6.trans p7) p8 _ rfl hI.1
  have e9 : ({ st.1 with conn_dataup := c } : ssa_svc).conn_dataup.rbuf =
      recv_ptr (4096 * (k + 1)) (dataset_bytes D.p_def_tbl (def_tbl_size C D))
        (def_tbl_size C D) := e2
  have e10 : ({ st.1 with conn_dataup := c } : ssa_svc).conn_dataup.rindex = ri :=
    e5.trans p2
  rw [e9, e10] at e8
  refine ⟨(svc1, c1), hround svc1 POLLIN (e1.trans e7) e8.2.2.1, e8, s1, ?_⟩
  exact frames_view_append _ _ _ _ _ s2 hfr s3

/-- The round of the array of field descriptors. -/
theorem round_field_array (C : ssa_msg_consts) (D : ssa_db_raw) (k : Nat)
    (st : ssa_svc × ssa_conn)
    (db : ssa_db_raw) (ri si : Nat) (fr : List (Nat × Nat × Nat × List uint8_t))
    (hwf : db_wf C D) (hRE : C.SSA_MSG_FLAG_RESP &&& C.SSA_MSG_FLAG_END = 0)
    (hst : session_at C st SSA_DB_FIELD_DEFS ri C.SSA_MSG_DB_QUERY_FIELD_DEF_DATASET db SSA_DB_TBL_DEFS si fr)
    (hn : db.p_db_field_tables = .null) :
    ∃ st1, transfer_round C (serving D) k st = some st1 ∧
      session_at C st1 SSA_DB_FIELD_DEFS 0 C.SSA_MSG_DB_QUERY_FIELD_DEF_DATASET
        { db with
          p_db_field_tables := recv_ptr (4096 * (k + 1))
            (dataset_bytes D.p_db_field_tables (D.data_tbl_cnt * C.db_dataset_size))
            (D.data_tbl_cnt * C.db_dataset_size)
          pp_field_tables := some (fun _ => .null) }
        SSA_DB_FIELD_DEFS 0
        (fr ++ [(C.SSA_MSG_DB_QUERY_FIELD_DEF_DATASET, C.SSA_MSG_FLAG_RESP,
          C.hdr_size + D.data_tbl_cnt * C.db_dataset_size,
          dataset_bytes D.p_db_field_tables (D.data_tbl_cnt * C.db_dataset_size))]) := by
  obtain ⟨hI, hB1, hB2, hB3⟩ := db_wf_sizes C D hwf
  obtain ⟨hc, hs, hfr⟩ := hst
  obtain ⟨w1, w2, w3, w4⟩ := ready_with_hdr C st.2 _ _ hs
  obtain ⟨c1, h, s1, s2, s3, a1, a2, a3, a4, a5, hround⟩ :=
    round_server C D k st _ _ _ db _ SSA_DB_FIELD_DEFS si 0 (D.data_tbl_cnt * C.db_dataset_size)
      C.SSA_MSG_FLAG_RESP (dataset_bytes D.p_db_field_tables (D.data_tbl_cnt * C.db_dataset_size)) hc hs
      (Or.inr (Or.inr (Or.inr (Or.inl rfl)))) hwf.2.2.2.2.2.2.2.2.2.2.1 C.flags_lt.2
      (fun hq hop => by
        rw [ssa_downstream_handle_op_field C _ _ hq _ _ hop]
        exact handle_query_field_defs_first C D (with_hdr C st.2) hq hwf w1 w3 w4)
  obtain ⟨p1, p2, p3, p4, p5, p6, p7, p8⟩ := hc
  obtain ⟨c, e1, e2, e3, e4, e5, e6, _⟩ := client_payload_step C st.1 SSA_DB_FIELD_DEFS _ h
    (dataset_bytes D.p_db_field_tables (D.data_tbl_cnt * C.db_dataset_size)) (4096 * (k + 1))
    (D.data_tbl_cnt * C.db_dataset_size)
    (Or.inr (Or.inl ⟨rfl, rfl⟩)) a1 a5 p3 p1 a4 a2 (dataset_bytes_length _ _ hwf.2.2.2.1) hI.1 hB2
  have hf : ntohs h.flags &&& C.SSA_MSG_FLAG_END = 0 := by rw [a3]; exact hRE
  obtain ⟨svc1, e7, e8⟩ := update_conn_field_array C { st.1 with conn_dataup := c } db h h
    (dataset_bytes D.p_db_field_tables (D.data_tbl_cnt * C.db_dataset_size)) (4096 * (k + 1)) e4 e3 hf
    (e6.trans p7) hn p8 _ rfl hI.1
  have e9 : ({ st.1 with conn_dataup := c } : ssa_svc).conn_dataup.rbuf =
      recv_ptr (4096 * (k + 1)) (dataset_bytes D.p_db_field_tables (D.data_tbl_cnt * C.db_dataset_size))
        (D.data_tbl_cnt * C.db_dataset_size) := e2
  rw [e9] at e8
  refine ⟨(svc1, c1), hround svc1 POLLIN (e1.trans e7) e8.2.2.1, e8, s1, ?_⟩
  exact frames_view_append _ _ _ _ _ s2 hfr s3

/-- The round of the field dataset of the data table `i`. -/
theorem round_field_table (C : ssa_msg_consts) (D : ssa_db_raw) (k : Nat)
    (st : ssa_svc × ssa_conn)
    (db : ssa_db_raw) (i : Nat) (tables : Nat → void_ptr)
    (fr : List (Nat × Nat × Nat × List uint8_t))
    (hwf : db_wf C D) (hRE : C.SSA_MSG_FLAG_RESP &&& C.SSA_MSG_FLAG_END = 0)
    (hst : session_at C st SSA_DB_FIELD_DEFS i C.SSA_MSG_DB_QUERY_FIELD_DEF_DATASET db SSA_DB_FIELD_DEFS i fr)
    (hi : i < D.data_tbl_cnt)
    (hn : db.p_db_field_tables ≠ .null) (ht : db.pp_field_tables = some tables) :
    ∃ st1, transfer_round C (serving D) k st = some st1 ∧
      session_at C st1 SSA_DB_FIELD_DEFS (i + 1) C.SSA_MSG_DB_QUERY_FIELD_DEF_DATASET
        { db with
          pp_field_tables := some (Function.update tables i
            (recv_ptr (4096 * (k + 1))
              (dataset_bytes (pp_at D.pp_field_tables i) (descr_size C D.p_db_field_tables i))
              (descr_size C D.p_db_field_tables i))) }
        SSA_DB_FIELD_DEFS (i + 1)
        (fr ++ [(C.SSA_MSG_DB_QUERY_FIELD_DEF_DATASET, C.SSA_MSG_FLAG_RESP, C.hdr_size + descr_size C D.p_db_field_tables i,
          dataset_bytes (pp_at D.pp_field_tables i) (descr_size C D.p_db_field_tables i))]) := by
  obtain ⟨hI, hB1, hB2, hB3⟩ := db_wf_sizes C D hwf
  obtain ⟨hc, hs, hfr⟩ := hst
  obtain ⟨w1, w2, w3, w4⟩ := ready_with_hdr C st.2 _ _ hs
  obtain ⟨c1, h, s1, s2, s3, a1, a2, a3, a4, a5, hround⟩ :=
    round_server C D k st _ _ _ db _ SSA_DB_FIELD_DEFS i (i + 1) (descr_size C D.p_db_field_tables i)
      C.SSA_MSG_FLAG_RESP (dataset_bytes (pp_at D.pp_field_tables i) (descr_size C D.p_db_field_tables i)) hc hs
      (Or.inr (Or.inr (Or.inr (Or.inl rfl)))) ((hwf.2.2.2.2.2.2.2.2.2.2.2 i hi).1) C.flags_lt.2
      (fun hq hop => by
        rw [ssa_downstream_handle_op_field C _ _ hq _ _ hop]
        have := handle_query_field_defs_table C D (with_hdr C st.2) hq hwf w1 w3 w4 (by rw [w2]; exact hi)
        rw [w2] at this
        exact this)
  obtain ⟨p1, p2, p3, p4, p5, p6, p7, p8⟩ := hc
  obtain ⟨c, e1, e2, e3, e4, e5, e6, _⟩ := client_payload_step C st.1 SSA_DB_FIELD_DEFS _ h
    (dataset_bytes (pp_at D.pp_field_tables i) (descr_size C D.p_db_field_tables i)) (4096 * (k + 1))
    (descr_size C D.p_db_field_tables i)
    (Or.inr (Or.inl ⟨rfl, rfl⟩)) a1 a5 p3 p1 a4 a2 (dataset_bytes_length _ _ (hwf.2.2.2.2.2.2.1 i hi).1)
    hI.1 (hB3 i hi).1
  have hf : ntohs h.flags &&& C.SSA_MSG_FLAG_END = 0 := by rw [a3]; exact hRE
  obtain ⟨svc1, e7, e8⟩ := update_conn_field_table C { st.1 with conn_dataup := c } db tables h h
    (dataset_bytes (pp_at D.pp_field_tables i) (descr_size C D.p_db_field_tables i)) (4096 * (k + 1)) e4 e3 hf
    (e6.trans p7) hn ht p8 _ rfl hI.1
  have e9 : ({ st.1 with conn_dataup := c } : ssa_svc).conn_dataup.rbuf =
      recv_ptr (4096 * (k + 1)) (dataset_bytes (pp_at D.pp_field_tables i) (descr_size C D.p_db_field_tables i))
        (descr_size C D.p_db_field_tables i) := e2
  have e10 : ({ st.1 with conn_dataup := c } : ssa_svc).conn_dataup.rindex = i :=
    e5.trans p2
  rw [e9, e10] at e8
  refine ⟨(svc1, c1), hround svc1 POLLIN (e1.trans e7) e8.2.2.1, e8, s1, ?_⟩
  exact frames_view_append _ _ _ _ _ s2 hfr s3

/-- The round of the array of data descriptors. -/
theorem round_data_array (C : ssa_msg_consts) (D : ssa_db_raw) (k : Nat)
    (st : ssa_svc × ssa_conn)
    (db : ssa_db_raw) (ri si : Nat) (fr : List (Nat × Nat × Nat × List uint8_t))
    (hwf : db_wf C D) (hRE : C.SSA_MSG_FLAG_RESP &&& C.SSA_MSG_FLAG_END = 0)
    (hst : session_at C st SSA_DB_DATA ri C.SSA_MSG_DB_QUERY_DATA_DATASET db SSA_DB_FIELD_DEFS si fr)
    (hn : db.p_db_tables = .null) :
    ∃ st1, transfer_round C (serving D) k st = some st1 ∧
      session_at C st1 SSA_DB_DATA 0 C.SSA_MSG_DB_QUERY_DATA_DATASET
        { db with
          p_db_tables := recv_ptr (4096 * (k + 1))
            (dataset_bytes D.p_db_tables (D.data_tbl_cnt * C.db_dataset_size))
            (D.data_tbl_cnt * C.db_dataset_size)
          pp_tables := some (fun _ => .null) }
        SSA_DB_DATA 0
        (fr ++ [(C.SSA_MSG_DB_QUERY_DATA_DATASET, C.SSA_MSG_FLAG_RESP,
          C.hdr_size + D.data_tbl_cnt * C.db_dataset_size,
          dataset_bytes D.p_db_tables (D.data_tbl_cnt * C.db_dataset_size))]) := by
  obtain ⟨hI, hB1, hB2, hB3⟩ := db_wf_sizes C D hwf
  obtain ⟨hc, hs, hfr⟩ := hst
  obtain ⟨w1, w2, w3, w4⟩ := ready_with_hdr C st.2 _ _ hs
  obtain ⟨c1, h, s1, s2, s3, a1, a2, a3, a4, a5, hround⟩ :=
    round_server C D k st _ _ _ db _ SSA_DB_DATA si 0 (D.data_tbl_cnt * C.db_dataset_size)
      C.SSA_MSG_FLAG_RESP (dataset_bytes D.p_db_tables (D.data_tbl_cnt * C.db_dataset_size)) hc hs
      (Or.inr (Or.inr (Or.inr (Or.inr rfl)))) hwf.2.2.2.2.2.2.2.2.2.2.1 C.flags_lt.2
      (fun hq hop => by
        rw [ssa_downstream_handle_op_data C _ _ hq _ _ hop]
        exact handle_query_data_first C D (with_hdr C st.2) hq hwf w1 w3 w4)
  obtain ⟨p1, p2, p3, p4, p5, p6, p7, p8⟩ := hc
  obtain ⟨c, e1, e2, e3, e4, e5, e6, _⟩ := client_payload_step C st.1 SSA_DB_DATA _ h
    (dataset_bytes D.p_db_tables (D.data_tbl_cnt * C.db_dataset_size)) (4096 * (k + 1))
    (D.data_tbl_cnt * C.db_dataset_size)
    (Or.inr (Or.inr ⟨rfl, rfl⟩)) a1 a5 p3 p1 a4 a2 (dataset_bytes_length _ _ hwf.2.2.2.2.1) hI.1 hB2
  have hf : ntohs h.flags &&& C.SSA_MSG_FLAG_END = 0 := by rw [a3]; exact hRE
  obtain ⟨svc1, e7, e8⟩ := update_conn_data_array C { st.1 with conn_dataup := c } db h h
    (dataset_bytes D.p_db_tables (D.data_tbl_cnt * C.db_dataset_size)) (4096 * (k + 1)) e4 e3 hf
    (e6.trans p7) hn p8 _ rfl hI.1
  have e9 : ({ st.1 with conn_dataup := c } : ssa_svc).conn_dataup.rbuf =
      recv_ptr (4096 * (k + 1)) (dataset_bytes D.p_db_tables (D.data_tbl_cnt * C.db_dataset_size))
        (D.data_tbl_cnt * C.db_dataset_size) := e2
  rw [e9] at e8
  refine ⟨(svc1, c1), hround svc1 POLLIN (e1.trans e7) e8.2.2.1, e8, s1, ?_⟩
  exact frames_view_append _ _ _ _ _ s2 hfr s3

/-- The round of the data dataset of the data table `i`. -/
theorem round_data_table (C : ssa_msg_consts) (D : ssa_db_raw) (k : Nat)
    (st : ssa_svc × ssa_conn)
    (db : ssa_db_raw) (i : Nat) (tables : Nat → void_ptr)
    (fr : List (Nat × Nat × Nat × List uint8_t))
    (hwf : db_wf C D) (hRE : C.SSA_MSG_FLAG_RESP &&& C.SSA_MSG_FLAG_END = 0)
    (hst : session_at C st SSA_DB_DATA i C.SSA_MSG_DB_QUERY_DATA_DATASET db SSA_DB_DATA i fr)
    (hi : i < D.data_tbl_cnt)
    (hn : db.p_db_tables ≠ .null) (ht : db.pp_tables = some tables) :
    ∃ st1, transfer_round C (serving D) k st = some st1 ∧
      session_at C st1 SSA_DB_DATA (i + 1) C.SSA_MSG_DB_QUERY_DATA_DATASET
        { db with
          pp_tables := some (Function.update tables i
            (recv_ptr (4096 * (k + 1))
              (dataset_bytes (pp_at D.pp_tables i) (descr_size C D.p_db_tables i))
              (descr_size C D.p_db_tables i))) }
        SSA_DB_DATA (i + 1)
        (fr ++ [(C.SSA_MSG_DB_QUERY_DATA_DATASET, C.SSA_MSG_FLAG_RESP, C.hdr_size + descr_size C D.p_db_tables i,
          dataset_bytes (pp_at D.pp_tables i) (descr_size C D.p_db_tables i))]) := by
  obtain ⟨hI, hB1, hB2, hB3⟩ := db_wf_sizes C D hwf
  obtain ⟨hc, hs, hfr⟩ := hst
  obtain ⟨w1, w2, w3, w4⟩ := ready_with_hdr C st.2 _ _ hs
  obtain ⟨c1, h, s1, s2, s3, a1, a2, a3, a4, a5, hround⟩ :=
    round_server C D k st _ _ _ db _ SSA_DB_DATA i (i + 1) (descr_size C D.p_db_tables i)
      C.SSA_MSG_FLAG_RESP (dataset_bytes (pp_at D.pp_tables i) (descr_size C D.p_db_tables i)) hc hs
      (Or.inr (Or.inr (Or.inr (Or.inr rfl)))) ((hwf.2.2.2.2.2.2.2.2.2.2.2 i hi).2) C.flags_lt.2
      (fun hq hop => by
        rw [ssa_downstream_handle_op_data C _ _ hq _ _ hop]
        have := handle_query_data_table C D (with_hdr C st.2) hq hwf w1 w3 w4 (by rw [w2]; exact hi)
        rw [w2] at this
        exact this)
  obtain ⟨p1, p2, p3, p4, p5, p6, p7, p8⟩ := hc
  obtain ⟨c, e1, e2, e3, e4, e5, e6, _⟩ := client_payload_step C st.1 SSA_DB_DATA _ h
    (dataset_bytes (pp_at D.pp_tables i) (descr_size C D.p_db_tables i)) (4096 * (k + 1))
    (descr_size C D.p_db_tables i)
    (Or.inr (Or.inr ⟨rfl, rfl⟩)) a1 a5 p3 p1 a4 a2 (dataset_bytes_length _ _ (hwf.2.2.2.2.2.2.1 i hi).2)
    hI.1 (hB3 i hi).2
  have hf : ntohs h.flags &&& C.SSA_MSG_FLAG_END = 0 := by rw [a3]; exact hRE
  obtain ⟨svc1, e7, e8⟩ := update_conn_data_table C { st.1 with conn_dataup := c } db tables h h
    (dataset_bytes (pp_at D.pp_tables i) (descr_size C D.p_db_tables i)) (4096 * (k + 1)) e4 e3 hf
    (e6.trans p7) hn ht p8 _ rfl hI.1
  have e9 : ({ st.1 with conn_dataup := c } : ssa_svc).conn_dataup.rbuf =
      recv_ptr (4096 * (k + 1)) (dataset_bytes (pp_at D.pp_tables i) (descr_size C D.p_db_tables i))
        (descr_size C D.p_db_tables i) := e2
  have e10 : ({ st.1 with conn_dataup := c } : ssa_svc).conn_dataup.rindex = i :=
    e5.trans p2
  rw [e9, e10] at e8
  refine ⟨(svc1, c1), hround svc1 POLLIN (e1.trans e7) e8.2.2.1, e8, s1, ?_⟩
  exact frames_view_append _ _ _ _ _ s2 hfr s3

/-- The round that ends the field phase. -/
theorem round_field_end (C : ssa_msg_consts) (D : ssa_db_raw) (k : Nat)
    (st : ssa_svc × ssa_conn)
    (db : ssa_db_raw) (ri : Nat) (fr : List (Nat × Nat × Nat × List uint8_t))
    (hwf : db_wf C D) (hE : C.SSA_MSG_FLAG_END ≠ 0)
    (hst : session_at C st SSA_DB_FIELD_DEFS ri C.SSA_MSG_DB_QUERY_FIELD_DEF_DATASET db
      SSA_DB_FIELD_DEFS D.data_tbl_cnt fr) :
    ∃ st1, transfer_round C (serving D) k st = some st1 ∧
      session_at C st1 SSA_DB_DATA ri C.SSA_MSG_DB_QUERY_DATA_DATASET db
        SSA_DB_FIELD_DEFS D.data_tbl_cnt
        (fr ++ [(C.SSA_MSG_DB_QUERY_FIELD_DEF_DATASET,
          C.SSA_MSG_FLAG_END ||| C.SSA_MSG_FLAG_RESP, C.hdr_size, [])]) := by
  obtain ⟨hI, hB1, hB2, hB3⟩ := db_wf_sizes C D hwf
  obtain ⟨hc, hs, hfr⟩ := hst
  obtain ⟨w1, w2, w3, w4⟩ := ready_with_hdr C st.2 _ _ hs
  obtain ⟨f1, f2⟩ := end_resp_facts C hE
  have hfit : fits C 0 := ⟨by decide, hI.1⟩
  obtain ⟨c1, h, s1, s2, s3, a1, a2, a3, a4, a5, hround⟩ :=
    round_server C D k st _ _ _ db _ SSA_DB_FIELD_DEFS D.data_tbl_cnt D.data_tbl_cnt 0
      (C.SSA_MSG_FLAG_END ||| C.SSA_MSG_FLAG_RESP) [] hc hs
      (Or.inr (Or.inr (Or.inr (Or.inl rfl)))) hfit f1
      (fun hq hop => by
        rw [ssa_downstream_handle_op_field C _ _ hq _ _ hop]
        have := handle_query_field_defs_end C D (with_hdr C st.2) hq w1 w3 w4
          (by rw [w2]; omega) hI.1
        rw [w2] at this
        exact this)
  obtain ⟨p1, p2, p3, p4, p5, p6, p7, p8⟩ := hc
  obtain ⟨c, e1, e2, e3, e4, e5, e6, _⟩ := client_payload_step C st.1 SSA_DB_FIELD_DEFS _ h
    [] (4096 * (k + 1)) 0 (Or.inr (Or.inl ⟨rfl, rfl⟩)) a1 a5 p3 p1 a4 a2 rfl hI.1 (by decide)
  have hf : ntohs h.flags &&& C.SSA_MSG_FLAG_END ≠ 0 := by rw [a3]; exact f2
  obtain ⟨svc1, e7, e8⟩ := update_conn_field_end C { st.1 with conn_dataup := c } db h h
    [] (4096 * (k + 1)) e4 e3 e2 hf (e6.trans p7) p8 _ rfl hI.1
  have e10 : ({ st.1 with conn_dataup := c } : ssa_svc).conn_dataup.rindex = ri :=
    e5.trans p2
  rw [e10] at e8
  refine ⟨(svc1, c1), hround svc1 POLLIN (e1.trans e7) e8.2.2.1, e8, s1, ?_⟩
  exact frames_view_append _ _ _ _ _ s2 hfr s3

/-- The round that ends the transfer. -/
theorem round_data_end (C : ssa_msg_consts) (D : ssa_db_raw) (k : Nat)
    (st : ssa_svc × ssa_conn)
    (db : ssa_db_raw) (ri : Nat) (fr : List (Nat × Nat × Nat × List uint8_t))
    (hwf : db_wf C D) (hE : C.SSA_MSG_FLAG_END ≠ 0)
    (hst : session_at C st SSA_DB_DATA ri C.SSA_MSG_DB_QUERY_DATA_DATASET db
      SSA_DB_DATA D.data_tbl_cnt fr) :
    ∃ st1, transfer_round C (serving D) k st = some st1 ∧
      st1.1.conn_dataup.phase = SSA_DB_IDLE ∧
      st1.1.db_updates = [{ db with data_tbl_cnt := C.ssa_db_calculate_data_tbl_num db }] ∧
      server_ready C st1.2 SSA_DB_DATA D.data_tbl_cnt ∧
      (frames st1.2.sent).map frame_view =
        fr ++ [(C.SSA_MSG_DB_QUERY_DATA_DATASET,
          C.SSA_MSG_FLAG_END ||| C.SSA_MSG_FLAG_RESP, C.hdr_size, [])] := by
  obtain ⟨hI, hB1, hB2, hB3⟩ := db_wf_sizes C D hwf
  obtain ⟨hc, hs, hfr⟩ := hst
  obtain ⟨w1, w2, w3, w4⟩ := ready_with_hdr C st.2 _ _ hs
  obtain ⟨f1, f2⟩ := end_resp_facts C hE
  have hfit : fits C 0 := ⟨by decide, hI.1⟩
  obtain ⟨c1, h, s1, s2, s3, a1, a2, a3, a4, a5, hround⟩ :=
    round_server C D k st _ _ _ db _ SSA_DB_DATA D.data_tbl_cnt D.data_tbl_cnt 0
      (C.SSA_MSG_FLAG_END ||| C.SSA_MSG_FLAG_RESP) [] hc hs
      (Or.inr (Or.inr (Or.inr (Or.inr rfl)))) hfit f1
      (fun hq hop => by
        rw [ssa_downstream_handle_op_data C _ _ hq _ _ hop]
        have := handle_query_data_end C D (with_hdr C st.2) hq w1 w3 w4
          (by rw [w2]; omega) hI.1
        rw [w2] at this
        exact this)
  obtain ⟨p1, p2, p3, p4, p5, p6, p7, p8⟩ := hc
  obtain ⟨c, e1, e2, e3, e4, e5, e6, _⟩ := client_payload_step C st.1 SSA_DB_DATA _ h
    [] (4096 * (k + 1)) 0 (Or.inr (Or.inr ⟨rfl, rfl⟩)) a1 a5 p3 p1 a4 a2 rfl hI.1 (by decide)
  have hf : ntohs h.flags &&& C.SSA_MSG_FLAG_END ≠ 0 := by rw [a3]; exact f2
  obtain ⟨svc1, e7, e8, e9, e11⟩ := update_conn_data_end C { st.1 with conn_dataup := c } db h h
    [] (4096 * (k + 1)) e4 e3 e2 hf (e6.trans p7) p8 _ rfl
  refine ⟨(svc1, c1), hround svc1 POLLIN (e1.trans e7) e11, e8, e9, s1, ?_⟩
  exact frames_view_append _ _ _ _ _ s2 hfr s3

theorem transfer_rounds_step (C : ssa_msg_consts) (G : ssa_globals) (n k : Nat)
    (st st1 : ssa_svc × ssa_conn) (h : transfer_round C G k st = some st1) :
    transfer_rounds C G (n + 1) k st = transfer_rounds C G n (k + 1) st1 := by
  rw [transfer_rounds, h]

theorem transfer_rounds_none (C : ssa_msg_consts) (G : ssa_globals) (n k : Nat)
    (st : ssa_svc × ssa_conn) (h : transfer_round C G k st = none) :
    transfer_rounds C G (n + 1) k st = none := by
  rw [transfer_rounds, h]

theorem transfer_rounds_one (C : ssa_msg_consts) (G : ssa_globals) (k : Nat)
    (st st1 : ssa_svc × ssa_conn) (h : transfer_round C G k st = some st1) :
    transfer_rounds C G 1 k st = some st1 := by
  rw [transfer_rounds_step C G 0 k st st1 h, transfer_rounds]

theorem transfer_rounds_add (C : ssa_msg_consts) (G : ssa_globals) (a b : Nat) :
    ∀ (k : Nat) (st st1 : ssa_svc × ssa_conn),
      transfer_rounds C G a k st = some st1 →
      transfer_rounds C G (a + b) k st = transfer_rounds C G b (k + a) st1 := by
  induction a with
  | zero =>
    intro k st st1 h
    unfold transfer_rounds at h
    injection h with h
    subst h
    rw [Nat.zero_add, Nat.add_zero]
  | succ a ih =>
    intro k st st1 h
    rw [Nat.add_right_comm]
    cases hr : transfer_round C G k st with
    | none =>
      rw [transfer_rounds_none C G a k st hr] at h
      cases h
    | some st2 =>
      rw [transfer_rounds_step C G a k st st2 hr] at h
      rw [transfer_rounds_step C G (a + b) k st st2 hr, ih (k + 1) st2 st1 h]
      have e : k + 1 + a = k + (a + 1) := by omega
      rw [e]

theorem recv_ptr_ne_null (addr : Nat) (bytes : List uint8_t) (len : Nat) :
    recv_ptr addr bytes len ≠ .null := by
  unfold recv_ptr
  split_ifs <;> simp

/-- The payload that the client keeps reads as the dataset that was sent. -/
theorem dataset_read_recv_ptr (addr : Nat) (p : void_ptr) (len : Nat)
    (h : (dataset_read p len).isSome) :
    dataset_read (recv_ptr addr (dataset_bytes p len) len) len = dataset_read p len := by
  have hl := dataset_bytes_length p len h
  unfold recv_ptr
  by_cases hz : len = 0
  · subst hz
    obtain ⟨v, hv⟩ := Option.isSome_iff_exists.mp h
    rw [if_pos rfl, hv]
    cases p with
    | blk b =>
      simp only [dataset_read, Nat.zero_le, if_true, List.take_zero] at hv ⊢
      exact hv
    | null => simpa [dataset_read] using hv
    | hdr => simpa [dataset_read] using hv
    | db_def => simpa [dataset_read] using hv
    | db_table_def => simpa [dataset_read] using hv
  · rw [if_neg hz]
    obtain ⟨v, hv⟩ := Option.isSome_iff_exists.mp h
    have hb : dataset_bytes p len = v := by
      unfold dataset_bytes
      rw [hv]
      rfl
    rw [hb] at hl ⊢
    rw [hv]
    simp only [dataset_read, hl, le_refl, if_true]
    rw [← hl, List.take_length]

/-- The rounds of the first `j` field datasets. -/
theorem rounds_field_tables (C : ssa_msg_consts) (D : ssa_db_raw) (hwf : db_wf C D)
    (hRE : C.SSA_MSG_FLAG_RESP &&& C.SSA_MSG_FLAG_END = 0) (j : Nat)
    (hj : j ≤ D.data_tbl_cnt) :
    ∀ (k : Nat) (st : ssa_svc × ssa_conn) (db : ssa_db_raw) (tables : Nat → void_ptr)
      (fr : List (Nat × Nat × Nat × List uint8_t)),
      session_at C st SSA_DB_FIELD_DEFS 0 C.SSA_MSG_DB_QUERY_FIELD_DEF_DATASET db SSA_DB_FIELD_DEFS 0 fr →
      db.p_db_field_tables ≠ .null → db.pp_field_tables = some tables →
      ∃ st1 pp, transfer_rounds C (serving D) j k st = some st1 ∧
        session_at C st1 SSA_DB_FIELD_DEFS j C.SSA_MSG_DB_QUERY_FIELD_DEF_DATASET { db with pp_field_tables := some pp } SSA_DB_FIELD_DEFS j
          (fr ++ (List.range j).map (fun i =>
            (C.SSA_MSG_DB_QUERY_FIELD_DEF_DATASET, C.SSA_MSG_FLAG_RESP, C.hdr_size + descr_size C D.p_db_field_tables i,
              dataset_bytes (pp_at D.pp_field_tables i) (descr_size C D.p_db_field_tables i)))) ∧
        ∀ i, i < j →
          dataset_read (pp i) (descr_size C D.p_db_field_tables i) =
            dataset_read (pp_at D.pp_field_tables i) (descr_size C D.p_db_field_tables i) := by
  induction j with
  | zero =>
    intro k st db tables fr hst hn ht
    refine ⟨st, tables, rfl, ?_, ?_⟩
    · have e : ({ db with pp_field_tables := some tables } : ssa_db_raw) = db := by
        cases db
        simp only at ht
        subst ht
        rfl
      rw [e, List.range_zero, List.map_nil, List.append_nil]
      exact hst
    · intro i hi
      omega
  | succ j ih =>
    intro k st db tables fr hst hn ht
    obtain ⟨st1, pp, h1, h2, h3⟩ := ih (by omega) k st db tables fr hst hn ht
    obtain ⟨st2, h4, h5⟩ := round_field_table C D (k + j) st1 { db with pp_field_tables := some pp } j pp
      _ hwf hRE h2 (by omega) hn rfl
    refine ⟨st2, Function.update pp j (recv_ptr (4096 * (k + j + 1))
      (dataset_bytes (pp_at D.pp_field_tables j) (descr_size C D.p_db_field_tables j)) (descr_size C D.p_db_field_tables j)),
      ?_, ?_, ?_⟩
    · rw [transfer_rounds_add C (serving D) j 1 k st st1 h1]
      exact transfer_rounds_one C (serving D) (k + j) st1 st2 h4
    · rw [List.range_succ, List.map_append, List.map_singleton, ← List.append_assoc]
      exact h5
    · intro i hi
      by_cases hij : i = j
      · subst hij
        rw [Function.update_same]
        exact dataset_read_recv_ptr _ _ _ (hwf.2.2.2.2.2.2.1 i (by omega)).1
      · rw [Function.update_noteq hij]
        exact h3 i (by omega)

/-- The rounds of the first `j` data datasets. -/
theorem rounds_data_tables (C : ssa_msg_consts) (D : ssa_db_raw) (hwf : db_wf C D)
    (hRE : C.SSA_MSG_FLAG_RESP &&& C.SSA_MSG_FLAG_END = 0) (j : Nat)
    (hj : j ≤ D.data_tbl_cnt) :
    ∀ (k : Nat) (st : ssa_svc × ssa_conn) (db : ssa_db_raw) (tables : Nat → void_ptr)
      (fr : List (Nat × Nat × Nat × List uint8_t)),
      session_at C st SSA_DB_DATA 0 C.SSA_MSG_DB_QUERY_DATA_DATASET db SSA_DB_DATA 0 fr →
      db.p_db_tables ≠ .null → db.pp_tables = some tables →
      ∃ st1 pp, transfer_rounds C (serving D) j k st = some st1 ∧
        session_at C st1 SSA_DB_DATA j C.SSA_MSG_DB_QUERY_DATA_DATASET { db with pp_tables := some pp } SSA_DB_DATA j
          (fr ++ (List.range j).map (fun i =>
            (C.SSA_MSG_DB_QUERY_DATA_DATASET, C.SSA_MSG_FLAG_RESP, C.hdr_size + descr_size C D.p_db_tables i,
              dataset_bytes (pp_at D.pp_tables i) (descr_size C D.p_db_tables i)))) ∧
        ∀ i, i < j →
          dataset_read (pp i) (descr_size C D.p_db_tables i) =
            dataset_read (pp_at D.pp_tables i) (descr_size C D.p_db_tables i) := by
  induction j with
  | zero =>
    intro k st db tables fr hst hn ht
    refine ⟨st, tables, rfl, ?_, ?_⟩
    · have e : ({ db with pp_tables := some tables } : ssa_db_raw) = db := by
        cases db
        simp only at ht
        subst ht
        rfl
      rw [e, List.range_zero, List.map_nil, List.append_nil]
      exact hst
    · intro i hi
      omega
  | succ j ih =>
    intro k st db tables fr hst hn ht
    obtain ⟨st1, pp, h1, h2, h3⟩ := ih (by omega) k st db tables fr hst hn ht
    obtain ⟨st2, h4, h5⟩ := round_data_table C D (k + j) st1 { db with pp_tables := some pp } j pp
      _ hwf hRE h2 (by omega) hn rfl
    refine ⟨st2, Function.update pp j (recv_ptr (4096 * (k + j + 1))
      (dataset_bytes (pp_at D.pp_tables j) (descr_size C D.p_db_tables j)) (descr_size C D.p_db_tables j)),
      ?_, ?_, ?_⟩
    · rw [transfer_rounds_add C (serving D) j 1 k st st1 h1]
      exact transfer_rounds_one C (serving D) (k + j) st1 st2 h4
    · rw [List.range_succ, List.map_append, List.map_singleton, ← List.append_assoc]
      exact h5
    · intro i hi
      by_cases hij : i = j
      · subst hij
        rw [Function.update_same]
        exact dataset_read_recv_ptr _ _ _ (hwf.2.2.2.2.2.2.1 i (by omega)).2
      · rw [Function.update_noteq hij]
        exact h3 i (by omega)

theorem transfer_rounds_snoc (C : ssa_msg_consts) (G : ssa_globals) (a k : Nat)
    (st st1 st2 : ssa_svc × ssa_conn) (h1 : transfer_rounds C G a k st = some st1)
    (h2 : transfer_round C G (k + a) st1 = some st2) :
    transfer_rounds C G (a + 1) k st = some st2 := by
  rw [transfer_rounds_add C G a 1 k st st1 h1]
  exact transfer_rounds_one C G (k + a) st1 st2 h2

theorem transfer_rounds_append (C : ssa_msg_consts) (G : ssa_globals) (a b k : Nat)
    (st st1 st2 : ssa_svc × ssa_conn) (h1 : transfer_rounds C G a k st = some st1)
    (h2 : transfer_rounds C G b (k + a) st1 = some st2) :
    transfer_rounds C G (a + b) k st = some st2 := by
  rw [transfer_rounds_add C G a b k st st1 h1]
  exact h2

/-- The first query of a transfer leaves the client in phase DEFS with the
query for the top-level descriptor in flight. -/
theorem transfer_session_start (C : ssa_msg_consts) (tid : Nat)
    (hC : C.hdr_size < 2147483648) :
    ∃ svc,
      ssa_upstream_update_conn C (client_start C tid) POLLIN
        (session_env (ssa_init_ssa_msg_hdr C 0 0 0 0) [] 0) = some (POLLIN, svc) ∧
      session_at C (svc, server_start) SSA_DB_DEFS 0 C.SSA_MSG_DB_QUERY_DEF
        (calloc_ssa_db C) SSA_DB_IDLE 0 [] := by
  obtain ⟨svc, h1, h2⟩ := update_conn_idle C (client_start C tid) (calloc_ssa_db C)
    (ssa_init_ssa_msg_hdr C 0 0 0 0) [] 0 rfl rfl rfl rfl rfl hC
  exact ⟨svc, h1, h2, ⟨rfl, rfl, Or.inl rfl, rfl, rfl⟩, rfl⟩

/-- C18 (amended): the streaming protocol transfers a database verbatim when
the header, every descriptor and every dataset are smaller than `2 ^ 31`
bytes, so that the `int ret` of the code holds the result of every `rsend` and
`rrecv`.  For every database `D` that the server can send (`db_wf`: the
descriptors have the size of their structures, every dataset pointer points to
the bytes that its descriptor declares, and each size is below `2 ^ 31`) and
every transaction counter, the transfer of `2 * n + 7` rounds in which every
allocation, send and receive completes returns a result: the client is back in
phase IDLE and has published one database, which has `n` data tables and the
same top-level descriptor, table descriptor, table-definition dataset,
descriptor arrays and, for each of the `n` data tables in order, the same field
dataset and data dataset as `D`; and the messages of the server are exactly the
descriptor, the table descriptor, the table-definition dataset, then for each
of the field and data phases the descriptor array, `n` per-table payloads and
one header-only message with the END flag.  The flags END and RESP are taken to
be distinct bits, and `ssa_db_calculate_data_tbl_num`, which the sources do not
hold, is taken to count the `n` data tables of `D` in every database with the
table descriptor and the table-definition dataset of `D`. -/
theorem transfer_verbatim (C : ssa_msg_consts) (D : ssa_db_raw) (tid : Nat)
    (hwf : db_wf C D) (hRE : C.SSA_MSG_FLAG_RESP &&& C.SSA_MSG_FLAG_END = 0)
    (hE : C.SSA_MSG_FLAG_END ≠ 0)
    (hcalc : ∀ db : ssa_db_raw, db.db_table_def.data = D.db_table_def.data →
      dataset_read db.p_def_tbl (def_tbl_size C D) =
        dataset_read D.p_def_tbl (def_tbl_size C D) →
      C.ssa_db_calculate_data_tbl_num db = D.data_tbl_cnt) :
    ∃ svc sconn db,
      transfer_session C (serving D) tid (2 * D.data_tbl_cnt + 7) = some (svc, sconn) ∧
      svc.conn_dataup.phase = SSA_DB_IDLE ∧ svc.db_updates = [db] ∧
      db_same C D db ∧ (frames sconn.sent).map frame_view = expected_frames C D := by
  obtain ⟨svc0, hstart, hs0⟩ := transfer_session_start C tid (db_wf_sizes C D hwf).1.1
  have A0 : transfer_rounds C (serving D) 0 0 (svc0, server_start) =
      some (svc0, server_start) := rfl
  obtain ⟨st1, r1, hs1⟩ := round_def C D (0 + 0) _ _ _ _ hwf hs0
    (by simp [calloc_ssa_db])
  have A1 := transfer_rounds_snoc C (serving D) 0 0 _ _ _ A0 r1
  obtain ⟨st2, r2, hs2⟩ := round_tbl_def C D (0 + (0 + 1)) _ _ _ _ hwf hs1
    (by simp [calloc_ssa_db])
  have A2 := transfer_rounds_snoc C (serving D) _ 0 _ _ _ A1 r2
  obtain ⟨st3, r3, hs3⟩ := round_tbl_defs C D (0 + (0 + 1 + 1)) _ _ _ _ _ hwf hs2
  have A3 := transfer_rounds_snoc C (serving D) _ 0 _ _ _ A2 r3
  obtain ⟨st4, r4, hs4⟩ := round_field_array C D (0 + (0 + 1 + 1 + 1)) _ _ _ _ _ hwf hRE
    hs3 rfl
  have A4 := transfer_rounds_snoc C (serving D) _ 0 _ _ _ A3 r4
  obtain ⟨st5, pp, r5, hs5, hpp⟩ := rounds_field_tables C D hwf hRE D.data_tbl_cnt
    (le_refl _) (0 + (0 + 1 + 1 + 1 + 1)) _ _ _ _ hs4 (recv_ptr_ne_null _ _ _) rfl
  have A5 := transfer_rounds_append C (serving D) _ _ 0 _ _ _ A4 r5
  obtain ⟨st6, r6, hs6⟩ := round_field_end C D
    (0 + (0 + 1 + 1 + 1 + 1 + D.data_tbl_cnt)) _ _ _ _ hwf hE hs5
  have A6 := transfer_rounds_snoc C (serving D) _ 0 _ _ _ A5 r6
  obtain ⟨st7, r7, hs7⟩ := round_data_array C D
    (0 + (0 + 1 + 1 + 1 + 1 + D.data_tbl_cnt + 1)) _ _ _ _ _ hwf hRE hs6 rfl
  have A7 := transfer_rounds_snoc C (serving D) _ 0 _ _ _ A6 r7
  obtain ⟨st8, pq, r8, hs8, hpq⟩ := rounds_data_tables C D hwf hRE D.data_tbl_cnt
    (le_refl _) (0 + (0 + 1 + 1 + 1 + 1 + D.data_tbl_cnt + 1 + 1)) _ _ _ _ hs7
    (recv_ptr_ne_null _ _ _) rfl
  have A8 := transfer_rounds_append C (serving D) _ _ 0 _ _ _ A7 r8
  obtain ⟨st9, r9, hph, hup, _, hfr⟩ := round_data_end C D
    (0 + (0 + 1 + 1 + 1 + 1 + D.data_tbl_cnt + 1 + 1 + D.data_tbl_cnt)) _ _ _ _ hwf hE hs8
  have A9 := transfer_rounds_snoc C (serving D) _ 0 _ _ _ A8 r9
  have e : 2 * D.data_tbl_cnt + 7 =
      0 + 1 + 1 + 1 + 1 + D.data_tbl_cnt + 1 + 1 + D.data_tbl_cnt + 1 := by omega
  refine ⟨st9.1, st9.2, _, ?_, hph, hup, ?_, ?_⟩
  · unfold transfer_session
    rw [hstart, e]
    exact A9
  · refine ⟨?_, rfl, rfl, ?_, ?_, ?_, ?_⟩
    · exact hcalc _ rfl (dataset_read_recv_ptr _ _ _ hwf.2.2.1)
    · exact dataset_read_recv_ptr _ _ _ hwf.2.2.1
    · exact dataset_read_recv_ptr _ _ _ hwf.2.2.2.1
    · exact dataset_read_recv_ptr _ _ _ hwf.2.2.2.2.1
    · intro i hi
      exact ⟨hpp i hi, hpq i hi⟩
  · rw [hfr]
    unfold expected_frames
    simp only [List.nil_append, List.append_assoc, List.cons_append]

/-- The count of the example constants: a database with the table descriptor
and the table-definition dataset of `example_db` has two data tables. -/
theorem example_calculate_data_tbl_num (db : ssa_db_raw)
    (h1 : db.db_table_def.data = example_db.db_table_def.data)
    (h2 : dataset_read db.p_def_tbl (def_tbl_size example_msg_consts example_db) =
      dataset_read example_db.p_def_tbl (def_tbl_size example_msg_consts example_db)) :
    example_msg_consts.ssa_db_calculate_data_tbl_num db = example_db.data_tbl_cnt := by
  have e : def_tbl_size example_msg_consts example_db = 2 := by decide
  have e2 : dataset_read example_db.p_def_tbl 2 = some [7, 7] := by decide
  rw [e, e2] at h2
  show (match db.p_def_tbl with
    | .blk b => (b.data.take (db.db_table_def.data.headD 0).val).length
    | _ => 0) = 2
  rw [h1]
  cases hp : db.p_def_tbl with
  | blk b =>
    rw [hp] at h2
    simp only [dataset_read] at h2
    by_cases hl : 2 ≤ b.data.length
    · have e3 : ((example_db.db_table_def.data.headD 0).val) = 2 := by decide
      simp only [e3, List.length_take]
      omega
    · rw [if_neg hl] at h2
      cases h2
  | null =>
    rw [hp] at h2
    simp [dataset_read] at h2
  | hdr =>
    rw [hp] at h2
    simp [dataset_read] at h2
  | db_def =>
    rw [hp] at h2
    simp [dataset_read] at h2
  | db_table_def =>
    rw [hp] at h2
    simp [dataset_read] at h2

/-- C18 at a concrete input: the example database with two data tables is
transferred in eleven rounds. -/
theorem transfer_verbatim_witness :
    db_wf example_msg_consts example_db ∧
    ∃ svc sconn db,
      transfer_session example_msg_consts (serving example_db) 10
        (2 * example_db.data_tbl_cnt + 7) = some (svc, sconn) ∧
      svc.conn_dataup.phase = SSA_DB_IDLE ∧ svc.db_updates = [db] ∧
      db_same example_msg_consts example_db db ∧
      (frames sconn.sent).map frame_view = expected_frames example_msg_consts example_db :=
  ⟨by unfold db_wf fits; decide,
   transfer_verbatim example_msg_consts example_db 10 (by unfold db_wf fits; decide)
    (by decide) (by decide) example_calculate_data_tbl_num⟩

/-- C18 as stated fails for a dataset of 2 GiB.  The database `big_db` has a
table-definition dataset of `2 ^ 31` bytes, which the server can read.  The
first two rounds of the transfer complete.  In the third exchange every call
of `rsend` and `rrecv` takes all the bytes offered, and the result `2 ^ 31` of
the payload calls does not fit `int ret`, which holds `-2 ^ 31`: the server
sends the header of 32 bytes and hands the `2 ^ 31` bytes to `rsend`, but as
`ret > 0` fails it leaves `soffset` at 0 of `ssize = 2 ^ 31` and returns the
events unchanged; the client allocates the block of `2 ^ 31` bytes and leaves
`roffset` at 0, so it stays in phase TBL_DEFS with the block held, publishes no
database and sends no further query.  There is no third round, and no transfer
of `2 * n + 7` rounds. -/
theorem oversize_dataset_counterexample :
    def_tbl_size big_msg_consts big_db = 2147483648 ∧
    (dataset_read big_db.p_def_tbl (def_tbl_size big_msg_consts big_db)).isSome = true ∧
    (transfer_session big_msg_consts (serving big_db) 10 2).isSome = true ∧
    ((transfer_session big_msg_consts (serving big_db) 10 2).bind fun st =>
      (exchange big_msg_consts (serving big_db) 2 st).map server_view) =
      some (POLLIN, 0, 2147483648) ∧
    ((transfer_session big_msg_consts (serving big_db) 10 2).bind fun st =>
      (exchange big_msg_consts (serving big_db) 2 st).map (rsend_view st)) =
      some [(0, 32, 32), (0, 2147483648, -2147483648)] ∧
    ((transfer_session big_msg_consts (serving big_db) 10 2).bind fun st =>
      (exchange big_msg_consts (serving big_db) 2 st).map (client_view st)) =
      some (SSA_DB_TBL_DEFS, 0, 2147483648, false, 0, 0) ∧
    (transfer_session big_msg_consts (serving big_db) 10
      (2 * big_db.data_tbl_cnt + 7)).isNone = true := by
  refine ⟨by decide, ?_, by decide, by decide, by decide, by decide, by decide⟩
  have e : def_tbl_size big_msg_consts big_db = 2147483648 := by decide
  rw [e]
  unfold big_db
  simp only [dataset_read, List.length_replicate, le_refl, if_true, Option.isSome_some]

/-! ## Last record of a key in the LFT and port lookups -/

theorem lft_top_loop_append (pre rest : List smdb_lft_top) :
    ∀ lk : Nat → Nat,
      lft_top_loop (pre ++ rest) lk = lft_top_loop rest (lft_top_loop pre lk) := by
  induction pre with
  | nil => intro lk; rfl
  | cons r pre ih =>
    intro lk
    rw [List.cons_append]
    simp only [lft_top_loop]
    exact ih _

theorem lft_top_loop_keeps (l v : Nat) (post : List smdb_lft_top) :
    ∀ lk : Nat → Nat, lk l = v → (∀ r ∈ post, ntohs r.lid ≠ l) →
      lft_top_loop post lk l = v := by
  induction post with
  | nil => intro lk h _; exact h
  | cons r post ih =>
    intro lk h hpost
    simp only [lft_top_loop]
    apply ih
    · rw [Function.update_noteq (Ne.symm (hpost r (List.mem_cons_self _ _)))]
      exact h
    · exact fun r' hr' => hpost r' (List.mem_cons_of_mem _ hr')

theorem lft_top_loop_last (pre post : List smdb_lft_top) (r : smdb_lft_top)
    (lk : Nat → Nat) (hpost : ∀ r1 ∈ post, ntohs r1.lid ≠ ntohs r.lid) :
    lft_top_loop (pre ++ r :: post) lk (ntohs r.lid) = ntohs r.lft_top := by
  rw [lft_top_loop_append]
  simp only [lft_top_loop]
  exact lft_top_loop_keeps _ _ post _ (Function.update_same _ _ _) hpost

theorem lft_block_loop_append (d : Nat) (pre rest : List smdb_lft_block) :
    ∀ (i : Nat) (lk : Nat → Option (Nat → Nat)),
      lft_block_loop d (pre ++ rest) i lk =
        lft_block_loop d rest (i + pre.length) (lft_block_loop d pre i lk) := by
  induction pre with
  | nil => intro i lk; rfl
  | cons r pre ih =>
    intro i lk
    rw [List.cons_append, List.length_cons,
      show i + (pre.length + 1) = i + 1 + pre.length by omega]
    simp only [lft_block_loop]
    exact ih _ _

theorem lft_block_loop_keeps_value (d l b v : Nat) (post : List smdb_lft_block) :
    ∀ (i : Nat) (lk : Nat → Option (Nat → Nat)),
      (∃ bl, lk l = some bl ∧ bl b = v) →
      (∀ r ∈ post, ¬ (ntohs r.lid = l ∧ ntohs r.block_num = b)) →
      ∃ bl, lft_block_loop d post i lk l = some bl ∧ bl b = v := by
  induction post with
  | nil => intro i lk h _; exact h
  | cons r post ih =>
    intro i lk h hpost
    obtain ⟨bl, hbl, hv⟩ := h
    have h0 := hpost r (List.mem_cons_self _ _)
    simp only [lft_block_loop]
    apply ih _ _ _ (fun r' hr' => hpost r' (List.mem_cons_of_mem _ hr'))
    by_cases hk : l = ntohs r.lid
    · subst hk
      refine ⟨_, Function.update_same _ _ _, ?_⟩
      simp only [hbl]
      have hb : b ≠ ntohs r.block_num := fun e => h0 ⟨rfl, e.symm⟩
      rw [Function.update_noteq hb]
      exact hv
    · exact ⟨bl, by rw [Function.update_noteq hk]; exact hbl, hv⟩

theorem lft_block_loop_last (d : Nat) (pre post : List smdb_lft_block) (r : smdb_lft_block)
    (lk : Nat → Option (Nat → Nat))
    (hpost : ∀ r1 ∈ post, ¬ (ntohs r1.lid = ntohs r.lid ∧
      ntohs r1.block_num = ntohs r.block_num)) :
    ∃ bl, lft_block_loop d (pre ++ r :: post) 0 lk (ntohs r.lid) = some bl ∧
      bl (ntohs r.block_num) = pre.length := by
  rw [lft_block_loop_append]
  simp only [lft_block_loop, Nat.zero_add]
  apply lft_block_loop_keeps_value _ _ _ _ post _ _ _ hpost
  exact ⟨_, Function.update_same _ _ _, Function.update_same _ _ _⟩

theorem port_loop_append (C : ssa_pr_consts) (d : Nat) (pre rest : List smdb_port) :
    ∀ (i : Nat) (I : ssa_pr_smdb_index),
      port_loop C d (pre ++ rest) i I =
        port_loop C d rest (i + pre.length) (port_loop C d pre i I) := by
  induction pre with
  | nil => intro i I; rfl
  | cons r pre ih =>
    intro i I
    rw [List.cons_append, List.length_cons,
      show i + (pre.length + 1) = i + 1 + pre.length by omega]
    simp only [port_loop]
    split
    · exact ih _ _
    · exact ih _ _

theorem port_loop_keeps_switch (C : ssa_pr_consts) (d l p v : Nat) (post : List smdb_port) :
    ∀ (i : Nat) (I : ssa_pr_smdb_index),
      (∃ pl, I.switch_port_lookup l = some pl ∧ pl p = v) →
      (∀ r ∈ post, ¬ (ntohs r.port_lid = l ∧ r.port_num.val = p)) →
      ∃ pl, (port_loop C d post i I).switch_port_lookup l = some pl ∧ pl p = v := by
  induction post with
  | nil => intro i I h _; exact h
  | cons r post ih =>
    intro i I h hpost
    obtain ⟨pl, hpl, hv⟩ := h
    have h0 := hpost r (List.mem_cons_self _ _)
    have hrest : ∀ r' ∈ post, ¬ (ntohs r'.port_lid = l ∧ r'.port_num.val = p) :=
      fun r' hr' => hpost r' (List.mem_cons_of_mem _ hr')
    simp only [port_loop]
    split
    · apply ih _ _ _ hrest
      by_cases hk : l = ntohs r.port_lid
      · subst hk
        refine ⟨_, Function.update_same _ _ _, ?_⟩
        simp only [hpl]
        have hp : p ≠ r.port_num.val := fun e => h0 ⟨rfl, e.symm⟩
        rw [Function.update_noteq hp]
        exact hv
      · exact ⟨pl, by simp only [Function.update_noteq hk]; exact hpl, hv⟩
    · exact ih _ _ ⟨pl, hpl, hv⟩ hrest

theorem port_loop_keeps_ca (C : ssa_pr_consts) (d l v : Nat) (post : List smdb_port) :
    ∀ (i : Nat) (I : ssa_pr_smdb_index),
      I.ca_port_lookup l = v → (∀ r ∈ post, ntohs r.port_lid ≠ l) →
      (port_loop C d post i I).ca_port_lookup l = v := by
  induction post with
  | nil => intro i I h _; exact h
  | cons r post ih =>
    intro i I h hpost
    have h0 := hpost r (List.mem_cons_self _ _)
    have hrest : ∀ r' ∈ post, ntohs r'.port_lid ≠ l :=
      fun r' hr' => hpost r' (List.mem_cons_of_mem _ hr')
    simp only [port_loop]
    split
    · exact ih _ _ h hrest
    · apply ih _ _ _ hrest
      simp only [Function.update_noteq (Ne.symm h0)]
      exact h

/-- The entry that the port loop leaves for the last record of a key. -/
theorem port_loop_last (C : ssa_pr_consts) (d : Nat) (pre post : List smdb_port)
    (r : smdb_port) (I : ssa_pr_smdb_index)
    (hpost : ∀ r1 ∈ post, ¬ same_port_key C r r1) :
    (is_switch_port C r →
      ∃ pl, (port_loop C d (pre ++ r :: post) 0 I).switch_port_lookup (ntohs r.port_lid) =
          some pl ∧ pl r.port_num.val = pre.length) ∧
    (¬ is_switch_port C r →
      (port_loop C d (pre ++ r :: post) 0 I).ca_port_lookup (ntohs r.port_lid) =
        pre.length) := by
  rw [port_loop_append]
  simp only [port_loop, Nat.zero_add]
  constructor
  · intro hsw
    have hsw' : r.rate.val &&& C.SSA_DB_PORT_IS_SWITCH_MASK ≠ 0 := hsw
    rw [if_pos hsw']
    apply port_loop_keeps_switch
    · exact ⟨_, Function.update_same _ _ _, Function.update_same _ _ _⟩
    · intro r1 hr1 hk
      exact hpost r1 hr1 ⟨ntohs_injective hk.1, fun _ => Fin.ext hk.2⟩
  · intro hsw
    have hsw' : ¬ r.rate.val &&& C.SSA_DB_PORT_IS_SWITCH_MASK ≠ 0 := hsw
    rw [if_neg hsw']
    apply port_loop_keeps_ca
    · exact Function.update_same _ _ _
    · intro r1 hr1 hk
      exact hpost r1 hr1 ⟨ntohs_injective hk, fun h => absurd h hsw⟩

/-! ## Lookups of a record that is the last of its key -/

/-- C26: after a successful build, for a port record `r` at position `i` of
the port table that is the last record with its key (LID and, for a switch
port, port number) and whose switch bit agrees with the `is_switch` flag that
the index holds for its LID, `find_port` returns position `i` for the LID and
port number of `r`; when `r` is not a switch port the result is position `i`
for every port number; and for every LID whose flag is zero `find_port` gives
the same result for any two port numbers. -/
theorem find_port_last_record (C : ssa_pr_consts) (I0 : ssa_pr_smdb_index) (D : ssa_db)
    (pre post : List smdb_port) (r : smdb_port)
    (hbuild : (ssa_pr_build_indexes C I0 D).1 = 0)
    (hD : D.port = pre ++ r :: post)
    (hlast : ∀ r1 ∈ post, ¬ same_port_key C r r1)
    (hflag : (ssa_pr_build_indexes C I0 D).2.is_switch_lookup (ntohs r.port_lid) ≠ 0 ↔
      is_switch_port C r) :
    find_port D (ssa_pr_build_indexes C I0 D).2 r.port_lid r.port_num.val =
      some pre.length ∧
    (¬ is_switch_port C r →
      ∀ p, find_port D (ssa_pr_build_indexes C I0 D).2 r.port_lid p = some pre.length) ∧
    ∀ (lid : be16_t) (p q : Nat),
      (ssa_pr_build_indexes C I0 D).2.is_switch_lookup (ntohs lid) = 0 →
      find_port D (ssa_pr_build_indexes C I0 D).2 lid p =
        find_port D (ssa_pr_build_indexes C I0 D).2 lid q := by
  obtain ⟨-, h2, h3⟩ := built_ports hbuild
  obtain ⟨hsw, hca⟩ := port_loop_last C (D.port.length + 1) pre post r zero_index hlast
  rw [← hD] at hsw hca
  have hlen : pre.length < D.port.length := by
    rw [hD, List.length_append, List.length_cons]
    omega
  have hca' : ¬ is_switch_port C r →
      ∀ p, find_port D (ssa_pr_build_indexes C I0 D).2 r.port_lid p = some pre.length := by
    intro hns p
    have hz : ¬ (ssa_pr_build_indexes C I0 D).2.is_switch_lookup (ntohs r.port_lid) ≠ 0 :=
      fun h => hns (hflag.mp h)
    unfold find_port find_port_index
    rw [if_neg hz, h2, hca hns]
    simp only
    rw [if_neg (by omega)]
  refine ⟨?_, hca', ?_⟩
  · by_cases hs : is_switch_port C r
    · obtain ⟨pl, hpl, hv⟩ := hsw hs
      unfold find_port find_port_index
      rw [if_pos (hflag.mpr hs), h3, hpl]
      simp only [hv]
      rw [if_neg (by omega)]
    · exact hca' hs _
  · intro lid p q hz
    have hz' : ¬ (ssa_pr_build_indexes C I0 D).2.is_switch_lookup (ntohs lid) ≠ 0 := by
      simp [hz]
    unfold find_port find_port_index
    rw [if_neg hz', if_neg hz']

/-- C26 at a concrete input: the host port at LID 2, record 1 of the port
table of scenario S1. -/
theorem find_port_last_record_witness :
    find_port S1_full (ssa_pr_build_indexes example_consts zero_index S1_full).2
      (htons 2) 0 = some 1 :=
  (find_port_last_record example_consts zero_index S1_full
    [{ pkey_tbl_offset := 0, pkey_tbl_size := 0, port_lid := htons 1, port_num := 3,
       mtu_cap := 0, rate := switch_rate example_consts, vl_enforce := 0 }] []
    { pkey_tbl_offset := 0, pkey_tbl_size := 0, port_lid := htons 2, port_num := 0,
      mtu_cap := 0, rate := 0, vl_enforce := 0 }
    (by decide) rfl (fun r1 h => by cases h) (by unfold is_switch_port; decide)).1

/-- C29: after a successful build every entry of every allocated per-LID array
of the LFT block lookup is a record position below the record count of the LFT
block table or the default value `count + 1`; and whenever
`find_destination_port` returns a port, that is a result other than -1, its
three checks have passed and the position that it reads in the LFT block table
is below the record count. -/
theorem lft_block_index_in_table (C : ssa_pr_consts) (I0 : ssa_pr_smdb_index) (D : ssa_db)
    (hbuild : (ssa_pr_build_indexes C I0 D).1 = 0) :
    (∀ l bl, (ssa_pr_build_indexes C I0 D).2.lft_block_lookup l = some bl →
      ∀ b, bl b < D.lft_block.length ∨ bl b = D.lft_block.length + 1) ∧
    ∀ (src dst : be16_t),
      find_destination_port D (ssa_pr_build_indexes C I0 D).2 src dst ≠ some (-1) →
      ∃ bl rec,
        ntohs dst ≤ (ssa_pr_build_indexes C I0 D).2.lft_top_lookup (ntohs src) % 65536 ∧
        (ssa_pr_build_indexes C I0 D).2.lft_block_lookup (ntohs src) = some bl ∧
        bl (ntohs dst >>> 6) < D.lft_block.length ∧
        D.lft_block[bl (ntohs dst >>> 6)]? = some rec ∧
        find_destination_port D (ssa_pr_build_indexes C I0 D).2 src dst =
          some (((rec.block ⟨ntohs dst % 64, Nat.mod_lt _ (by decide)⟩).val : Nat) : Int) := by
  have hent := built_block_entries hbuild
  refine ⟨hent, ?_⟩
  intro src dst hne
  generalize (ssa_pr_build_indexes C I0 D).2 = I at hent hne ⊢
  unfold find_destination_port at hne ⊢
  by_cases h1 : ntohs dst > I.lft_top_lookup (ntohs src) % 65536
  · simp [h1] at hne
  · cases hbl : I.lft_block_lookup (ntohs src) with
    | none => simp [h1, hbl] at hne
    | some bl =>
      by_cases h2 : bl (ntohs dst >>> 6) > D.lft_block.length
      · simp [h1, hbl, h2] at hne
      · rcases hent _ bl hbl (ntohs dst >>> 6) with h3 | h3
        · refine ⟨bl, D.lft_block[bl (ntohs dst >>> 6)], by omega, rfl, h3,
            List.getElem?_eq_getElem h3, ?_⟩
          simp only [if_neg h1, if_neg h2, List.getElem?_eq_getElem h3, Option.map_some']
        · omega

/-- C29 at a concrete input: the route from the switch at LID 1 to LID 2 in
scenario S1 reads record 0 of the one-record LFT block table. -/
theorem lft_block_index_in_table_witness :
    (ssa_pr_build_indexes example_consts zero_index S1_full).1 = 0 ∧
    ∃ bl rec,
      ntohs (htons 2) ≤
        (ssa_pr_build_indexes example_consts zero_index S1_full).2.lft_top_lookup
          (ntohs (htons 1)) % 65536 ∧
      (ssa_pr_build_indexes example_consts zero_index S1_full).2.lft_block_lookup
        (ntohs (htons 1)) = some bl ∧
      bl (ntohs (htons 2) >>> 6) < S1_full.lft_block.length ∧
      S1_full.lft_block[bl (ntohs (htons 2) >>> 6)]? = some rec ∧
      find_destination_port S1_full
        (ssa_pr_build_indexes example_consts zero_index S1_full).2 (htons 1) (htons 2) =
        some (((rec.block ⟨ntohs (htons 2) % 64, Nat.mod_lt _ (by decide)⟩).val : Nat) : Int) :=
  ⟨by decide,
   (lft_block_index_in_table example_consts zero_index S1_full (by decide)).2
    (htons 1) (htons 2) (by decide)⟩

/-! ## Routing along the forwarding table of a switch -/

theorem shift_block_entry (d : Nat) : (d >>> 6) * 64 + d % 64 = d := by
  rw [Nat.shiftRight_eq_div_pow]
  have := Nat.div_add_mod d 64
  norm_num
  omega

theorem shift_block_le (d T : Nat) (h : d ≤ T) : d >>> 6 ≤ T >>> 6 := by
  rw [Nat.shiftRight_eq_div_pow, Nat.shiftRight_eq_div_pow]
  exact Nat.div_le_div_right h

/-- C28 as stated fails when the LFT top table holds a later record of the
same LID: the database holds the records written by `smdb_lft_top_init (1, 2)`
and `smdb_lft_block_init (sw, 1, 0)` for an LFT with `lft[2] = 3`, the build
succeeds, and `find_destination_port (1, 2)` returns -1, because the lookup
keeps the top 0 of the second LFT top record of LID 1. -/
theorem lft_later_record_counterexample :
    smdb_lft_top_init 1 2 ∈ two_tops_smdb.lft_top ∧
    (∀ b, b ≤ 2 >>> 6 → smdb_lft_block_init S1_lft 1 b ∈ two_tops_smdb.lft_block) ∧
    (ssa_pr_build_indexes example_consts zero_index two_tops_smdb).1 = 0 ∧
    find_destination_port two_tops_smdb
      (ssa_pr_build_indexes example_consts zero_index two_tops_smdb).2 (htons 1) (htons 2) =
      some (-1) ∧
    S1_lft 2 = 3 := by
  refine ⟨by simp [two_tops_smdb], ?_, by decide, by decide, by decide⟩
  intro b hb
  have hb0 : b = 0 := by
    have : (2 : Nat) >>> 6 = 0 := by decide
    omega
  subst hb0
  simp [two_tops_smdb]

/-- C28, amended: routing reproduces the forwarding table of a switch whose
records are the last of their keys.  For a switch LID `L`, an LFT `lft` and a
top value `T` (both 16-bit), if the LFT top table holds the record written by
`smdb_lft_top_init (L, T)` with no later record of LID `L`, and for every block
`b ≤ T >> 6` the LFT block table holds the record written by
`smdb_lft_block_init (sw, L, b)` with no later record of LID `L` and block `b`,
then after a successful build `find_destination_port (L, d)` returns `lft[d]`
for every destination `1 ≤ d ≤ T`, the LIDs being passed in network byte
order. -/
theorem find_destination_port_eq_lft (C : ssa_pr_consts) (I0 : ssa_pr_smdb_index)
    (D : ssa_db) (lft : Nat → uint8_t) (L T : Nat)
    (hL : L < 65536) (hT : T < 65536)
    (hbuild : (ssa_pr_build_indexes C I0 D).1 = 0)
    (htop : ∃ pre post, D.lft_top = pre ++ smdb_lft_top_init L T :: post ∧
      ∀ r ∈ post, ntohs r.lid ≠ L)
    (hblk : ∀ b, b ≤ T >>> 6 →
      ∃ pre post, D.lft_block = pre ++ smdb_lft_block_init lft L b :: post ∧
        ∀ r ∈ post, ¬ (ntohs r.lid = L ∧ ntohs r.block_num = b)) :
    ∀ d, 1 ≤ d → d ≤ T →
      find_destination_port D (ssa_pr_build_indexes C I0 D).2 (htons L) (htons d) =
        some (((lft d).val : Nat) : Int) := by
  intro d _ hd
  obtain ⟨e1, e2⟩ := build_ok_lft hbuild
  have hLL : ntohs (htons L) = L := ntohs_htons L hL
  have hdd : ntohs (htons d) = d := ntohs_htons d (by omega)
  have hb : d >>> 6 ≤ T >>> 6 := shift_block_le d T hd
  have hb16 : d >>> 6 < 65536 := by
    rw [Nat.shiftRight_eq_div_pow]
    have : d / 2 ^ 6 ≤ d := Nat.div_le_self _ _
    omega
  obtain ⟨tpre, tpost, ht, htl⟩ := htop
  obtain ⟨bpre, bpost, hbD, hbl⟩ := hblk (d >>> 6) hb
  have htop_val : (ssa_pr_build_indexes C I0 D).2.lft_top_lookup L = T := by
    rw [e1, ht]
    have := lft_top_loop_last tpre tpost (smdb_lft_top_init L T) (fun _ => 0)
      (by
        intro r hr
        have e : ntohs (smdb_lft_top_init L T).lid = L := hLL
        rw [e]
        exact htl r hr)
    have e : ntohs (smdb_lft_top_init L T).lid = L := hLL
    have e' : ntohs (smdb_lft_top_init L T).lft_top = T := ntohs_htons T hT
    rw [e, e'] at this
    exact this
  have el : ntohs (smdb_lft_block_init lft L (d >>> 6)).lid = L := hLL
  have eb : ntohs (smdb_lft_block_init lft L (d >>> 6)).block_num = d >>> 6 :=
    ntohs_htons _ hb16
  obtain ⟨bl, hbl1, hbl2⟩ := lft_block_loop_last (D.lft_block.length + 1) bpre bpost
    (smdb_lft_block_init lft L (d >>> 6)) (fun _ => none)
    (by
      intro r hr
      rw [el, eb]
      exact hbl r hr)
  rw [el, ← hbD] at hbl1
  rw [eb] at hbl2
  have hlen : bpre.length < D.lft_block.length := by
    rw [hbD, List.length_append, List.length_cons]
    omega
  have hget : D.lft_block[bpre.length]? = some (smdb_lft_block_init lft L (d >>> 6)) := by
    rw [hbD, List.getElem?_append_right (le_refl _), Nat.sub_self]
    exact List.getElem?_cons_zero
  unfold find_destination_port
  simp only [hLL, hdd, htop_val, Nat.mod_eq_of_lt hT, e2, hbl1, hbl2]
  rw [if_neg (by omega), if_neg (by omega), hget]
  simp only [Option.map_some', smdb_lft_block_init, UMAD_LEN_SMP_DATA]
  rw [shift_block_entry]

/-- C28, amended, at a concrete input: the switch at LID 1 with top 2 and
`lft[2] = 3`. -/
theorem find_destination_port_eq_lft_witness :
    find_destination_port S1_init_smdb
      (ssa_pr_build_indexes example_consts zero_index S1_init_smdb).2 (htons 1) (htons 2) =
      some (((S1_lft 2).val : Nat) : Int) :=
  find_destination_port_eq_lft example_consts zero_index S1_init_smdb S1_lft 1 2
    (by decide) (by decide) (by decide)
    ⟨[], [], rfl, fun r h => by cases h⟩
    (fun b hb => ⟨[], [], by
      have hb0 : b = 0 := by
        have : (2 : Nat) >>> 6 = 0 := by decide
        omega
      subst hb0
      rfl, fun r h => by cases h⟩)
    2 (by decide) (by decide)

/-! ## The field descriptors of the NODE table -/

/-- C30, code at the failing input: for all values of the enumerators, the
entries 11 and 13 of `field_tbl` are the descriptors `is_enhanced_sp0` and
`description` of the NODE table, at different offsets, and both carry the
field id `SMDB_FIELD_ID_NODE_IS_ENHANCED_SP0`; so two field descriptors share
their (table id, field id) pair. -/
theorem field_tbl_duplicate_field_id (C : smdb_consts) :
    (field_tbl C).length = 30 ∧
    ((field_tbl C).get? 11).map (fun f => (f.name, f.field_offset)) =
      some ("is_enhanced_sp0", htonl 64) ∧
    ((field_tbl C).get? 13).map (fun f => (f.name, f.field_offset)) =
      some ("description", htonl 80) ∧
    ((field_tbl C).get? 11).map field_key =
      some (C.SMDB_TBL_ID_MAX + C.SMDB_TBL_ID_NODE, C.SMDB_FIELD_ID_NODE_IS_ENHANCED_SP0) ∧
    ((field_tbl C).get? 13).map field_key = ((field_tbl C).get? 11).map field_key ∧
    ¬ ((field_tbl C).map field_key).Nodup := by
  refine ⟨rfl, rfl, rfl, rfl, rfl, ?_⟩
  intro h
  have h2 := List.nodup_iff_get?_ne_get?.mp h 11 13 (by decide) (by simp [field_tbl])
  exact h2 rfl

/-! ## The timeout of the join request -/

theorem shl1_int_eq (x : Int) (h0 : 0 ≤ x) (h1 : x < 1073741824) : shl1_int x = 2 * x := by
  unfold shl1_int
  omega

theorem min_int_eq (a b : Int) : min_int a b = min a b := by
  unfold min_int
  split_ifs with h
  · exact (min_eq_left (le_of_lt h)).symm
  · exact (min_eq_right (not_lt.mp h)).symm

theorem ssa_svc_join_fields (M : ssa_msg_consts) (svc : ssa_svc_ctrl) (ret : Int) :
    (ssa_svc_join M svc ret).timeout = svc.timeout ∧
    (ssa_svc_join M svc ret).primary_parent = svc.primary_parent ∧
    (ssa_svc_join M svc ret).state = (if ret ≠ 0 then SSA_STATE_IDLE else SSA_STATE_JOINING) := by
  unfold ssa_svc_join ssa_svc_tid
  dsimp only
  split_ifs <;> exact ⟨rfl, rfl, rfl⟩

/-- The timeout after a datagram with an error status in state JOINING. -/
theorem ssa_upstream_mad_failure (M : ssa_msg_consts) (C : ssa_ctrl_consts) (svc : ssa_svc_ctrl) (umad : ssa_umad)
    (ret : Int) (hs : svc.state = SSA_STATE_JOINING) (he : umad.status ≠ 0)
    (h0 : 0 ≤ svc.timeout) (h1 : svc.timeout ≤ 120000) :
    (ssa_upstream_mad M C svc umad ret).timeout = min (2 * svc.timeout) 120000 ∧
    (ssa_upstream_mad M C svc umad ret).state =
      (if ret ≠ 0 then SSA_STATE_IDLE else SSA_STATE_JOINING) := by
  have hni : ¬ svc.state = SSA_STATE_IDLE := by rw [hs]; decide
  have hj : ¬ svc.state ≠ SSA_STATE_JOINING := fun h => h hs
  unfold ssa_upstream_mad
  rw [if_neg hni, if_pos he, if_neg hj]
  obtain ⟨e1, _, e3⟩ := ssa_svc_join_fields M
    { svc with timeout := min_int (shl1_int svc.timeout) MAX_TIMEOUT } ret
  refine ⟨?_, e3⟩
  rw [e1]
  simp only [min_int_eq, shl1_int_eq svc.timeout h0 (by omega)]
  rfl

theorem port_activate_timeout (M : ssa_msg_consts) (svc : ssa_svc_ctrl) (ret : Int) :
    (port_activate M svc ret).timeout = svc.timeout ∨
    (port_activate M svc ret).timeout = 1000 := by
  unfold port_activate
  split_ifs
  · right
    rw [(ssa_svc_join_fields M _ ret).1]
    rfl
  · left
    rfl

theorem ssa_upstream_dev_event_timeout (M : ssa_msg_consts) (C : ssa_ctrl_consts) (svc : ssa_svc_ctrl)
    (event : ibv_event_type) (ret : Int) :
    (ssa_upstream_dev_event M C svc event ret).timeout = svc.timeout ∨
    (ssa_upstream_dev_event M C svc event ret).timeout = 1000 := by
  unfold ssa_upstream_dev_event
  cases event
  · exact port_activate_timeout M (port_err_reset C svc) ret
  · exact port_activate_timeout M (port_err_reset C svc) ret
  · exact port_activate_timeout M svc ret
  · exact Or.inl rfl

theorem ssa_upstream_mad_timeout_range (M : ssa_msg_consts) (C : ssa_ctrl_consts) (svc : ssa_svc_ctrl)
    (umad : ssa_umad) (ret : Int)
    (h0 : 1000 ≤ svc.timeout) (h1 : svc.timeout ≤ 120000) :
    1000 ≤ (ssa_upstream_mad M C svc umad ret).timeout ∧
    (ssa_upstream_mad M C svc umad ret).timeout ≤ 120000 := by
  by_cases hi : svc.state = SSA_STATE_IDLE
  · unfold ssa_upstream_mad
    rw [if_pos hi]
    exact ⟨le_refl _, by show (1000 : Int) ≤ 120000; decide⟩
  · by_cases he : umad.status ≠ 0
    · by_cases hj : svc.state = SSA_STATE_JOINING
      · rw [(ssa_upstream_mad_failure M C svc umad ret hj he (by omega) h1).1]
        constructor
        · exact le_min (by omega) (by decide)
        · exact min_le_right _ _
      · unfold ssa_upstream_mad
        rw [if_neg hi, if_pos he, if_pos hj]
        exact ⟨h0, h1⟩
    · have ht : (ssa_upstream_mad M C svc umad ret).timeout = 1000 := by
        unfold ssa_upstream_mad
        rw [if_neg hi, if_neg he]
        dsimp only
        split_ifs <;> first | rfl | (split <;> rfl)
      rw [ht]
      exact ⟨le_refl _, by decide⟩

theorem ctrl_step_timeout_range (M : ssa_msg_consts) (C : ssa_ctrl_consts) (svc : ssa_svc_ctrl) (e : ctrl_event)
    (h0 : 1000 ≤ svc.timeout) (h1 : svc.timeout ≤ 120000) :
    1000 ≤ (ctrl_step M C svc e).timeout ∧ (ctrl_step M C svc e).timeout ≤ 120000 := by
  cases e with
  | dev event ret =>
    rcases ssa_upstream_dev_event_timeout M C svc event ret with h | h
    · exact ⟨by rw [ctrl_step, h]; exact h0, by rw [ctrl_step, h]; exact h1⟩
    · exact ⟨by rw [ctrl_step, h], by rw [ctrl_step, h]; decide⟩
  | mad umad ret => exact ssa_upstream_mad_timeout_range M C svc umad ret h0 h1

theorem ctrl_run_timeout_range (M : ssa_msg_consts) (C : ssa_ctrl_consts) (evs : List ctrl_event) :
    ∀ svc : ssa_svc_ctrl, 1000 ≤ svc.timeout → svc.timeout ≤ 120000 →
      1000 ≤ (ctrl_run M C svc evs).timeout ∧ (ctrl_run M C svc evs).timeout ≤ 120000 := by
  induction evs with
  | nil => intro svc h0 h1; exact ⟨h0, h1⟩
  | cons e evs ih =>
    intro svc h0 h1
    obtain ⟨a, b⟩ := ctrl_step_timeout_range M C svc e h0 h1
    exact ih _ a b

theorem ctrl_run_failures (M : ssa_msg_consts) (C : ssa_ctrl_consts) (evs : List ctrl_event) :
    ∀ (svc : ssa_svc_ctrl) (k : Nat), svc.state = SSA_STATE_JOINING →
      svc.timeout = min (1000 * 2 ^ k) 120000 → (∀ e ∈ evs, is_join_failure e) →
      (ctrl_run M C svc evs).state = SSA_STATE_JOINING ∧
      (ctrl_run M C svc evs).timeout = min (1000 * 2 ^ (k + evs.length)) 120000 := by
  induction evs with
  | nil => intro svc k hs ht _; exact ⟨hs, ht⟩
  | cons e evs ih =>
    intro svc k hs ht hall
    have he := hall e (List.mem_cons_self _ _)
    have hpos : (1000 : Int) ≤ 1000 * 2 ^ k := by
      have : (1 : Int) ≤ 2 ^ k := one_le_pow₀ (by norm_num)
      omega
    cases e with
    | dev event ret => cases he
    | mad umad ret =>
      obtain ⟨hst, hret⟩ := he
      subst hret
      have h0 : 0 ≤ svc.timeout := by
        rw [ht]
        exact le_min (by omega) (by decide)
      have h1 : svc.timeout ≤ 120000 := by
        rw [ht]
        exact min_le_right _ _
      obtain ⟨e1, e2⟩ := ssa_upstream_mad_failure M C svc umad 0 hs hst h0 h1
      have hk : (1000 : Int) * 2 ^ (k + 1) = 2 * (1000 * 2 ^ k) := by ring
      have := ih (ssa_upstream_mad M C svc umad 0) (k + 1) (by rw [e2]; rfl)
        (by
          rw [e1, ht, hk]
          generalize (1000 : Int) * 2 ^ k = a at hpos
          simp only [min_def]
          split_ifs <;> omega)
        (fun e' he' => hall e' (List.mem_cons_of_mem _ he'))
      rw [List.length_cons, show k + (evs.length + 1) = k + 1 + evs.length by omega]
      exact this

/-- C21: the back-off of the join request.  For a service in state IDLE on an
active port, the PORT_ACTIVE event sets the timeout to `DEFAULT_TIMEOUT`,
which is 1000; a datagram with an error status that `ssa_upstream_mad` handles
in state JOINING sets a timeout `t` in 0..120000 to `min (2 t, 120000)`; after
the activation and `k` such failures in a row, the rejoin being sent each
time, the timeout is `min (1000 * 2 ^ k, 120000)`; and after the activation
the timeout stays within 1000..120000 over every sequence of device events
and datagrams, whatever `umad_send` returns. -/
theorem join_timeout_backoff (M : ssa_msg_consts) (C : ssa_ctrl_consts) (svc : ssa_svc_ctrl)
    (hact : svc.port_active = true) (hidle : svc.state = SSA_STATE_IDLE) :
    (∀ ret, (ssa_upstream_dev_event M C svc .IBV_EVENT_PORT_ACTIVE ret).timeout = 1000) ∧
    (∀ (s : ssa_svc_ctrl) (umad : ssa_umad) (ret : Int),
      s.state = SSA_STATE_JOINING → umad.status ≠ 0 → 0 ≤ s.timeout → s.timeout ≤ 120000 →
      (ssa_upstream_mad M C s umad ret).timeout = min (2 * s.timeout) (120 * 1000)) ∧
    (∀ evs : List ctrl_event, (∀ e ∈ evs, is_join_failure e) →
      (ctrl_run M C (ssa_upstream_dev_event M C svc .IBV_EVENT_PORT_ACTIVE 0) evs).timeout =
        min (1000 * 2 ^ evs.length) 120000) ∧
    (∀ (ret : Int) (evs : List ctrl_event),
      1000 ≤ (ctrl_run M C (ssa_upstream_dev_event M C svc .IBV_EVENT_PORT_ACTIVE ret) evs).timeout ∧
      (ctrl_run M C (ssa_upstream_dev_event M C svc .IBV_EVENT_PORT_ACTIVE ret) evs).timeout ≤
        120000) := by
  have hact_eq : ∀ ret, ssa_upstream_dev_event M C svc .IBV_EVENT_PORT_ACTIVE ret =
      ssa_svc_join M { svc with timeout := DEFAULT_TIMEOUT } ret := by
    intro ret
    unfold ssa_upstream_dev_event port_activate
    simp only [hact, hidle, and_self, if_true]
  have ht : ∀ ret, (ssa_upstream_dev_event M C svc .IBV_EVENT_PORT_ACTIVE ret).timeout = 1000 := by
    intro ret
    rw [hact_eq, (ssa_svc_join_fields M _ ret).1]
    rfl
  refine ⟨ht, ?_, ?_, ?_⟩
  · intro s umad ret hs he h0 h1
    exact (ssa_upstream_mad_failure M C s umad ret hs he h0 h1).1
  · intro evs hall
    have hst : (ssa_upstream_dev_event M C svc .IBV_EVENT_PORT_ACTIVE 0).state =
        SSA_STATE_JOINING := by
      rw [hact_eq, (ssa_svc_join_fields M _ 0).2.2]
      rfl
    have := (ctrl_run_failures M C evs _ 0 hst (by rw [ht]; rfl) hall).2
    rw [Nat.zero_add] at this
    exact this
  · intro ret evs
    exact ctrl_run_timeout_range M C evs _ (by rw [ht]) (by rw [ht]; decide)

/-- C21 at a concrete input: the activation of the example service and eight
failed join sends leave the timeout at the cap. -/
theorem join_timeout_backoff_witness :
    (ctrl_run example_msg_consts example_ctrl_consts
      (ssa_upstream_dev_event example_msg_consts example_ctrl_consts (example_ctrl_svc 0 0)
        .IBV_EVENT_PORT_ACTIVE 0)
      (List.replicate 8 (.mad timeout_umad 0))).timeout = min (1000 * 2 ^ 8) 120000 :=
  (join_timeout_backoff example_msg_consts example_ctrl_consts (example_ctrl_svc 0 0) rfl rfl).2.2.1
    (List.replicate 8 (.mad timeout_umad 0))
    (fun e he => by
      rw [List.eq_of_mem_replicate he]
      exact ⟨by decide, rfl⟩)

/-! ## The join state machine -/

/-- C22 as worded fails in five places, each on the example service.  In
JOINING an InfoRecord without error status ends in HAVE_PARENT, not in ORPHAN.
In JOINING a datagram with an error status sets a timeout of 64000 to the cap
120000, not to its double.  In JOINING a datagram with an error status leaves
the state IDLE when the `umad_send` of the rejoin fails.  From IDLE the
PORT_ACTIVE event on an active port leaves the state IDLE when the
`umad_send` of the join fails.  In ORPHAN an InfoRecord with an error status
leaves the state ORPHAN and stores no parent. -/
theorem join_transitions_counterexample :
    (ssa_upstream_mad example_msg_consts example_ctrl_consts (example_joining_svc 1000)
      info_rec_umad 0).state = SSA_STATE_HAVE_PARENT ∧
    (ssa_upstream_mad example_msg_consts example_ctrl_consts (example_joining_svc 64000)
      timeout_umad 0).timeout = 120000 ∧
    (ssa_upstream_mad example_msg_consts example_ctrl_consts (example_joining_svc 1000)
      timeout_umad (-1)).state = SSA_STATE_IDLE ∧
    (ssa_upstream_dev_event example_msg_consts example_ctrl_consts (example_ctrl_svc 0 0)
      .IBV_EVENT_PORT_ACTIVE (-1)).state = SSA_STATE_IDLE ∧
    (ssa_upstream_mad example_msg_consts example_ctrl_consts example_orphan_svc
      failed_info_rec_umad 0).state = SSA_STATE_ORPHAN ∧
    (ssa_upstream_mad example_msg_consts example_ctrl_consts example_orphan_svc
      failed_info_rec_umad 0).primary_parent = [] := by
  decide

/-- C22, amended (scenario S6): the transitions of the join state machine,
for every service, datagram and result `ret` of `umad_send`.  From IDLE on an
active port the PORT_ACTIVE event sends the join request with the timeout
1000, and the state is JOINING when `umad_send` returns 0 and IDLE otherwise.
In JOINING a datagram with an error status sends the rejoin with the timeout
`min (2 t, 120000)`, `t` being the timeout before (within 0..120000), and the
state is JOINING when `umad_send` returns 0 and IDLE otherwise.  In JOINING a
datagram without error status moves the state to ORPHAN when it is not an
InfoRecord, and on to HAVE_PARENT in the same call when it is one.  In ORPHAN
an InfoRecord without error status moves the state to HAVE_PARENT, stores its
path data as `primary_parent` and is acknowledged with a GET_RESP.  In IDLE a
datagram changes neither the state nor the parent and nothing is sent. -/
theorem join_state_machine (M : ssa_msg_consts) (C : ssa_ctrl_consts) :
    (∀ (svc : ssa_svc_ctrl) (ret : Int), svc.state = SSA_STATE_IDLE →
      svc.port_active = true →
      (ssa_upstream_dev_event M C svc .IBV_EVENT_PORT_ACTIVE ret).state =
        (if ret ≠ 0 then SSA_STATE_IDLE else SSA_STATE_JOINING) ∧
      (ssa_upstream_dev_event M C svc .IBV_EVENT_PORT_ACTIVE ret).timeout = 1000 ∧
      (ssa_upstream_dev_event M C svc .IBV_EVENT_PORT_ACTIVE ret).umad_sends =
        svc.umad_sends ++ [.join 1000 ret]) ∧
    (∀ (svc : ssa_svc_ctrl) (umad : ssa_umad) (ret : Int), svc.state = SSA_STATE_JOINING →
      umad.status ≠ 0 → 0 ≤ svc.timeout → svc.timeout ≤ 120000 →
      (ssa_upstream_mad M C svc umad ret).state =
        (if ret ≠ 0 then SSA_STATE_IDLE else SSA_STATE_JOINING) ∧
      (ssa_upstream_mad M C svc umad ret).timeout = min (2 * svc.timeout) 120000 ∧
      (ssa_upstream_mad M C svc umad ret).umad_sends =
        svc.umad_sends ++ [.join (min (2 * svc.timeout) 120000) ret]) ∧
    (∀ (svc : ssa_svc_ctrl) (umad : ssa_umad) (ret : Int), svc.state = SSA_STATE_JOINING →
      umad.status = 0 → ntohs umad.attr_id ≠ C.SSA_ATTR_INFO_REC →
      (ssa_upstream_mad M C svc umad ret).state = SSA_STATE_ORPHAN ∧
      (ssa_upstream_mad M C svc umad ret).timeout = 1000 ∧
      (ssa_upstream_mad M C svc umad ret).umad_sends = svc.umad_sends) ∧
    (∀ (svc : ssa_svc_ctrl) (umad : ssa_umad) (ret : Int), svc.state = SSA_STATE_JOINING →
      umad.status = 0 → ntohs umad.attr_id = C.SSA_ATTR_INFO_REC →
      (ssa_upstream_mad M C svc umad ret).state = SSA_STATE_HAVE_PARENT ∧
      (ssa_upstream_mad M C svc umad ret).primary_parent = umad.path_data ∧
      (ssa_upstream_mad M C svc umad ret).umad_sends = svc.umad_sends ++ [.get_resp]) ∧
    (∀ (svc : ssa_svc_ctrl) (umad : ssa_umad) (ret : Int), svc.state = SSA_STATE_ORPHAN →
      umad.status = 0 → ntohs umad.attr_id = C.SSA_ATTR_INFO_REC →
      (ssa_upstream_mad M C svc umad ret).state = SSA_STATE_HAVE_PARENT ∧
      (ssa_upstream_mad M C svc umad ret).primary_parent = umad.path_data ∧
      (ssa_upstream_mad M C svc umad ret).umad_sends = svc.umad_sends ++ [.get_resp]) ∧
    (∀ (svc : ssa_svc_ctrl) (umad : ssa_umad) (ret : Int), svc.state = SSA_STATE_IDLE →
      (ssa_upstream_mad M C svc umad ret).state = SSA_STATE_IDLE ∧
      (ssa_upstream_mad M C svc umad ret).primary_parent = svc.primary_parent ∧
      (ssa_upstream_mad M C svc umad ret).umad_sends = svc.umad_sends) := by
  refine ⟨?_, ?_, ?_, ?_, ?_, ?_⟩
  · intro svc ret hs hp
    unfold ssa_upstream_dev_event port_activate
    simp only [hp, hs, and_self, if_true]
    unfold ssa_svc_join ssa_svc_tid
    dsimp only
    split_ifs <;> exact ⟨rfl, rfl, rfl⟩
  · intro svc umad ret hs he h0 h1
    obtain ⟨e1, e2⟩ := ssa_upstream_mad_failure M C svc umad ret hs he h0 h1
    refine ⟨e2, e1, ?_⟩
    have hni : ¬ svc.state = SSA_STATE_IDLE := by rw [hs]; decide
    have hj : ¬ svc.state ≠ SSA_STATE_JOINING := fun h => h hs
    have et : min_int (shl1_int svc.timeout) MAX_TIMEOUT = min (2 * svc.timeout) 120000 := by
      simp only [min_int_eq, shl1_int_eq svc.timeout h0 (by omega)]
      rfl
    unfold ssa_upstream_mad
    rw [if_neg hni, if_pos he, if_neg hj, et]
    unfold ssa_svc_join ssa_svc_tid
    dsimp only
    split_ifs <;> rfl
  · intro svc umad ret hs he ha
    have hni : ¬ svc.state = SSA_STATE_IDLE := by rw [hs]; decide
    have he' : ¬ umad.status ≠ 0 := fun h => h he
    unfold ssa_upstream_mad
    rw [if_neg hni, if_neg he']
    dsimp only
    rw [if_pos hs, if_pos ha]
    exact ⟨rfl, rfl, rfl⟩
  · intro svc umad ret hs he ha
    have hni : ¬ svc.state = SSA_STATE_IDLE := by rw [hs]; decide
    have he' : ¬ umad.status ≠ 0 := fun h => h he
    have ha' : ¬ ntohs umad.attr_id ≠ C.SSA_ATTR_INFO_REC := fun h => h ha
    unfold ssa_upstream_mad
    rw [if_neg hni, if_neg he']
    dsimp only
    rw [if_pos hs, if_neg ha']
    exact ⟨rfl, rfl, rfl⟩
  · intro svc umad ret hs he ha
    have hni : ¬ svc.state = SSA_STATE_IDLE := by rw [hs]; decide
    have hnj : ¬ svc.state = SSA_STATE_JOINING := by rw [hs]; decide
    have he' : ¬ umad.status ≠ 0 := fun h => h he
    have ha' : ¬ ntohs umad.attr_id ≠ C.SSA_ATTR_INFO_REC := fun h => h ha
    unfold ssa_upstream_mad
    rw [if_neg hni, if_neg he']
    dsimp only
    rw [if_neg hnj, if_neg ha']
    simp only [hs, and_self]
  · intro svc umad ret hs
    unfold ssa_upstream_mad
    rw [if_pos hs]
    exact ⟨hs, rfl, rfl⟩

/-- C22, amended, at a concrete input: the run of scenario S6 on the example
service.  The PORT_ACTIVE event, a failed send, the response to the join
request and an InfoRecord leave the service in HAVE_PARENT with the path data
of the record, after join requests with the timeouts 1000 and 2000 and one
GET_RESP. -/
theorem join_state_machine_witness :
    (ssa_upstream_dev_event example_msg_consts example_ctrl_consts (example_ctrl_svc 0 0)
      .IBV_EVENT_PORT_ACTIVE 0).state = SSA_STATE_JOINING ∧
    ((fun s : ssa_svc_ctrl => (s.state, s.timeout, s.primary_parent, s.umad_sends))
      (ctrl_run example_msg_consts example_ctrl_consts (example_ctrl_svc 0 0)
        [.dev .IBV_EVENT_PORT_ACTIVE 0, .mad timeout_umad 0, .mad join_ack_umad 0,
         .mad info_rec_umad 0])) =
      (SSA_STATE_HAVE_PARENT, 1000, [1, 2, 3],
        [.join 1000 0, .join 2000 0, .get_resp]) :=
  ⟨((join_state_machine example_msg_consts example_ctrl_consts).1
      (example_ctrl_svc 0 0) 0 rfl rfl).1.trans rfl,
   by decide⟩

/-! ## Routing by transaction id -/

theorem ntohll_htonll (x : Nat) (h : x < 18446744073709551616) : ntohll (htonll x) = x := by
  have h1 := (htonl (x % 4294967296)).isLt
  have h2 := (htonl (x / 4294967296 % 4294967296)).isLt
  have e1 : (⟨(htonll x).val % 4294967296, Nat.mod_lt _ (by decide)⟩ : be32_t) =
      htonl (x / 4294967296 % 4294967296) := by
    apply Fin.ext
    show ((htonl (x % 4294967296)).val * 4294967296 +
      (htonl (x / 4294967296 % 4294967296)).val) % 4294967296 = _
    omega
  have e2 : (⟨(htonll x).val / 4294967296, by have hy := (htonll x).isLt; omega⟩ : be32_t) =
      htonl (x % 4294967296) := by
    apply Fin.ext
    show ((htonl (x % 4294967296)).val * 4294967296 +
      (htonl (x / 4294967296 % 4294967296)).val) / 4294967296 = _
    omega
  unfold ntohll
  rw [e1, e2, ntohl_htonl _ (Nat.mod_lt _ (by decide)), ntohl_htonl _ (Nat.mod_lt _ (by decide))]
  omega

theorem tid_index_decode (index tid : Nat) (hi : index < 65536) (ht : tid < 65536) :
    (ntohll (htonll (((index <<< 16) % 18446744073709551616) ||| tid)) >>> 16) % 65536 =
      index := by
  have e0 : index <<< 16 = 2 ^ 16 * index := by
    rw [Nat.shiftLeft_eq, Nat.mul_comm]
  have e1 : (index <<< 16) % 18446744073709551616 = index <<< 16 := by
    rw [e0]
    exact Nat.mod_eq_of_lt (by omega)
  have e2 : index <<< 16 ||| tid = 2 ^ 16 * index + tid := by
    rw [e0]
    exact (Nat.mul_add_lt_is_or (by omega) index).symm
  rw [e1, e2, ntohll_htonll _ (by omega), Nat.shiftRight_eq_div_pow]
  omega

theorem tid_calls_fields (C : ssa_msg_consts) (hm : C.tid_mod ≤ 65536) (n : Nat) :
    ∀ svc : ssa_svc_ctrl, svc.tid < 65536 →
      (tid_calls C n svc).index = svc.index ∧ (tid_calls C n svc).tid < 65536 := by
  induction n with
  | zero => intro svc h; exact ⟨rfl, h⟩
  | succ n ih =>
    intro svc _
    have hpos := C.tid_mod_le.1
    have ht : (ssa_svc_tid C svc).2.tid < 65536 :=
      lt_of_lt_of_le (Nat.mod_lt _ hpos) hm
    exact ih (ssa_svc_tid C svc).2 ht

/-- C23: the transaction id routes a datagram to its service.  For a port and
a service with a 16-bit index below `port.svc_cnt` that is registered at
`port.svc[index]`, whose transaction counter is a 16-bit value, the id that
`ssa_svc_tid` returns is decoded by `ssa_svc_from_tid` to the service, after
any number of earlier calls of `ssa_svc_tid`, the wrap-around of the counter
included; and `ssa_svc_from_tid` returns NULL for every id whose decoded index
is not below `port.svc_cnt`. -/
theorem ssa_svc_from_tid_roundtrip (C : ssa_msg_consts) (port : ssa_port)
    (svc : ssa_svc_ctrl) (a : Nat)
    (hm : C.tid_mod ≤ 65536) (ht : svc.tid < 65536) (hi : svc.index < 65536)
    (hc : svc.index < port.svc_cnt) (hr : port.svc svc.index = some a) :
    (∀ n, ssa_svc_from_tid port (ssa_svc_tid C (tid_calls C n svc)).1 = some a) ∧
    (∀ tid : be64_t, port.svc_cnt ≤ (ntohll tid >>> 16) % 65536 →
      ssa_svc_from_tid port tid = none) := by
  constructor
  · intro n
    obtain ⟨e1, e2⟩ := tid_calls_fields C hm n svc ht
    unfold ssa_svc_from_tid ssa_svc_tid
    simp only
    rw [e1, tid_index_decode svc.index _ hi e2, if_pos hc, hr]
  · intro tid h
    unfold ssa_svc_from_tid
    simp only
    rw [if_neg (by omega)]

/-- C23 at a concrete input: the service at index 1 of the example port with
its counter at 65535, before and after the wrap-around. -/
theorem ssa_svc_from_tid_roundtrip_witness :
    ssa_svc_from_tid example_port
      (ssa_svc_tid example_msg_consts
        (tid_calls example_msg_consts 1 (example_ctrl_svc 1 65535))).1 = some 4200 ∧
    (tid_calls example_msg_consts 1 (example_ctrl_svc 1 65535)).tid = 0 :=
  ⟨(ssa_svc_from_tid_roundtrip example_msg_consts example_port (example_ctrl_svc 1 65535)
      4200 (by decide) (by decide) (by decide) (by decide) rfl).1 1,
   by decide⟩

/-- With a transaction counter wider than 16 bits the id no longer decodes to
the index: at index 0 and counter 65536 the decoded index is 1. -/
theorem ssa_svc_tid_wide_counter :
    (ntohll (htonll (((0 <<< 16) % 18446744073709551616) ||| 65536)) >>> 16) % 65536 = 1 := by
  rw [ntohll_htonll _ (by decide)]
  decide

/-! ## The order in which the worker threads are started and joined -/

theorem ssa_start_svc_started (C : ssa_ctrl_consts) (node_type : Nat) (E : start_env)
    (h : (ssa_start_svc C node_type E).1 = true) :
    started (ssa_start_svc C node_type E).2 =
      [ssa_worker.upstream] ++
      (if node_type ≠ C.SSA_NODE_CONSUMER then [ssa_worker.downstream] else []) ++
      (if node_type &&& C.SSA_NODE_ACCESS ≠ 0 then [ssa_worker.access] else []) := by
  unfold ssa_start_svc start_access at h ⊢
  by_cases h1 : E.create_ret .upstream ≠ 0
  · simp [h1] at h
  by_cases h2 : E.ack .upstream = false
  · simp [h1, h2] at h
  by_cases h3 : node_type ≠ C.SSA_NODE_CONSUMER <;>
  by_cases h4 : E.create_ret .downstream ≠ 0 <;>
  by_cases h5 : E.ack .downstream = false <;>
  by_cases h6 : node_type &&& C.SSA_NODE_ACCESS ≠ 0 <;>
  by_cases h7 : E.create_ret .access ≠ 0 <;>
  by_cases h8 : E.ack .access = false <;>
  simp [h1, h2, h3, h4, h5, h6, h7, h8, started] at h ⊢

theorem ssa_stop_svc_joined (C : ssa_ctrl_consts) (node_type : Nat) :
    joined (ssa_stop_svc C node_type) =
      [ssa_worker.upstream] ++
      (if node_type &&& C.SSA_NODE_ACCESS ≠ 0 then [ssa_worker.access] else []) ++
      (if node_type ≠ C.SSA_NODE_CONSUMER then [ssa_worker.downstream] else []) := by
  unfold ssa_stop_svc
  by_cases h3 : node_type ≠ C.SSA_NODE_CONSUMER <;>
  by_cases h6 : node_type &&& C.SSA_NODE_ACCESS ≠ 0 <;>
  simp [h3, h6, joined]

/-- Where `ssa_start_svc` fails after it created threads, its error path joins
them in the reverse of the order of creation (for constants where the bit of
the access role is not set in the node type of a consumer). -/
theorem ssa_start_svc_failure_joins (C : ssa_ctrl_consts) (node_type : Nat) (E : start_env)
    (hC : C.SSA_NODE_CONSUMER &&& C.SSA_NODE_ACCESS = 0)
    (h : (ssa_start_svc C node_type E).1 = false) :
    joined (ssa_start_svc C node_type E).2 =
      (started (ssa_start_svc C node_type E).2).reverse := by
  unfold ssa_start_svc start_access at h ⊢
  by_cases h1 : E.create_ret .upstream ≠ 0
  · simp [h1, started, joined]
  by_cases h2 : E.ack .upstream = false
  · simp [h1, h2, started, joined]
  by_cases h3 : node_type ≠ C.SSA_NODE_CONSUMER
  · by_cases h4 : E.create_ret .downstream ≠ 0 <;>
    by_cases h5 : E.ack .downstream = false <;>
    by_cases h6 : node_type &&& C.SSA_NODE_ACCESS ≠ 0 <;>
    by_cases h7 : E.create_ret .access ≠ 0 <;>
    by_cases h8 : E.ack .access = false <;>
    simp [h1, h2, h3, h4, h5, h6, h7, h8, started, joined] at h ⊢
  · have e : node_type = C.SSA_NODE_CONSUMER := by
      by_contra hne
      exact h3 hne
    have h6 : ¬ (node_type &&& C.SSA_NODE_ACCESS ≠ 0) := by
      rw [e, hC]
      simp
    simp [h1, h2, h3, h6, started, joined] at h ⊢

/-- C24, as claimed, fails: on a node with the access role (node type 4, all
threads created and acknowledged) `ssa_start_svc` starts upstream, downstream,
access, and `ssa_stop_svc` joins upstream, access, downstream, which is not
the reverse of the start order. -/
theorem stop_join_order_counterexample :
    (ssa_start_svc example_ctrl_consts 4 start_ok).1 = true ∧
    started (ssa_start_svc example_ctrl_consts 4 start_ok).2 =
      [ssa_worker.upstream, ssa_worker.downstream, ssa_worker.access] ∧
    joined (ssa_stop_svc example_ctrl_consts 4) =
      [ssa_worker.upstream, ssa_worker.access, ssa_worker.downstream] ∧
    joined (ssa_stop_svc example_ctrl_consts 4) ≠
      (started (ssa_start_svc example_ctrl_consts 4 start_ok).2).reverse := by
  decide

/-- C24, amended: for every node type for which `ssa_start_svc` succeeds, it
starts the workers in the order upstream, downstream (if the node type is not
that of a consumer), access (if the access bit is set); `ssa_stop_svc` joins
the same workers, each once, in the order upstream, access, downstream
restricted to the workers that exist for the role; and this is the reverse of
the start order exactly when upstream is the only worker. -/
theorem ssa_stop_svc_join_order (C : ssa_ctrl_consts) (node_type : Nat) (E : start_env)
    (h : (ssa_start_svc C node_type E).1 = true) :
    started (ssa_start_svc C node_type E).2 =
      [ssa_worker.upstream] ++
      (if node_type ≠ C.SSA_NODE_CONSUMER then [ssa_worker.downstream] else []) ++
      (if node_type &&& C.SSA_NODE_ACCESS ≠ 0 then [ssa_worker.access] else []) ∧
    joined (ssa_stop_svc C node_type) =
      [ssa_worker.upstream] ++
      (if node_type &&& C.SSA_NODE_ACCESS ≠ 0 then [ssa_worker.access] else []) ++
      (if node_type ≠ C.SSA_NODE_CONSUMER then [ssa_worker.downstream] else []) ∧
    (joined (ssa_stop_svc C node_type)).Perm (started (ssa_start_svc C node_type E).2) ∧
    (joined (ssa_stop_svc C node_type)).Nodup ∧
    (joined (ssa_stop_svc C node_type) = (started (ssa_start_svc C node_type E).2).reverse ↔
      node_type = C.SSA_NODE_CONSUMER ∧ node_type &&& C.SSA_NODE_ACCESS = 0) := by
  rw [ssa_start_svc_started C node_type E h, ssa_stop_svc_joined]
  refine ⟨rfl, rfl, ?_⟩
  by_cases h6 : node_type &&& C.SSA_NODE_ACCESS = 0 <;>
  simp only [h6, ne_eq, not_true_eq_false, not_false_eq_true, if_true, if_false] <;>
  by_cases h3 : node_type = C.SSA_NODE_CONSUMER <;>
  simp [h3, List.Perm.swap]

/-- C24, amended, at a concrete input: a node with the access role. -/
theorem ssa_stop_svc_join_order_witness :
    (ssa_start_svc example_ctrl_consts 4 start_ok).1 = true ∧
    joined (ssa_stop_svc example_ctrl_consts 4) =
      [ssa_worker.upstream] ++
      (if 4 &&& example_ctrl_consts.SSA_NODE_ACCESS ≠ 0 then [ssa_worker.access] else []) ++
      (if 4 ≠ example_ctrl_consts.SSA_NODE_CONSUMER then [ssa_worker.downstream] else []) :=
  ⟨by decide, (ssa_stop_svc_join_order example_ctrl_consts 4 start_ok (by decide)).2.1⟩

/-! ## The database of a connection of the downstream worker -/

theorem db_kept_refl (c : ssa_conn) : db_kept c c := ⟨rfl, rfl, rfl⟩

theorem db_kept_trans (c c1 c2 : ssa_conn) (h1 : db_kept c c1) (h2 : db_kept c1 c2) :
    db_kept c c2 :=
  ⟨h2.1.trans h1.1, h2.2.1.trans h1.2.1, h2.2.2.trans h1.2.2⟩

theorem ssa_downstream_send_kept (C : ssa_msg_consts) (conn c0 : ssa_conn) (op : Nat)
    (buf : void_ptr) (len events : Nat) (ok : Bool) (ret ret2 : Int) (hk : db_kept conn c0) :
    db_kept conn (ssa_downstream_send C c0 op buf len events ok ret ret2).2 := by
  unfold ssa_downstream_send
  dsimp only
  split_ifs <;> exact hk

theorem ssa_downstream_send_resp_kept (C : ssa_msg_consts) (conn c0 : ssa_conn) (op : Nat)
    (events : Nat) (ok : Bool) (ret : Int) (hk : db_kept conn c0) :
    db_kept conn (ssa_downstream_send_resp C c0 op events ok ret).2 := by
  unfold ssa_downstream_send_resp
  dsimp only
  split_ifs <;> exact hk

theorem ssa_rsend_continue_kept (conn c0 : ssa_conn) (events : Nat) (ret ret2 : Int)
    (hk : db_kept conn c0) :
    db_kept conn (ssa_rsend_continue c0 events ret ret2).2 := by
  unfold ssa_rsend_continue
  dsimp only
  split_ifs <;> exact hk

theorem db_kept_sindex (conn c0 : ssa_conn) (n : Nat) (hk : db_kept conn c0) :
    db_kept conn { c0 with sindex := n } := hk

theorem ssa_downstream_handle_op_kept (C : ssa_msg_consts) (G : ssa_globals)
    (conn c0 : ssa_conn) (hdr : ssa_msg_hdr) (events : Nat) (E : env) (r : Nat × ssa_conn)
    (hk : db_kept conn c0)
    (h : ssa_downstream_handle_op C G c0 hdr events E = some r) :
    db_kept conn r.2 := by
  unfold ssa_downstream_handle_op at h
  dsimp only at h
  split_ifs at h
  · unfold ssa_downstream_handle_query_defs at h
    split at h
    · cases h
      exact ssa_downstream_send_resp_kept _ _ _ _ _ _ _ hk
    · split_ifs at h with hp
      · cases h
        exact ssa_downstream_send_kept _ _ _ _ _ _ _ _ _ _ hk
      · cases h
        exact hk
  · unfold ssa_downstream_handle_query_tbl_def at h
    split_ifs at h with hp
    · split at h
      · cases h
      · cases h
        exact ssa_downstream_send_kept _ _ _ _ _ _ _ _ _ _ hk
    · cases h
      exact hk
  · unfold ssa_downstream_handle_query_tbl_defs at h
    split_ifs at h with hp
    · split at h
      · cases h
      · cases h
        exact ssa_downstream_send_kept _ _ _ _ _ _ _ _ _ _ hk
    · cases h
      exact hk
  · unfold ssa_downstream_handle_query_field_defs at h
    split_ifs at h with hp hp2
    · split at h
      · cases h
      · cases h
        exact db_kept_sindex _ _ _ (ssa_downstream_send_kept _ _ _ _ _ _ _ _ _ _ hk)
    · split at h
      · cases h
      · dsimp only at h
        split_ifs at h
        · split at h
          · cases h
            exact db_kept_sindex _ _ _ (ssa_downstream_send_kept _ _ _ _ _ _ _ _ _ _ hk)
          · cases h
        · cases h
          exact ssa_downstream_send_resp_kept _ _ _ _ _ _ _ hk
    · cases h
      exact hk
  · unfold ssa_downstream_handle_query_data at h
    split_ifs at h with hp hp2
    · split at h
      · cases h
      · cases h
        exact db_kept_sindex _ _ _ (ssa_downstream_send_kept _ _ _ _ _ _ _ _ _ _ hk)
    · split at h
      · cases h
      · dsimp only at h
        split_ifs at h
        · split at h
          · cases h
            exact db_kept_sindex _ _ _ (ssa_downstream_send_kept _ _ _ _ _ _ _ _ _ _ hk)
          · cases h
        · cases h
          exact ssa_downstream_send_resp_kept _ _ _ _ _ _ _ hk
    · cases h
      exact hk
  · cases h
    exact hk

theorem rrecv_store_kept (conn c : ssa_conn) (off : Nat) (data : List uint8_t)
    (hb : conn.rbuf = .hdr) (h : rrecv_store conn off data = some c) : c = conn := by
  unfold rrecv_store at h
  rw [hb] at h
  cases h
  rfl

theorem ssa_downstream_rrecv_kept (C : ssa_msg_consts) (G : ssa_globals)
    (conn : ssa_conn) (events : Nat) (E : env) (r : Nat × ssa_conn)
    (hb : conn.rbuf = .hdr)
    (h : ssa_downstream_rrecv C G conn events E = some r) :
    db_kept conn r.2 := by
  unfold ssa_downstream_rrecv at h
  dsimp only at h
  by_cases h0 : 0 < E.rrecv_ret (conn.rsize - conn.roffset)
  · rw [if_pos h0] at h
    cases hs : rrecv_store conn conn.roffset E.rrecv_data with
    | none => rw [hs] at h; cases h
    | some c0 =>
      rw [hs] at h
      dsimp only at h
      have e := rrecv_store_kept conn c0 _ _ hb hs
      subst e
      split_ifs at h
      · have hop := fun hk => ssa_downstream_handle_op_kept C G c0 _ _ _ _ r hk h
        exact hop ⟨rfl, rfl, rfl⟩
      · cases h
        exact db_kept_refl _
      · cases h
        exact db_kept_refl _
  · rw [if_neg h0] at h
    cases h
    exact db_kept_refl _

theorem ssa_downstream_handle_rsock_revents_kept (C : ssa_msg_consts) (G : ssa_globals)
    (conn : ssa_conn) (events : Nat) (E : env) (r : Nat × ssa_conn)
    (hb : server_rbuf conn)
    (h : ssa_downstream_handle_rsock_revents C G conn events E = some r) :
    r.2.ssa_db = conn.ssa_db ∧ r.2.dbtype = conn.dbtype ∧ server_rbuf r.2 := by
  unfold ssa_downstream_handle_rsock_revents at h
  dsimp only at h
  have key : ∀ r1 : Nat × ssa_conn,
      (if events &&& POLLIN ≠ 0 then
        if (if conn.rbuf = void_ptr.null then
              if E.malloc_rbuf = true then
                { conn with rbuf := .hdr, rsize := C.hdr_size, roffset := 0 }
              else conn
            else conn).rbuf ≠ void_ptr.null then
          ssa_downstream_rrecv C G
            (if conn.rbuf = void_ptr.null then
              if E.malloc_rbuf = true then
                { conn with rbuf := .hdr, rsize := C.hdr_size, roffset := 0 }
              else conn
            else conn) events E
        else some (events,
            (if conn.rbuf = void_ptr.null then
              if E.malloc_rbuf = true then
                { conn with rbuf := .hdr, rsize := C.hdr_size, roffset := 0 }
              else conn
            else conn))
      else some (events, conn)) = some r1 →
      r1.2.ssa_db = conn.ssa_db ∧ r1.2.dbtype = conn.dbtype ∧ server_rbuf r1.2 := by
    intro r1 h1
    by_cases hin : events &&& POLLIN ≠ 0
    · rw [if_pos hin] at h1
      by_cases hn : conn.rbuf = void_ptr.null
      · by_cases hm : E.malloc_rbuf = true
        · simp only [if_pos hn, if_pos hm] at h1
          rw [if_pos (by simp)] at h1
          have hk := ssa_downstream_rrecv_kept C G _ events E r1 rfl h1
          exact ⟨hk.1, hk.2.1, Or.inr hk.2.2⟩
        · simp only [if_pos hn, if_neg hm] at h1
          rw [if_neg (by simp [hn])] at h1
          cases h1
          exact ⟨rfl, rfl, hb⟩
      · have hh : conn.rbuf = .hdr := hb.resolve_left hn
        simp only [if_neg hn] at h1
        rw [if_pos hn] at h1
        have hk := ssa_downstream_rrecv_kept C G _ events E r1 hh h1
        exact ⟨hk.1, hk.2.1, Or.inr (hk.2.2.trans hh)⟩
    · rw [if_neg hin] at h1
      cases h1
      exact ⟨rfl, rfl, hb⟩
  revert h
  generalize (if events &&& POLLIN ≠ 0 then _ else _ : Option (Nat × ssa_conn)) = q at key
  intro h
  cases q with
  | none => cases h
  | some r1 =>
    have hk := key r1 rfl
    dsimp only at h
    split_ifs at h
    · cases h
      have hc := ssa_rsend_continue_kept r1.2 r1.2 events
        (E.cont_ret (r1.2.ssize - r1.2.soffset)) (E.cont2_ret r1.2.ssize2) (db_kept_refl _)
      refine ⟨hc.1.trans hk.1, hc.2.1.trans hk.2.1, ?_⟩
      unfold server_rbuf
      rw [hc.2.2]
      exact hk.2.2
    · cases h
      exact hk

theorem ssa_downstream_handler_step_slot (C : ssa_msg_consts) (K : ssa_ctrl_consts)
    (st st1 : downstream_state) (e : downstream_event) (r : Nat) (db : ssa_db_raw)
    (hi : ∃ c, st.fd_to_conn r = some c ∧ c.ssa_db = some db ∧ server_rbuf c)
    (he : ¬ updates_slot r e)
    (h : ssa_downstream_handler_step C K st e = some st1) :
    ∃ c, st1.fd_to_conn r = some c ∧ c.ssa_db = some db ∧ server_rbuf c := by
  obtain ⟨c, hc, hdb, hb⟩ := hi
  cases e with
  | access_update rsock db1 =>
    have hne : r ≠ rsock.toNat := fun e => he e.symm
    rw [ssa_downstream_handler_step] at h
    split_ifs at h
    split at h
    · cases h
      refine ⟨c, ?_, hdb, hb⟩
      show Function.update st.fd_to_conn rsock.toNat _ r = some c
      rw [Function.update_noteq hne]
      exact hc
    · cases h
      exact ⟨c, hc, hdb, hb⟩
  | access_other =>
    cases h
    exact ⟨c, hc, hdb, hb⟩
  | upstream_update db1 =>
    cases h
    exact ⟨c, hc, hdb, hb⟩
  | upstream_other =>
    cases h
    exact ⟨c, hc, hdb, hb⟩
  | data fd revents E =>
    rw [ssa_downstream_handler_step] at h
    split_ifs at h
    by_cases hfd : fd = r
    · subst hfd
      rw [hc] at h
      dsimp only at h
      cases hq : ssa_downstream_handle_rsock_revents C st.G c revents E with
      | none => rw [hq] at h; cases h
      | some r1 =>
        rw [hq] at h
        cases h
        have hk := ssa_downstream_handle_rsock_revents_kept C st.G c revents E r1 hb hq
        refine ⟨r1.2, ?_, hk.1.trans hdb, hk.2.2⟩
        show Function.update st.fd_to_conn fd _ fd = some r1.2
        rw [Function.update_same]
    · have hne : r ≠ fd := fun e => hfd e.symm
      split at h
      · split at h
        · cases h
          refine ⟨c, ?_, hdb, hb⟩
          show Function.update st.fd_to_conn fd _ r = some c
          rw [Function.update_noteq hne]
          exact hc
        · cases h
      · cases h
        exact ⟨c, hc, hdb, hb⟩

theorem downstream_run_slot (C : ssa_msg_consts) (K : ssa_ctrl_consts) (r : Nat)
    (db : ssa_db_raw) (evs : List downstream_event) :
    ∀ st st2 : downstream_state,
      (∃ c, st.fd_to_conn r = some c ∧ c.ssa_db = some db ∧ server_rbuf c) →
      (∀ e ∈ evs, ¬ updates_slot r e) →
      downstream_run C K st evs = some st2 →
      ∃ c, st2.fd_to_conn r = some c ∧ c.ssa_db = some db ∧ server_rbuf c := by
  induction evs with
  | nil =>
    intro st st2 hi _ h
    cases h
    exact hi
  | cons e es ih =>
    intro st st2 hi he h
    unfold downstream_run at h
    cases hs : ssa_downstream_handler_step C K st e with
    | none => rw [hs] at h; cases h
    | some st1 =>
      rw [hs] at h
      exact ih st1 st2
        (ssa_downstream_handler_step_slot C K st st1 e r db hi
          (he e (List.mem_cons_self _ _)) hs)
        (fun e1 h1 => he e1 (List.mem_cons_of_mem _ h1)) h

/-- C25: scenario S5.  On a socket `r` whose slot of `fd_to_conn` holds a
connection (with the receive block of a connection of the downstream worker:
NULL or a header block), the handling of a `SSA_DB_UPDATE` of the access
worker with the database `db` is defined and makes `db` the database of the
connection; after any later events of the loop that the model defines, other
than a further update of the access worker for `r`, the slot still holds a
connection with the database `db` and `ssa_downstream_db` returns `db` for it,
whatever the variable `smdb` has become; and, in a build without
`ACCESS_INTEGRATION`, `ssa_downstream_db` returns for a connection without a
database of its own the variable `smdb` when the connection transports the
SMDB kind and NULL otherwise. -/
theorem db_update_serves_connection (C : ssa_msg_consts) (K : ssa_ctrl_consts)
    (st : downstream_state) (r : Nat) (c : ssa_conn) (db : ssa_db_raw)
    (hr : r < K.FD_SETSIZE) (hslot : st.fd_to_conn r = some c) (hbuf : server_rbuf c) :
    ∃ st1, ssa_downstream_handler_step C K st (.access_update r (some db)) = some st1 ∧
      (∀ evs st2, (∀ e ∈ evs, ¬ updates_slot r e) →
        downstream_run C K st1 evs = some st2 →
        ∃ c2, st2.fd_to_conn r = some c2 ∧ c2.ssa_db = some db ∧
          ssa_downstream_db st2.G c2 = some db) ∧
      (∀ (G : ssa_globals) (conn : ssa_conn), G.ACCESS_INTEGRATION = false →
        conn.ssa_db = none →
        ssa_downstream_db G conn =
          if conn.dbtype = SSA_CONN_SMDB_TYPE then G.smdb else none) := by
  have hstep : ssa_downstream_handler_step C K st (.access_update r (some db)) =
      some { st with
             fd_to_conn := Function.update st.fd_to_conn r (some { c with ssa_db := some db }) } := by
    rw [ssa_downstream_handler_step]
    have hto : (r : Int).toNat = r := Int.toNat_natCast r
    rw [if_pos ⟨Int.natCast_nonneg r, by rw [hto]; exact hr⟩, hto, hslot]
  refine ⟨_, hstep, ?_, ?_⟩
  · intro evs st2 he hrun
    obtain ⟨c2, h1, h2, _⟩ := downstream_run_slot C K r db evs _ st2
      ⟨{ c with ssa_db := some db }, Function.update_same _ _ _, rfl, hbuf⟩ he hrun
    refine ⟨c2, h1, h2, ?_⟩
    unfold ssa_downstream_db
    rw [h2]
  · intro G conn hG hn
    unfold ssa_downstream_db
    rw [hn, hG]
    rfl

/-- C25 at a concrete input: scenario S5 on the example worker.  The peer on
socket 7 gets the derived database and its `QUERY_DB_DEF` is answered with the
descriptor of the derived database, not with that of the subnet database. -/
theorem db_update_serves_connection_witness :
    (∀ st2, downstream_run example_msg_consts example_ctrl_consts example_downstream
        [.access_update 7 (some derived_db),
         .upstream_update none,
         .data 7 POLLIN (complete_env (ssa_init_ssa_msg_hdr example_msg_consts 1 32 0 9) [])] =
          some st2 →
      ∃ c2, st2.fd_to_conn 7 = some c2 ∧ c2.ssa_db = some derived_db ∧
        ssa_downstream_db st2.G c2 = some derived_db) ∧
    ((downstream_run example_msg_consts example_ctrl_consts example_downstream
        [.access_update 7 (some derived_db),
         .upstream_update none,
         .data 7 POLLIN
           (complete_env (ssa_init_ssa_msg_hdr example_msg_consts 1 32 0 9) [])]).bind
      fun st2 => (st2.fd_to_conn 7).map fun c2 => (frames c2.sent).map frame_view) =
      some [(1, 2, 40, [9, 8, 7, 6, 5, 4, 3, 2])] := by
  obtain ⟨st1, h1, h2, _⟩ := db_update_serves_connection example_msg_consts
    example_ctrl_consts example_downstream 7
    { example_server_conn SSA_DB_IDLE with dbtype := SSA_CONN_PRDB_TYPE } derived_db
    (by decide) rfl (Or.inr rfl)
  refine ⟨?_, by decide⟩
  intro st2 hrun
  rw [downstream_run] at hrun
  have h1b : ssa_downstream_handler_step example_msg_consts example_ctrl_consts
      example_downstream (.access_update 7 (some derived_db)) = some st1 := h1
  rw [h1b] at hrun
  refine h2 _ st2 ?_ hrun
  intro e he
  simp only [List.mem_cons, List.mem_singleton, List.mem_nil_iff, or_false] at he
  rcases he with rfl | rfl <;> exact fun hf => hf

/-! ## Short writes of a header-only response -/

/-- C27, failing input: the server of the example database answers the query
for the last data dataset (payload `[31]`) and then the query that ends the
phase.  When every write completes, the stream is the data response followed
by the header-only END response.  When the transport accepts only 10 bytes of
the END header and the rest on the next POLLOUT, every `rsend` returning a
positive count, `ssa_rsend_continue` transmits the payload of the earlier
response once more after the END header. -/
theorem short_write_resends_payload :
    (downstream_steps example_msg_consts example_globals data_phase_conn
        [(POLLIN, complete_env data_query []),
         (POLLIN, complete_env data_query [])]).map (fun c => wire_stream c.sent) =
      some (response_bytes example_msg_consts
              (ssa_init_ssa_msg_hdr example_msg_consts 5 33 2 9) [31] ++
            response_bytes example_msg_consts
              (ssa_init_ssa_msg_hdr example_msg_consts 5 32 3 9) []) ∧
    (downstream_steps example_msg_consts example_globals data_phase_conn
        [(POLLIN, complete_env data_query []),
         (POLLIN, short_hdr_env data_query),
         (POLLOUT, complete_env data_query [])]).map (fun c => wire_stream c.sent) =
      some (response_bytes example_msg_consts
              (ssa_init_ssa_msg_hdr example_msg_consts 5 33 2 9) [31] ++
            response_bytes example_msg_consts
              (ssa_init_ssa_msg_hdr example_msg_consts 5 32 3 9) [] ++
            [wire_byte.data 31]) ∧
    (downstream_steps example_msg_consts example_globals data_phase_conn
        [(POLLIN, complete_env data_query []),
         (POLLIN, short_hdr_env data_query),
         (POLLOUT, complete_env data_query [])]).map
        (fun c => c.sent.map fun s => (s.off, s.len, s.ret)) =
      some [(0, 32, 32), (0, 1, 1), (0, 32, 10), (10, 22, 22), (0, 1, 1)] := by
  decide

end SSA
